import Mathlib

/-!
# DALI-2 driver: link layer (`Core/Src/dali.c`)

Shallow embedding of the physical/link layer state machine of the DALI-2
input device driver, followed by theorems about it.

Conventions of the embedding

* C globals of `dali.c` become the fields of `State`; every C function becomes
  a Lean function from `State` to `State` (plus a return value when the C
  function has one).
* Fixed-width integers are `Nat`; a wrap-around is written out (`% 256`,
  `% 2 ^ 32`) at each place where the C code can overflow.
* One-bit bit-fields are `Bool`; assigning a `uint8_t` to a one-bit field keeps
  the low bit.
* Hardware: the TX pin is the field `txPin` (last level written) together with
  `txLog` (every level written, oldest first); timer 2 (the bit timer) is
  `tim2Reload`, `tim2Enabled`, `tim2Count` (what software last wrote to it).
  Values that the code reads from hardware (RX pin, timer counters, `rand()`)
  are arguments of the interrupt handlers.
* The build is the input-device build: `CONTROLLER` is not defined anywhere in
  the sources, so the `#ifndef CONTROLLER` block of `DALIRxIntHandler` is
  compiled in and the `#ifdef CONTROLLER` blocks are not.
* The write-only debug arrays `time_int`, `time_int2`, `time_int3` are left
  out; nothing reads them.
* A conditional assignment `if (c) x = v;` is written as the assignment of
  `if c then v else x` to `x`, and a statement that follows an `if`/`else` is
  written at the end of both branches; the functions are otherwise statement
  by statement.
-/

namespace DALI

/-! ## Constants (`dali.c` lines 15-83) -/

def DALI_HI : Nat := 0
def DALI_LO : Nat := 1

def TE : Nat := 3333
def TE_TX_MIN : Nat := 2854
def TE_TX_MAX : Nat := 3814
def TE2_TX_MIN : Nat := 5787
def TE2_TX_MAX : Nat := 7546
def TE_BREAK : Nat := 10400
def TE_RECOVERY : Nat := 34400
def TE_TX_WAIT_BF_MAX : Nat := 64000
def TE_TX_WAIT_BF : Nat := 40000
def TE_TX_WAIT_BF_MIN : Nat := 24000
def TE_TX_WAIT_FF1_MIN : Nat := 88000
def TE_TX_WAIT_FF1 : Nat := 92200
def TE_TX_WAIT_FF1_MAX : Nat := 97600
def TE_TX_WAIT_FF2_MIN : Nat := 99200
def TE_TX_WAIT_FF2 : Nat := 102300
def TE_TX_WAIT_FF2_MAX : Nat := 108800
def TE_TX_WAIT_FF3_MIN : Nat := 110400
def TE_TX_WAIT_FF3 : Nat := 117000
def TE_TX_WAIT_FF3_MAX : Nat := 121600
def TE_TX_WAIT_FF4_MIN : Nat := 123200
def TE_TX_WAIT_FF4 : Nat := 128200
def TE_TX_WAIT_FF4_MAX : Nat := 134400
def TE_TX_WAIT_FF5_MIN : Nat := 136000
def TE_TX_WAIT_FF5 : Nat := 141000
def TE_TX_WAIT_FF5_MAX : Nat := 148800
def TE_TX_WAIT_FF_MAX : Nat := 580000

def TE_RX_MIN : Nat := 2366
def TE_RX_MAX : Nat := 4300
def TE2_RX_MIN : Nat := 5132
def TE2_RX_MAX : Nat := 8200
def TE_STOP_MIN : Nat := 19200
def TE_RX_BF_MAX : Nat := 87200
def TE_RX_SEND_TWICE_FF : Nat := 800000
def TE_RX_SEND_TWICE_FF_MAX : Nat := 820000

def RX_QUEUE_SIZE : Nat := 20
def TX_QUEUE_SIZE : Nat := 20

/-! The timer values that the source writes as a difference of two of the
constants above. Each is given by its value; `timer_differences` in the
theorem part checks every value against the expression of the source. -/

/-- The value of `TE_TX_WAIT_FF1 - TE_RX_BF_MAX` (line 336). -/
def TE_FF1_MINUS_RX_BF_MAX : Nat := 5000
/-- The value of `TE_TX_WAIT_FF2 - TE_TX_WAIT_FF1` (line 375). -/
def TE_FF2_MINUS_FF1 : Nat := 10100
/-- The value of `TE_TX_WAIT_FF3 - TE_TX_WAIT_FF2` (line 379). -/
def TE_FF3_MINUS_FF2 : Nat := 14700
/-- The value of `TE_TX_WAIT_FF4 - TE_TX_WAIT_FF3` (line 383). -/
def TE_FF4_MINUS_FF3 : Nat := 11200
/-- The value of `TE_TX_WAIT_FF5 - TE_TX_WAIT_FF4` (line 387). -/
def TE_FF5_MINUS_FF4 : Nat := 12800
/-- The value of `TE_RX_SEND_TWICE_FF - TE_TX_WAIT_BF` (lines 557, 578). -/
def TE_SEND_TWICE_MINUS_BF : Nat := 760000
/-- The value of `TE_TX_WAIT_FF1 - TE_TX_WAIT_BF` (line 569). -/
def TE_FF1_MINUS_BF : Nat := 52200
/-- The value of `TE_RECOVERY - 1400` (line 356). -/
def TE_RECOVERY_MINUS_1400 : Nat := 33000

/-! ## Types (`dali.h`, `dali.c` lines 90-135) -/

/-- The enum `dali_state_t` of `dali.h`. -/
inductive dali_state_t where
  | IDLE
  | SEND_DATA
  | RECEIVE_DATA
  | RECEIVE_DATA_EXTRA_TE
  | WAIT_FOR_SECOND_FORFRAME
  | WAIT_FOR_BACKFRAME
  | WAIT_TO_SEND_BACKFRAME
  | WAIT_AFTER_RX_BACKFRAME
  | BREAK
  | PRE_IDLE
  deriving DecidableEq, Repr, Inhabited

/-- The enum `DALIRxError_t` of `dali.h`. -/
inductive DALIRxError_t where
  | NO_ERROR
  | BIT_TIMING_ERROR
  | FRAME_TIMING_ERROR
  | FRAME_SIZE_ERROR
  deriving DecidableEq, Repr, Inhabited

/-- The struct `DALITxData`: `frame` is a `uint32_t`, the others `uint8_t`. -/
structure DALITxData where
  frame : Nat
  frameType : Nat
  sendTwice : Nat
  priority : Nat
  deriving DecidableEq, Repr, Inhabited

/-- The struct `DALIRxData`: `frame` is a `uint32_t`, `frameLen` a `uint8_t`,
the rest are bit-fields. -/
structure DALIRxData where
  frame : Nat
  frameLen : Nat
  frameType : Bool
  rxDone : Bool
  rxError : DALIRxError_t
  rxSendTwicePossible : Bool
  deriving DecidableEq, Repr, Inhabited

/-- The struct `TXFlags` (the application-visible transmit flags). -/
structure TXFlags where
  txDone : Bool
  txError : Bool
  deriving DecidableEq, Repr, Inhabited

/-- The union `state_flags_t`, field by field. -/
structure state_flags_t where
  txError : Bool
  txDone : Bool
  rxError : DALIRxError_t
  rxDone : Bool
  rxFrameType : Bool
  cableConnected : Bool
  rxSendTwicePossible : Bool
  deviceMode : Bool
  txFrameType : Bool
  sendTwiceFrame : Bool
  receiveTwiceFrame : Bool
  rxFromState : dali_state_t
  deriving DecidableEq, Repr, Inhabited

/-- The globals of `dali.c`, the function-static `cableDisconnectCounter`,
and the hardware the driver writes to. -/
structure State where
  daliState : dali_state_t
  DALIFlags : state_flags_t
  txFlags : TXFlags
  txPacket : Nat
  txPacket_temp : Nat
  rxPacket : Nat
  halfBitNumber : Nat
  prevBit : Nat
  rxFrame : Nat
  rxPacketLen : Nat
  rxPacketTime : Nat
  rxData : Nat → DALIRxData
  txData : Nat → DALITxData
  rxDataR : Nat
  rxDataW : Nat
  txDataR : Nat
  txDataW : Nat
  priorityState : Nat
  overlapTime : Nat
  TE_random : Nat
  cableDisconnectCounter : Nat
  txPin : Nat
  txLog : List Nat
  tim2Reload : Nat
  tim2Enabled : Bool
  tim2Count : Nat

/-- The value `flags_all = 0`: every flag cleared (`rxFromState = IDLE = 0`). -/
def flagsZero : state_flags_t :=
  { txError := false, txDone := false, rxError := DALIRxError_t.NO_ERROR, rxDone := false,
    rxFrameType := false, cableConnected := false, rxSendTwicePossible := false,
    deviceMode := false, txFrameType := false, sendTwiceFrame := false,
    receiveTwiceFrame := false, rxFromState := dali_state_t.IDLE }

/-- The state of the globals when `main` starts: C zero-initialisation, except
`txFlags = {1, 0}` and `priorityState = 1`, which have initialisers. -/
def bootState : State :=
  { daliState := dali_state_t.IDLE, DALIFlags := flagsZero,
    txFlags := { txDone := true, txError := false },
    txPacket := 0, txPacket_temp := 0, rxPacket := 0, halfBitNumber := 0, prevBit := 0,
    rxFrame := 0, rxPacketLen := 0, rxPacketTime := 0,
    rxData := fun _ => { frame := 0, frameLen := 0, frameType := false, rxDone := false,
                         rxError := DALIRxError_t.NO_ERROR, rxSendTwicePossible := false },
    txData := fun _ => { frame := 0, frameType := 0, sendTwice := 0, priority := 0 },
    rxDataR := 0, rxDataW := 0, txDataR := 0, txDataW := 0,
    priorityState := 1, overlapTime := 0, TE_random := 0, cableDisconnectCounter := 0,
    txPin := 0, txLog := [], tim2Reload := 0, tim2Enabled := false, tim2Count := 0 }

/-! ## Hardware helpers (`gpio.c`, `tim.h`) -/

/-- The call `writePin(TX_Pin, level)`. -/
def writePin (s : State) (level : Nat) : State :=
  { s with txPin := level, txLog := s.txLog ++ [level] }

/-- The call `set_timer_reload_val(v, &htim2)`. -/
def set_timer_reload_val (s : State) (v : Nat) : State :=
  { s with tim2Reload := v }

/-- The call `reset_timer(&htim2)`. -/
def reset_timer (s : State) : State :=
  { s with tim2Count := 0 }

/-- The call `set_timer_count(v, &htim2)`. -/
def set_timer_count (s : State) (v : Nat) : State :=
  { s with tim2Count := v }

/-- The call `enable_timer_int(&htim2)`. -/
def enable_timer_int (s : State) : State :=
  { s with tim2Enabled := true }

/-- The call `disable_timer_int(&htim2)`. -/
def disable_timer_int (s : State) : State :=
  { s with tim2Enabled := false }

/-! ## `dali.c` functions -/

/-- `DALIConfigureMode`: the one-bit field keeps the low bit of `mode`. -/
def DALIConfigureMode (s : State) (mode : Nat) : State :=
  { s with DALIFlags := { s.DALIFlags with deviceMode := decide (mode % 2 = 1) } }

/-- `DALIInit` (the `srand` call has no effect on the modelled state). -/
def DALIInit (s : State) : State :=
  let s := writePin s DALI_HI
  let s := { s with daliState := dali_state_t.IDLE }
  let s := { s with DALIFlags := flagsZero }
  let s := DALIConfigureMode s 1
  let s := { s with rxDataR := 0 }
  { s with rxDataW := 0 }

/-- `DALICheckCable`, with the sampled RX pin as argument. -/
def DALICheckCable (s : State) (rxPin : Nat) : State :=
  let s := { s with cableDisconnectCounter :=
    if rxPin = DALI_LO then
      if s.cableDisconnectCounter > 0 then s.cableDisconnectCounter - 1
      else s.cableDisconnectCounter
    else 20 }
  if s.cableDisconnectCounter = 0 then
    { s with DALIFlags := { s.DALIFlags with cableConnected := false } }
  else
    { s with DALIFlags := { s.DALIFlags with cableConnected := true } }

/-- `DALIClearFlags`: `flags_all = 0`, then `cableConnected` is restored. -/
def DALIClearFlags (s : State) : State :=
  let a := s.DALIFlags.cableConnected
  { s with DALIFlags := { flagsZero with cableConnected := a } }

/-- The record that `DALIAppendToQueue` fills in (lines 1037-1042). -/
def rxRecord (s : State) : DALIRxData :=
  { frame := s.rxFrame, frameLen := s.rxPacketLen,
    frameType := s.DALIFlags.rxFrameType, rxDone := s.DALIFlags.rxDone,
    rxError := s.DALIFlags.rxError,
    rxSendTwicePossible := s.DALIFlags.rxSendTwicePossible }

/-- `DALIAppendToQueue`; the closing `DALIClearFlags()` is written at the end
of each branch. -/
def DALIAppendToQueue (s : State) : State :=
  if s.daliState = dali_state_t.SEND_DATA ∨ s.daliState = dali_state_t.BREAK then
    DALIClearFlags
      { s with txFlags := { txDone := s.DALIFlags.txDone, txError := s.DALIFlags.txError } }
  else if s.daliState = dali_state_t.RECEIVE_DATA
      ∨ s.daliState = dali_state_t.RECEIVE_DATA_EXTRA_TE
      ∨ s.daliState = dali_state_t.WAIT_FOR_SECOND_FORFRAME
      ∨ s.daliState = dali_state_t.BREAK then
    if (s.rxDataW + 1) % RX_QUEUE_SIZE ≠ s.rxDataR then
      DALIClearFlags
        { s with
          rxData := Function.update s.rxData s.rxDataW (rxRecord s),
          rxDataW := (s.rxDataW + 1) % RX_QUEUE_SIZE }
    else DALIClearFlags s
  else DALIClearFlags s

/-- `DALIProcessSendData`. The shifts are on a `uint32_t`. -/
def DALIProcessSendData (s : State) (txdata : DALITxData) : State :=
  let s := { s with DALIFlags := { s.DALIFlags with
              sendTwiceFrame := decide (txdata.sendTwice % 2 = 1) } }
  let s := { s with DALIFlags := { s.DALIFlags with
              txFrameType := decide (txdata.frameType % 2 = 1) } }
  let s := { s with DALIFlags := { s.DALIFlags with txError := false } }
  let s := { s with DALIFlags := { s.DALIFlags with txDone := false } }
  let s := { s with txPacket :=
    if s.DALIFlags.txFrameType = true then (txdata.frame <<< 16) % 2 ^ 32
    else if s.DALIFlags.deviceMode = false then txdata.frame
    else (txdata.frame <<< 8) % 2 ^ 32 }
  let s := { s with txPacket_temp :=
    if s.DALIFlags.sendTwiceFrame = true then s.txPacket else s.txPacket_temp }
  let s := { s with halfBitNumber := 1 }
  let s := { s with daliState := dali_state_t.SEND_DATA }
  let s := writePin s DALI_LO
  let s := reset_timer s
  let s := set_timer_reload_val s TE
  enable_timer_int s

/-- `DALISendData`: returns the new state and the C return value. -/
def DALISendData (s : State) (data : DALITxData) : State × Nat :=
  if (s.txDataW + 1) % TX_QUEUE_SIZE ≠ s.txDataR then
    let s := { s with txData := Function.update s.txData s.txDataW data }
    let s := { s with txDataW := (s.txDataW + 1) % TX_QUEUE_SIZE }
    if s.daliState = dali_state_t.IDLE then
      let s := DALIProcessSendData s (s.txData s.txDataR)
      ({ s with txDataR := (s.txDataR + 1) % TX_QUEUE_SIZE }, 0)
    else (s, 0)
  else
    if s.daliState = dali_state_t.IDLE then
      let s := DALIProcessSendData s (s.txData s.txDataR)
      ({ s with txDataR := (s.txDataR + 1) % TX_QUEUE_SIZE }, 1)
    else (s, 1)

/-- `DALIDataAvailable`. -/
def DALIDataAvailable (s : State) : Bool :=
  decide (s.rxDataR ≠ s.rxDataW)

/-- `DALIReceiveTwice`. -/
def DALIReceiveTwice (s : State) : State :=
  { s with DALIFlags := { s.DALIFlags with receiveTwiceFrame := true } }

/-- `DALIReceiveData`: the read index is advanced first and the record is then
read at `rxDataR - 1`; when the index has just wrapped to 0 that is element
`-1`, outside the array, for which the model returns `none`. -/
def DALIReceiveData (s : State) : State × Option DALIRxData :=
  let s := { s with rxDataR := (s.rxDataR + 1) % RX_QUEUE_SIZE }
  (s, if s.rxDataR = 0 then none else some (s.rxData (s.rxDataR - 1)))

/-! ### `DALITimerIntHandler`, one definition per `case` of its `switch` -/

/-- The level written for the first half of the next data bit
(`switch (txPacket & 0xC00000)`, lines 269-287); `none` when no case matches. -/
def firstHalfLevel (txPacket : Nat) : Option Nat :=
  let m := txPacket &&& 0xC00000
  if m = 0x000000 then some DALI_HI
  else if m = 0x400000 then some DALI_LO
  else if m = 0x800000 then some DALI_HI
  else if m = 0xC00000 then some DALI_LO
  else none

/-- The level written for the second half of the current data bit
(`switch (txPacket & 0x800000)`, lines 293-303). -/
def secondHalfLevel (txPacket : Nat) : Option Nat :=
  let m := txPacket &&& 0x800000
  if m = 0 then some DALI_LO
  else if m = 0x800000 then some DALI_HI
  else none

/-- A `switch` on the packet bits that writes the TX pin in each of its cases
and has no `default`. -/
def writePinOpt (s : State) (level : Option Nat) : State :=
  match level with
  | some l => writePin s l
  | none => s

/-- The end of `case 56` (lines 254-258). -/
def sendDataDone (s : State) : State :=
  if s.DALIFlags.sendTwiceFrame = false then
    let s := { s with DALIFlags := { s.DALIFlags with txDone := true } }
    DALIAppendToQueue s
  else s

/-- The `switch (halfBitNumber)` of `case SEND_DATA` of `DALITimerIntHandler`
(lines 200-307). -/
def sendDataHalfBit (s : State) : State :=
  let TE_adjust := (TE + 2 ^ 32 - s.overlapTime) % 2 ^ 32
  let s := { s with overlapTime := 0 }
  if s.halfBitNumber = 1 then
    let s := set_timer_reload_val s TE
    writePin s DALI_HI
  else if s.halfBitNumber = 2 then
    let s := set_timer_reload_val s TE_adjust
    let s := writePin s (if s.txPacket &&& 0x800000 ≠ 0 then DALI_LO else DALI_HI)
    { s with prevBit := 1 }
  else if s.halfBitNumber = 50 then
    let s := set_timer_reload_val s TE_adjust
    writePin s DALI_HI
  else if 51 ≤ s.halfBitNumber ∧ s.halfBitNumber ≤ 55 then
    let s := set_timer_reload_val s TE_adjust
    writePin s DALI_HI
  else if s.halfBitNumber = 56 then
    if s.DALIFlags.txFrameType = true then
      let s := { s with daliState := dali_state_t.PRE_IDLE }
      let s := set_timer_reload_val s TE_TX_WAIT_FF1
      sendDataDone s
    else
      let s := set_timer_reload_val s TE_RX_BF_MAX
      let s := { s with rxPacketTime := 0 }
      let s := { s with daliState := dali_state_t.WAIT_FOR_BACKFRAME }
      sendDataDone s
  else
    let s := set_timer_reload_val s TE_adjust
    if s.halfBitNumber % 2 = 0 then
      let s := writePinOpt s (firstHalfLevel s.txPacket)
      let s := { s with prevBit := if s.txPacket &&& 0x800000 ≠ 0 then 1 else 0 }
      { s with txPacket := (s.txPacket <<< 1) % 2 ^ 32 }
    else
      writePinOpt s (secondHalfLevel s.txPacket)

/-- The end of `case SEND_DATA` (lines 310-320): the half-bit counter, a
`uint8_t`, is incremented and skips to the stop bits at the end of a short
frame. -/
def sendDataAdvance (s : State) : State :=
  let s : State := { s with halfBitNumber := (s.halfBitNumber + 1) % 256 }
  if s.DALIFlags.txFrameType = true ∧ s.halfBitNumber = 18 then
    { s with halfBitNumber := 50 }
  else if s.DALIFlags.deviceMode = true ∧ s.DALIFlags.txFrameType = false
      ∧ s.halfBitNumber = 34 then
    { s with halfBitNumber := 50 }
  else s

/-- `case SEND_DATA` of `DALITimerIntHandler` (lines 199-322). -/
def timerSendData (s : State) : State :=
  sendDataAdvance (sendDataHalfBit s)

/-- `case WAIT_FOR_BACKFRAME` of `DALITimerIntHandler` (lines 323-339). -/
def timerWaitForBackframe (s : State) : State :=
  if s.DALIFlags.sendTwiceFrame = true then
    let s := { s with daliState := dali_state_t.SEND_DATA }
    let s := { s with DALIFlags := { s.DALIFlags with sendTwiceFrame := false } }
    let s := { s with txPacket := s.txPacket_temp }
    let s := { s with halfBitNumber := 1 }
    let s := set_timer_reload_val s TE
    writePin s DALI_LO
  else
    let s := set_timer_reload_val s TE_FF1_MINUS_RX_BF_MAX
    { s with daliState := dali_state_t.PRE_IDLE }

/-- `case BREAK` of `DALITimerIntHandler` (lines 344-361); `rxPin` is what
`readPin(RX_Pin)` returns and `rnd` what `rand()` returns. -/
def timerBreak (s : State) (rxPin rnd : Nat) : State :=
  let s := writePin s DALI_HI
  let s := { s with TE_random :=
    if rxPin = DALI_LO then s.TE_random else TE_RECOVERY_MINUS_1400 + rnd % 2800 }
  let s := set_timer_reload_val s (if rxPin = DALI_LO then TE_TX_WAIT_FF1 else s.TE_random)
  let s := DALIAppendToQueue s
  { s with daliState := dali_state_t.PRE_IDLE }

/-- `case PRE_IDLE` of `DALITimerIntHandler` (lines 362-396). -/
def timerPreIdle (s : State) : State :=
  if s.txDataR ≠ s.txDataW ∧ (s.txData s.txDataR).priority ≤ s.priorityState then
    let s := DALIProcessSendData s (s.txData s.txDataR)
    { s with txDataR := (s.txDataR + 1) % TX_QUEUE_SIZE }
  else if s.priorityState = 1 then
    let s := set_timer_reload_val s TE_FF2_MINUS_FF1
    { s with priorityState := (s.priorityState + 1) % 256 }
  else if s.priorityState = 2 then
    let s := set_timer_reload_val s TE_FF3_MINUS_FF2
    { s with priorityState := (s.priorityState + 1) % 256 }
  else if s.priorityState = 3 then
    let s := set_timer_reload_val s TE_FF4_MINUS_FF3
    { s with priorityState := (s.priorityState + 1) % 256 }
  else if s.priorityState = 4 then
    let s := set_timer_reload_val s TE_FF5_MINUS_FF4
    { s with priorityState := (s.priorityState + 1) % 256 }
  else if s.priorityState = 5 then
    let s := disable_timer_int s
    let s := { s with daliState := dali_state_t.IDLE }
    { s with priorityState := 1 }
  else s

/-- The end-of-frame classification, written twice in the source
(lines 420-488 in `RECEIVE_DATA`, lines 498-549 in `RECEIVE_DATA_EXTRA_TE`);
`extra` selects the second copy, which differs in clearing `rxPacketTime`
for a 24-bit frame. The test `(halfBitNumber == 2) && (halfBitNumber == 4)`
of the source is kept as written. -/
def classifyFrame (s : State) (extra : Bool) : State :=
  if s.rxPacketLen = 8 then
    let s := { s with DALIFlags := { s.DALIFlags with rxFrameType := true } }
    let s := { s with rxFrame := s.rxPacket }
    let s := { s with DALIFlags := { s.DALIFlags with rxError :=
      if s.DALIFlags.rxFromState ≠ dali_state_t.WAIT_FOR_BACKFRAME then
        DALIRxError_t.FRAME_TIMING_ERROR
      else s.DALIFlags.rxError } }
    let s := { s with DALIFlags := { s.DALIFlags with rxError :=
      if s.halfBitNumber = 2 ∧ s.halfBitNumber = 4 then DALIRxError_t.BIT_TIMING_ERROR
      else s.DALIFlags.rxError } }
    let s := set_timer_reload_val s TE_TX_WAIT_FF1
    let s := { s with DALIFlags := { s.DALIFlags with rxDone := true } }
    let s := DALIAppendToQueue s
    { s with daliState := dali_state_t.PRE_IDLE }
  else if s.rxPacketLen = 24 then
    let s := { s with DALIFlags := { s.DALIFlags with rxFrameType := false } }
    let s := { s with rxFrame := s.rxPacket }
    let s := { s with DALIFlags := { s.DALIFlags with rxError :=
      if s.DALIFlags.rxFromState = dali_state_t.WAIT_FOR_BACKFRAME then
        DALIRxError_t.FRAME_TIMING_ERROR
      else s.DALIFlags.rxError } }
    let s := { s with DALIFlags := { s.DALIFlags with rxError :=
      if s.halfBitNumber = 2 ∧ s.halfBitNumber = 4 then DALIRxError_t.BIT_TIMING_ERROR
      else s.DALIFlags.rxError } }
    let s := { s with DALIFlags := { s.DALIFlags with rxDone := true } }
    let s := set_timer_reload_val s TE_TX_WAIT_BF
    let s := { s with rxPacketTime := if extra = true then 0 else s.rxPacketTime }
    let s := DALIAppendToQueue s
    { s with daliState := dali_state_t.WAIT_TO_SEND_BACKFRAME }
  else
    let s := { s with DALIFlags := { s.DALIFlags with rxError := DALIRxError_t.FRAME_SIZE_ERROR } }
    let s := { s with DALIFlags := { s.DALIFlags with rxDone := true } }
    let s := set_timer_reload_val s TE_TX_WAIT_FF1
    let s := DALIAppendToQueue s
    { s with daliState := dali_state_t.PRE_IDLE }

/-- `case RECEIVE_DATA` of `DALITimerIntHandler` (lines 397-490). -/
def timerReceiveData (s : State) : State :=
  if (s.rxPacketLen = 8 ∨ s.rxPacketLen = 24) ∧ s.rxPacket &&& 0x01 ≠ 0x00 then
    let s := { s with daliState := dali_state_t.RECEIVE_DATA_EXTRA_TE }
    set_timer_reload_val s TE
  else classifyFrame s false

/-- `case RECEIVE_DATA_EXTRA_TE` of `DALITimerIntHandler` (lines 491-550). -/
def timerReceiveDataExtraTE (s : State) : State :=
  classifyFrame s true

/-- `case WAIT_TO_SEND_BACKFRAME` of `DALITimerIntHandler` (lines 551-572). -/
def timerWaitToSendBackframe (s : State) : State :=
  if s.DALIFlags.receiveTwiceFrame = true then
    let s := set_timer_reload_val s TE_SEND_TWICE_MINUS_BF
    let s := { s with daliState := dali_state_t.WAIT_FOR_SECOND_FORFRAME }
    { s with DALIFlags := { s.DALIFlags with receiveTwiceFrame := false } }
  else if s.txDataR ≠ s.txDataW ∧ (s.txData s.txDataR).frameType = 1 then
    let s := DALIProcessSendData s (s.txData s.txDataR)
    { s with txDataR := (s.txDataR + 1) % TX_QUEUE_SIZE }
  else
    let s := set_timer_reload_val s TE_FF1_MINUS_BF
    { s with daliState := dali_state_t.PRE_IDLE }

/-- `case WAIT_FOR_SECOND_FORFRAME` of `DALITimerIntHandler` (lines 573-582). -/
def timerWaitForSecondForframe (s : State) : State :=
  let s := { s with rxFrame := 0 }
  let s := { s with DALIFlags := { s.DALIFlags with rxError := DALIRxError_t.FRAME_TIMING_ERROR } }
  let s := { s with DALIFlags := { s.DALIFlags with rxDone := true } }
  let s := set_timer_reload_val s TE_SEND_TWICE_MINUS_BF
  let s := DALIAppendToQueue s
  { s with daliState := dali_state_t.PRE_IDLE }

/-- `DALITimerIntHandler`: the bit-timer interrupt. `rxPin` and `rnd` are the
values of `readPin(RX_Pin)` and `rand()`, read only in `BREAK`. -/
def DALITimerIntHandler (s : State) (rxPin rnd : Nat) : State :=
  match s.daliState with
  | dali_state_t.SEND_DATA => timerSendData s
  | dali_state_t.WAIT_FOR_BACKFRAME => timerWaitForBackframe s
  | dali_state_t.WAIT_AFTER_RX_BACKFRAME =>
      let s := { s with daliState := dali_state_t.IDLE }
      disable_timer_int s
  | dali_state_t.BREAK => timerBreak s rxPin rnd
  | dali_state_t.PRE_IDLE => timerPreIdle s
  | dali_state_t.RECEIVE_DATA => timerReceiveData s
  | dali_state_t.RECEIVE_DATA_EXTRA_TE => timerReceiveDataExtraTE s
  | dali_state_t.WAIT_TO_SEND_BACKFRAME => timerWaitToSendBackframe s
  | dali_state_t.WAIT_FOR_SECOND_FORFRAME => timerWaitForSecondForframe s
  | dali_state_t.IDLE => disable_timer_int s

/-! ### `DALIRxIntHandler` -/

/-- The start of a reception, written out in five `case`s of `DALIRxIntHandler`
(lines 616-627, 748-761, 765-778, 782-795); `twice` is the value given to
`rxSendTwicePossible`. -/
def startReceive (s : State) (twice : Bool) : State :=
  let s := { s with rxPacket := 0 }
  let s := { s with rxPacketLen := 0 }
  let s := { s with halfBitNumber := 0 }
  let s := { s with DALIFlags := { s.DALIFlags with rxDone := false } }
  let s := { s with DALIFlags := { s.DALIFlags with rxError := DALIRxError_t.NO_ERROR } }
  let s := { s with DALIFlags := { s.DALIFlags with rxFrameType := false } }
  let s := { s with DALIFlags := { s.DALIFlags with rxSendTwicePossible := twice } }
  let s := { s with DALIFlags := { s.DALIFlags with rxFromState := s.daliState } }
  let s := reset_timer s
  let s := set_timer_reload_val s TE_STOP_MIN
  let s := enable_timer_int s
  { s with daliState := dali_state_t.RECEIVE_DATA }

/-- The collision block, written out four times in `case SEND_DATA` of
`DALIRxIntHandler` (lines 655-665, 669-679, 708-718, 723-733). -/
def signalCollision (s : State) : State :=
  let s := { s with DALIFlags := { s.DALIFlags with txError := true } }
  let s := { s with DALIFlags := { s.DALIFlags with txDone := false } }
  let s := { s with daliState := dali_state_t.BREAK }
  let s := reset_timer s
  let s := set_timer_reload_val s TE_BREAK
  let s := enable_timer_int s
  let s := DALIAppendToQueue s
  let s := { s with txDataR := if s.txDataR = 0 then TX_QUEUE_SIZE - 1 else s.txDataR - 1 }
  writePin s DALI_LO

/-- `case SEND_DATA` of `DALIRxIntHandler` (lines 630-738). `tim2cnt` and
`tim3cnt` are what `get_timer_count` returns for timer 2 and timer 3;
`tim2_value` is a `uint32_t` and `tim3_value` a `uint16_t`, which keeps the
low 16 bits. Timer 3 itself is hardware and is not part of `State`: its reset
has no effect on the model. -/
def rxSendData (s : State) (rxPin tim2cnt tim3cnt : Nat) : State :=
  if s.halfBitNumber = 1 then s
  else
    let tim3_value := tim3cnt % 2 ^ 16
    let tim2_value := tim2cnt
    if TE_TX_MIN ≤ tim3_value ∧ tim3_value ≤ TE_TX_MAX then
      if s.halfBitNumber = 2 ∧ s.txPacket &&& 0x800000 = 0 ∧ rxPin = DALI_LO then
        signalCollision s
      else if ((s.halfBitNumber % 2 = 0 ∧ s.txPacket &&& 0xC00000 = 0x800000)
          ∨ (s.halfBitNumber % 2 ≠ 0 ∧ s.prevBit ≠ 0 ∧ s.txPacket &&& 0x800000 = 0))
          ∧ rxPin = DALI_LO then
        signalCollision s
      else s
    else if TE2_TX_MIN ≤ tim3_value ∧ tim3_value ≤ TE2_TX_MAX then
      if rxPin = DALI_LO ∧ s.prevBit = 1 then
        if s.halfBitNumber % 2 = 1 ∧ tim3_value < TE + TE_TX_MIN then
          { s with overlapTime := 2 * TE - tim3_value }
        else s
      else if rxPin = DALI_HI ∧ s.prevBit = 0 then
        if s.halfBitNumber % 2 = 0 ∧ tim3_value > TE + TE_TX_MAX then
          set_timer_count s ((tim2_value + 2 ^ 32 - (tim3_value - 2 * TE)) % 2 ^ 32)
        else s
      else signalCollision s
    else signalCollision s

/-- `case RECEIVE_DATA` of `DALIRxIntHandler` (lines 797-913); `tim2cnt` is the
timer 2 count read at the edge, a `uint32_t` that is stored in the `uint32_t`
variable `tim2_value`. -/
def rxReceiveData (s : State) (tim2cnt : Nat) : State :=
  let tim2_value := tim2cnt
  let s := reset_timer s
  let s := set_timer_reload_val s TE_STOP_MIN
  let s := enable_timer_int s
  if s.halfBitNumber = 0 then
    if TE_RX_MIN ≤ tim2_value ∧ tim2_value ≤ TE_RX_MAX then
      { s with halfBitNumber := 3 }
    else
      { s with DALIFlags := { s.DALIFlags with rxError := DALIRxError_t.BIT_TIMING_ERROR } }
  else if s.halfBitNumber = 1 then
    if TE_RX_MIN ≤ tim2_value ∧ tim2_value ≤ TE_RX_MAX then
      let s := { s with rxPacket := (s.rxPacket <<< 1) % 2 ^ 32 }
      let s := { s with rxPacketLen := (s.rxPacketLen + 1) % 256 }
      { s with halfBitNumber := 4 }
    else
      { s with DALIFlags := { s.DALIFlags with rxError := DALIRxError_t.BIT_TIMING_ERROR } }
  else if s.halfBitNumber = 2 then
    if TE_RX_MIN ≤ tim2_value ∧ tim2_value ≤ TE_RX_MAX then
      let s := { s with rxPacket := (s.rxPacket <<< 1) % 2 ^ 32 }
      let s := { s with rxPacket := s.rxPacket ||| 1 }
      let s := { s with rxPacketLen := (s.rxPacketLen + 1) % 256 }
      { s with halfBitNumber := 3 }
    else
      { s with DALIFlags := { s.DALIFlags with rxError := DALIRxError_t.BIT_TIMING_ERROR } }
  else if s.halfBitNumber = 3 then
    if TE_RX_MIN ≤ tim2_value ∧ tim2_value ≤ TE_RX_MAX then
      { s with halfBitNumber := 2 }
    else if TE2_RX_MIN ≤ tim2_value ∧ tim2_value ≤ TE2_RX_MAX then
      let s := { s with rxPacket := (s.rxPacket <<< 1) % 2 ^ 32 }
      let s := { s with rxPacketLen := (s.rxPacketLen + 1) % 256 }
      { s with halfBitNumber := 4 }
    else
      { s with DALIFlags := { s.DALIFlags with rxError := DALIRxError_t.BIT_TIMING_ERROR } }
  else if s.halfBitNumber = 4 then
    if TE_RX_MIN ≤ tim2_value ∧ tim2_value ≤ TE_RX_MAX then
      { s with halfBitNumber := 1 }
    else if TE2_RX_MIN ≤ tim2_value ∧ tim2_value ≤ TE2_RX_MAX then
      let s := { s with rxPacket := (s.rxPacket <<< 1) % 2 ^ 32 }
      let s := { s with rxPacket := s.rxPacket ||| 1 }
      let s := { s with rxPacketLen := (s.rxPacketLen + 1) % 256 }
      { s with halfBitNumber := 3 }
    else
      { s with DALIFlags := { s.DALIFlags with rxError := DALIRxError_t.BIT_TIMING_ERROR } }
  else s

/-- `DALIRxIntHandler`: the edge interrupt of the RX pin. `rxPin` is the value
of `readPin(RX_Pin)`, `tim2cnt` and `tim3cnt` the timer counts at the edge. -/
def DALIRxIntHandler (s : State) (rxPin tim2cnt tim3cnt : Nat) : State :=
  match s.daliState with
  | dali_state_t.IDLE | dali_state_t.WAIT_AFTER_RX_BACKFRAME | dali_state_t.PRE_IDLE =>
      let s := writePin s DALI_HI
      if rxPin = DALI_HI then s else startReceive s false
  | dali_state_t.SEND_DATA => rxSendData s rxPin tim2cnt tim3cnt
  | dali_state_t.WAIT_FOR_BACKFRAME => startReceive s false
  | dali_state_t.WAIT_TO_SEND_BACKFRAME => startReceive s true
  | dali_state_t.WAIT_FOR_SECOND_FORFRAME => startReceive s true
  | dali_state_t.RECEIVE_DATA => rxReceiveData s tim2cnt
  | dali_state_t.RECEIVE_DATA_EXTRA_TE =>
      { s with DALIFlags := { s.DALIFlags with rxError := DALIRxError_t.BIT_TIMING_ERROR } }
  | dali_state_t.BREAK => s

/-! ## Runs of the driver -/

/-- What can happen to the driver: the two interrupts and the calls of the
public functions of `dali.h` by the application (which calls
`DALIReceiveData` only after `DALIDataAvailable` returned true,
`dali_application.c` line 198). -/
inductive Event where
  | edge (rxPin tim2cnt tim3cnt : Nat)
  | tick (rxPin rnd : Nat)
  | send (data : DALITxData)
  | receive
  | receiveTwice
  | configureMode (mode : Nat)
  | checkCable (rxPin : Nat)

/-- One event applied to a state. -/
def step (s : State) : Event → State
  | Event.edge rxPin tim2cnt tim3cnt => DALIRxIntHandler s rxPin tim2cnt tim3cnt
  | Event.tick rxPin rnd => DALITimerIntHandler s rxPin rnd
  | Event.send data => (DALISendData s data).1
  | Event.receive => if DALIDataAvailable s = true then (DALIReceiveData s).1 else s
  | Event.receiveTwice => DALIReceiveTwice s
  | Event.configureMode mode => DALIConfigureMode s mode
  | Event.checkCable rxPin => DALICheckCable s rxPin

/-- A sequence of events applied in order. -/
def run (s : State) (es : List Event) : State :=
  es.foldl step s

/-- The states the driver can be in: `DALIInit` on the boot state, followed by
any sequence of events. -/
def Reachable (s : State) : Prop :=
  ∃ es : List Event, s = run (DALIInit bootState) es

/-! ## Definitions used in the statements -/

/-- `n` successive bit-timer interrupts with nothing in between. The RX pin
and `rand()` are read only in `BREAK`; here they are `DALI_HI` and `0`. -/
def timerTicks (s : State) : Nat → State
  | 0 => s
  | n + 1 => timerTicks (DALITimerIntHandler s DALI_HI 0) n

/-- The levels written to the TX pin between state `s` and the later state `t`. -/
def txWritten (s t : State) : List Nat :=
  t.txLog.drop s.txLog.length

/-- Number of data bits of a frame: 8 for a backward frame, otherwise 16 when
`deviceMode = 1` and 24 when `deviceMode = 0`. -/
def frameBits (deviceMode : Bool) (frameType : Nat) : Nat :=
  if frameType % 2 = 1 then 8 else if deviceMode = true then 16 else 24

/-- The bits `n-1, ..., 0` of `f`, most significant first. -/
def bitsMSB (f : Nat) : Nat → List Bool
  | 0 => []
  | n + 1 => f.testBit n :: bitsMSB f n

/-- The two half-bits of one data bit: low then high for 1, high then low for 0. -/
def encodeBit (b : Bool) : List Nat :=
  if b = true then [DALI_LO, DALI_HI] else [DALI_HI, DALI_LO]

/-- The half-bits of a sequence of data bits. -/
def encodeBits : List Bool → List Nat
  | [] => []
  | b :: bs => encodeBit b ++ encodeBits bs

/-- The half-bit schedule as the specification words it: start bit (low then
high), the `n` low bits of `f` from the most significant one, six half-bits
of high. -/
def manchesterSchedule (n f : Nat) : List Nat :=
  [DALI_LO, DALI_HI] ++ encodeBits (bitsMSB f n) ++ List.replicate 6 DALI_HI

/-- The edges of a line that carries one level per `TE`: `prev` is the level
before the first half-bit and `since` the time since the last edge when the
first half-bit begins. Each edge is the pair of the interval since the
previous edge and the level after the edge. -/
def edgesOf (prev since : Nat) : List Nat → List (Nat × Nat)
  | [] => []
  | l :: ls =>
    if l = prev then edgesOf prev (since + TE) ls
    else (since, l) :: edgesOf l TE ls

/-- `DALIRxIntHandler` called once per edge, with the interval as the timer 2
count and the level after the edge as the RX pin. Timer 3 is read only while
sending; its count is given as 0. -/
def feedEdges (s : State) : List (Nat × Nat) → State
  | [] => s
  | e :: es => feedEdges (DALIRxIntHandler s e.2 e.1 0) es

/-- The end of a reception: the bit-timer expiry after the last edge, and the
second expiry when the first one entered `RECEIVE_DATA_EXTRA_TE`. -/
def stopCondition (s : State) : State :=
  let s1 := DALITimerIntHandler s DALI_HI 0
  if s1.daliState = dali_state_t.RECEIVE_DATA_EXTRA_TE then DALITimerIntHandler s1 DALI_HI 0
  else s1

/-- A whole frame through the receive path: the edges, then the stop condition. -/
def receiveFrame (s : State) (edges : List (Nat × Nat)) : State :=
  stopCondition (feedEdges s edges)

/-! ### Auxiliary definitions for the transmit path -/

/-- The value of `halfBitNumber` after the increment and the two skip tests at
the end of `case SEND_DATA` (lines 310-320), for the half-bit `h` and the
flags `fl`. -/
def nextHalf (fl : state_flags_t) (h : Nat) : Nat :=
  if fl.txFrameType = true ∧ (h + 1) % 256 = 18 then 50
  else if fl.deviceMode = true ∧ fl.txFrameType = false ∧ (h + 1) % 256 = 34 then 50
  else (h + 1) % 256

/-- The part of the state that a transmission in progress depends on. -/
def Sending (s : State) (fl : state_flags_t) (p h : Nat) (log : List Nat) : Prop :=
  s.daliState = dali_state_t.SEND_DATA ∧ s.DALIFlags = fl ∧ s.txPacket = p
    ∧ s.halfBitNumber = h ∧ s.txLog = log

/-- The next `k` data bits that the transmitter takes from the packet register
`p`: bit 23, then bit 23 of the register shifted left by one, and so on. -/
def txBits (p : Nat) : Nat → List Bool
  | 0 => []
  | k + 1 => p.testBit 23 :: txBits ((p <<< 1) % 2 ^ 32) k

/-- The half-bit number of the second half of the last data bit. -/
def lastHalf (fl : state_flags_t) : Nat :=
  if fl.txFrameType = true then 17 else if fl.deviceMode = true then 33 else 49

/-- The driver stays in `SEND_DATA` during the first `n` bit-timer interrupts. -/
def SendingUpTo (s : State) (n : Nat) : Prop :=
  ∀ j, j ≤ n → (timerTicks s j).daliState = dali_state_t.SEND_DATA

/-! ### The receive decode table as the specification words it -/

/-- The class of an edge interval in the receive path: a single `TE` for
2366..4300 ticks, a double `TE` for 5132..8200 ticks, anything else invalid. -/
inductive RxInterval where
  | single
  | double
  | invalid
  deriving DecidableEq, Repr

/-- The class of the interval `t`. -/
def rxInterval (t : Nat) : RxInterval :=
  if 2366 ≤ t ∧ t ≤ 4300 then RxInterval.single
  else if 5132 ≤ t ∧ t ≤ 8200 then RxInterval.double
  else RxInterval.invalid

/-- The decode table: for the half-bit position and the interval class, the
next position and the bit that is shifted in, if any; `none` stands for a bit
timing error. -/
def decodeTable : Nat → RxInterval → Option (Nat × Option Nat)
  | 0, RxInterval.single => some (3, none)
  | 1, RxInterval.single => some (4, some 0)
  | 2, RxInterval.single => some (3, some 1)
  | 3, RxInterval.single => some (2, none)
  | 3, RxInterval.double => some (4, some 0)
  | 4, RxInterval.single => some (1, none)
  | 4, RxInterval.double => some (3, some 1)
  | _, _ => none

/-- In `RECEIVE_DATA` the half-bit position is one of 0..4. -/
def RxHalfInv (s : State) : Prop :=
  s.daliState = dali_state_t.RECEIVE_DATA → s.halfBitNumber ≤ 4

/-! ### The end of a frame as the specification words it -/

/-- The record of the end-of-frame classification as the specification words
it: length 8 is a backward frame, in error when it was not awaited; length 24
is a forward frame, in error when a backward frame was awaited; any other
length is a frame size error. -/
def frameEndRecord (s : State) : DALIRxData :=
  if s.rxPacketLen = 8 then
    { frame := s.rxPacket, frameLen := 8, frameType := true, rxDone := true,
      rxError :=
        if s.DALIFlags.rxFromState ≠ dali_state_t.WAIT_FOR_BACKFRAME then
          DALIRxError_t.FRAME_TIMING_ERROR
        else s.DALIFlags.rxError,
      rxSendTwicePossible := s.DALIFlags.rxSendTwicePossible }
  else if s.rxPacketLen = 24 then
    { frame := s.rxPacket, frameLen := 24, frameType := false, rxDone := true,
      rxError :=
        if s.DALIFlags.rxFromState = dali_state_t.WAIT_FOR_BACKFRAME then
          DALIRxError_t.FRAME_TIMING_ERROR
        else s.DALIFlags.rxError,
      rxSendTwicePossible := s.DALIFlags.rxSendTwicePossible }
  else
    { frame := s.rxFrame, frameLen := s.rxPacketLen, frameType := s.DALIFlags.rxFrameType,
      rxDone := true, rxError := DALIRxError_t.FRAME_SIZE_ERROR,
      rxSendTwicePossible := s.DALIFlags.rxSendTwicePossible }

/-- The state after the classification: a forward frame leads to the reply
slot, everything else to the collision-avoidance state. -/
def frameEndNext (s : State) : dali_state_t :=
  if s.rxPacketLen = 24 then dali_state_t.WAIT_TO_SEND_BACKFRAME else dali_state_t.PRE_IDLE

/-- The time armed after the classification. -/
def frameEndTimer (s : State) : Nat :=
  if s.rxPacketLen = 24 then 40000 else 92200

/-- The bounded RX ring buffer: whether there is a free slot. -/
def rxFree (s : State) : Prop :=
  (s.rxDataW + 1) % RX_QUEUE_SIZE ≠ s.rxDataR

instance rxFreeDecidable (s : State) : Decidable (rxFree s) := by
  unfold rxFree; infer_instance

/-- The end of a frame as the specification words it: the next state, the
time armed, and the RX ring buffer, which takes the record when it has a free
slot and is left as it is when it is full. -/
def FrameEnd (s t : State) : Prop :=
  t.daliState = frameEndNext s
  ∧ t.tim2Reload = frameEndTimer s
  ∧ t.rxDataR = s.rxDataR
  ∧ t.rxData
      = (if rxFree s then Function.update s.rxData s.rxDataW (frameEndRecord s) else s.rxData)
  ∧ t.rxDataW = (if rxFree s then (s.rxDataW + 1) % RX_QUEUE_SIZE else s.rxDataW)

/-- The condition under which the stop-floor expiry waits one more `TE`: the
length is 8 or 24 and the last received bit is 1. -/
def extraTE (s : State) : Prop :=
  (s.rxPacketLen = 8 ∨ s.rxPacketLen = 24) ∧ s.rxPacket % 2 = 1

/-- Whether an event is the bit-timer interrupt. -/
def Event.isTick : Event → Bool
  | Event.tick _ _ => true
  | _ => false

/-- A reception in state `d` that already carries an error, with the RX
records `q`. -/
def RxFailing (q : Nat → DALIRxData) (d : dali_state_t) (u : State) : Prop :=
  u.daliState = d ∧ u.DALIFlags.rxError ≠ DALIRxError_t.NO_ERROR ∧ u.rxData = q

/-- The rest of a reception from the state `u`: the events `es`, the stop-floor
expiry of the bit timer and, when that expiry enters `RECEIVE_DATA_EXTRA_TE`,
the events `es2` and the second expiry. (The RX pin and `rand()` are not read
at these expiries.) -/
def finishFrame (u : State) (es es2 : List Event) : State :=
  if (DALITimerIntHandler (run u es) DALI_HI 0).daliState
      = dali_state_t.RECEIVE_DATA_EXTRA_TE then
    DALITimerIntHandler (run (DALITimerIntHandler (run u es) DALI_HI 0) es2) DALI_HI 0
  else DALITimerIntHandler (run u es) DALI_HI 0

/-- Nineteen receptions that end without a data bit, none of them read by the
application, followed by the start edge of a twentieth frame. -/
def fullQueueEvents : List Event :=
  (List.replicate 19 [Event.edge DALI_LO 0 0, Event.tick DALI_HI 0]).flatten
    ++ [Event.edge DALI_LO 0 0]

/-- The state after `fullQueueEvents`: in `RECEIVE_DATA` with 19 unread records. -/
def fullQueueState : State :=
  run (DALIInit bootState) fullQueueEvents

/-! ### Auxiliary definitions for the round trip -/

/-- The decoder variables of a reception in progress. -/
def Receiving (u : State) (fl : state_flags_t) (q : Nat → DALIRxData) (r w h p n : Nat) :
    Prop :=
  u.daliState = dali_state_t.RECEIVE_DATA ∧ u.DALIFlags = fl ∧ u.rxData = q
    ∧ u.rxDataR = r ∧ u.rxDataW = w ∧ u.halfBitNumber = h ∧ u.rxPacket = p
    ∧ u.rxPacketLen = n

/-- The line level during the second half of a bit. -/
def levelAfter (b : Bool) : Nat := if b = true then DALI_HI else DALI_LO

/-- The decoder position after the mid-bit edge of a bit. -/
def halfAfter (b : Bool) : Nat := if b = true then 3 else 4

/-- The packet register after shifting in the bits `bs`. -/
def shiftIn (p : Nat) : List Bool → Nat
  | [] => p
  | b :: bs => shiftIn ((2 * p + b.toNat) % 2 ^ 32) bs

/-- The last bit of `bs`, or `b` when `bs` is empty. -/
def lastBit (b : Bool) : List Bool → Bool
  | [] => b
  | c :: bs => lastBit c bs

/-- The record of a forward frame with payload `x` received without error
after `IDLE`. -/
def forwardRecord (x : Nat) : DALIRxData :=
  { frame := x, frameLen := 24, frameType := false, rxDone := true,
    rxError := DALIRxError_t.NO_ERROR, rxSendTwicePossible := false }

/-- The line edges of the schedule that the transmitter in state `sT` writes
for the frame `d`: the line is high before the start bit, and `since` is the
time since the last edge. -/
def lineEdges (sT : State) (d : DALITxData) (since : Nat) : List (Nat × Nat) :=
  edgesOf DALI_HI since (txWritten sT (timerTicks (DALIProcessSendData sT d) 56))

/-- Nineteen receptions that end without a data bit, none of them read by the
application, and then the five expiries of the priority ladder: the driver is
in `IDLE` with 19 unread records. -/
def fullQueueIdle : State :=
  timerTicks (run (DALIInit bootState)
    (List.replicate 19 [Event.edge DALI_LO 0 0, Event.tick DALI_HI 0]).flatten) 5

/-! ### Auxiliary definitions for the length of a received frame -/

/-- Whether the edge `e`, given to `DALIRxIntHandler` in the state `s`, shifts
a data bit into `rxPacket`: the handler runs `case RECEIVE_DATA` and
increments the 8-bit `rxPacketLen` (lines 849, 864, 882 and 902). -/
def shiftsBit (s : State) (e : Nat × Nat) : Bool :=
  decide (s.daliState = dali_state_t.RECEIVE_DATA
    ∧ (DALIRxIntHandler s e.2 e.1 0).rxPacketLen = (s.rxPacketLen + 1) % 256)

/-- The number of data bits shifted in while the edges `es` are given one
after the other to `DALIRxIntHandler` from the state `s`. -/
def countShifts (s : State) : List (Nat × Nat) → Nat
  | [] => 0
  | e :: es => (shiftsBit s e).toNat + countShifts (DALIRxIntHandler s e.2 e.1 0) es

/-- The line levels of a start bit, the data bits `bs` and the stop
condition. -/
def frameLevels (bs : List Bool) : List Nat :=
  [DALI_LO, DALI_HI] ++ encodeBits bs ++ List.replicate 6 DALI_HI

/-- The line edges of a frame of 280 data bits of value 1, on a line that was
high before. -/
def longFrameEdges : List (Nat × Nat) :=
  edgesOf DALI_HI 0 (frameLevels (List.replicate 280 true))

/-! ### Auxiliary definitions for the TX ring buffer -/

/-- The TX ring buffer and its two indices are the same in `s` and `t`. -/
def TxSame (s t : State) : Prop :=
  t.txDataR = s.txDataR ∧ t.txDataW = s.txDataW ∧ t.txData = s.txData

/-- The two indices of the TX ring buffer are indices of the array. -/
def TxIndexInv (s : State) : Prop :=
  s.txDataR < TX_QUEUE_SIZE ∧ s.txDataW < TX_QUEUE_SIZE

/-- What an event can do to the TX ring buffer: nothing, take the head
(`txDataR` advances), put the read index back by one, or store a frame at the
write index (`txDataW` advances), possibly taking the head as well. -/
def TxMove (s t : State) : Prop :=
  (t.txDataR = s.txDataR ∨ t.txDataR = (s.txDataR + 1) % TX_QUEUE_SIZE
    ∨ t.txDataR = if s.txDataR = 0 then TX_QUEUE_SIZE - 1 else s.txDataR - 1)
  ∧ (t.txDataW = s.txDataW ∨ t.txDataW = (s.txDataW + 1) % TX_QUEUE_SIZE)

/-- The number of frames waiting in the TX ring buffer, from the read index up
to the write index. -/
def txWaiting (s : State) : Nat :=
  (s.txDataW + TX_QUEUE_SIZE - s.txDataR) % TX_QUEUE_SIZE

/-- Forward frames of priority 1 with distinct payloads. -/
def collisionFrame (i : Nat) : DALITxData :=
  { frame := 0x10000 + i, frameType := 0, sendTwice := 0, priority := 1 }

/-- The driver is set to `deviceMode = 0`; frame 0 is handed over in `IDLE`
and sent at once, frames 1 to 19 are queued behind it; the bit timer expires
once, so that the second half of the start bit is on the line. -/
def fullTxQueueEvents : List Event :=
  Event.configureMode 0 :: (List.range 20).map (fun i => Event.send (collisionFrame i))
    ++ [Event.tick DALI_HI 0]

/-- The state after `fullTxQueueEvents`: frame 0 in flight, 19 frames waiting. -/
def fullTxQueueState : State :=
  run (DALIInit bootState) fullTxQueueEvents

/-- A falling edge 1000 timer ticks after the previous edge, while frame 0 is
in flight: a collision. -/
def collidedState : State :=
  DALIRxIntHandler fullTxQueueState DALI_LO 1000 1000

/-- A forward frame is handed over to the initialised driver, which is in
`deviceMode = 1`; the bit timer expires once, an edge 1000 timer ticks after
the previous one signals a collision, and the `BREAK` time expires. -/
def modeOneCollision : List Event :=
  [Event.send { frame := 0x1234, frameType := 0, sendTwice := 0, priority := 1 },
   Event.tick DALI_HI 0, Event.edge DALI_LO 1000 1000, Event.tick DALI_HI 0]

/-! ### Auxiliary definitions for the priority ladder -/

/-- A reception without a data bit ends in `PRE_IDLE`; the priority ladder
runs for four expiries; the start edge of a new frame interrupts it, a frame
of priority 5 is handed over during the reception, and the reception ends. -/
def ladderInterrupted : List Event :=
  [Event.edge DALI_LO 0 0, Event.tick DALI_HI 0,
   Event.tick DALI_HI 0, Event.tick DALI_HI 0, Event.tick DALI_HI 0, Event.tick DALI_HI 0,
   Event.edge DALI_LO 0 0,
   Event.send { frame := 0x1234, frameType := 0, sendTwice := 0, priority := 5 },
   Event.tick DALI_HI 0]

/-- The event starts a transmission of the frame at the read index of the TX
ring buffer (as the buffer is after the event): the packet register and the
frame-type flag are those that `DALIProcessSendData` sets for that frame, the
half-bit counter is 1, and the read index advances by one. -/
def LaunchesHead (s t : State) : Prop :=
  t.txDataR = (s.txDataR + 1) % TX_QUEUE_SIZE
  ∧ t.txPacket = (DALIProcessSendData s (t.txData s.txDataR)).txPacket
  ∧ t.DALIFlags.txFrameType = decide ((t.txData s.txDataR).frameType % 2 = 1)
  ∧ t.halfBitNumber = 1

/-- A frame of priority 5 and then a frame of priority 1 are handed over
during a reception; the reception ends and the bit timer expires four more
times in `PRE_IDLE`. -/
def inversionEvents : List Event :=
  [Event.edge DALI_LO 0 0,
   Event.send { frame := 0xAAAA, frameType := 0, sendTwice := 0, priority := 5 },
   Event.send { frame := 0xBBBB, frameType := 0, sendTwice := 0, priority := 1 },
   Event.tick DALI_HI 0,
   Event.tick DALI_HI 0, Event.tick DALI_HI 0, Event.tick DALI_HI 0, Event.tick DALI_HI 0]

/-! ### Auxiliary definitions for the ladder timing -/

/-- The settling time `TE_TX_WAIT_FFk` for the priority `k` (lines 35-49). -/
def waitFF : Nat → Nat
  | 1 => TE_TX_WAIT_FF1
  | 2 => TE_TX_WAIT_FF2
  | 3 => TE_TX_WAIT_FF3
  | 4 => TE_TX_WAIT_FF4
  | 5 => TE_TX_WAIT_FF5
  | _ => 0

/-- The lower bound `TE_TX_WAIT_FFk_MIN` (lines 34-46). -/
def waitFFMin : Nat → Nat
  | 1 => TE_TX_WAIT_FF1_MIN
  | 2 => TE_TX_WAIT_FF2_MIN
  | 3 => TE_TX_WAIT_FF3_MIN
  | 4 => TE_TX_WAIT_FF4_MIN
  | 5 => TE_TX_WAIT_FF5_MIN
  | _ => 0

/-- The upper bound `TE_TX_WAIT_FFk_MAX` (lines 36-48). -/
def waitFFMax : Nat → Nat
  | 1 => TE_TX_WAIT_FF1_MAX
  | 2 => TE_TX_WAIT_FF2_MAX
  | 3 => TE_TX_WAIT_FF3_MAX
  | 4 => TE_TX_WAIT_FF4_MAX
  | 5 => TE_TX_WAIT_FF5_MAX
  | _ => 0

/-- The time armed on the bit timer from the state `s` on, summed over `s` and
the states after each of the next `n` expiries. -/
def armedTotal (s : State) : Nat → Nat
  | 0 => s.tim2Reload
  | n + 1 => s.tim2Reload + armedTotal (DALITimerIntHandler s DALI_HI 0) n

/-- The head of the TX queue may be launched at the counter value of `s`. -/
def headReady (s : State) : Prop :=
  s.txDataR ≠ s.txDataW ∧ (s.txData s.txDataR).priority ≤ s.priorityState

/-! ### Auxiliary definitions for the ring buffers -/

/-- The entries of a ring buffer of 20 slots from the read index `r` up to the
write index `w`, oldest first. -/
def ringList {α : Type} (q : Nat → α) (r w : Nat) : List α :=
  (List.range ((w + 20 - r) % 20)).map (fun k => q ((r + k) % 20))

/-- The frames waiting in the TX queue, oldest first. -/
def txQueue (s : State) : List DALITxData :=
  (List.range (txWaiting s)).map (fun k => s.txData ((s.txDataR + k) % TX_QUEUE_SIZE))

/-- The calls `DALISendData(d)` for the frames `ds` in order: the final state
and the list of the values returned. -/
def sendAll (s : State) : List DALITxData → State × List Nat
  | [] => (s, [])
  | d :: ds =>
    ((sendAll (DALISendData s d).1 ds).1, (DALISendData s d).2 :: (sendAll (DALISendData s d).1 ds).2)

/-- The number of unread records in the RX ring buffer. -/
def rxWaiting (s : State) : Nat :=
  (s.rxDataW + RX_QUEUE_SIZE - s.rxDataR) % RX_QUEUE_SIZE

/-- The two indices of the RX ring buffer are indices of the array. -/
def RxIndexInv (s : State) : Prop :=
  s.rxDataR < RX_QUEUE_SIZE ∧ s.rxDataW < RX_QUEUE_SIZE

/-- The RX ring buffer and its two indices are the same in `s` and `t`. -/
def RxSame (s t : State) : Prop :=
  t.rxDataR = s.rxDataR ∧ t.rxDataW = s.rxDataW ∧ t.rxData = s.rxData

/-- Between `s` and `t` at most one record was appended to the RX ring buffer:
either nothing changed, or the buffer had a free slot, the slot at the write
index was written and the write index advanced. -/
def RxAppend (s t : State) : Prop :=
  t.rxDataR = s.rxDataR
  ∧ ((t.rxDataW = s.rxDataW ∧ t.rxData = s.rxData)
    ∨ (rxFree s ∧ t.rxDataW = (s.rxDataW + 1) % RX_QUEUE_SIZE
        ∧ ∃ r, t.rxData = Function.update s.rxData s.rxDataW r))

/-- Between `s` and `t` the application took one record: the read index
advanced and nothing else changed in the RX ring buffer. -/
def RxTake (s t : State) : Prop :=
  s.rxDataR ≠ s.rxDataW ∧ t.rxDataR = (s.rxDataR + 1) % RX_QUEUE_SIZE
  ∧ t.rxDataW = s.rxDataW ∧ t.rxData = s.rxData

/-- The number of calls of `DALIReceiveData` among the events. -/
def countReceives : List Event → Nat
  | [] => 0
  | Event.receive :: es => countReceives es + 1
  | _ :: es => countReceives es

/-- Nineteen times: a reception that ends without a data bit, read by the
application at once; then a twentieth such reception, not yet read. -/
def twentyReceptions : List Event :=
  (List.replicate 19
      [Event.edge DALI_LO 0 0, Event.tick DALI_HI 0, Event.receive]).flatten
    ++ [Event.edge DALI_LO 0 0, Event.tick DALI_HI 0]

/-- A forward frame without send-twice is handed over in `IDLE`; a collision
aborts it during the start bit; the `BREAK` time expires and then the first
settling time, at which the frame is launched again. -/
def retryEvents : List Event :=
  [Event.configureMode 0,
   Event.send { frame := 0x1234, frameType := 0, sendTwice := 0, priority := 1 },
   Event.tick DALI_HI 0, Event.edge DALI_LO 1000 1000,
   Event.tick DALI_HI 0, Event.tick DALI_HI 0]

/-! ## The memory banks (`dali_memory.h`, `dali_memory.c`) -/

/-- The offsets of `enum memory_bank_189_address`. -/
def lockByte_addr : Nat := 0x02

def parameterLock_addr : Nat := 3

def factoryReset_addr : Nat := 4

def calibrationScale_addr : Nat := 5

def calibrationOffset_addr : Nat := 6

def calibrateDark : Nat := 10

def calibrateFullScale : Nat := 11

def fullScaleRange_addr : Nat := 0x15

/-- The flash addresses of the variable pages and of the two memory banks. -/
def MEMORY_NVM_VAR_ADDR : Nat := 0x0800E800

def MEMORY_ROM_VAR_ADDR : Nat := 0x0800EC00

def MEMORY_BANK_0_ADDR : Nat := 0x0800F000

def MEMORY_BANK_189_ADDR : Nat := 0x0800F400

/-- The default values of bank 189 (`dali_memory.c` lines 11-21). -/
def lastByte_memory_bank_189 : Nat := 0x16

def indicatorByte : Nat := 0xFF

def lockByte_default : Nat := 0xFF

def fullScaleRange_default : Nat := 1000

def calibrationScale_default : Nat := 255

def calibrationOffset_default : Nat := 0

def parameterLock_default : Nat := 0xFF

def factoryReset_default : Nat := 0xFF

def pidProportionalCoeff_default : Nat := 0xFF

def pidIntegralCoeff_default : Nat := 0xFF

def pidDerivativeCoeff_default : Nat := 0xFF

/-- The state of the memory-bank module: the flash as a map from address to
byte, the globals `memory_bank_addr` and `lock_byte` of `dali_memory.c`, the
two calibration flags of `main.c`, and `memoryWrites`, a record of the calls of
`memory_write` (bank, offset, data), latest first, which the C code does not
keep. -/
structure MemState where
  flash : Nat → Nat
  memory_bank_addr : Nat → Nat
  lock_byte : Nat → Nat
  darkCalibrate : Nat
  fullScaleCalibrate : Nat
  memoryWrites : List (Nat × Nat × Nat)

/-- The module at power-up: the arrays are zero-initialised, the calibration
flags have the initialiser 0, the flash holds what it held before. -/
def bootMem (flash : Nat → Nat) : MemState :=
  { flash := flash, memory_bank_addr := fun _ => 0, lock_byte := fun _ => 0,
    darkCalibrate := 0, fullScaleCalibrate := 0, memoryWrites := [] }

/-- The read `*(uint8_t*) a`. -/
def read8 (f : Nat → Nat) (a : Nat) : Nat :=
  f a % 256

/-- The read `*(uint16_t*) a` (little-endian). -/
def read16 (f : Nat → Nat) (a : Nat) : Nat :=
  read8 f a + 256 * read8 f (a + 1)

/-- The read `*(uint32_t*) a` (little-endian). -/
def read32 (f : Nat → Nat) (a : Nat) : Nat :=
  read16 f a + 65536 * read16 f (a + 2)

/-- The store `*(uint16_t*) a = v` to flash while programming is enabled. -/
def write16 (f : Nat → Nat) (a v : Nat) : Nat → Nat :=
  fun x => if x = a then v % 256 else if x = a + 1 then v / 256 % 256 else f x

/-- Modelled from the spec: `HAL_FLASH_Program(FLASH_TYPEPROGRAM_WORD, a, v)`
writes the four bytes of the word `v` at address `a`. -/
def HAL_FLASH_Program (f : Nat → Nat) (a v : Nat) : Nat → Nat :=
  write16 (write16 f a (v % 65536)) (a + 2) (v / 65536 % 65536)

/-- Modelled from the spec: `HAL_FLASHEx_Erase` of one page sets the 1024
bytes of the page to `0xFF` and reports `0xFFFFFFFF` (no faulty page). -/
def HAL_FLASHEx_Erase (f : Nat → Nat) (page : Nat) : (Nat → Nat) × Nat :=
  (fun x => if page ≤ x ∧ x < page + 0x400 then 0xFF else f x, 0xFFFFFFFF)

/-- `erase_page`: the page is erased and the error word of the HAL returned. -/
def erase_page (m : MemState) (page_address : Nat) : MemState × Nat :=
  let r := HAL_FLASHEx_Erase m.flash page_address
  ({ m with flash := r.1 }, r.2)

/-- `dali_memory_init`: the two banks are registered, bank 189 is locked, and a
blank flash (first byte of bank 0 equal to `0xFF`) receives the defaults. -/
def dali_memory_init (m : MemState) : MemState :=
  let m := { m with memory_bank_addr := fun b => if b = 0 then MEMORY_BANK_0_ADDR
                                                 else if b = 189 then MEMORY_BANK_189_ADDR
                                                 else m.memory_bank_addr b }
  let m := { m with lock_byte := fun b => if b = 189 then 0xFF else m.lock_byte b }
  if read8 m.flash MEMORY_BANK_0_ADDR = 0xFF then
    let f := m.flash
    let f := write16 f MEMORY_BANK_0_ADDR 0xFF1A
    let f := write16 f (MEMORY_BANK_0_ADDR + 0x02) 0xBD
    let f := write16 f (MEMORY_BANK_0_ADDR + 0x04) 0x3CC8
    let f := write16 f (MEMORY_BANK_0_ADDR + 0x06) 0x8658
    let f := write16 f (MEMORY_BANK_0_ADDR + 0x08) 0x4A
    let f := write16 f (MEMORY_BANK_0_ADDR + 0x0A) 0x01
    let f := write16 f (MEMORY_BANK_0_ADDR + 0x12) 0
    let f := write16 f (MEMORY_BANK_0_ADDR + 0x14) 0x901
    let f := write16 f (MEMORY_BANK_0_ADDR + 0x16) 0x9FF
    let f := write16 f (MEMORY_BANK_0_ADDR + 0x18) 1
    let f := write16 f (MEMORY_BANK_0_ADDR + 0x1A) 0xFF00
    let f := write16 f MEMORY_BANK_189_ADDR 0xFF16
    let f := write16 f (MEMORY_BANK_189_ADDR + 0x04)
      ((calibrationScale_default <<< 8) ||| factoryReset_default)
    let f := write16 f (MEMORY_BANK_189_ADDR + 0x06)
      ((pidProportionalCoeff_default <<< 8) ||| calibrationOffset_default)
    let f := write16 f (MEMORY_BANK_189_ADDR + 0x14)
      (((fullScaleRange_default &&& 0xFF) <<< 8) ||| 0xFF)
    let f := write16 f (MEMORY_BANK_189_ADDR + 0x16) (0xFF00 ||| (fullScaleRange_default >>> 8))
    { m with flash := f }
  else m

/-- The macro `parameterLock`: the byte of bank 189 at `parameterLock_addr`. -/
def parameterLock (m : MemState) : Nat :=
  read8 m.flash (MEMORY_BANK_189_ADDR + parameterLock_addr)

/-- `dali_memory_read`: `none` is `success = 0` (the field `value` is then not
initialised), `some v` is `success = 1` with `value = v`. The arguments are
`uint8_t`. -/
def dali_memory_read (m : MemState) (memory_bank_number memory_offset : Nat) : Option Nat :=
  let memory_bank_address := m.memory_bank_addr memory_bank_number
  let read_address := (memory_bank_address + memory_offset) % 4294967296
  if memory_bank_address = 0 then none
  else if memory_offset > read8 m.flash memory_bank_address ∨ memory_offset = 1 then none
  else if memory_bank_number ≠ 0 ∧ memory_offset = lockByte_addr then
    some (m.lock_byte memory_bank_number)
  else if memory_bank_number = 189 ∧ memory_offset = factoryReset_addr then some 0xFF
  else some (read8 m.flash read_address)

/-- `dali_memory_write`: the new state and the value returned, `none` when
control reaches the closing brace of the function without a `return`
statement (bank 189 with an offset that is none of lock byte, factory reset
and the two calibration triggers). The arguments are `uint8_t`. -/
def dali_memory_write (m : MemState) (memory_bank_number memory_offset data : Nat) :
    MemState × Option Nat :=
  let memory_bank_address := m.memory_bank_addr memory_bank_number
  if memory_bank_number ≠ 0 ∧ memory_offset = lockByte_addr then
    ({ m with lock_byte := fun b => if b = memory_bank_number then data else m.lock_byte b },
     some 0)
  else if memory_bank_number = 189 then
    if memory_offset = factoryReset_addr then (m, some (if data ≠ 0 then 0 else 2))
    else if memory_offset = calibrateDark then ({ m with darkCalibrate := 1 }, some 0)
    else if memory_offset = calibrateFullScale then
      ({ m with fullScaleCalibrate := 1 }, some 0)
    else (m, none)
  else if m.memory_bank_addr memory_bank_number = 0 ∨ m.lock_byte memory_bank_number ≠ 0x55
      ∨ memory_offset > read8 m.flash memory_bank_address
      ∨ (memory_bank_number = 189 ∧ memory_offset ≠ parameterLock_addr ∧ parameterLock m ≠ 0)
  then (m, some 1)
  else (m, some 2)

/-- `dali_memory_reset`: for bank 0 or 189, and only if bank 189 is unlocked,
the page of bank 189 is erased, three words of defaults are programmed and the
bank is locked again. -/
def dali_memory_reset (m : MemState) (memory_bank_number : Nat) : MemState :=
  if memory_bank_number = 0 ∨ memory_bank_number = 189 then
    if m.lock_byte 189 ≠ 0x55 then m
    else
      let m := (erase_page m MEMORY_BANK_189_ADDR).1
      let dataW := ((parameterLock_default <<< 24) ||| (lockByte_default <<< 16)
        ||| (indicatorByte <<< 8) ||| lastByte_memory_bank_189) % 4294967296
      let f := HAL_FLASH_Program m.flash MEMORY_BANK_189_ADDR dataW
      let dataW := ((pidProportionalCoeff_default <<< 24) ||| (calibrationOffset_default <<< 16)
        ||| (calibrationScale_default <<< 8) ||| factoryReset_default) % 4294967296
      let f := HAL_FLASH_Program f (MEMORY_BANK_189_ADDR + 4) dataW
      let dataW := ((fullScaleRange_default <<< 16) ||| (pidDerivativeCoeff_default <<< 8)
        ||| pidIntegralCoeff_default) % 4294967296
      let f := HAL_FLASH_Program f (MEMORY_BANK_189_ADDR + 8) dataW
      { m with flash := f, lock_byte := fun b => if b = 189 then 0 else m.lock_byte b }
  else m

/-- The first loop of `memory_write`: the words of the implemented locations
(`i < *(uint8_t*) page / 4`) are copied to the local array `memory_temp_0`;
its other elements keep the value `junk i` the uninitialised array had. -/
def savePage (f : Nat → Nat) (page : Nat) (junk : Nat → Nat) : Nat → Nat :=
  fun i => if i < read8 f page / 4 then read32 f (page + i * 4) else junk i

/-- The `switch (write_address % 4)` of `memory_write`: the byte `data` is put
into the word `temp`. -/
def modifyWord (temp write_address data : Nat) : Nat :=
  if write_address % 4 = 0 then (temp &&& 0xFFFFFF00) ||| data
  else if write_address % 4 = 1 then (temp &&& 0xFFFF0000) ||| (data <<< 8) ||| (temp &&& 0xFF)
  else if write_address % 4 = 2 then
    (temp &&& 0xFF000000) ||| (data <<< 16) ||| (temp &&& 0xFFFF)
  else ((data <<< 24) ||| (temp &&& 0xFFFFFF)) % 4294967296

/-- The second loop of `memory_write`, from index `i`: the bound
`*(uint8_t*) page / 4` is read from the flash again before every iteration.
The bound is at most 63, so 64 iterations always suffice. -/
def writeBack (page : Nat) (temp : Nat → Nat) : Nat → Nat → (Nat → Nat) → (Nat → Nat)
  | 0, _, f => f
  | fuel + 1, i, f =>
    if i < read8 f page / 4 then
      writeBack page temp fuel (i + 1) (HAL_FLASH_Program f (page + i * 4) (temp i))
    else f

/-- `memory_write`; `junk` is the content of the uninitialised local array.
The call is recorded in `memoryWrites`. `erase_page` reports `0xFFFFFFFF`, if
it reported anything else the function would return after the erase. -/
def memory_write (m : MemState) (memory_bank_number memory_offset data : Nat)
    (junk : Nat → Nat) : MemState :=
  let m := { m with memoryWrites := (memory_bank_number, memory_offset, data) :: m.memoryWrites }
  let memory_bank_address := m.memory_bank_addr memory_bank_number
  let write_address := (memory_bank_address + memory_offset) % 4294967296
  if memory_bank_number = 189 ∧ memory_offset = factoryReset_addr ∧ data = 0 then
    dali_memory_reset m 189
  else
    let memory_page_addr := memory_bank_address / 0x400 * 0x400
    let memory_temp_0 := savePage m.flash memory_page_addr junk
    let r := erase_page m memory_page_addr
    if r.2 ≠ 0xFFFFFFFF then r.1
    else
      let m := r.1
      let idx := (write_address + 4294967296 - memory_page_addr) % 4294967296 / 4
      let temp := modifyWord (memory_temp_0 idx) write_address data
      let memory_temp_0 := fun i => if i = idx then temp else memory_temp_0 i
      { m with flash := writeBack memory_page_addr memory_temp_0 64 0 m.flash }

/-- A flash that has never been programmed: every byte reads `0xFF`. -/
def blankFlash : Nat → Nat :=
  fun _ => 0xFF

/-- The memory module after `dali_memory_init` on a blank flash. -/
def initialMem : MemState :=
  dali_memory_init (bootMem blankFlash)

/-- Bank 189 unlocked (lock byte `0x55`, written through `dali_memory_write`)
with the parameter-lock byte in flash equal to 0. -/
def unlockedMem : MemState :=
  let m := (dali_memory_write initialMem 189 lockByte_addr 0x55).1
  { m with flash := fun x => if x = MEMORY_BANK_189_ADDR + parameterLock_addr then 0
                             else m.flash x }

/-- What the claim on bank 0 rests on: the lock byte of bank 0 is not the
unlock value and no recorded call of `memory_write` names bank 0. -/
def MemInv (m : MemState) : Prop :=
  m.lock_byte 0 ≠ 0x55 ∧ ∀ w ∈ m.memoryWrites, w.1 ≠ 0

/-! ## The application layer: constants and state (`dali_application.h`, `dali_application.c`) -/

/-- The values of the two anonymous enums of `dali_application.h`. -/
def DISABLED : Nat := 0

def ENABLED : Nat := 1

def WITHDRAWN : Nat := 2

def FALSE : Nat := 0

def TRUE : Nat := 1

/-- The blank values of `dali_application.c`. -/
def BLANK_8 : Nat := 0xFF

def BLANK_16 : Nat := 0xFFFF

def BLANK_32 : Nat := 0xFFFFFFFF

/-- The bit masks for `deviceCapabilities`. -/
def CONTROLLER_PRESENT : Nat := 0x01

def INSTANCE_PRESENT : Nat := 0x02

def CONTROLLER_ALWAYS_ACTIVE : Nat := 0x04

/-- The bit masks for `deviceStatus`. -/
def INPUT_DEVICE_ERROR : Nat := 0x01

def QUIESCENT_MODE : Nat := 0x02

def SHORT_ADDRESS : Nat := 0x04

def APP_ACTIVE : Nat := 0x08

def APP_CONTROLLER_ERROR : Nat := 0x10

def POWER_CYCLE_SEEN : Nat := 0x20

def RESET_STATE : Nat := 0x40

/-- The opcodes of `enum opcode_app_controller`. -/
def IDENTIFY_DEVICE : Nat := 0x00

def RESET_POWER_CYCLE_SEEN : Nat := 0x01

def RESET_VARIABLE : Nat := 0x10

def RESET_MEMORY_BANK : Nat := 0x11

def SET_SHORT_ADDRESS : Nat := 0x14

def ENABLE_WRITE_MEMORY : Nat := 0x15

def ENABLE_APPLICATION_CONTROLLER : Nat := 0x16

def DISABLE_APPLICATION_CONTROLLER : Nat := 0x17

def SET_OPERATING_MODE : Nat := 0x18

def ADD_TO_DEVICE_GROUPS_0_15 : Nat := 0x19

def ADD_TO_DEVICE_GROUPS_16_31 : Nat := 0x1A

def REMOVE_FROM_DEVICE_GROUPS_0_15 : Nat := 0x1B

def REMOVE_FROM_DEVICE_GROUPS_16_31 : Nat := 0x1C

def START_QUIESCENT_MODE : Nat := 0x1D

def STOP_QUIESCENT_MODE : Nat := 0x1E

def ENABLE_POWER_CYCLE_NOTIFICATION : Nat := 0x1F

def DISABLE_POWER_CYCLE_NOTIFICATION : Nat := 0x20

def SAVE_PERSISTENT_VARIABLES : Nat := 0x21

def QUERY_DEVICE_STATUS : Nat := 0x30

def QUERY_APPLICATION_CONTROLLER_ERROR : Nat := 0x31

def QUERY_INPUT_DEVICE_ERROR : Nat := 0x32

def QUERY_MISSING_SHORT_ADDRESS : Nat := 0x33

def QUERY_VERSION_NUMBER : Nat := 0x34

def QUERY_NUMBER_OF_INSTANCES : Nat := 0x35

def QUERY_CONTENT_DTR0 : Nat := 0x36

def QUERY_CONTENT_DTR1 : Nat := 0x37

def QUERY_CONTENT_DTR2 : Nat := 0x38

def QUERY_RANDOM_ADDRESS_H : Nat := 0x39

def QUERY_RANDOM_ADDRESS_M : Nat := 0x3A

def QUERY_RANDOM_ADDRESS_L : Nat := 0x3B

def READ_MEMORY_LOCATION : Nat := 0x3C

def QUERY_APPLICATION_CONTROLLER_ENABLED : Nat := 0x3D

def QUERY_OPERATING_MODE : Nat := 0x3E

def QUERY_MANUFACTURER_SPECIFIC_MODE : Nat := 0x3F

def QUERY_QUIESCENT_MODE : Nat := 0x40

def QUERY_DEVICE_GROUPS_0_7 : Nat := 0x41

def QUERY_DEVICE_GROUPS_8_15 : Nat := 0x42

def QUERY_DEVICE_GROUPS_16_23 : Nat := 0x43

def QUERY_DEVICE_GROUPS_24_31 : Nat := 0x44

def QUERY_POWER_CYCLE_NOTIFICATION : Nat := 0x45

def QUERY_DEVICE_CAPABILITIES : Nat := 0x46

def QUERY_EXTENDED_VERSION_NUMBER : Nat := 0x47

def QUERY_RESET_STATE : Nat := 0x48

def QUERY_APPLICATION_CONTROLLER_ALWAYS_ACTIVE : Nat := 0x49

def SET_EVENT_PRIORITY : Nat := 0x61

def ENABLE_INSTANCE : Nat := 0x62

def DISABLE_INSTANCE : Nat := 0x63

def SET_PRIMARY_INSTANCE_GROUP : Nat := 0x64

def SET_INSTANCE_GROUP_1 : Nat := 0x65

def SET_INSTANCE_GROUP_2 : Nat := 0x66

def SET_EVENT_SCHEME : Nat := 0x67

def SET_EVENT_FILTER : Nat := 0x68

def QUERY_INSTANCE_TYPE : Nat := 0x80

def QUERY_RESOLUTION : Nat := 0x81

def QUERY_INSTANCE_ERROR : Nat := 0x82

def QUERY_INSTANCE_STATUS : Nat := 0x83

def QUERY_EVENT_PRIORITY : Nat := 0x84

def QUERY_INSTANCE_ENABLED : Nat := 0x86

def QUERY_PRIMARY_INSTANCE_GROUP : Nat := 0x88

def QUERY_INSTANCE_GROUP_1 : Nat := 0x89

def QUERY_INSTANCE_GROUP_2 : Nat := 0x8A

def QUERY_EVENT_SCHEME : Nat := 0x8B

def QUERY_INPUT_VALUE : Nat := 0x8C

def QUERY_INPUT_VALUE_LATCH : Nat := 0x8D

def QUERY_FEATURE_TYPE : Nat := 0x8E

def QUERY_NEXT_FEATURE_TYPE : Nat := 0x8F

def QUERY_EVENT_FILTER_0_7 : Nat := 0x90

def QUERY_EVENT_FILTER_8_15 : Nat := 0x91

def QUERY_EVENT_FILTER_16_23 : Nat := 0x92

/-- The opcodes of `enum opcode_input_device_added`. -/
def SET_REPORT_TIMER : Nat := 0x30

def SET_HYSTERESIS : Nat := 0x31

def SET_DEADTIME_TIMER : Nat := 0x32

def SET_HYSTERESIS_MIN : Nat := 0x33

def QUERY_HYSTERESIS_MIN : Nat := 0x3C

def QUERY_DEADTIME_TIMER : Nat := 0x3D

def QUERY_REPORT_TIMER : Nat := 0x3E

def QUERY_HYSTERESIS : Nat := 0x3F

/-- The special commands of `enum special_cmd`. -/
def TERMINATE : Nat := 0

def INITIALISE : Nat := 0x01

def RANDOMISE : Nat := 0x02

def COMPARE : Nat := 0x03

def WITHDRAW : Nat := 0x04

def SEARCHADDRH : Nat := 0x05

def SEARCHADDRM : Nat := 0x06

def SEARCHADDRL : Nat := 0x07

def PROGRAM_SHORT_ADDRESS : Nat := 0x08

def VERIFY_SHORT_ADDRESS : Nat := 0x09

def QUERY_SHORT_ADDRESS : Nat := 0x0A

def WRITE_MEMORY_LOCATION : Nat := 0x20

def WRITE_MEMORY_LOCATION_NO_REPLY : Nat := 0x21

def SET_DTR0 : Nat := 0x30

def SET_DTR1 : Nat := 0x31

def SET_DTR2 : Nat := 0x32

def SEND_TESTFRAME : Nat := 0x33

def DIRECT_WRITE_MEMORY : Nat := 0xC5

def DTR1_DTR0 : Nat := 0xC7

def DTR2_DTR1 : Nat := 0xC9

/-- The state of the application: the link layer, the memory module, the level
last written to the LED pin, and the globals of `dali_application.c` in the
order of their declaration (`uint8_t`, `uint16_t` and `uint32_t` values). -/
structure App where
  link : State
  mem : MemState
  ledPin : Nat
  searchAddress : Nat
  DTR0 : Nat
  DTR1 : Nat
  DTR2 : Nat
  quiescentMode : Nat
  writeEnableState : Nat
  powerCycleSeen : Nat
  initialisationState : Nat
  applicationControllerError : Nat
  inputDeviceError : Nat
  resetState : Nat
  deviceGroups : Nat
  randomAddress : Nat
  shortAddress : Nat
  numberOfInstances : Nat
  operatingMode : Nat
  applicationActive : Nat
  applicationControllerPresent : Nat
  applicationControllerAlwaysActive : Nat
  powerCycleNotification : Nat
  eventPriority : Nat
  versionNumber : Nat
  extendedVersionNumber : Nat
  deviceCapabilities : Nat
  deviceStatus : Nat
  inputValue : Nat
  instanceError : Nat
  instanceGroup0 : Nat
  instanceGroup1 : Nat
  instanceGroup2 : Nat
  instanceActive : Nat
  resolution : Nat
  eventFilter : Nat
  instanceNumber : Nat
  instanceType : Nat
  eventScheme : Nat
  instanceErrorByte : Nat
  hysteresisBand : Nat
  hysteresisBandHigh : Nat
  hysteresisBandLow : Nat
  tReport : Nat
  tDeadtime : Nat
  hysteresisMin : Nat
  hysteresis : Nat
  id_time : Nat
  isSecondFrame : Nat
  debug : Nat
  quiescent_time : Nat
  initialise_time : Nat
  report_time : Nat
  dead_time : Nat
  powerNoti_time : Nat
  powerNoti_flag : Nat
  previousFrame : Nat
  inputValue_latch : Nat
  inputValue_byte : Nat
  illuminance : Nat
  fullFrame : Nat
  backFrame : Nat
  inputValue_10b : Nat

/-- What one run of `DALI_ProcessRxData` reads that the modelled state does not
determine: the value of the local `frame` before it is assigned, the record
found at `rxData[-1]`, the counter of timer 6, the value the caller of
`dali_memory_write` finds when that function ended without a `return`
statement, and the content of the local array of `memory_write` before it is
assigned. -/
structure Env where
  frame : Nat
  record : DALIRxData
  tim6 : Nat
  writeResult : Nat
  junk : Nat → Nat

/-- The application state when `main` starts: the initialisers of
`dali_application.c`, zero for the globals without one, the LED pin low
(`MX_GPIO_Init`), the flash as it was left. -/
def bootApp (flash : Nat → Nat) : App :=
  { link := bootState, mem := bootMem flash, ledPin := 0,
    searchAddress := 0xFFFFFF, DTR0 := 0, DTR1 := 0, DTR2 := 0, quiescentMode := DISABLED,
    writeEnableState := DISABLED, powerCycleSeen := TRUE, initialisationState := DISABLED,
    applicationControllerError := FALSE, inputDeviceError := FALSE, resetState := TRUE,
    deviceGroups := 0, randomAddress := 0, shortAddress := 0, numberOfInstances := 0,
    operatingMode := 0, applicationActive := 0, applicationControllerPresent := 0,
    applicationControllerAlwaysActive := 0, powerCycleNotification := 0, eventPriority := 0,
    versionNumber := 0, extendedVersionNumber := 0, deviceCapabilities := 0, deviceStatus := 0,
    inputValue := 0, instanceError := FALSE, instanceGroup0 := 0, instanceGroup1 := 0,
    instanceGroup2 := 0, instanceActive := 0, resolution := 0, eventFilter := 0,
    instanceNumber := 0, instanceType := 0, eventScheme := 0, instanceErrorByte := 0,
    hysteresisBand := 0, hysteresisBandHigh := 0, hysteresisBandLow := 0, tReport := 0,
    tDeadtime := 0, hysteresisMin := 10, hysteresis := 5, id_time := 0, isSecondFrame := 0,
    debug := 0, quiescent_time := 0, initialise_time := 0, report_time := 0, dead_time := 0,
    powerNoti_time := 0, powerNoti_flag := 0, previousFrame := 0, inputValue_latch := 0,
    inputValue_byte := 0, illuminance := 0, fullFrame := 0, backFrame := 0,
    inputValue_10b := 0 }

/-! ## The application layer: helpers and special commands -/

/-- The bytes of a command frame: the struct `DALICmdFrame_t` laid over the
`uint32_t` frame (little-endian). -/
def opcode_byte (frame : Nat) : Nat :=
  frame % 256

def instance_byte (frame : Nat) : Nat :=
  frame / 256 % 256

def address_byte (frame : Nat) : Nat :=
  frame / 65536 % 256

/-- The macros `SET_BIT` and `CLEAR_BIT` on a `uint8_t` variable. -/
def SET_BIT (reg bit : Nat) : Nat :=
  reg ||| bit

def CLEAR_BIT (reg bit : Nat) : Nat :=
  reg &&& (0xFF ^^^ bit)

/-- The C operator `&&` on integers. -/
def logicalAnd (x y : Nat) : Nat :=
  if x ≠ 0 ∧ y ≠ 0 then 1 else 0

/-- A call of `DALISendData` by the application; the result is not used. -/
def appSendData (a : App) (data : DALITxData) : App :=
  { a with link := (DALISendData a.link data).1 }

/-- The reply `DALITxData_t data = {v, 1, 0, 1}; DALISendData(data);`. -/
def sendBackFrame (a : App) (v : Nat) : App :=
  appSendData a { frame := v, frameType := 1, sendTwice := 0, priority := 1 }

/-- A call of `DALIReceiveTwice` by the application. -/
def appReceiveTwice (a : App) : App :=
  { a with link := DALIReceiveTwice a.link }

/-- A call of `DALIConfigureMode(applicationActive)`. -/
def appConfigureMode (a : App) : App :=
  { a with link := DALIConfigureMode a.link a.applicationActive }

/-- `DALI_Save_Variable`: the page of the variables is erased and the
variables are stored as half-words. -/
def DALI_Save_Variable (a : App) : App :=
  let m := (erase_page a.mem MEMORY_NVM_VAR_ADDR).1
  let f := m.flash
  let f := write16 f (MEMORY_NVM_VAR_ADDR + 8) a.shortAddress
  let f := write16 f (MEMORY_NVM_VAR_ADDR + 0) (a.deviceGroups &&& 0xFFFF)
  let f := write16 f (MEMORY_NVM_VAR_ADDR + 2) ((a.deviceGroups >>> 16) &&& 0xFFFF)
  let f := write16 f (MEMORY_NVM_VAR_ADDR + 4) (a.randomAddress &&& 0xFFFF)
  let f := write16 f (MEMORY_NVM_VAR_ADDR + 6) ((a.randomAddress >>> 16) &&& 0xFFFF)
  let f := write16 f (MEMORY_NVM_VAR_ADDR + 10) a.operatingMode
  let f := write16 f (MEMORY_NVM_VAR_ADDR + 12) a.applicationActive
  let f := write16 f (MEMORY_NVM_VAR_ADDR + 14) a.powerCycleNotification
  let f := write16 f (MEMORY_NVM_VAR_ADDR + 16) a.eventPriority
  let f := write16 f (MEMORY_NVM_VAR_ADDR + 18) a.instanceGroup0
  let f := write16 f (MEMORY_NVM_VAR_ADDR + 20) a.instanceGroup1
  let f := write16 f (MEMORY_NVM_VAR_ADDR + 22) a.instanceGroup2
  let f := write16 f (MEMORY_NVM_VAR_ADDR + 24) a.instanceActive
  let f := write16 f (MEMORY_NVM_VAR_ADDR + 26) a.eventFilter
  let f := write16 f (MEMORY_NVM_VAR_ADDR + 28) a.eventScheme
  let f := write16 f (MEMORY_NVM_VAR_ADDR + 30) a.tReport
  let f := write16 f (MEMORY_NVM_VAR_ADDR + 32) a.tDeadtime
  let f := write16 f (MEMORY_NVM_VAR_ADDR + 34) a.hysteresisMin
  let f := write16 f (MEMORY_NVM_VAR_ADDR + 36) a.hysteresis
  { a with mem := { m with flash := f } }

/-- The value `DALI_Reset_Variables` gives `hysteresisMin` for a resolution;
`old` is kept if no branch applies. -/
def resetHysteresisMin (resolution old : Nat) : Nat :=
  if resolution ≤ 6 then 0
  else if resolution = 7 then 1
  else if resolution = 8 then 2
  else if resolution = 9 then 5
  else if resolution = 10 then 10
  else if resolution = 11 then 20
  else if resolution = 12 then 40
  else if resolution = 13 then 81
  else if resolution = 14 then 163
  else if resolution ≥ 15 then 255
  else old

/-- `DALI_Reset_Variables`. -/
def DALI_Reset_Variables (a : App) : App :=
  let a := { a with deviceGroups := 0, searchAddress := 0xFFFFFF, randomAddress := 0xFFFFFF,
                    quiescentMode := DISABLED, writeEnableState := DISABLED,
                    powerCycleSeen := FALSE, resetState := TRUE, instanceGroup0 := 0xFF,
                    instanceGroup1 := 0xFF, instanceGroup2 := 0xFF, eventPriority := 4,
                    eventScheme := 0 }
  if a.applicationActive ≠ 0 then DALI_Save_Variable { a with eventFilter := 0xFFFF }
  else
    DALI_Save_Variable { a with eventFilter := 1, tReport := 30, tDeadtime := 30, hysteresis := 5,
                                hysteresisMin := resetHysteresisMin a.resolution a.hysteresisMin }

/-- `DALI_Check_ResetState`. -/
def DALI_Check_ResetState (a : App) : App :=
  if a.resetState ≠ TRUE then
    if a.deviceGroups ≠ 0 ∨ a.searchAddress ≠ 0xFFFFFF ∨ a.instanceGroup0 ≠ 0xFF
        ∨ a.instanceGroup1 ≠ 0xFF ∨ a.instanceGroup2 ≠ 0xFF ∨ a.eventFilter ≠ 1
        ∨ a.eventScheme ≠ 0 ∨ a.eventPriority ≠ 4 ∨ a.tReport ≠ 30 ∨ a.tDeadtime ≠ 30
        ∨ a.hysteresisMin ≠ 10 ∨ a.hysteresis ≠ 5 then a
    else { a with resetState := TRUE }
  else a

/-- The text shared by the send-twice commands:
`if(frame != previousFrame) DALIReceiveTwice(); else { if(msg_ptr->rxSendTwicePossible == 1)
{ effect } isSecondFrame = 1; }`. -/
def sendTwiceCommand (a : App) (msg : DALIRxData) (frame : Nat) (effect : App → App) : App :=
  if frame ≠ a.previousFrame then appReceiveTwice a
  else if msg.rxSendTwicePossible = true then { effect a with isSecondFrame := 1 }
  else { a with isSecondFrame := 1 }

/-- The body shared by `WRITE_MEMORY_LOCATION` and `DIRECT_WRITE_MEMORY`:
`dali_memory_write`, and unless it reports 1 the back-frame and, if it reports
2, `memory_write`; then the increment of `DTR0` (`HAL_Delay` has no effect on
the state). -/
def writeMemoryReply (a : App) (env : Env) (data : Nat) : App :=
  let r := dali_memory_write a.mem a.DTR1 a.DTR0 data
  let error := r.2.getD (env.writeResult % 256)
  let a := { a with mem := r.1 }
  if error ≠ 1 then
    let a := sendBackFrame a data
    if error = 2 then
      let a := { a with mem := memory_write a.mem a.DTR1 a.DTR0 data env.junk }
      if a.DTR0 < 0xFF ∧ a.DTR1 = 189 then { a with DTR0 := a.DTR0 + 1 } else a
    else if a.DTR0 < 0xFF ∧ a.DTR1 = 189 then { a with DTR0 := a.DTR0 + 1 } else a
  else if a.DTR0 < 0xFF ∧ a.DTR1 = 189 then { a with DTR0 := a.DTR0 + 1 } else a

/-- The body of `WRITE_MEMORY_LOCATION_NO_REPLY`. -/
def writeMemoryNoReply (a : App) (env : Env) (data : Nat) : App :=
  let r := dali_memory_write a.mem a.DTR1 a.DTR0 data
  let error := r.2.getD (env.writeResult % 256)
  let a := { a with mem := r.1 }
  if error = 2 then
    let a := { a with mem := memory_write a.mem a.DTR1 a.DTR0 data env.junk }
    if a.DTR0 < 0xFF ∧ a.DTR1 = 189 then { a with DTR0 := a.DTR0 + 1 } else a
  else if a.DTR0 < 0xFF ∧ a.DTR1 = 189 then { a with DTR0 := a.DTR0 + 1 } else a

/-- The effect of `RANDOMISE`. -/
def randomise (a : App) (env : Env) : App :=
  let a := DALI_Save_Variable { a with randomAddress := env.tim6 * 250 % 4294967296 }
  if a.randomAddress ≠ 0xFFFFFF then { a with resetState := FALSE } else a

/-- The `while (repeat > 0)` loop of `SEND_TESTFRAME`. -/
def repeatSend (a : App) (data : DALITxData) : Nat → App
  | 0 => a
  | n + 1 => repeatSend (appSendData a data) data n

/-- The body of `SEND_TESTFRAME`. -/
def sendTestframe (a : App) (op : Nat) : App :=
  if op > 0x7F ∧ op &&& 0x07 ≤ 5 ∧ op &&& 0x07 ≥ 1
      ∧ (op &&& 0x20 = 0 ∨ a.applicationControllerPresent = TRUE) then
    let temp := if op &&& 0x20 = 0 then (a.DTR0 <<< 16) ||| (a.DTR1 <<< 8) ||| a.DTR2
                else (a.DTR0 <<< 8) ||| a.DTR1
    let a := appSendData a { frame := temp, frameType := 0, sendTwice := 0,
                             priority := op &&& 0x07 }
    repeatSend a { frame := temp, frameType := 0, sendTwice := 0,
                   priority := if op &&& 0x40 = 1 then 1 else 0 } ((op >>> 3) &&& 0x03)
  else a

/-- The `switch (cmd->instance_byte)` of the special commands (address byte
`0xC1`), without the two assignments that follow it. -/
def specialCommand (a : App) (env : Env) (msg : DALIRxData) (frame : Nat) : App :=
  let inst := instance_byte frame
  let op := opcode_byte frame
  if inst = TERMINATE then
    if op = 0 then { a with initialisationState := DISABLED, initialise_time := 0 } else a
  else if inst = INITIALISE then
    sendTwiceCommand a msg frame (fun a =>
      if (op = 0x7F ∧ a.shortAddress = 0xFF) ∨ op = 0xFF ∨ (op < 64 ∧ op = a.shortAddress) then
        { a with initialisationState := ENABLED, initialise_time := 15 }
      else a)
  else if inst = RANDOMISE then
    sendTwiceCommand a msg frame (fun a =>
      if a.initialisationState ≠ DISABLED ∧ op = 0 then randomise a env else a)
  else if inst = COMPARE then
    if a.initialisationState = ENABLED ∧ a.randomAddress ≤ a.searchAddress ∧ op = 0 then
      sendBackFrame a 0xFF
    else a
  else if inst = WITHDRAW then
    if a.initialisationState = ENABLED ∧ a.randomAddress = a.searchAddress ∧ op = 0 then
      { a with initialisationState := WITHDRAWN }
    else a
  else if inst = SEARCHADDRH then
    if a.initialisationState ≠ DISABLED then
      { a with searchAddress := ((op &&& 0xFF) <<< 16) ||| (a.searchAddress &&& 0xFFFF) }
    else a
  else if inst = SEARCHADDRM then
    if a.initialisationState ≠ DISABLED then
      { a with searchAddress := ((op &&& 0xFF) <<< 8) ||| (a.searchAddress &&& 0xFF00FF) }
    else a
  else if inst = SEARCHADDRL then
    if a.initialisationState ≠ DISABLED then
      { a with searchAddress := (op &&& 0xFF) ||| (a.searchAddress &&& 0xFFFF00) }
    else a
  else if inst = PROGRAM_SHORT_ADDRESS then
    if a.initialisationState ≠ DISABLED ∧ a.randomAddress = a.searchAddress ∧ op < 64 then
      DALI_Save_Variable { a with shortAddress := op }
    else a
  else if inst = VERIFY_SHORT_ADDRESS then
    if a.initialisationState ≠ DISABLED ∧ a.shortAddress = op then sendBackFrame a 0xFF else a
  else if inst = QUERY_SHORT_ADDRESS then
    if a.initialisationState ≠ DISABLED ∧ a.randomAddress = a.searchAddress ∧ op = 0 then
      sendBackFrame a a.shortAddress
    else a
  else if inst = WRITE_MEMORY_LOCATION then
    if a.writeEnableState = ENABLED then writeMemoryReply a env op else a
  else if inst = WRITE_MEMORY_LOCATION_NO_REPLY then
    if a.writeEnableState = ENABLED then writeMemoryNoReply a env op else a
  else if inst = SET_DTR0 then { a with DTR0 := op }
  else if inst = SET_DTR1 then { a with DTR1 := op }
  else if inst = SET_DTR2 then { a with DTR2 := op }
  else if inst = SEND_TESTFRAME then sendTestframe a op
  else a

/-! ## The application layer: device commands -/

/-- `case IDENTIFY_DEVICE`: the second copy lights the LED and starts the
identification time; `rxSendTwicePossible` is not looked at. -/
def identifyDevice (a : App) (frame : Nat) : App :=
  if frame ≠ a.previousFrame then appReceiveTwice a
  else { a with ledPin := 0, id_time := 10000, isSecondFrame := 1 }

/-- `case SET_OPERATING_MODE`: the assignment is commented out in the source. -/
def setOperatingMode (a : App) (frame : Nat) : App :=
  if frame ≠ a.previousFrame then appReceiveTwice a else { a with isSecondFrame := 1 }

/-- The effect of `SET_SHORT_ADDRESS`. -/
def setShortAddress (a : App) : App :=
  if a.DTR0 = 0xFF ∨ a.DTR0 < 0x40 then DALI_Save_Variable { a with shortAddress := a.DTR0 }
  else a

/-- The effect of `ENABLE_APPLICATION_CONTROLLER`. -/
def enableApplicationController (a : App) : App :=
  if a.applicationControllerPresent = TRUE then
    DALI_Save_Variable (appConfigureMode { a with applicationActive := TRUE })
  else a

/-- The effect of `DISABLE_APPLICATION_CONTROLLER`. -/
def disableApplicationController (a : App) : App :=
  if a.applicationControllerAlwaysActive = FALSE ∧ a.applicationControllerPresent = TRUE then
    DALI_Save_Variable (appConfigureMode { a with applicationActive := FALSE })
  else a

/-- The effect of the four commands that change `deviceGroups` to `groups`. -/
def setDeviceGroups (a : App) (groups : Nat) : App :=
  let a := DALI_Save_Variable { a with deviceGroups := groups }
  if a.deviceGroups ≠ 0 then { a with resetState := FALSE } else a

/-- The effect of `SET_EVENT_PRIORITY`. -/
def setEventPriority (a : App) : App :=
  if a.DTR0 > 1 ∧ a.DTR0 < 6 then
    let a := DALI_Save_Variable { a with eventPriority := a.DTR0 }
    if a.eventPriority ≠ 4 then { a with resetState := FALSE } else a
  else a

/-- `case QUERY_DEVICE_STATUS`. -/
def queryDeviceStatus (a : App) : App :=
  let st := a.deviceStatus
  let st := if a.applicationActive ≠ 0 then SET_BIT st APP_ACTIVE else CLEAR_BIT st APP_ACTIVE
  let st := if a.inputDeviceError ≠ 0 then SET_BIT st INPUT_DEVICE_ERROR
            else CLEAR_BIT st INPUT_DEVICE_ERROR
  let st := if a.quiescentMode ≠ 0 then SET_BIT st QUIESCENT_MODE
            else CLEAR_BIT st QUIESCENT_MODE
  let st := if a.shortAddress = 0xFF then SET_BIT st SHORT_ADDRESS
            else CLEAR_BIT st SHORT_ADDRESS
  let st := if a.applicationControllerError ≠ 0 then SET_BIT st APP_CONTROLLER_ERROR
            else CLEAR_BIT st APP_CONTROLLER_ERROR
  let st := if a.powerCycleSeen ≠ 0 then SET_BIT st POWER_CYCLE_SEEN
            else CLEAR_BIT st POWER_CYCLE_SEEN
  let st := if a.resetState ≠ 0 then SET_BIT st RESET_STATE else CLEAR_BIT st RESET_STATE
  sendBackFrame { a with deviceStatus := st } st

/-- `case QUERY_DEVICE_CAPABILITIES`. -/
def queryDeviceCapabilities (a : App) : App :=
  let c := a.deviceCapabilities
  let c := if a.applicationControllerAlwaysActive ≠ 0 then SET_BIT c CONTROLLER_ALWAYS_ACTIVE
           else CLEAR_BIT c CONTROLLER_ALWAYS_ACTIVE
  let c := if a.applicationControllerPresent ≠ 0 then SET_BIT c CONTROLLER_PRESENT
           else CLEAR_BIT c CONTROLLER_PRESENT
  let c := if a.numberOfInstances > 0 then SET_BIT c INSTANCE_PRESENT
           else CLEAR_BIT c INSTANCE_PRESENT
  sendBackFrame { a with deviceCapabilities := c } c

/-- `case READ_MEMORY_LOCATION`. -/
def readMemoryLocation (a : App) : App :=
  match dali_memory_read a.mem a.DTR1 a.DTR0 with
  | some v =>
    let a := sendBackFrame a v
    if a.DTR0 < 0xFF then { a with DTR0 := a.DTR0 + 1 } else a
  | none =>
    if a.DTR1 = 0 ∨ a.DTR1 = 189 then { a with DTR0 := (a.DTR0 + 1) % 256 } else a

/-- `case QUERY_VERSION_NUMBER`. -/
def queryVersionNumber (a : App) : App :=
  match dali_memory_read a.mem 0 0x17 with
  | some v => sendBackFrame a v
  | none => a

/-- The device commands (instance byte `0xFE`): the `switch (cmd->opcode_byte)`;
the second component is the local `memory_related` after it. -/
def deviceCommand (a : App) (msg : DALIRxData) (frame : Nat) : App × Nat :=
  let op := opcode_byte frame
  if op = IDENTIFY_DEVICE then (identifyDevice a frame, 0)
  else if op = RESET_POWER_CYCLE_SEEN then
    (sendTwiceCommand a msg frame (fun a => { a with powerCycleSeen := FALSE }), 0)
  else if op = RESET_VARIABLE then (sendTwiceCommand a msg frame DALI_Reset_Variables, 0)
  else if op = RESET_MEMORY_BANK then
    ({ a with mem := dali_memory_reset a.mem a.DTR0 }, 0)
  else if op = SET_SHORT_ADDRESS then (sendTwiceCommand a msg frame setShortAddress, 0)
  else if op = ENABLE_WRITE_MEMORY then
    (sendTwiceCommand a msg frame (fun a => { a with writeEnableState := ENABLED }),
     if frame = a.previousFrame ∧ msg.rxSendTwicePossible = true then 1 else 0)
  else if op = ENABLE_APPLICATION_CONTROLLER then
    (sendTwiceCommand a msg frame enableApplicationController, 0)
  else if op = DISABLE_APPLICATION_CONTROLLER then
    (sendTwiceCommand a msg frame disableApplicationController, 0)
  else if op = SET_OPERATING_MODE then (setOperatingMode a frame, 0)
  else if op = ADD_TO_DEVICE_GROUPS_0_15 then
    (sendTwiceCommand a msg frame (fun a =>
      setDeviceGroups a (a.deviceGroups ||| (a.DTR2 <<< 8) ||| a.DTR1)), 0)
  else if op = ADD_TO_DEVICE_GROUPS_16_31 then
    (sendTwiceCommand a msg frame (fun a =>
      setDeviceGroups a (a.deviceGroups ||| (a.DTR2 <<< 24) ||| (a.DTR1 <<< 16))), 0)
  else if op = REMOVE_FROM_DEVICE_GROUPS_0_15 then
    (sendTwiceCommand a msg frame (fun a =>
      setDeviceGroups a (a.deviceGroups &&& (0xFFFFFFFF ^^^ (a.DTR2 <<< 8))
        &&& (0xFFFFFFFF ^^^ a.DTR1))), 0)
  else if op = REMOVE_FROM_DEVICE_GROUPS_16_31 then
    (sendTwiceCommand a msg frame (fun a =>
      setDeviceGroups a (a.deviceGroups &&& (0xFFFFFFFF ^^^ (a.DTR2 <<< 24))
        &&& (0xFFFFFFFF ^^^ (a.DTR1 <<< 16)))), 0)
  else if op = START_QUIESCENT_MODE then
    (sendTwiceCommand a msg frame (fun a =>
      { a with quiescentMode := ENABLED, quiescent_time := 15 }), 0)
  else if op = STOP_QUIESCENT_MODE then
    (sendTwiceCommand a msg frame (fun a =>
      { a with quiescentMode := DISABLED, quiescent_time := 0 }), 0)
  else if op = ENABLE_POWER_CYCLE_NOTIFICATION then
    (sendTwiceCommand a msg frame (fun a =>
      DALI_Save_Variable { a with powerCycleNotification := ENABLED }), 0)
  else if op = DISABLE_POWER_CYCLE_NOTIFICATION then
    (sendTwiceCommand a msg frame (fun a =>
      DALI_Save_Variable { a with powerCycleNotification := DISABLED }), 0)
  else if op = SAVE_PERSISTENT_VARIABLES then
    (sendTwiceCommand a msg frame DALI_Save_Variable, 0)
  else if op = QUERY_DEVICE_STATUS then (queryDeviceStatus a, 0)
  else if op = QUERY_DEVICE_CAPABILITIES then (queryDeviceCapabilities a, 0)
  else if op = QUERY_APPLICATION_CONTROLLER_ERROR then (a, 0)
  else if op = QUERY_INPUT_DEVICE_ERROR then
    (if a.instanceError ≠ 0 then sendBackFrame a a.instanceError else a, 0)
  else if op = QUERY_MISSING_SHORT_ADDRESS then
    (if a.shortAddress = 0xFF then sendBackFrame a 0xFF else a, 0)
  else if op = QUERY_VERSION_NUMBER then (queryVersionNumber a, 0)
  else if op = QUERY_CONTENT_DTR0 then (sendBackFrame a a.DTR0, 1)
  else if op = QUERY_CONTENT_DTR1 then (sendBackFrame a a.DTR1, 1)
  else if op = QUERY_CONTENT_DTR2 then (sendBackFrame a a.DTR2, 1)
  else if op = QUERY_NUMBER_OF_INSTANCES then (sendBackFrame a a.numberOfInstances, 0)
  else if op = QUERY_RANDOM_ADDRESS_H then
    (sendBackFrame a ((a.randomAddress >>> 16) &&& 0xFF), 0)
  else if op = QUERY_RANDOM_ADDRESS_M then
    (sendBackFrame a ((a.randomAddress >>> 8) &&& 0xFF), 0)
  else if op = QUERY_RANDOM_ADDRESS_L then (sendBackFrame a (a.randomAddress &&& 0xFF), 0)
  else if op = READ_MEMORY_LOCATION then (readMemoryLocation a, 0)
  else if op = QUERY_APPLICATION_CONTROLLER_ENABLED then
    (if a.applicationActive ≠ 0 then sendBackFrame a 0xFF else a, 0)
  else if op = QUERY_OPERATING_MODE then (sendBackFrame a a.operatingMode, 0)
  else if op = QUERY_MANUFACTURER_SPECIFIC_MODE then
    (if a.operatingMode > 0x80 then sendBackFrame a 0xFF else a, 0)
  else if op = QUERY_QUIESCENT_MODE then
    (if a.quiescentMode ≠ 0 then sendBackFrame a 0xFF else a, 0)
  else if op = QUERY_DEVICE_GROUPS_0_7 then (sendBackFrame a (a.deviceGroups &&& 0xFF), 0)
  else if op = QUERY_DEVICE_GROUPS_8_15 then
    (sendBackFrame a ((a.deviceGroups >>> 8) &&& 0xFF), 0)
  else if op = QUERY_DEVICE_GROUPS_16_23 then
    (sendBackFrame a ((a.deviceGroups >>> 16) &&& 0xFF), 0)
  else if op = QUERY_DEVICE_GROUPS_24_31 then
    (sendBackFrame a ((a.deviceGroups >>> 24) &&& 0xFF), 0)
  else if op = QUERY_POWER_CYCLE_NOTIFICATION then
    (if a.powerCycleNotification ≠ 0 then sendBackFrame a 0xFF else a, 0)
  else if op = QUERY_EXTENDED_VERSION_NUMBER then
    (if a.DTR0 = 4 then sendBackFrame a a.extendedVersionNumber else a, 0)
  else if op = QUERY_RESET_STATE then
    (if (DALI_Check_ResetState a).resetState ≠ 0 then sendBackFrame (DALI_Check_ResetState a) 0xFF
     else DALI_Check_ResetState a, 0)
  else if op = QUERY_APPLICATION_CONTROLLER_ALWAYS_ACTIVE then
    (if a.applicationControllerAlwaysActive ≠ 0 then sendBackFrame a 0xFF else a, 0)
  else if op = SET_EVENT_PRIORITY then (sendTwiceCommand a msg frame setEventPriority, 0)
  else if op = QUERY_EVENT_PRIORITY then (sendBackFrame a a.eventPriority, 0)
  else (a, 0)

/-! ## The application layer: instance commands and `DALI_ProcessRxData` -/

/-- The effect of `SET_PRIMARY_INSTANCE_GROUP`. -/
def setInstanceGroup0 (a : App) : App :=
  if a.DTR0 < 32 ∨ a.DTR0 = 0xFF then
    let a := DALI_Save_Variable { a with instanceGroup0 := a.DTR0 }
    if a.instanceGroup0 ≠ 0xFF then { a with resetState := FALSE } else a
  else a

/-- The effect of `SET_INSTANCE_GROUP_1`. -/
def setInstanceGroup1 (a : App) : App :=
  if a.DTR0 < 32 ∨ a.DTR0 = 0xFF then
    let a := DALI_Save_Variable { a with instanceGroup1 := a.DTR0 }
    if a.instanceGroup1 ≠ 0xFF then { a with resetState := FALSE } else a
  else a

/-- The effect of `SET_INSTANCE_GROUP_2`. -/
def setInstanceGroup2 (a : App) : App :=
  if a.DTR0 < 32 ∨ a.DTR0 = 0xFF then
    let a := DALI_Save_Variable { a with instanceGroup2 := a.DTR0 }
    if a.instanceGroup2 ≠ 0xFF then { a with resetState := FALSE } else a
  else a

/-- The effect of `SET_EVENT_SCHEME`. -/
def setEventScheme (a : App) : App :=
  if a.DTR0 < 5 then
    let a := DALI_Save_Variable { a with eventScheme := a.DTR0 }
    if a.eventScheme ≠ 0 then { a with resetState := FALSE } else a
  else a

/-- The effect of `SET_EVENT_FILTER`; `eventFilter` is a `uint16_t`. -/
def setEventFilter (a : App) : App :=
  if a.applicationActive ≠ 0 then
    let a := DALI_Save_Variable
      { a with eventFilter := ((a.DTR2 <<< 16) ||| (a.DTR1 <<< 8) ||| a.DTR0) % 65536 }
    if a.eventFilter ≠ 0xFFFFFF then { a with resetState := FALSE } else a
  else if a.DTR0 < 2 then
    let a := DALI_Save_Variable { a with eventFilter := a.DTR0 }
    if a.eventFilter ≠ 1 then { a with resetState := FALSE } else a
  else if a.eventFilter ≠ 1 then { a with resetState := FALSE } else a

/-- The effect of `SET_REPORT_TIMER`. -/
def setReportTimer (a : App) : App :=
  let a := { a with tReport := a.DTR0 }
  if a.tReport ≠ 30 then { a with resetState := FALSE } else a

/-- The effect of `SET_HYSTERESIS`. -/
def setHysteresis (a : App) : App :=
  if a.DTR0 ≤ 25 then
    let a := { a with hysteresis := a.DTR0 }
    if a.hysteresis ≠ 5 then { a with resetState := FALSE } else a
  else a

/-- The effect of `SET_DEADTIME_TIMER`. -/
def setDeadtimeTimer (a : App) : App :=
  let a := { a with tDeadtime := a.DTR0 }
  if a.tDeadtime ≠ 30 then { a with resetState := FALSE } else a

/-- The effect of `SET_HYSTERESIS_MIN`. -/
def setHysteresisMin (a : App) : App :=
  let a := { a with hysteresisMin := a.DTR0 }
  if a.hysteresisMin ≠ 10 then { a with resetState := FALSE } else a

/-- `case QUERY_INPUT_VALUE`: the value is latched and its highest byte sent;
`inputValue_byte` is a `uint8_t`. In C the shift is only defined for a shift
count below 32. -/
def queryInputValue (a : App) : App :=
  let a := { a with inputValue_latch := a.inputValue,
                    inputValue_byte := ((a.resolution + 7) / 8 + 255) % 256 }
  sendBackFrame a ((a.inputValue_latch >>> (a.inputValue_byte * 8)) &&& 0xFF)

/-- `case QUERY_INPUT_VALUE_LATCH`. -/
def queryInputValueLatch (a : App) : App :=
  if a.inputValue_byte ≠ 0 then
    let a := { a with inputValue_byte := a.inputValue_byte - 1 }
    sendBackFrame a ((a.inputValue_latch >>> (a.inputValue_byte * 8)) &&& 0xFF)
  else a

/-- The condition under which a command that is not a device command is taken
as an instance command (lines 1052-1055). -/
def instanceMatch (a : App) (inst : Nat) : Prop :=
  inst = 0xFF ∨ inst = a.instanceNumber ∨ inst = 0xC0 + a.instanceType
  ∨ (a.instanceGroup0 < 0xFF ∧ inst = a.instanceGroup0 + 0x80)
  ∨ (a.instanceGroup1 < 0xFF ∧ inst = a.instanceGroup2 + 0x80)
  ∨ (a.instanceGroup2 < 0xFF ∧ inst = a.instanceGroup1 + 0x80)

instance (a : App) (inst : Nat) : Decidable (instanceMatch a inst) := by
  unfold instanceMatch
  infer_instance

/-- The instance commands: the `switch (cmd->opcode_byte)` of lines 1058-1416. -/
def instanceCommand (a : App) (msg : DALIRxData) (frame : Nat) : App :=
  let op := opcode_byte frame
  if op = ENABLE_INSTANCE then
    sendTwiceCommand a msg frame (fun a => DALI_Save_Variable { a with instanceActive := TRUE })
  else if op = DISABLE_INSTANCE then
    sendTwiceCommand a msg frame (fun a => DALI_Save_Variable { a with instanceActive := FALSE })
  else if op = SET_PRIMARY_INSTANCE_GROUP then sendTwiceCommand a msg frame setInstanceGroup0
  else if op = SET_INSTANCE_GROUP_1 then sendTwiceCommand a msg frame setInstanceGroup1
  else if op = SET_INSTANCE_GROUP_2 then sendTwiceCommand a msg frame setInstanceGroup2
  else if op = SET_EVENT_PRIORITY then sendTwiceCommand a msg frame setEventPriority
  else if op = SET_EVENT_SCHEME then sendTwiceCommand a msg frame setEventScheme
  else if op = SET_EVENT_FILTER then sendTwiceCommand a msg frame setEventFilter
  else if op = QUERY_INSTANCE_TYPE then sendBackFrame a a.instanceType
  else if op = QUERY_RESOLUTION then sendBackFrame a a.resolution
  else if op = QUERY_INSTANCE_STATUS then
    sendBackFrame a (((a.instanceError <<< 7) ||| (a.instanceActive <<< 6)) % 256)
  else if op = QUERY_INSTANCE_ENABLED then
    if a.instanceActive = TRUE then sendBackFrame a 0xFF else a
  else if op = QUERY_PRIMARY_INSTANCE_GROUP then sendBackFrame a a.instanceGroup0
  else if op = QUERY_INSTANCE_GROUP_1 then sendBackFrame a a.instanceGroup1
  else if op = QUERY_INSTANCE_GROUP_2 then sendBackFrame a a.instanceGroup2
  else if op = QUERY_EVENT_SCHEME then sendBackFrame a a.eventScheme
  else if op = QUERY_INPUT_VALUE then queryInputValue a
  else if op = QUERY_INPUT_VALUE_LATCH then queryInputValueLatch a
  else if op = QUERY_EVENT_PRIORITY then sendBackFrame a a.eventPriority
  else if op = QUERY_EVENT_FILTER_0_7 then sendBackFrame a (a.eventFilter &&& 0xFF)
  else if op = QUERY_EVENT_FILTER_8_15 then sendBackFrame a ((a.eventFilter >>> 8) &&& 0xFF)
  else if op = QUERY_EVENT_FILTER_16_23 then sendBackFrame a ((a.eventFilter >>> 16) &&& 0xFF)
  else if op = SET_REPORT_TIMER then sendTwiceCommand a msg frame setReportTimer
  else if op = SET_HYSTERESIS then sendTwiceCommand a msg frame setHysteresis
  else if op = SET_DEADTIME_TIMER then sendTwiceCommand a msg frame setDeadtimeTimer
  else if op = SET_HYSTERESIS_MIN then sendTwiceCommand a msg frame setHysteresisMin
  else if op = QUERY_DEADTIME_TIMER then sendBackFrame a a.tDeadtime
  else if op = QUERY_INSTANCE_ERROR then
    if a.instanceError ≠ 0 then sendBackFrame a a.instanceError else a
  else if op = QUERY_REPORT_TIMER then sendBackFrame a a.tReport
  else if op = QUERY_HYSTERESIS then sendBackFrame a a.hysteresis
  else if op = QUERY_HYSTERESIS_MIN then sendBackFrame a a.hysteresisMin
  else a

/-- The two assignments at the end of `DALI_ProcessRxData`
(`previousFrame = (isSecondFrame) ? 0 : frame; isSecondFrame = 0;`). -/
def rememberFrame (a : App) (frame : Nat) : App :=
  { a with previousFrame := if a.isSecondFrame ≠ 0 then 0 else frame, isSecondFrame := 0 }

/-- The part of `DALI_ProcessRxData` after the address check (lines 477-1421
and the end of the function): device command, instance command or neither,
then the write-enable state is cleared unless the command was memory related. -/
def addressedCommand (a : App) (msg : DALIRxData) (frame : Nat) : App :=
  if instance_byte frame = 0xFE then
    let r := deviceCommand a msg frame
    if r.2 = 0 then rememberFrame { r.1 with writeEnableState := DISABLED } frame
    else rememberFrame r.1 frame
  else if instanceMatch a (instance_byte frame) then
    rememberFrame { instanceCommand a msg frame with writeEnableState := DISABLED } frame
  else rememberFrame { a with writeEnableState := DISABLED } frame

/-- A command frame (bit 16 set), lines 239-1422: the check of the address
byte with its four `return`s, the special commands and the three direct
memory commands, and then the addressed commands. -/
def commandFrame (a : App) (env : Env) (msg : DALIRxData) (frame : Nat) : App :=
  let addr := address_byte frame
  if addr < 0x80 then
    if addr ≠ a.shortAddress * 2 + 1 then a else addressedCommand a msg frame
  else if addr < 0xC0 then
    if logicalAnd a.deviceGroups (1 <<< ((addr >>> 1) &&& 0x1F)) = 0 then a
    else addressedCommand a msg frame
  else if addr = 0xFD then
    if a.shortAddress ≠ 0xFF then a else addressedCommand a msg frame
  else if addr > 0xE0 ∧ addr < 0xFD then a
  else if addr = 0xC1 then rememberFrame (specialCommand a env msg frame) frame
  else if addr = DIRECT_WRITE_MEMORY then
    if a.writeEnableState = ENABLED then
      { writeMemoryReply { a with DTR0 := instance_byte frame } env (opcode_byte frame) with
        previousFrame := frame }
    else { a with previousFrame := frame }
  else if addr = DTR1_DTR0 then
    { a with DTR1 := instance_byte frame, DTR0 := opcode_byte frame, previousFrame := frame }
  else if addr = DTR2_DTR1 then
    { a with DTR2 := instance_byte frame, DTR1 := opcode_byte frame, previousFrame := frame }
  else addressedCommand a msg frame

/-- The `switch (debug)` of `DALI_ProcessRxData`. -/
def nextDebug (debug : Nat) : Nat :=
  if debug = 0 then 1 else if debug = 1 then 2 else if debug = 2 then 3
  else if debug = 3 then 4 else if debug = 4 then 5 else if debug = 5 then 6
  else if debug = 6 then 0 else debug

/-- `DALI_ProcessRxData`. The record is the one `DALIReceiveData` returns, or
`env.record` when that function reads outside the array; for a record that is
not a valid forward frame the local `frame` is never assigned and the last
assignment stores `env.frame`. -/
def DALI_ProcessRxData (a : App) (env : Env) : App :=
  if DALIDataAvailable a.link = true then
    let r := DALIReceiveData a.link
    let msg := r.2.getD env.record
    let a := { a with link := r.1, debug := nextDebug a.debug }
    if msg.rxDone = true ∧ msg.rxError = DALIRxError_t.NO_ERROR then
      if msg.frameType = false then
        if msg.frame &&& 0x010000 > 0 then commandFrame a env msg msg.frame
        else rememberFrame a msg.frame
      else rememberFrame { a with backFrame := msg.frame &&& 0xFF } env.frame
    else rememberFrame a env.frame
  else a

/-! ## The application layer: initialisation and events -/

/-- One line of `DALI_AppInit`, `if(x_NVM == BLANK_16) x_NVM = v;`, for the
half-word at `addr`: its two bytes are replaced if they read `0xFFFF`. The
test stands under the comparison of the address, so that a read of another
address does not evaluate it. -/
def defaultIfBlank (f : Nat → Nat) (addr v : Nat) : Nat → Nat :=
  fun x =>
    if x = addr ∨ x = addr + 1 then
      if read16 f addr = BLANK_16 then write16 f addr v x else f x
    else f x

/-- The first two tests of `DALI_AppInit`, `if(x_NVM == BLANK_32)` followed by
two half-word stores, for the word at `addr`. -/
def defaultIfBlank32 (f : Nat → Nat) (addr lo hi : Nat) : Nat → Nat :=
  fun x =>
    if addr ≤ x ∧ x < addr + 4 then
      if read32 f addr = BLANK_32 then write16 (write16 f addr lo) (addr + 2) hi x else f x
    else f x

/-- The defaults `DALI_AppInit` writes to the two variable pages where they are
blank (lines 96-156). -/
def initNVM (f : Nat → Nat) : Nat → Nat :=
  let f := defaultIfBlank32 f (MEMORY_NVM_VAR_ADDR + 0) 0 0
  let f := defaultIfBlank32 f (MEMORY_NVM_VAR_ADDR + 4) 0xFFFF 0xFF
  let f := defaultIfBlank f (MEMORY_NVM_VAR_ADDR + 8) BLANK_8
  let f := defaultIfBlank f (MEMORY_NVM_VAR_ADDR + 10) 0
  let f := defaultIfBlank f (MEMORY_NVM_VAR_ADDR + 12) FALSE
  let f := defaultIfBlank f (MEMORY_NVM_VAR_ADDR + 14) DISABLED
  let f := defaultIfBlank f (MEMORY_NVM_VAR_ADDR + 16) 4
  let f := defaultIfBlank f (MEMORY_ROM_VAR_ADDR + 0) 1
  let f := defaultIfBlank f (MEMORY_ROM_VAR_ADDR + 2) FALSE
  let f := defaultIfBlank f (MEMORY_ROM_VAR_ADDR + 4) FALSE
  let f := defaultIfBlank f (MEMORY_ROM_VAR_ADDR + 6) 9
  let f := defaultIfBlank f (MEMORY_ROM_VAR_ADDR + 8) 8
  let f := defaultIfBlank f (MEMORY_NVM_VAR_ADDR + 18) BLANK_8
  let f := defaultIfBlank f (MEMORY_NVM_VAR_ADDR + 20) BLANK_8
  let f := defaultIfBlank f (MEMORY_NVM_VAR_ADDR + 22) BLANK_8
  let f := defaultIfBlank f (MEMORY_NVM_VAR_ADDR + 24) TRUE
  let f := defaultIfBlank f (MEMORY_NVM_VAR_ADDR + 26) 1
  let f := defaultIfBlank f (MEMORY_NVM_VAR_ADDR + 28) 0
  let f := defaultIfBlank f (MEMORY_ROM_VAR_ADDR + 10) 4
  let f := defaultIfBlank f (MEMORY_ROM_VAR_ADDR + 12) 10
  let f := defaultIfBlank f (MEMORY_ROM_VAR_ADDR + 14) 1
  let f := defaultIfBlank f (MEMORY_NVM_VAR_ADDR + 30) 30
  let f := defaultIfBlank f (MEMORY_NVM_VAR_ADDR + 32) 30
  let f := defaultIfBlank f (MEMORY_NVM_VAR_ADDR + 34) 10
  defaultIfBlank f (MEMORY_NVM_VAR_ADDR + 36) 5

/-- `DALI_AppInit`: the link layer and the memory banks are initialised, blank
variables receive their defaults, and the variables are loaded from flash. -/
def DALI_AppInit (a : App) : App :=
  let m := dali_memory_init a.mem
  let f := initNVM m.flash
  let a := { a with
    link := DALIInit a.link,
    mem := { m with flash := f },
    shortAddress := read16 f (MEMORY_NVM_VAR_ADDR + 8),
    deviceGroups := read32 f (MEMORY_NVM_VAR_ADDR + 0),
    searchAddress := 0xFFFFFF,
    randomAddress := read32 f (MEMORY_NVM_VAR_ADDR + 4),
    numberOfInstances := read16 f (MEMORY_ROM_VAR_ADDR + 0),
    operatingMode := read16 f (MEMORY_NVM_VAR_ADDR + 10),
    applicationActive := read16 f (MEMORY_NVM_VAR_ADDR + 12),
    applicationControllerPresent := read16 f (MEMORY_ROM_VAR_ADDR + 2),
    applicationControllerAlwaysActive := read16 f (MEMORY_ROM_VAR_ADDR + 4),
    powerCycleNotification := read16 f (MEMORY_NVM_VAR_ADDR + 14),
    eventPriority := read16 f (MEMORY_NVM_VAR_ADDR + 16),
    versionNumber := read16 f (MEMORY_ROM_VAR_ADDR + 6),
    instanceGroup0 := read16 f (MEMORY_NVM_VAR_ADDR + 18),
    instanceGroup1 := read16 f (MEMORY_NVM_VAR_ADDR + 20),
    instanceGroup2 := read16 f (MEMORY_NVM_VAR_ADDR + 22),
    instanceActive := read16 f (MEMORY_NVM_VAR_ADDR + 24),
    instanceType := read16 f (MEMORY_ROM_VAR_ADDR + 10),
    resolution := read16 f (MEMORY_ROM_VAR_ADDR + 12),
    instanceNumber := read16 f (MEMORY_ROM_VAR_ADDR + 14),
    eventFilter := read16 f (MEMORY_NVM_VAR_ADDR + 26),
    eventScheme := read16 f (MEMORY_NVM_VAR_ADDR + 28),
    quiescent_time := 0,
    initialise_time := 0,
    tReport := read16 f (MEMORY_NVM_VAR_ADDR + 30),
    tDeadtime := read16 f (MEMORY_NVM_VAR_ADDR + 32),
    hysteresisMin := read16 f (MEMORY_NVM_VAR_ADDR + 34),
    hysteresis := read16 f (MEMORY_NVM_VAR_ADDR + 36) }
  let a := if a.powerCycleNotification = ENABLED then { a with powerNoti_time := 1200 } else a
  appConfigureMode a

/-- The application after the initialisation in `main`: `DALI_AppInit` and
then `writePin(LED_Pin, 1)`. -/
def initialApp (flash : Nat → Nat) : App :=
  { DALI_AppInit (bootApp flash) with ledPin := 1 }

/-- The loop `while(temp % 2 == 0) { temp = temp >> 1; count++; }` of
`DALI_SendEvent` and `DALI_Send_PowerCycleEvent`; `count` is a `uint8_t`. For
`temp ≠ 0` below `2^32` at most 31 iterations are made; for `temp = 0` the C
loop does not end. -/
def lowestGroup : Nat → Nat → Nat → Nat
  | 0, _, count => count
  | fuel + 1, temp, count =>
    if temp % 2 = 0 then lowestGroup fuel (temp >>> 1) ((count + 1) % 256) else count

/-- The event frame of `DALI_SendEvent` (the `switch (eventScheme)`); for a
scheme above 4 the local `frame` is not assigned and holds `junk`. -/
def eventFrame (a : App) (junk : Nat) : Nat :=
  if a.eventScheme = 0 then
    0x800000 ||| ((a.instanceType <<< 17) &&& 0x3E0000) ||| 0x8000
      ||| ((a.instanceNumber <<< 10) &&& 0x7C00) ||| ((a.inputValue >>> 6) &&& 0x3FF)
  else if a.eventScheme = 1 then
    ((a.shortAddress <<< 17) &&& 0x7E0000) ||| ((a.instanceType <<< 10) &&& 0x7C00)
      ||| ((a.inputValue >>> 6) &&& 0x3FF)
  else if a.eventScheme = 2 then
    ((a.shortAddress <<< 17) &&& 0x7E0000) ||| 0x8000 ||| ((a.instanceNumber <<< 10) &&& 0x7C00)
      ||| ((a.inputValue >>> 6) &&& 0x3FF)
  else if a.eventScheme = 3 then
    0x800000 ||| ((lowestGroup 32 a.deviceGroups 1 <<< 17) &&& 0x3E0000)
      ||| ((a.instanceType <<< 10) &&& 0x7C00) ||| ((a.inputValue >>> 6) &&& 0x3FF)
  else if a.eventScheme = 4 then
    0xC00000 ||| ((a.instanceGroup0 <<< 17) &&& 0x3E0000) ||| ((a.instanceType <<< 10) &&& 0x7C00)
      ||| ((a.inputValue >>> 6) &&& 0x3FF)
  else junk

/-- The second half of `DALI_SendEvent` (lines 1477-1502): an event is sent
when the input value has left the hysteresis band or the report time has
expired. `report_time` and `dead_time` are `uint16_t`; the product
`hysteresis * inputValue` is taken exactly (the C product of two `uint16_t`
is an `int`, exact below `2^31`). -/
def reportEvent (a : App) (frame : Nat) : App :=
  if a.inputValue > a.hysteresisBandHigh ∨ a.inputValue < a.hysteresisBandLow then
    let a := appSendData a { frame := frame, frameType := 0, sendTwice := 0, priority := 4 }
    let band := if a.hysteresisMin > a.hysteresis * a.inputValue / 100 then a.hysteresisMin
                else a.hysteresis * a.inputValue / 100
    if a.inputValue > a.hysteresisBandHigh then
      { a with hysteresisBand := band, hysteresisBandHigh := a.inputValue,
               hysteresisBandLow := if a.inputValue > band then a.inputValue - band else 0,
               report_time := a.tReport * 1000 % 65536, dead_time := a.tDeadtime * 50 % 65536 }
    else
      { a with hysteresisBand := band, hysteresisBandLow := a.inputValue,
               hysteresisBandHigh := (a.inputValue + band) % 4294967296,
               report_time := a.tReport * 1000 % 65536, dead_time := a.tDeadtime * 50 % 65536 }
  else if a.report_time = 0 ∧ a.tReport ≠ 0 then
    let a := appSendData a { frame := frame, frameType := 0, sendTwice := 0, priority := 4 }
    { a with report_time := a.tReport * 1000 % 65536, dead_time := a.tDeadtime * 50 % 65536 }
  else a

/-- `DALI_SendEvent`; `junk` is the value of the local `frame` before it is
assigned. -/
def DALI_SendEvent (a : App) (junk : Nat) : App :=
  if a.applicationActive = FALSE ∧ a.quiescentMode = FALSE ∧ a.dead_time = 0
      ∧ a.eventFilter % 2 = 1 ∧ a.instanceActive = TRUE ∧ a.instanceError = FALSE then
    if ((a.eventScheme = 1 ∨ a.eventScheme = 2) ∧ a.shortAddress = 0xFF)
        ∨ (a.eventScheme = 3 ∧ a.deviceGroups = 0)
        ∨ (a.eventScheme = 4 ∧ a.instanceGroup0 = 0xFF) then
      reportEvent (DALI_Save_Variable { a with eventScheme := 0 })
        (eventFrame (DALI_Save_Variable { a with eventScheme := 0 }) junk)
    else reportEvent a (eventFrame a junk)
  else a

/-- The macros `calibrationOffset` and `calibrationScale`: bytes of bank 189. -/
def calibrationOffset (m : MemState) : Nat :=
  read8 m.flash (MEMORY_BANK_189_ADDR + calibrationOffset_addr)

def calibrationScale (m : MemState) : Nat :=
  read8 m.flash (MEMORY_BANK_189_ADDR + calibrationScale_addr)

/-- The first line of `DALI_Set_inputValue`, in `uint32_t` arithmetic and
stored in a `uint16_t`. The C division is undefined for a divisor 0, where
this definition gives 0. -/
def scaleInput (offset scale adcVal : Nat) : Nat :=
  (1000 * ((adcVal + 4294967296 - offset) % 4294967296) % 4294967296
    / ((16 * scale + 4294967296 - offset) % 4294967296)) % 65536

/-- The second line of `DALI_Set_inputValue`. -/
def alignInput (v : Nat) : Nat :=
  ((v <<< 10) &&& 0xFC00) ||| (v &&& 0x3FF)

/-- `DALI_Set_inputValue`. -/
def DALI_Set_inputValue (a : App) (adcVal : Nat) : App :=
  let v := scaleInput (calibrationOffset a.mem) (calibrationScale a.mem) adcVal
  { a with inputValue_10b := v, inputValue := alignInput v }

/-- The frame of `DALI_Send_PowerCycleEvent`. -/
def powerCycleFrame (a : App) : Nat :=
  let frame := 0xFEE000
  let frame := if a.deviceGroups > 0 then
      (frame ||| (1 <<< 12)) ||| ((lowestGroup 32 a.deviceGroups 0 <<< 7) &&& 0xF80)
    else frame
  if a.shortAddress ≠ 0xFF then (frame ||| (1 <<< 6)) ||| (a.shortAddress &&& 0x1F) else frame

/-- `DALI_Send_PowerCycleEvent`. -/
def DALI_Send_PowerCycleEvent (a : App) : App :=
  appSendData a { frame := powerCycleFrame a, frameType := 0, sendTwice := 0, priority := 3 }

/-! ## Runs of the application -/

/-- What happens to the application between two states: a run of
`DALI_ProcessRxData` in the main loop; an interrupt or interface call of the
link layer; the power-cycle notification of the main loop; an ADC conversion
with result `sensor_val` followed by `DALI_Set_inputValue` and
`DALI_SendEvent`; a failed conversion; and the millisecond interrupt, whose
handler is not part of the sources and is taken to write the volatile counters,
the identification time and the LED pin. -/
inductive AppEvent where
  | process (env : Env)
  | link (e : Event)
  | powerCycle
  | adc (sensor_val junk : Nat)
  | adcFail
  | timeBase (quiescent initialise report dead powerTime powerFlag identify led : Nat)

/-- One event applied to the application. -/
def appStep (a : App) : AppEvent → App
  | AppEvent.process env => DALI_ProcessRxData a env
  | AppEvent.link e => { a with link := step a.link e }
  | AppEvent.powerCycle =>
    if a.powerNoti_flag = 1 then { DALI_Send_PowerCycleEvent a with powerNoti_flag := 0 } else a
  | AppEvent.adc sensor_val junk => DALI_SendEvent (DALI_Set_inputValue a sensor_val) junk
  | AppEvent.adcFail => { a with instanceError := TRUE }
  | AppEvent.timeBase q i r d pt pf idt led =>
    { a with quiescent_time := q, initialise_time := i, report_time := r, dead_time := d,
             powerNoti_time := pt, powerNoti_flag := pf, id_time := idt, ledPin := led }

/-- A sequence of events applied in order. -/
def appRun (a : App) (es : List AppEvent) : App :=
  es.foldl appStep a

/-- The states the application can be in: the initialisation of `main` on any
flash content, followed by any sequence of events. -/
def AppReachable (a : App) : Prop :=
  ∃ (flash : Nat → Nat) (es : List AppEvent), a = appRun (initialApp flash) es

/-- The link-layer events of a 24-bit forward frame `x` arriving on the bus,
the line having been high for `since` before the start bit: one edge interrupt
per edge, then the bit-timer expiry that ends the frame, and a second expiry
when the last bit is 1 (the first one then enters `RECEIVE_DATA_EXTRA_TE`). -/
def busFrame (x since : Nat) : List AppEvent :=
  (edgesOf DALI_HI since (manchesterSchedule 24 x)).map
      (fun e => AppEvent.link (Event.edge e.2 e.1 0))
    ++ [AppEvent.link (Event.tick DALI_HI 0)]
    ++ (if x % 2 = 1 then [AppEvent.link (Event.tick DALI_HI 0)] else [])

/-- The values a run of `DALI_ProcessRxData` reads from outside the state, all
taken as 0. -/
def env0 : Env :=
  { frame := 0, record := default, tim6 := 0, writeResult := 0, junk := fun _ => 0 }

/-- The command frame `x` arrives twice while the main loop is busy: the first
copy, the expiry of the reply slot (no second copy is awaited, the application
has not yet seen the first), the second copy; then both records are
processed. -/
def twoCopies (x : Nat) : List AppEvent :=
  busFrame x 0
    ++ [AppEvent.link (Event.tick DALI_HI 0)]
    ++ busFrame x 0
    ++ [AppEvent.process env0, AppEvent.process env0]

/-- The broadcast device commands IDENTIFY DEVICE and RESET POWER CYCLE SEEN
(address byte `0xFF`, instance byte `0xFE`). -/
def identifyFrame : Nat := 0xFFFE00

def resetPowerCycleSeenFrame : Nat := 0xFFFE01

/-- The device is made a member of device group 1 only: `DTR1 = 2` (special
command SET DTR1), then ADD TO DEVICE GROUPS 0-15 twice, the second copy
within the send-twice window; each record is processed when it has arrived.
Then the command QUERY DEVICE STATUS arrives, addressed to device group 0
(address byte `0x81`). -/
def groupEvents : List AppEvent :=
  busFrame 0xC13102 0 ++ [AppEvent.process env0, AppEvent.link (Event.tick DALI_HI 0)]
    ++ busFrame 0xFFFE19 0 ++ [AppEvent.process env0, AppEvent.link (Event.tick DALI_HI 0)]
    ++ busFrame 0xFFFE19 0 ++ [AppEvent.process env0, AppEvent.link (Event.tick DALI_HI 0)]
    ++ busFrame 0x81FE30 0

/-- Writing is enabled (ENABLE WRITE MEMORY twice, the second copy within the
send-twice window); a write of `0x42` to bank 0, offset 5 is attempted
(`DTR0 = 5`, WRITE MEMORY LOCATION); then `DTR1 = 189`, `DTR0 = 4` and a write
of 0 to the factory-reset byte of bank 189. Each record is processed when it
has arrived, and the reply slot expires before the next frame. -/
def writeEvents : List AppEvent :=
  busFrame 0xFFFE15 0 ++ [AppEvent.process env0, AppEvent.link (Event.tick DALI_HI 0)]
    ++ busFrame 0xFFFE15 0 ++ [AppEvent.process env0, AppEvent.link (Event.tick DALI_HI 0)]
    ++ busFrame 0xC13005 0 ++ [AppEvent.process env0, AppEvent.link (Event.tick DALI_HI 0)]
    ++ busFrame 0xC12042 0 ++ [AppEvent.process env0, AppEvent.link (Event.tick DALI_HI 0)]
    ++ busFrame 0xC131BD 0 ++ [AppEvent.process env0, AppEvent.link (Event.tick DALI_HI 0)]
    ++ busFrame 0xC13004 0 ++ [AppEvent.process env0, AppEvent.link (Event.tick DALI_HI 0)]
    ++ busFrame 0xC12000 0 ++ [AppEvent.process env0]

/-- A flash that is blank except for the parameter-lock byte of bank 189,
which is 0. -/
def parameterUnlockedFlash : Nat → Nat :=
  fun x => if x = MEMORY_BANK_189_ADDR + parameterLock_addr then 0 else 0xFF

/-- Writing is enabled (ENABLE WRITE MEMORY twice within the send-twice
window), bank 189 is selected (`DTR1 = 189`) and unlocked (`0x55` written to
offset 2), `DTR0` is set to 5, and WRITE MEMORY LOCATION with data `0x42`
arrives. Each record but the last is processed when it has arrived. -/
def parameterWriteEvents : List AppEvent :=
  busFrame 0xFFFE15 0 ++ [AppEvent.process env0, AppEvent.link (Event.tick DALI_HI 0)]
    ++ busFrame 0xFFFE15 0 ++ [AppEvent.process env0, AppEvent.link (Event.tick DALI_HI 0)]
    ++ busFrame 0xC131BD 0 ++ [AppEvent.process env0, AppEvent.link (Event.tick DALI_HI 0)]
    ++ busFrame 0xC13002 0 ++ [AppEvent.process env0, AppEvent.link (Event.tick DALI_HI 0)]
    ++ busFrame 0xC12055 0 ++ [AppEvent.process env0]
    ++ List.replicate 30 (AppEvent.link (Event.tick DALI_HI 0))
    ++ busFrame 0xC13005 0 ++ [AppEvent.process env0, AppEvent.link (Event.tick DALI_HI 0)]
    ++ busFrame 0xC12042 0

/-! ### Auxiliary definitions for the memory banks -/

/-- Bank 189 after `dali_memory_init` on a blank flash with the lock byte set
to `0x55` through `dali_memory_write`. -/
def writableMem : MemState :=
  (dali_memory_write initialMem 189 lockByte_addr 0x55).1

/-- The byte of bank 189 at `offset`. -/
def bank189Byte (m : MemState) (offset : Nat) : Nat :=
  read8 m.flash (MEMORY_BANK_189_ADDR + offset)

/-- The byte of bank 0 at `offset`. -/
def bank0Byte (m : MemState) (offset : Nat) : Nat :=
  read8 m.flash (MEMORY_BANK_0_ADDR + offset)

/-- The macro `fullScaleRange` of `dali_memory.h`: the bytes of bank 189 at
`fullScaleRange_addr + 1` (high) and `fullScaleRange_addr` (low). -/
def fullScaleRange (m : MemState) : Nat :=
  (bank189Byte m (fullScaleRange_addr + 1) <<< 8) ||| bank189Byte m fullScaleRange_addr

/-- The event is not a cable sample that reads the RX pin high. -/
def lowOrNoSample : Event → Bool
  | Event.checkCable p => decide (p = DALI_LO)
  | _ => true

/-- Every cable sample among the events reads the RX pin low. -/
def onlyLowSamples (es : List Event) : Prop :=
  ∀ e ∈ es, lowOrNoSample e = true

/-- The number of cable samples (calls of `DALICheckCable`) among the events. -/
def countSamples : List Event → Nat
  | [] => 0
  | Event.checkCable _ :: es => countSamples es + 1
  | _ :: es => countSamples es

/-- The cable monitor's counter and flag are the same in `s` and `t`. -/
def CableSame (s t : State) : Prop :=
  t.cableDisconnectCounter = s.cableDisconnectCounter
  ∧ t.DALIFlags.cableConnected = s.DALIFlags.cableConnected

/-- The flag `cableConnected` agrees with the sample counter. -/
def CableInv (s : State) : Prop :=
  s.DALIFlags.cableConnected = decide (s.cableDisconnectCounter ≠ 0)

/-- The driver after `DALIInit` and `DALIConfigureMode(1)`. -/
def modeOneState : State :=
  DALIConfigureMode (DALIInit bootState) 1

/-- The driver after `DALIInit` and `DALIConfigureMode(0)`. -/
def modeZeroState : State :=
  DALIConfigureMode (DALIInit bootState) 0

/-- A forward frame with a 24-bit payload. -/
def wideFrame : DALITxData :=
  { frame := 0x123456, frameType := 0, sendTwice := 0, priority := 1 }

/-- The last level written to the TX pin is `DALI_HI`: the pin variable holds
it and it is the last entry of the log of written levels. -/
def Released (s : State) : Prop :=
  s.txPin = DALI_HI ∧ s.txLog.getLast? = some DALI_HI

/-- Nothing was written to the TX pin between `s` and `t`. -/
def PinSame (s t : State) : Prop :=
  t.txPin = s.txPin ∧ t.txLog = s.txLog

/-- The TX pin is released outside `SEND_DATA` and `BREAK`, and in `SEND_DATA`
from the second stop half-bit on; the half-bit counter of a transmission is a
`uint8_t`. -/
def PinInv (s : State) : Prop :=
  (s.daliState ≠ dali_state_t.SEND_DATA → s.daliState ≠ dali_state_t.BREAK → Released s)
  ∧ (s.daliState = dali_state_t.SEND_DATA →
      s.halfBitNumber < 256 ∧ (51 ≤ s.halfBitNumber → s.halfBitNumber ≤ 56 → Released s))

/-! ### Auxiliary definitions for the application claims -/

/-- The report timer is set to 100 s: `DTR0 = 100` (special command SET DTR0,
frame `0xC13064`), then SET REPORT TIMER for every instance (address byte
`0xFF`, instance byte `0xFF`, opcode `0x30`) twice, the second copy within the
send-twice window; each record is processed when it has arrived. Then an ADC
conversion with result 2040 is followed by `DALI_Set_inputValue` and
`DALI_SendEvent`. -/
def reportTimerEvents : List AppEvent :=
  busFrame 0xC13064 0 ++ [AppEvent.process env0, AppEvent.link (Event.tick DALI_HI 0)]
    ++ busFrame 0xFFFF30 0 ++ [AppEvent.process env0, AppEvent.link (Event.tick DALI_HI 0)]
    ++ busFrame 0xFFFF30 0 ++ [AppEvent.process env0, AppEvent.link (Event.tick DALI_HI 0)]
    ++ [AppEvent.adc 2040 0]

/-- A flash that is blank except for the stored short address
(`shortAddress_NVM`), which is `s`, and the stored power-cycle notification
(`powerCycleNotification_NVM`), which is `ENABLED`. -/
def addressedFlash (s : Nat) : Nat → Nat :=
  fun x =>
    if x = MEMORY_NVM_VAR_ADDR + 8 then s % 256
    else if x = MEMORY_NVM_VAR_ADDR + 9 then 0
    else if x = MEMORY_NVM_VAR_ADDR + 14 then ENABLED
    else if x = MEMORY_NVM_VAR_ADDR + 15 then 0
    else 0xFF

/-- The millisecond interrupt raises the power-cycle notification flag and the
main loop sends the notification. -/
def powerCycleEvents : List AppEvent :=
  [AppEvent.timeBase 0 0 0 0 0 1 0 1, AppEvent.powerCycle]

/-- The record `DALI_ProcessRxData` works on: the one `DALIReceiveData`
returns, or `env.record` when that function reads outside the array. -/
def receivedRecord (a : App) (env : Env) : DALIRxData :=
  (DALIReceiveData a.link).2.getD env.record

/-- A later call of `DALI_SendEvent`: the input value is `v`, the dead time
has expired and the report timer stands at `r`. -/
def laterInput (a : App) (v r : Nat) : App :=
  { a with inputValue := v, dead_time := 0, report_time := r }

/-- The event frame of scheme 0 for the input value `v`. -/
def schemeZeroFrame (a : App) (v : Nat) : Nat :=
  0x800000 ||| ((a.instanceType <<< 17) &&& 0x3E0000) ||| 0x8000
    ||| ((a.instanceNumber <<< 10) &&& 0x7C00) ||| ((v >>> 6) &&& 0x3FF)

/-- The event `DALI_SendEvent` queues for the frame `f`. -/
def eventData (f : Nat) : DALITxData :=
  { frame := f, frameType := 0, sendTwice := 0, priority := 4 }

/-- A device initialised on a blank flash whose input value is 500, with a
hysteresis band that lies above it. -/
def fallingInput : App :=
  { initialApp blankFlash with inputValue := 500, hysteresisBandLow := 600,
                               hysteresisBandHigh := 700 }

/-- A device initialised on a blank flash (hysteresis band at 0) whose input
value is 500. -/
def risingInput : App :=
  { initialApp blankFlash with inputValue := 500 }

/-- The conditions of `DALI_SendEvent` for sending events at all (line 1440),
with event scheme 0. -/
def eventsEnabled (a : App) : Prop :=
  a.applicationActive = FALSE ∧ a.quiescentMode = FALSE ∧ a.dead_time = 0
  ∧ a.eventFilter % 2 = 1 ∧ a.instanceActive = TRUE ∧ a.instanceError = FALSE
  ∧ a.eventScheme = 0

instance (a : App) : Decidable (eventsEnabled a) := by
  unfold eventsEnabled
  infer_instance

/-! ### Auxiliary definitions for the reply slot and the break time -/

/-- A forward frame is handed over in `IDLE` and a collision aborts it during
the start bit: the driver is in `BREAK`. -/
def breakEvents : List Event :=
  [Event.configureMode 0,
   Event.send { frame := 0x1234, frameType := 0, sendTwice := 0, priority := 1 },
   Event.tick DALI_HI 0, Event.edge DALI_LO 1000 1000]

/-- The state after `breakEvents`. -/
def breakState : State :=
  run (DALIInit bootState) breakEvents

/-- A backward frame. -/
def replyFrame : DALITxData :=
  { frame := 0x5A, frameType := 1, sendTwice := 0, priority := 1 }

/-- The start edge of a frame arrives in `IDLE`; during the reception the
application hands over a backward frame, which is queued; the frame ends as a
24-bit forward frame (`rxPacketLen = 24` is reached by 24 bit edges) and the
application calls `DALIReceiveTwice`. The driver is in `WAIT_TO_SEND_BACKFRAME`
with the backward frame at the head of the TX queue and `receiveTwiceFrame`
set. -/
def replyAndTwiceEvents : List Event :=
  (edgesOf DALI_HI 0 (manchesterSchedule 24 0xFFFE00)).map
      (fun e => Event.edge e.2 e.1 0)
    ++ [Event.send replyFrame, Event.tick DALI_HI 0, Event.receiveTwice]

/-- A frame arrives from the bus and is processed by the main loop when it has
arrived; then the reply slot expires. -/
def received (x : Nat) : List AppEvent :=
  busFrame x 0 ++ [AppEvent.process env0, AppEvent.link (Event.tick DALI_HI 0)]

/-- The device is made a member of device group 0 only (`DTR1 = 1`, ADD TO
DEVICE GROUPS 0-15 twice within the send-twice window) and set to event
scheme 3 (`DTR0 = 3`, SET EVENT SCHEME for every instance twice); then an ADC
conversion with result 2040 is followed by `DALI_Set_inputValue` and
`DALI_SendEvent`. -/
def schemeThreeEvents : List AppEvent :=
  received 0xC13101 ++ received 0xFFFE19 ++ received 0xFFFE19
    ++ received 0xC13003 ++ received 0xFFFF67 ++ received 0xFFFF67
    ++ [AppEvent.adc 2040 0]

/-- `DTR0 = 5`, then the command with opcode `op` for every instance (address
byte `0xFF`, instance byte `0xFF`) twice within the send-twice window; then the
frame `0xFF8580` arrives: QUERY INSTANCE TYPE for instance group 5 (instance
byte `0x85`). -/
def instanceGroupEvents (op : Nat) : List AppEvent :=
  received 0xC13005 ++ received (0xFFFF00 + op) ++ received (0xFFFF00 + op)
    ++ busFrame 0xFF8580 0

/-- `DTR0 = 2` and SET EVENT PRIORITY (device command, frame `0xFFFE61`) twice
within the send-twice window; then an ADC conversion with result 2040 is
followed by `DALI_Set_inputValue` and `DALI_SendEvent`. -/
def eventPriorityEvents : List AppEvent :=
  received 0xC13002 ++ received 0xFFFE61 ++ received 0xFFFE61 ++ [AppEvent.adc 2040 0]

/-- The driver in mode 1 receives a frame (a start edge and the stop
condition, a frame without data bits) and returns to `IDLE` through the five
expiries of `PRE_IDLE`. -/
def afterReception : State :=
  timerTicks (run modeOneState [Event.edge DALI_LO 0 0, Event.tick DALI_HI 0]) 5

/-- The value the field `(inputValue >> 6) & 0x3FF` of an event frame has. -/
def eventValue (a : App) : Nat :=
  (a.inputValue >>> 6) &&& 0x3FF

/-- The group field, bits 17..21, of an event frame of scheme 3. -/
def groupField (frame : Nat) : Nat :=
  (frame >>> 17) &&& 0x1F

/-- The phase correction is the same in `s` and `t`. -/
def OverlapSame (s t : State) : Prop :=
  t.overlapTime = s.overlapTime

/-- The phase correction is 0 or lies in 480..879, the values of `2 TE - t`
for a measured interval `t` with `5787 ≤ t < 6187`. -/
def OverlapInv (s : State) : Prop :=
  s.overlapTime = 0 ∨ (480 ≤ s.overlapTime ∧ s.overlapTime ≤ 879)

/-- A forward frame is handed over in `IDLE`; after the two half-bits of the
start bit an edge to low arrives 6000 ticks after the previous edge. -/
def overlapEvents : List Event :=
  [Event.configureMode 0, Event.send wideFrame, Event.tick DALI_HI 0, Event.tick DALI_HI 0,
   Event.edge DALI_LO 0 6000]

/-- A reception in state `d` whose flag `rxSendTwicePossible` is `b`, with the
RX records `q`. -/
def RxTwice (q : Nat → DALIRxData) (d : dali_state_t) (b : Bool) (u : State) : Prop :=
  u.daliState = d ∧ u.DALIFlags.rxSendTwicePossible = b ∧ u.rxData = q

/-- The record that the timeout in `WAIT_FOR_SECOND_FORFRAME` hands to the RX
queue: frame 0, done, `FRAME_TIMING_ERROR`; length, type and
`rxSendTwicePossible` are what the flags of the state hold. -/
def timeoutRecord (s : State) : DALIRxData :=
  { frame := 0, frameLen := s.rxPacketLen, frameType := s.DALIFlags.rxFrameType,
    rxDone := true, rxError := DALIRxError_t.FRAME_TIMING_ERROR,
    rxSendTwicePossible := s.DALIFlags.rxSendTwicePossible }

/-- The edge interrupts of the 24-bit frame `x` on the bus, the line having
been high before. -/
def frameEdges (x : Nat) : List Event :=
  (edgesOf DALI_HI 0 (manchesterSchedule 24 x)).map (fun e => Event.edge e.2 e.1 0)

/-- The driver has received the frame `0xFFFE00` and waits in
`WAIT_TO_SEND_BACKFRAME`. -/
def afterFirstCopy : State :=
  run (DALIInit bootState) (frameEdges 0xFFFE00 ++ [Event.tick DALI_HI 0])

/-- The 24-bit frame `0xFFFE00` and eighteen receptions that end without a data
bit leave 19 unread records, which fill the RX queue; then the edges of the
frame `0xFFFE00` arrive again, and the driver is receiving. -/
def fullQueueInReception : List Event :=
  frameEdges 0xFFFE00 ++ [Event.tick DALI_HI 0]
    ++ (List.replicate 18 [Event.edge DALI_LO 0 0, Event.tick DALI_HI 0]).flatten
    ++ frameEdges 0xFFFE00

/-- With the queue full and a reception in progress the application reads the
oldest record with `DALIReceiveData`; the stop condition of the frame stores
its record in the slot that became free; the application calls
`DALIReceiveTwice` for the record it has read, and the reply slot expires. The
driver is in `WAIT_FOR_SECOND_FORFRAME` with 19 unread records. -/
def fullQueueSecondFrame : List Event :=
  fullQueueInReception
    ++ [Event.receive, Event.tick DALI_HI 0, Event.receiveTwice, Event.tick DALI_HI 0]

/-- QUERY INSTANCE TYPE for every instance (frame `0xFFFF80`) arrives; the
reply slot expires before the main loop has run; then the main loop processes
the frame and queues the reply. -/
def lateReplyEvents : List AppEvent :=
  busFrame 0xFFFF80 0 ++ [AppEvent.link (Event.tick DALI_HI 0), AppEvent.process env0]

/-- The event priority is one of 2, 3, 4, 5. -/
@[reducible]
def PriorityInv (a : App) : Prop :=
  2 ≤ a.eventPriority ∧ a.eventPriority ≤ 5

/-- The half-word `eventPriority_NVM` of the flash is blank or holds a priority
from 2 to 5. -/
def StoredPriority (flash : Nat → Nat) : Prop :=
  read16 flash (MEMORY_NVM_VAR_ADDR + 16) = BLANK_16
    ∨ (2 ≤ read16 flash (MEMORY_NVM_VAR_ADDR + 16)
        ∧ read16 flash (MEMORY_NVM_VAR_ADDR + 16) ≤ 5)

/-! ### Auxiliary definitions for the order of transmission -/

/-- The frame that the call of `DALISendData` in the event `e` stores in the TX
queue: the argument when the call returns 0, nothing when it returns 1 (queue
full) and for every other event. -/
def acceptedBy (s : State) : Event → List DALITxData
  | Event.send d => if (DALISendData s d).2 = 0 then [d] else []
  | _ => []

/-- The frame whose transmission the event `e` starts from the TX queue: the
driver enters `SEND_DATA` from a state other than `SEND_DATA` and
`WAIT_FOR_BACKFRAME` (from where only the second copy of a send-twice frame is
started), and the frame is the one at the read index. -/
def startedBy (s : State) (e : Event) : List DALITxData :=
  if s.daliState ≠ dali_state_t.SEND_DATA ∧ s.daliState ≠ dali_state_t.WAIT_FOR_BACKFRAME
      ∧ (step s e).daliState = dali_state_t.SEND_DATA then
    [(step s e).txData s.txDataR]
  else []

/-- The frames that `DALISendData` stores in the TX queue during the run `es`
from `s`, in the order of the calls. -/
def accepted (s : State) : List Event → List DALITxData
  | [] => []
  | e :: es => acceptedBy s e ++ accepted (step s e) es

/-- The frames whose transmission is started from the TX queue during the run
`es` from `s`, in the order of the starts. -/
def started (s : State) : List Event → List DALITxData
  | [] => []
  | e :: es => startedBy s e ++ started (step s e) es

/-- The index before `r` in the TX ring buffer (line 731). -/
def backIndex (r : Nat) : Nat :=
  if r = 0 then TX_QUEUE_SIZE - 1 else r - 1

/-- No event of the run `es` from `s` puts the read index of the TX queue back
by one, which is what a collision does to return the frame in flight to the
queue (line 731). -/
def noPutBack (s : State) : List Event → Bool
  | [] => true
  | e :: es =>
    decide ((step s e).txDataR ≠ backIndex s.txDataR) && noPutBack (step s e) es

/-- The state after `inversionEvents`: the driver is in `PRE_IDLE` with the
counter at 5, a frame of priority 5 at the head of the TX queue and a frame of
priority 1 behind it. -/
def inversionState : State :=
  run (DALIInit bootState) inversionEvents

/-! # Theorems -/

/-- The timer values given by value are the differences that the source writes. -/
theorem timer_differences :
    TE_FF1_MINUS_RX_BF_MAX = TE_TX_WAIT_FF1 - TE_RX_BF_MAX
    ∧ TE_FF2_MINUS_FF1 = TE_TX_WAIT_FF2 - TE_TX_WAIT_FF1
    ∧ TE_FF3_MINUS_FF2 = TE_TX_WAIT_FF3 - TE_TX_WAIT_FF2
    ∧ TE_FF4_MINUS_FF3 = TE_TX_WAIT_FF4 - TE_TX_WAIT_FF3
    ∧ TE_FF5_MINUS_FF4 = TE_TX_WAIT_FF5 - TE_TX_WAIT_FF4
    ∧ TE_SEND_TWICE_MINUS_BF = TE_RX_SEND_TWICE_FF - TE_TX_WAIT_BF
    ∧ TE_FF1_MINUS_BF = TE_TX_WAIT_FF1 - TE_TX_WAIT_BF
    ∧ TE_RECOVERY_MINUS_1400 = TE_RECOVERY - 1400 := by
  decide

/-! ## Bit-level lemmas -/

theorem land_two_pow (x k : Nat) : x &&& 2 ^ k = if x.testBit k = true then 2 ^ k else 0 := by
  apply Nat.eq_of_testBit_eq
  intro i
  by_cases hb : x.testBit k = true
  · rw [if_pos hb, Nat.testBit_and, Nat.testBit_two_pow]
    by_cases hi : k = i
    · subst hi; simp [hb]
    · simp [hi]
  · rw [if_neg hb, Nat.testBit_and, Nat.testBit_two_pow]
    by_cases hi : k = i
    · subst hi; simp [hb]
    · simp [hi]

theorem land_bit23 (x : Nat) :
    x &&& 0x800000 = if x.testBit 23 = true then 0x800000 else 0 :=
  land_two_pow x 23

theorem land_bits2223 (x : Nat) :
    x &&& 0xC00000 = (if x.testBit 23 = true then 0x800000 else 0)
      ||| (if x.testBit 22 = true then 0x400000 else 0) := by
  have h : (0xC00000 : Nat) = 2 ^ 23 ||| 2 ^ 22 := by decide
  rw [h, Nat.and_or_distrib_left, land_two_pow, land_two_pow]
  norm_num

theorem firstHalfLevel_eq (x : Nat) :
    firstHalfLevel x = some (if x.testBit 22 = true then DALI_LO else DALI_HI) := by
  unfold firstHalfLevel
  simp only [land_bits2223]
  cases x.testBit 23 <;> cases x.testBit 22 <;> decide

theorem secondHalfLevel_eq (x : Nat) :
    secondHalfLevel x = some (if x.testBit 23 = true then DALI_HI else DALI_LO) := by
  unfold secondHalfLevel
  simp only [land_bit23]
  cases x.testBit 23 <;> decide

theorem tick_odd {s : State} {fl : state_flags_t} {p h : Nat} {log : List Nat}
    (hs : Sending s fl p h log) (hodd : h % 2 = 1) (h3 : 3 ≤ h) (h49 : h ≤ 49) :
    Sending (timerSendData s) fl p (nextHalf fl h)
      (log ++ [if p.testBit 23 = true then DALI_HI else DALI_LO]) := by
  obtain ⟨hst, hfl, hp, hh, hlog⟩ := hs
  have e1 : h ≠ 1 := by omega
  have e2 : h ≠ 2 := by omega
  have e3 : h ≠ 50 := by omega
  have e4 : ¬ (51 ≤ h ∧ h ≤ 55) := by omega
  have e5 : h ≠ 56 := by omega
  have e6 : ¬ (h % 2 = 0) := by omega
  unfold timerSendData sendDataAdvance sendDataHalfBit Sending nextHalf
  simp only [set_timer_reload_val, writePin, writePinOpt, hh, e1, e2, e3, e4, e5, e6,
    if_false, secondHalfLevel_eq, hp, hfl, hst, hlog]
  split_ifs <;> simp_all

theorem tick_even {s : State} {fl : state_flags_t} {p h : Nat} {log : List Nat}
    (hs : Sending s fl p h log) (heven : h % 2 = 0) (h4 : 4 ≤ h) (h48 : h ≤ 48) :
    Sending (timerSendData s) fl ((p <<< 1) % 2 ^ 32) (h + 1)
      (log ++ [if p.testBit 22 = true then DALI_LO else DALI_HI]) := by
  obtain ⟨hst, hfl, hp, hh, hlog⟩ := hs
  have e1 : h ≠ 1 := by omega
  have e2 : h ≠ 2 := by omega
  have e3 : h ≠ 50 := by omega
  have e4 : ¬ (51 ≤ h ∧ h ≤ 55) := by omega
  have e5 : h ≠ 56 := by omega
  have e7 : (h + 1) % 256 = h + 1 := by omega
  have e8 : ¬ ((h + 1) % 256 = 18) := by omega
  have e9 : ¬ ((h + 1) % 256 = 34) := by omega
  unfold timerSendData sendDataAdvance sendDataHalfBit Sending
  simp [set_timer_reload_val, writePin, writePinOpt, hh, e1, e2, e3, e4, e5, heven,
    firstHalfLevel_eq, hp, hfl, hst, hlog, e8, e9]
  omega

theorem tick_start1 {s : State} {fl : state_flags_t} {p : Nat} {log : List Nat}
    (hs : Sending s fl p 1 log) :
    Sending (timerSendData s) fl p 2 (log ++ [DALI_HI]) := by
  obtain ⟨hst, hfl, hp, hh, hlog⟩ := hs
  unfold timerSendData sendDataAdvance sendDataHalfBit Sending
  simp [set_timer_reload_val, writePin, hh, hp, hfl, hst, hlog]

theorem tick_start2 {s : State} {fl : state_flags_t} {p : Nat} {log : List Nat}
    (hs : Sending s fl p 2 log) :
    Sending (timerSendData s) fl p 3
      (log ++ [if p.testBit 23 = true then DALI_LO else DALI_HI]) := by
  obtain ⟨hst, hfl, hp, hh, hlog⟩ := hs
  unfold timerSendData sendDataAdvance sendDataHalfBit Sending
  simp only [set_timer_reload_val, writePin, hh, hp, hfl, hst, hlog, land_bit23]
  cases p.testBit 23 <;> simp

theorem tick_stop {s : State} {fl : state_flags_t} {p h : Nat} {log : List Nat}
    (hs : Sending s fl p h log) (h50 : 50 ≤ h) (h55 : h ≤ 55) :
    Sending (timerSendData s) fl p (h + 1) (log ++ [DALI_HI]) := by
  obtain ⟨hst, hfl, hp, hh, hlog⟩ := hs
  have e1 : h ≠ 1 := by omega
  have e2 : h ≠ 2 := by omega
  have e7 : (h + 1) % 256 = h + 1 := by omega
  have e8 : h + 1 ≠ 18 := by omega
  have e9 : h + 1 ≠ 34 := by omega
  unfold timerSendData sendDataAdvance sendDataHalfBit Sending
  by_cases e3 : h = 50
  · simp [set_timer_reload_val, writePin, hh, hp, hfl, hst, hlog, e3]
  · have e4 : 51 ≤ h ∧ h ≤ 55 := by omega
    simp [set_timer_reload_val, writePin, hh, hp, hfl, hst, hlog, e1, e2, e3, e4, e7, e8, e9]

theorem tick_end {s : State} {fl : state_flags_t} {p : Nat} {log : List Nat}
    (hs : Sending s fl p 56 log) :
    (timerSendData s).daliState ≠ dali_state_t.SEND_DATA ∧ (timerSendData s).txLog = log := by
  obtain ⟨hst, hfl, hp, hh, hlog⟩ := hs
  unfold timerSendData sendDataAdvance sendDataHalfBit sendDataDone
  simp only [set_timer_reload_val, writePin, hh, hp, hfl, hst, hlog]
  cases h1 : fl.txFrameType <;> cases h2 : fl.sendTwiceFrame <;>
    simp [DALIAppendToQueue, DALIClearFlags, h1, h2, hlog]

theorem testBit_shl1 (p i : Nat) (h1 : 1 ≤ i) (h2 : i < 32) :
    ((p <<< 1) % 2 ^ 32).testBit i = p.testBit (i - 1) := by
  rw [Nat.testBit_mod_two_pow, Nat.testBit_shiftLeft]
  simp [h1, h2]

theorem nextHalf_lt {fl : state_flags_t} {h : Nat} (hodd : h % 2 = 1)
    (hlt : h < lastHalf fl) : nextHalf fl h = h + 1 := by
  unfold nextHalf
  unfold lastHalf at hlt
  have e : (h + 1) % 256 = h + 1 := by split_ifs at hlt <;> omega
  rw [e]
  split_ifs at hlt ⊢ <;> first | rfl | omega | (exfalso; simp_all)

theorem nextHalf_last (fl : state_flags_t) : nextHalf fl (lastHalf fl) = 50 := by
  unfold nextHalf lastHalf
  cases h1 : fl.txFrameType <;> cases h2 : fl.deviceMode <;> simp

theorem lastHalf_le (fl : state_flags_t) : lastHalf fl ≤ 49 := by
  unfold lastHalf
  split_ifs <;> omega

theorem timer_send {s : State} (h : s.daliState = dali_state_t.SEND_DATA) (a b : Nat) :
    DALITimerIntHandler s a b = timerSendData s := by
  unfold DALITimerIntHandler
  rw [h]

theorem timerTicks_add (s : State) (a b : Nat) :
    timerTicks s (a + b) = timerTicks (timerTicks s a) b := by
  induction a generalizing s with
  | zero => simp [timerTicks]
  | succ a ih =>
    have : a + 1 + b = (a + b) + 1 := by omega
    rw [this]
    simp only [timerTicks]
    exact ih _

theorem timerTicks_one {s : State} (h : s.daliState = dali_state_t.SEND_DATA) :
    timerTicks s 1 = timerSendData s := by
  simp [timerTicks, timer_send h]

theorem sendingUpTo_add {s : State} {a b : Nat} (h1 : SendingUpTo s a)
    (h2 : SendingUpTo (timerTicks s a) b) : SendingUpTo s (a + b) := by
  intro j hj
  by_cases hja : j ≤ a
  · exact h1 j hja
  · have : j = a + (j - a) := by omega
    rw [this, timerTicks_add]
    exact h2 (j - a) (by omega)

theorem sendingUpTo_one {s : State} (h1 : s.daliState = dali_state_t.SEND_DATA)
    (h2 : (timerSendData s).daliState = dali_state_t.SEND_DATA) : SendingUpTo s 1 := by
  intro j hj
  have : j = 0 ∨ j = 1 := by omega
  rcases this with rfl | rfl
  · exact h1
  · rw [timerTicks_one h1]; exact h2

theorem encodeBit_eq (b : Bool) :
    encodeBit b = [if b = true then DALI_LO else DALI_HI, if b = true then DALI_HI else DALI_LO] := by
  cases b <;> rfl

theorem data_bits (fl : state_flags_t) :
    ∀ (k : Nat) (s : State) (p h : Nat) (log : List Nat),
      Sending s fl p h log → h % 2 = 1 → 3 ≤ h → h + 2 * k = lastHalf fl →
      (∃ p', Sending (timerTicks s (2 * k + 1)) fl p' 50
        (log ++ [if p.testBit 23 = true then DALI_HI else DALI_LO]
          ++ encodeBits (txBits ((p <<< 1) % 2 ^ 32) k)))
      ∧ SendingUpTo s (2 * k + 1) := by
  intro k
  induction k with
  | zero =>
    intro s p h log hs hodd h3 hk
    have hl := lastHalf_le fl
    have h1 := tick_odd hs hodd h3 (by omega)
    have hh : h = lastHalf fl := by omega
    rw [hh, nextHalf_last] at h1
    refine ⟨⟨p, ?_⟩, ?_⟩
    · simpa [timerTicks_one hs.1, txBits, encodeBits] using h1
    · exact sendingUpTo_one hs.1 h1.1
  | succ k ih =>
    intro s p h log hs hodd h3 hk
    have hl := lastHalf_le fl
    have h1 := tick_odd hs hodd h3 (by omega)
    rw [nextHalf_lt hodd (by omega)] at h1
    have h2 := tick_even h1 (by omega) (by omega) (by omega)
    obtain ⟨⟨p', hp'⟩, hup⟩ := ih (timerSendData (timerSendData s)) ((p <<< 1) % 2 ^ 32) (h + 1 + 1)
      _ h2 (by omega) (by omega) (by omega)
    have e2 : timerTicks s 2 = timerSendData (timerSendData s) := by
      simp [timerTicks, timer_send hs.1, timer_send h1.1]
    have hbit : ((p <<< 1) % 2 ^ 32).testBit 23 = p.testBit 22 :=
      testBit_shl1 p 23 (by omega) (by omega)
    constructor
    · refine ⟨p', ?_⟩
      have : 2 * (k + 1) + 1 = 2 + (2 * k + 1) := by omega
      rw [this, timerTicks_add, e2]
      simp only [txBits, encodeBits, encodeBit_eq, hbit]
      rw [hbit] at hp'
      simpa using hp'
    · have : 2 * (k + 1) + 1 = 2 + (2 * k + 1) := by omega
      rw [this]
      refine sendingUpTo_add ?_ (by rw [e2]; exact hup)
      have : (2 : Nat) = 1 + 1 := rfl
      rw [this]
      refine sendingUpTo_add (sendingUpTo_one hs.1 h1.1) ?_
      rw [timerTicks_one hs.1]
      exact sendingUpTo_one h1.1 h2.1

theorem txBits_eq_bitsMSB :
    ∀ (k p f : Nat), k ≤ 24 → (∀ j, j < k → p.testBit (23 - j) = f.testBit (k - 1 - j)) →
      txBits p k = bitsMSB f k := by
  intro k
  induction k with
  | zero => intro p f _ _; rfl
  | succ k ih =>
    intro p f hk hb
    simp only [txBits, bitsMSB]
    congr 1
    · simpa using hb 0 (by omega)
    · apply ih _ _ (by omega)
      intro j hj
      have := hb (j + 1) (by omega)
      have e1 : 23 - (j + 1) = 22 - j := by omega
      have e2 : k + 1 - 1 - (j + 1) = k - 1 - j := by omega
      rw [e1, e2] at this
      rw [← this]
      have e5 : 23 - j - 1 = 22 - j := by omega
      rw [testBit_shl1 p (23 - j) (by omega) (by omega), e5]

theorem processSend_sending (s : State) (d : DALITxData) :
    Sending (DALIProcessSendData s d) (DALIProcessSendData s d).DALIFlags
      (DALIProcessSendData s d).txPacket 1 (s.txLog ++ [DALI_LO]) := by
  unfold Sending DALIProcessSendData
  simp only [writePin, reset_timer, set_timer_reload_val, enable_timer_int, and_self]

theorem processSend_lastHalf (s : State) (d : DALITxData) :
    lastHalf (DALIProcessSendData s d).DALIFlags
      = 2 * frameBits s.DALIFlags.deviceMode d.frameType + 1 := by
  unfold lastHalf frameBits DALIProcessSendData
  simp only [writePin, reset_timer, set_timer_reload_val, enable_timer_int]
  by_cases h1 : d.frameType % 2 = 1 <;> cases h2 : s.DALIFlags.deviceMode <;>
    simp [h1, h2]

theorem testBit_shl (f k i : Nat) (h1 : k ≤ i) (h2 : i < 32) :
    ((f <<< k) % 2 ^ 32).testBit i = f.testBit (i - k) := by
  rw [Nat.testBit_mod_two_pow, Nat.testBit_shiftLeft]
  simp [h1, h2]

theorem processSend_txPacket (s : State) (d : DALITxData) :
    (DALIProcessSendData s d).txPacket
      = if d.frameType % 2 = 1 then (d.frame <<< 16) % 2 ^ 32
        else if s.DALIFlags.deviceMode = false then d.frame
        else (d.frame <<< 8) % 2 ^ 32 := by
  unfold DALIProcessSendData
  simp only [writePin, reset_timer, set_timer_reload_val, enable_timer_int]
  by_cases h1 : d.frameType % 2 = 1 <;> cases h2 : s.DALIFlags.deviceMode <;>
    simp [h1, h2]

theorem processSend_bits (s : State) (d : DALITxData) (j : Nat)
    (hj : j < frameBits s.DALIFlags.deviceMode d.frameType) :
    (DALIProcessSendData s d).txPacket.testBit (23 - j)
      = d.frame.testBit (frameBits s.DALIFlags.deviceMode d.frameType - 1 - j) := by
  rw [processSend_txPacket]
  unfold frameBits at hj ⊢
  by_cases h1 : d.frameType % 2 = 1
  · rw [if_pos h1] at hj ⊢
    rw [if_pos h1, testBit_shl _ _ _ (by omega) (by omega)]
    congr 1
    omega
  · rw [if_neg h1] at hj ⊢
    rw [if_neg h1]
    cases h2 : s.DALIFlags.deviceMode
    · rw [h2] at hj
      simp only [Bool.false_eq_true, if_false, if_true] at hj ⊢
    · rw [h2] at hj
      simp only [if_true, Bool.true_eq_false, if_false] at hj ⊢
      rw [testBit_shl _ _ _ (by omega) (by omega)]
      congr 1
      omega

theorem stop_ticks :
    ∀ (k : Nat) (s : State) (fl : state_flags_t) (p h : Nat) (log : List Nat),
      Sending s fl p h log → 50 ≤ h → h + k = 56 →
      Sending (timerTicks s k) fl p 56 (log ++ List.replicate k DALI_HI)
      ∧ SendingUpTo s k := by
  intro k
  induction k with
  | zero =>
    intro s fl p h log hs _ hk
    have : h = 56 := by omega
    subst this
    refine ⟨by simpa [timerTicks] using hs, ?_⟩
    intro j hj
    have : j = 0 := by omega
    subst this
    exact hs.1
  | succ k ih =>
    intro s fl p h log hs h50 hk
    have h1 := tick_stop hs h50 (by omega)
    obtain ⟨h2, h3⟩ := ih _ fl p (h + 1) _ h1 (by omega) (by omega)
    have e1 : timerTicks s (k + 1) = timerTicks (timerSendData s) k := by
      simp [timerTicks, timer_send hs.1]
    constructor
    · rw [e1]
      have : log ++ List.replicate (k + 1) DALI_HI
          = log ++ [DALI_HI] ++ List.replicate k DALI_HI := by
        simp [List.replicate_succ]
      rw [this]
      exact h2
    · have : k + 1 = 1 + k := by omega
      rw [this]
      refine sendingUpTo_add (sendingUpTo_one hs.1 h1.1) ?_
      rw [timerTicks_one hs.1]
      exact h3

/-- The whole transmission of one frame. -/
theorem send_schedule (s : State) (d : DALITxData) :
    (timerTicks (DALIProcessSendData s d)
        (2 * frameBits s.DALIFlags.deviceMode d.frameType + 8)).txLog
      = s.txLog ++ manchesterSchedule (frameBits s.DALIFlags.deviceMode d.frameType) d.frame
    ∧ SendingUpTo (DALIProcessSendData s d)
        (2 * frameBits s.DALIFlags.deviceMode d.frameType + 7)
    ∧ (timerTicks (DALIProcessSendData s d)
        (2 * frameBits s.DALIFlags.deviceMode d.frameType + 8)).daliState
        ≠ dali_state_t.SEND_DATA := by
  have hn : 1 ≤ frameBits s.DALIFlags.deviceMode d.frameType
      ∧ frameBits s.DALIFlags.deviceMode d.frameType ≤ 24 := by
    unfold frameBits; split_ifs <;> omega
  generalize hN : frameBits s.DALIFlags.deviceMode d.frameType = n at hn
  obtain ⟨m, rfl⟩ : ∃ m, n = m + 1 := ⟨n - 1, by omega⟩
  have a0 := processSend_sending s d
  have a1 := tick_start1 a0
  have a2 := tick_start2 a1
  have hl := processSend_lastHalf s d
  rw [hN] at hl
  obtain ⟨⟨p', a3⟩, u3⟩ := data_bits _ m _ _ 3 _ a2 (by omega) (by omega) (by omega)
  obtain ⟨a4, u4⟩ := stop_ticks 6 _ _ _ 50 _ a3 (by omega) (by omega)
  have a5 := tick_end a4
  have e2 : timerTicks (DALIProcessSendData s d) 2
      = timerSendData (timerSendData (DALIProcessSendData s d)) := by
    simp [timerTicks, timer_send a0.1, timer_send a1.1]
  have u2 : SendingUpTo (DALIProcessSendData s d) 2 := by
    have : (2 : Nat) = 1 + 1 := rfl
    rw [this]
    refine sendingUpTo_add (sendingUpTo_one a0.1 a1.1) ?_
    rw [timerTicks_one a0.1]
    exact sendingUpTo_one a1.1 a2.1
  have e7 : timerTicks (DALIProcessSendData s d) (2 * (m + 1) + 7)
      = timerTicks (timerTicks (timerSendData (timerSendData (DALIProcessSendData s d)))
          (2 * m + 1)) 6 := by
    have : 2 * (m + 1) + 7 = 2 + (2 * m + 1) + 6 := by omega
    rw [this, timerTicks_add, timerTicks_add, e2]
  have e8 : timerTicks (DALIProcessSendData s d) (2 * (m + 1) + 8)
      = timerSendData (timerTicks (DALIProcessSendData s d) (2 * (m + 1) + 7)) := by
    have : 2 * (m + 1) + 8 = (2 * (m + 1) + 7) + 1 := by omega
    rw [this, timerTicks_add, e7, timerTicks_one a4.1]
  have hbits : txBits (DALIProcessSendData s d).txPacket (m + 1) = bitsMSB d.frame (m + 1) := by
    apply txBits_eq_bitsMSB _ _ _ hn.2
    intro j hj
    have := processSend_bits s d j (by rw [hN]; exact hj)
    rw [hN] at this
    exact this
  refine ⟨?_, ?_, ?_⟩
  · rw [e8, e7, a5.2]
    unfold manchesterSchedule
    rw [← hbits]
    simp [txBits, encodeBits, encodeBit_eq]
  · have : 2 * (m + 1) + 7 = 2 + (2 * m + 1) + 6 := by omega
    rw [this]
    refine sendingUpTo_add (sendingUpTo_add u2 (by rw [e2]; exact u3)) ?_
    rw [timerTicks_add, e2]
    exact u4
  · rw [e8, e7]
    exact a5.1

theorem bitsMSB_mod (f n : Nat) : ∀ k, k ≤ n → bitsMSB (f % 2 ^ n) k = bitsMSB f k := by
  intro k
  induction k with
  | zero => intro _; rfl
  | succ k ih =>
    intro hk
    simp only [bitsMSB]
    rw [ih (by omega), Nat.testBit_mod_two_pow]
    have : k < n := by omega
    simp [this]

theorem bitsMSB_congr (f g n : Nat) (h : g % 2 ^ n = f % 2 ^ n) : bitsMSB g n = bitsMSB f n := by
  rw [← bitsMSB_mod g n n (Nat.le_refl n), ← bitsMSB_mod f n n (Nat.le_refl n), h]

theorem txWritten_of_log {s t : State} {l : List Nat} (h : t.txLog = s.txLog ++ l) :
    txWritten s t = l := by
  unfold txWritten
  rw [h]
  simp

/-! ## C2: the encoder schedule -/

/-- C2. For every frame value and every frame shape of `N` data bits (8 for a
backward frame, 16 for a forward frame with `deviceMode = 1`, 24 with
`deviceMode = 0`), the levels written to the TX pin by `DALIProcessSendData`
and the following `2 N + 8` bit-timer interrupts are exactly the Manchester
schedule: low, high, then low-high for a 1 and high-low for a 0 over the `N`
low bits from the most significant one, then six half-bits of high. The
driver is in `SEND_DATA` before each of these interrupts and has left it after
the last one; a frame value with the same `N` low bits gives the same levels. -/
theorem encoder_schedule (s : State) (d : DALITxData) :
    txWritten s (timerTicks (DALIProcessSendData s d)
        (2 * frameBits s.DALIFlags.deviceMode d.frameType + 8))
      = manchesterSchedule (frameBits s.DALIFlags.deviceMode d.frameType) d.frame
    ∧ (∀ j, j < 2 * frameBits s.DALIFlags.deviceMode d.frameType + 8 →
        (timerTicks (DALIProcessSendData s d) j).daliState = dali_state_t.SEND_DATA)
    ∧ (timerTicks (DALIProcessSendData s d)
        (2 * frameBits s.DALIFlags.deviceMode d.frameType + 8)).daliState
        ≠ dali_state_t.SEND_DATA
    ∧ (∀ g, g % 2 ^ frameBits s.DALIFlags.deviceMode d.frameType
          = d.frame % 2 ^ frameBits s.DALIFlags.deviceMode d.frameType →
        txWritten s (timerTicks (DALIProcessSendData s { d with frame := g })
            (2 * frameBits s.DALIFlags.deviceMode d.frameType + 8))
          = txWritten s (timerTicks (DALIProcessSendData s d)
            (2 * frameBits s.DALIFlags.deviceMode d.frameType + 8))) := by
  obtain ⟨h1, h2, h3⟩ := send_schedule s d
  refine ⟨txWritten_of_log h1, fun j hj => h2 j (by omega), h3, ?_⟩
  intro g hg
  obtain ⟨k1, _, _⟩ := send_schedule s { d with frame := g }
  rw [txWritten_of_log h1, txWritten_of_log k1]
  unfold manchesterSchedule
  rw [bitsMSB_congr _ _ _ hg]

/-! ## Runs and reachable states -/

theorem run_snoc (s : State) (es : List Event) (e : Event) :
    run s (es ++ [e]) = step (run s es) e := by
  simp [run, List.foldl_append]

theorem reachable_init : Reachable (DALIInit bootState) := ⟨[], rfl⟩

theorem reachable_step {s : State} (h : Reachable s) (e : Event) : Reachable (step s e) := by
  obtain ⟨es, rfl⟩ := h
  exact ⟨es ++ [e], (run_snoc _ _ _).symm⟩

theorem reachable_induction {P : State → Prop} (h0 : P (DALIInit bootState))
    (hs : ∀ s e, P s → P (step s e)) : ∀ s, Reachable s → P s := by
  rintro s ⟨es, rfl⟩
  induction es using List.reverseRecOn with
  | nil => exact h0
  | append_singleton es e ih => rw [run_snoc]; exact hs _ _ ih

theorem clearFlags_daliState (s : State) : (DALIClearFlags s).daliState = s.daliState := rfl

theorem appendToQueue_daliState (s : State) : (DALIAppendToQueue s).daliState = s.daliState := by
  unfold DALIAppendToQueue
  split_ifs <;> rfl

theorem processSend_daliState (s : State) (d : DALITxData) :
    (DALIProcessSendData s d).daliState = dali_state_t.SEND_DATA := rfl

theorem sendDataAdvance_daliState (s : State) :
    (sendDataAdvance s).daliState = s.daliState := by
  unfold sendDataAdvance
  dsimp only
  split_ifs <;> rfl

theorem writePinOpt_daliState (s : State) (l : Option Nat) :
    (writePinOpt s l).daliState = s.daliState := by
  cases l <;> rfl

theorem sendDataDone_daliState (s : State) : (sendDataDone s).daliState = s.daliState := by
  unfold sendDataDone
  split_ifs
  · exact appendToQueue_daliState _
  · rfl

theorem sendDataHalfBit_daliState (s : State) (h : s.daliState = dali_state_t.SEND_DATA) :
    (sendDataHalfBit s).daliState = dali_state_t.SEND_DATA
    ∨ (sendDataHalfBit s).daliState = dali_state_t.PRE_IDLE
    ∨ (sendDataHalfBit s).daliState = dali_state_t.WAIT_FOR_BACKFRAME := by
  unfold sendDataHalfBit
  dsimp only [set_timer_reload_val, writePin]
  split_ifs <;>
    simp only [sendDataDone_daliState, writePinOpt_daliState, h, true_or, or_true]

theorem timerSendData_daliState (s : State) (h : s.daliState = dali_state_t.SEND_DATA) :
    (timerSendData s).daliState = dali_state_t.SEND_DATA
    ∨ (timerSendData s).daliState = dali_state_t.PRE_IDLE
    ∨ (timerSendData s).daliState = dali_state_t.WAIT_FOR_BACKFRAME := by
  unfold timerSendData
  rw [sendDataAdvance_daliState]
  exact sendDataHalfBit_daliState s h

theorem classifyFrame_daliState (s : State) (b : Bool) :
    (classifyFrame s b).daliState = dali_state_t.PRE_IDLE
    ∨ (classifyFrame s b).daliState = dali_state_t.WAIT_TO_SEND_BACKFRAME := by
  unfold classifyFrame
  by_cases h8 : s.rxPacketLen = 8
  · rw [if_pos h8]; left; rfl
  · rw [if_neg h8]
    by_cases h24 : s.rxPacketLen = 24
    · rw [if_pos h24]; right; rfl
    · rw [if_neg h24]; left; rfl

theorem timerReceiveData_daliState (s : State) :
    (timerReceiveData s).daliState = dali_state_t.RECEIVE_DATA_EXTRA_TE
    ∨ (timerReceiveData s).daliState = dali_state_t.PRE_IDLE
    ∨ (timerReceiveData s).daliState = dali_state_t.WAIT_TO_SEND_BACKFRAME := by
  unfold timerReceiveData
  split_ifs
  · left; rfl
  · right; exact classifyFrame_daliState _ _

theorem timerWaitForBackframe_daliState (s : State) :
    (timerWaitForBackframe s).daliState = dali_state_t.SEND_DATA
    ∨ (timerWaitForBackframe s).daliState = dali_state_t.PRE_IDLE := by
  unfold timerWaitForBackframe
  split_ifs
  · left; simp only [set_timer_reload_val, writePin]
  · right; simp only [set_timer_reload_val]

theorem timerWaitToSend_daliState (s : State) :
    (timerWaitToSendBackframe s).daliState = dali_state_t.WAIT_FOR_SECOND_FORFRAME
    ∨ (timerWaitToSendBackframe s).daliState = dali_state_t.SEND_DATA
    ∨ (timerWaitToSendBackframe s).daliState = dali_state_t.PRE_IDLE := by
  unfold timerWaitToSendBackframe
  split_ifs
  · left; simp only [set_timer_reload_val]
  · right; left; simp only [processSend_daliState]
  · right; right; simp only [set_timer_reload_val]

theorem timerPreIdle_daliState (s : State) (h : s.daliState = dali_state_t.PRE_IDLE) :
    (timerPreIdle s).daliState = dali_state_t.SEND_DATA
    ∨ (timerPreIdle s).daliState = dali_state_t.PRE_IDLE
    ∨ (timerPreIdle s).daliState = dali_state_t.IDLE := by
  unfold timerPreIdle
  split_ifs <;>
    simp only [set_timer_reload_val, disable_timer_int, processSend_daliState, h, true_or,
      or_true]

theorem timerBreak_daliState (s : State) (a b : Nat) :
    (timerBreak s a b).daliState = dali_state_t.PRE_IDLE := by
  simp only [timerBreak]

theorem timerSecond_daliState (s : State) :
    (timerWaitForSecondForframe s).daliState = dali_state_t.PRE_IDLE := by
  simp only [timerWaitForSecondForframe]

theorem timer_idle {s : State} (h : s.daliState = dali_state_t.IDLE) (a b : Nat) :
    DALITimerIntHandler s a b = disable_timer_int s := by
  unfold DALITimerIntHandler; rw [h]

theorem timer_receive {s : State} (h : s.daliState = dali_state_t.RECEIVE_DATA) (a b : Nat) :
    DALITimerIntHandler s a b = timerReceiveData s := by
  unfold DALITimerIntHandler; rw [h]

theorem timer_extra {s : State} (h : s.daliState = dali_state_t.RECEIVE_DATA_EXTRA_TE)
    (a b : Nat) : DALITimerIntHandler s a b = timerReceiveDataExtraTE s := by
  unfold DALITimerIntHandler; rw [h]

theorem timer_second {s : State} (h : s.daliState = dali_state_t.WAIT_FOR_SECOND_FORFRAME)
    (a b : Nat) : DALITimerIntHandler s a b = timerWaitForSecondForframe s := by
  unfold DALITimerIntHandler; rw [h]

theorem timer_waitBack {s : State} (h : s.daliState = dali_state_t.WAIT_FOR_BACKFRAME)
    (a b : Nat) : DALITimerIntHandler s a b = timerWaitForBackframe s := by
  unfold DALITimerIntHandler; rw [h]

theorem timer_toSend {s : State} (h : s.daliState = dali_state_t.WAIT_TO_SEND_BACKFRAME)
    (a b : Nat) : DALITimerIntHandler s a b = timerWaitToSendBackframe s := by
  unfold DALITimerIntHandler; rw [h]

theorem timer_after {s : State} (h : s.daliState = dali_state_t.WAIT_AFTER_RX_BACKFRAME)
    (a b : Nat) :
    DALITimerIntHandler s a b = disable_timer_int { s with daliState := dali_state_t.IDLE } := by
  unfold DALITimerIntHandler; rw [h]

theorem timer_break {s : State} (h : s.daliState = dali_state_t.BREAK) (a b : Nat) :
    DALITimerIntHandler s a b = timerBreak s a b := by
  unfold DALITimerIntHandler; rw [h]

theorem timer_preIdle {s : State} (h : s.daliState = dali_state_t.PRE_IDLE) (a b : Nat) :
    DALITimerIntHandler s a b = timerPreIdle s := by
  unfold DALITimerIntHandler; rw [h]

theorem tick_ne_receive (s : State) (a b : Nat) :
    (DALITimerIntHandler s a b).daliState ≠ dali_state_t.RECEIVE_DATA := by
  intro hc
  cases h : s.daliState
  · rw [timer_idle h] at hc
    simp only [disable_timer_int, h] at hc
    exact absurd hc (by decide)
  · rw [timer_send h] at hc
    rcases timerSendData_daliState s h with h1 | h1 | h1 <;> rw [h1] at hc <;>
      exact absurd hc (by decide)
  · rw [timer_receive h] at hc
    rcases timerReceiveData_daliState s with h1 | h1 | h1 <;> rw [h1] at hc <;>
      exact absurd hc (by decide)
  · rw [timer_extra h] at hc
    rcases classifyFrame_daliState s true with h1 | h1 <;>
      (unfold timerReceiveDataExtraTE at hc; rw [h1] at hc; exact absurd hc (by decide))
  · rw [timer_second h, timerSecond_daliState] at hc; exact absurd hc (by decide)
  · rw [timer_waitBack h] at hc
    rcases timerWaitForBackframe_daliState s with h1 | h1 <;> rw [h1] at hc <;>
      exact absurd hc (by decide)
  · rw [timer_toSend h] at hc
    rcases timerWaitToSend_daliState s with h1 | h1 | h1 <;> rw [h1] at hc <;>
      exact absurd hc (by decide)
  · rw [timer_after h] at hc
    simp only [disable_timer_int] at hc
    exact absurd hc (by decide)
  · rw [timer_break h, timerBreak_daliState] at hc; exact absurd hc (by decide)
  · rw [timer_preIdle h] at hc
    rcases timerPreIdle_daliState s h with h1 | h1 | h1 <;> rw [h1] at hc <;>
      exact absurd hc (by decide)

/-! ## The receive path: one edge -/

theorem shl1_eq (p : Nat) : (p <<< 1) % 2 ^ 32 = (2 * p) % 2 ^ 32 := by
  rw [Nat.shiftLeft_eq]; congr 1; omega

theorem shl1_or1_eq (p : Nat) : ((p <<< 1) % 2 ^ 32) ||| 1 = (2 * p + 1) % 2 ^ 32 := by
  rw [shl1_eq]
  have h : (2 * p) % 2 ^ 32 = 2 ^ 1 * ((2 * p) % 2 ^ 32 / 2) := by omega
  rw [h, ← Nat.mul_add_lt_is_or (by norm_num : 1 < 2 ^ 1)]
  omega

theorem shl1_lit (p : Nat) : (p <<< 1) % 4294967296 = (2 * p) % 4294967296 :=
  shl1_eq p

theorem mul2_or1_lit (p : Nat) :
    ((2 * p) % 4294967296) ||| 1 = (2 * p + 1) % 4294967296 := by
  rw [← shl1_lit]; exact shl1_or1_eq p

theorem edge_receive {s : State} (h : s.daliState = dali_state_t.RECEIVE_DATA)
    (a b c : Nat) : DALIRxIntHandler s a b c = rxReceiveData s b := by
  unfold DALIRxIntHandler; rw [h]

theorem rxReceiveData_daliState (s : State) (t : Nat) :
    (rxReceiveData s t).daliState = s.daliState := by
  unfold rxReceiveData
  dsimp only [reset_timer, set_timer_reload_val, enable_timer_int]
  split_ifs <;> rfl

/-- The effect of one edge in `RECEIVE_DATA` on the decoder variables. -/
theorem rxReceiveData_table (s : State) (t : Nat) (hh : s.halfBitNumber ≤ 4) :
    match decodeTable s.halfBitNumber (rxInterval t) with
    | some (h', none) =>
        (rxReceiveData s t).halfBitNumber = h'
        ∧ (rxReceiveData s t).rxPacket = s.rxPacket
        ∧ (rxReceiveData s t).rxPacketLen = s.rxPacketLen
        ∧ (rxReceiveData s t).DALIFlags = s.DALIFlags
    | some (h', some b) =>
        (rxReceiveData s t).halfBitNumber = h'
        ∧ (rxReceiveData s t).rxPacket = (2 * s.rxPacket + b) % 2 ^ 32
        ∧ (rxReceiveData s t).rxPacketLen = (s.rxPacketLen + 1) % 256
        ∧ (rxReceiveData s t).DALIFlags = s.DALIFlags
    | none =>
        (rxReceiveData s t).DALIFlags
            = { s.DALIFlags with rxError := DALIRxError_t.BIT_TIMING_ERROR }
        ∧ (rxReceiveData s t).halfBitNumber = s.halfBitNumber
        ∧ (rxReceiveData s t).rxPacket = s.rxPacket
        ∧ (rxReceiveData s t).rxPacketLen = s.rxPacketLen := by
  have hcls : ((2366 ≤ t ∧ t ≤ 4300) ∧ rxInterval t = RxInterval.single)
      ∨ (¬ (2366 ≤ t ∧ t ≤ 4300) ∧ (5132 ≤ t ∧ t ≤ 8200) ∧ rxInterval t = RxInterval.double)
      ∨ (¬ (2366 ≤ t ∧ t ≤ 4300) ∧ ¬ (5132 ≤ t ∧ t ≤ 8200)
          ∧ rxInterval t = RxInterval.invalid) := by
    unfold rxInterval
    by_cases h1 : 2366 ≤ t ∧ t ≤ 4300
    · left; simp [h1]
    · by_cases h2 : 5132 ≤ t ∧ t ≤ 8200
      · right; left; simp [h1, h2]
      · right; right; simp [h1, h2]
  have hv : s.halfBitNumber = 0 ∨ s.halfBitNumber = 1 ∨ s.halfBitNumber = 2
      ∨ s.halfBitNumber = 3 ∨ s.halfBitNumber = 4 := by omega
  rcases hv with hv | hv | hv | hv | hv <;>
    rcases hcls with ⟨h1, hc⟩ | ⟨h1, h2, hc⟩ | ⟨h1, h2, hc⟩ <;>
    rw [hv, hc] <;> simp only [decodeTable] <;>
    simp [rxReceiveData, reset_timer, set_timer_reload_val, enable_timer_int, TE_RX_MIN,
      TE_RX_MAX, TE2_RX_MIN, TE2_RX_MAX, hv, h1, shl1_lit, mul2_or1_lit, *]


theorem rxReceiveData_half (s : State) (t : Nat) (h : s.halfBitNumber ≤ 4) :
    (rxReceiveData s t).halfBitNumber ≤ 4 := by
  have hv : s.halfBitNumber = 0 ∨ s.halfBitNumber = 1 ∨ s.halfBitNumber = 2
      ∨ s.halfBitNumber = 3 ∨ s.halfBitNumber = 4 := by omega
  rcases hv with hv | hv | hv | hv | hv <;>
    by_cases h1 : TE_RX_MIN ≤ t ∧ t ≤ TE_RX_MAX <;>
    by_cases h2 : TE2_RX_MIN ≤ t ∧ t ≤ TE2_RX_MAX <;>
    simp [rxReceiveData, reset_timer, set_timer_reload_val, enable_timer_int, hv, h1, h2]

theorem signalCollision_daliState (s : State) :
    (signalCollision s).daliState = dali_state_t.BREAK := by
  unfold signalCollision
  simp only [writePin, reset_timer, set_timer_reload_val, enable_timer_int,
    appendToQueue_daliState]

theorem rxSendData_daliState (s : State) (a b c : Nat)
    (h : s.daliState = dali_state_t.SEND_DATA) :
    (rxSendData s a b c).daliState = dali_state_t.SEND_DATA
    ∨ (rxSendData s a b c).daliState = dali_state_t.BREAK := by
  unfold rxSendData
  dsimp only [set_timer_count]
  split_ifs <;> simp only [signalCollision_daliState, h, true_or, or_true]

theorem startReceive_daliState (s : State) (b : Bool) :
    (startReceive s b).daliState = dali_state_t.RECEIVE_DATA := rfl

theorem startReceive_halfBitNumber (s : State) (b : Bool) :
    (startReceive s b).halfBitNumber = 0 := rfl

theorem edge_rxHalfInv (s : State) (a b c : Nat) (h : RxHalfInv s) :
    RxHalfInv (DALIRxIntHandler s a b c) := by
  unfold RxHalfInv at *
  intro hc
  cases hst : s.daliState <;> unfold DALIRxIntHandler at hc ⊢ <;> rw [hst] at hc ⊢ <;>
    dsimp only at hc ⊢
  · split_ifs at hc ⊢
    · simp only [writePin, hst] at hc; exact absurd hc (by decide)
    · rw [startReceive_halfBitNumber]; omega
  · rcases rxSendData_daliState s a b c hst with h1 | h1 <;> rw [h1] at hc <;>
      exact absurd hc (by decide)
  · exact rxReceiveData_half s b (h hst)
  · exact absurd hc (by decide)
  · rw [startReceive_halfBitNumber]; omega
  · rw [startReceive_halfBitNumber]; omega
  · rw [startReceive_halfBitNumber]; omega
  · split_ifs at hc ⊢
    · simp only [writePin, hst] at hc; exact absurd hc (by decide)
    · rw [startReceive_halfBitNumber]; omega
  · rw [hst] at hc; exact absurd hc (by decide)
  · split_ifs at hc ⊢
    · simp only [writePin, hst] at hc; exact absurd hc (by decide)
    · rw [startReceive_halfBitNumber]; omega

theorem sendData_state (s : State) (d : DALITxData) :
    ((DALISendData s d).1.daliState = dali_state_t.SEND_DATA ∧ s.daliState = dali_state_t.IDLE)
    ∨ ((DALISendData s d).1.daliState = s.daliState
        ∧ (DALISendData s d).1.halfBitNumber = s.halfBitNumber
        ∧ (DALISendData s d).1.DALIFlags = s.DALIFlags
        ∧ s.daliState ≠ dali_state_t.IDLE) := by
  unfold DALISendData
  by_cases h1 : (s.txDataW + 1) % TX_QUEUE_SIZE ≠ s.txDataR <;>
    by_cases h2 : s.daliState = dali_state_t.IDLE
  · left; rw [if_pos h1]; dsimp only; rw [if_pos h2]; exact ⟨rfl, h2⟩
  · right; rw [if_pos h1]; dsimp only; rw [if_neg h2]; exact ⟨rfl, rfl, rfl, h2⟩
  · left; rw [if_neg h1, if_pos h2]; exact ⟨rfl, h2⟩
  · right; rw [if_neg h1, if_neg h2]; exact ⟨rfl, rfl, rfl, h2⟩

theorem sendData_rxHalfInv (s : State) (d : DALITxData) (h : RxHalfInv s) :
    RxHalfInv (DALISendData s d).1 := by
  unfold RxHalfInv at *
  intro hc
  rcases sendData_state s d with ⟨h1, _⟩ | ⟨h1, h2, _, _⟩
  · rw [h1] at hc; exact absurd hc (by decide)
  · rw [h2]; rw [h1] at hc; exact h hc

theorem checkCable_fields (s : State) (p : Nat) :
    (DALICheckCable s p).daliState = s.daliState
    ∧ (DALICheckCable s p).halfBitNumber = s.halfBitNumber := by
  unfold DALICheckCable
  dsimp only
  split_ifs <;> exact ⟨rfl, rfl⟩

theorem step_rxHalfInv (s : State) (e : Event) (h : RxHalfInv s) : RxHalfInv (step s e) := by
  cases e with
  | edge a b c => exact edge_rxHalfInv s a b c h
  | tick a b => intro hc; exact absurd hc (tick_ne_receive s a b)
  | send d => exact sendData_rxHalfInv s d h
  | receive =>
    unfold step
    split_ifs
    · exact h
    · exact h
  | receiveTwice => exact h
  | configureMode m => exact h
  | checkCable p =>
    unfold step RxHalfInv
    dsimp only
    rw [(checkCable_fields s p).1, (checkCable_fields s p).2]
    exact h

theorem reachable_rxHalfInv (s : State) (h : Reachable s) : RxHalfInv s := by
  refine reachable_induction ?_ step_rxHalfInv s h
  intro hc
  exact absurd hc (by decide)

/-! ## C3: the receive decode table -/

/-- C3. In every reachable state in `RECEIVE_DATA` the half-bit position is
one of 0..4, and an edge with measured interval `t` does exactly what the
decode table says: for TE (2366 ≤ t ≤ 4300) and 2TE (5132 ≤ t ≤ 8200),
(0,TE) gives position 3, (1,TE) shifts in 0 and gives 4, (2,TE) shifts in 1
and gives 3, (3,TE) gives 2, (3,2TE) shifts in 0 and gives 4, (4,TE) gives 1,
(4,2TE) shifts in 1 and gives 3, each leaving the flags unchanged; every other
combination sets `rxError = BIT_TIMING_ERROR` and leaves position, packet and
length unchanged. Shifting in `b` is `rxPacket := 2 * rxPacket + b` on the
32-bit variable and `rxPacketLen := rxPacketLen + 1` on the 8-bit variable. -/
theorem rx_decode_table (s : State) (hr : Reachable s)
    (hs : s.daliState = dali_state_t.RECEIVE_DATA) (rxPin t t3 : Nat) :
    s.halfBitNumber ≤ 4
    ∧ (DALIRxIntHandler s rxPin t t3).daliState = dali_state_t.RECEIVE_DATA
    ∧ match decodeTable s.halfBitNumber (rxInterval t) with
      | some (h', none) =>
          (DALIRxIntHandler s rxPin t t3).halfBitNumber = h'
          ∧ (DALIRxIntHandler s rxPin t t3).rxPacket = s.rxPacket
          ∧ (DALIRxIntHandler s rxPin t t3).rxPacketLen = s.rxPacketLen
          ∧ (DALIRxIntHandler s rxPin t t3).DALIFlags = s.DALIFlags
      | some (h', some b) =>
          (DALIRxIntHandler s rxPin t t3).halfBitNumber = h'
          ∧ (DALIRxIntHandler s rxPin t t3).rxPacket = (2 * s.rxPacket + b) % 2 ^ 32
          ∧ (DALIRxIntHandler s rxPin t t3).rxPacketLen = (s.rxPacketLen + 1) % 256
          ∧ (DALIRxIntHandler s rxPin t t3).DALIFlags = s.DALIFlags
      | none =>
          (DALIRxIntHandler s rxPin t t3).DALIFlags
              = { s.DALIFlags with rxError := DALIRxError_t.BIT_TIMING_ERROR }
          ∧ (DALIRxIntHandler s rxPin t t3).halfBitNumber = s.halfBitNumber
          ∧ (DALIRxIntHandler s rxPin t t3).rxPacket = s.rxPacket
          ∧ (DALIRxIntHandler s rxPin t t3).rxPacketLen = s.rxPacketLen := by
  have hh := reachable_rxHalfInv s hr hs
  rw [edge_receive hs]
  refine ⟨hh, ?_, rxReceiveData_table s t hh⟩
  rw [rxReceiveData_daliState]
  exact hs

/-- Witness for C3: the state after the start edge of a frame is reachable and
in `RECEIVE_DATA` at position 0; an edge 3333 ticks later gives position 3. -/
theorem rx_decode_table_witness :
    Reachable (run (DALIInit bootState) [Event.edge DALI_LO 0 0])
    ∧ (run (DALIInit bootState) [Event.edge DALI_LO 0 0]).daliState
        = dali_state_t.RECEIVE_DATA
    ∧ (DALIRxIntHandler (run (DALIInit bootState) [Event.edge DALI_LO 0 0])
        DALI_HI 3333 0).halfBitNumber = 3 :=
  ⟨⟨_, rfl⟩, rfl,
    (rx_decode_table (run (DALIInit bootState) [Event.edge DALI_LO 0 0]) ⟨_, rfl⟩ rfl
      DALI_HI 3333 0).2.2.1⟩

/-! ## The receive path: the end of a frame -/

theorem classifyFrame_effect (s : State) (b : Bool)
    (hst : s.daliState = dali_state_t.RECEIVE_DATA
      ∨ s.daliState = dali_state_t.RECEIVE_DATA_EXTRA_TE) :
    (classifyFrame s b).daliState = frameEndNext s
    ∧ (classifyFrame s b).tim2Reload = frameEndTimer s
    ∧ (classifyFrame s b).rxDataR = s.rxDataR
    ∧ (classifyFrame s b).rxData
        = (if rxFree s then Function.update s.rxData s.rxDataW (frameEndRecord s) else s.rxData)
    ∧ (classifyFrame s b).rxDataW
        = (if rxFree s then (s.rxDataW + 1) % RX_QUEUE_SIZE else s.rxDataW) := by
  have h42 : ¬ (s.halfBitNumber = 2 ∧ s.halfBitNumber = 4) := by omega
  unfold frameEndNext frameEndTimer frameEndRecord rxFree
  rcases hst with hst | hst <;> by_cases h8 : s.rxPacketLen = 8 <;>
    by_cases h24 : s.rxPacketLen = 24 <;>
    by_cases hf : (s.rxDataW + 1) % RX_QUEUE_SIZE ≠ s.rxDataR <;>
    simp [classifyFrame, h8, h24, DALIAppendToQueue, DALIClearFlags, set_timer_reload_val,
      rxRecord, hst, hf, h42, TE_TX_WAIT_FF1, TE_TX_WAIT_BF]

theorem land_one_ne_zero (p : Nat) : (p &&& 0x01 ≠ 0x00) ↔ p % 2 = 1 := by
  rw [Nat.and_one_is_mod]; omega

theorem timerReceiveData_extra (s : State) (h : extraTE s) :
    timerReceiveData s
      = set_timer_reload_val { s with daliState := dali_state_t.RECEIVE_DATA_EXTRA_TE } TE := by
  unfold timerReceiveData
  have : (s.rxPacketLen = 8 ∨ s.rxPacketLen = 24) ∧ s.rxPacket &&& 0x01 ≠ 0x00 :=
    ⟨h.1, (land_one_ne_zero _).2 h.2⟩
  rw [if_pos this]

theorem timerReceiveData_classify (s : State) (h : ¬ extraTE s) :
    timerReceiveData s = classifyFrame s false := by
  unfold timerReceiveData
  have : ¬ ((s.rxPacketLen = 8 ∨ s.rxPacketLen = 24) ∧ s.rxPacket &&& 0x01 ≠ 0x00) := by
    intro hc
    exact h ⟨hc.1, (land_one_ne_zero _).1 hc.2⟩
  rw [if_neg this]

theorem classifyFrame_frameEnd (s : State) (b : Bool)
    (hst : s.daliState = dali_state_t.RECEIVE_DATA
      ∨ s.daliState = dali_state_t.RECEIVE_DATA_EXTRA_TE) :
    FrameEnd s (classifyFrame s b) :=
  classifyFrame_effect s b hst

theorem frameEnd_ne_extra {s t : State} (h : FrameEnd s t) :
    t.daliState ≠ dali_state_t.RECEIVE_DATA_EXTRA_TE := by
  rw [h.1]
  unfold frameEndNext
  split_ifs <;> decide

/-! ## C5: the end-of-frame classification -/

/-- C5, as amended. On the stop-floor expiry in `RECEIVE_DATA` the extra-TE
delay is taken exactly when `rxPacketLen` is 8 or 24 and the last received bit
is 1 (state `RECEIVE_DATA_EXTRA_TE`, `TE` armed, nothing else changed).
When it is not taken, and identically on the expiry in
`RECEIVE_DATA_EXTRA_TE`, the frame is classified by `rxPacketLen` as
`FrameEnd` says: 8 is a backward frame, with `FRAME_TIMING_ERROR` if
`rxFromState ≠ WAIT_FOR_BACKFRAME`, next state `PRE_IDLE` with
`TE_TX_WAIT_FF1`; 24 is a forward frame, with `FRAME_TIMING_ERROR` if
`rxFromState = WAIT_FOR_BACKFRAME`, next state `WAIT_TO_SEND_BACKFRAME` with
`TE_TX_WAIT_BF`; any other length is `FRAME_SIZE_ERROR` and `PRE_IDLE` with
`TE_TX_WAIT_FF1`. One record with `rxDone = 1` is stored at the write index
when the RX queue has a free slot; when the queue is full no record is stored
and the queue is unchanged. Both paths are the same function of the same
inputs. -/
theorem end_of_frame (s : State) (rxPin rnd : Nat) :
    (s.daliState = dali_state_t.RECEIVE_DATA →
      (extraTE s →
        DALITimerIntHandler s rxPin rnd
          = set_timer_reload_val { s with daliState := dali_state_t.RECEIVE_DATA_EXTRA_TE } TE)
      ∧ (¬ extraTE s → FrameEnd s (DALITimerIntHandler s rxPin rnd))
      ∧ ((DALITimerIntHandler s rxPin rnd).daliState = dali_state_t.RECEIVE_DATA_EXTRA_TE
          ↔ extraTE s))
    ∧ (s.daliState = dali_state_t.RECEIVE_DATA_EXTRA_TE →
        FrameEnd s (DALITimerIntHandler s rxPin rnd)) := by
  constructor
  · intro hs
    rw [timer_receive hs]
    refine ⟨timerReceiveData_extra s, ?_, ?_⟩
    · intro h
      rw [timerReceiveData_classify s h]
      exact classifyFrame_frameEnd s false (Or.inl hs)
    · constructor
      · intro h
        by_contra hc
        rw [timerReceiveData_classify s hc] at h
        exact frameEnd_ne_extra (classifyFrame_frameEnd s false (Or.inl hs)) h
      · intro h
        rw [timerReceiveData_extra s h]
        rfl
  · intro hs
    rw [timer_extra hs]
    exact classifyFrame_frameEnd s true (Or.inr hs)


/-- Witness for C5: the start edge of a frame followed by the stop-floor
expiry is classified as a frame of length 0. -/
theorem end_of_frame_witness :
    FrameEnd (run (DALIInit bootState) [Event.edge DALI_LO 0 0])
      (DALITimerIntHandler (run (DALIInit bootState) [Event.edge DALI_LO 0 0]) DALI_HI 0) :=
  ((end_of_frame (run (DALIInit bootState) [Event.edge DALI_LO 0 0]) DALI_HI 0).1 rfl).2.1
    (by unfold extraTE; decide)

set_option maxRecDepth 100000 in
/-- Counterexample to C5 as stated: with 19 unread records in the RX queue the
stop-floor expiry in `RECEIVE_DATA` classifies the frame and goes to
`PRE_IDLE`, but no record is enqueued: the write index and all twenty slots
are as before. -/
theorem end_of_frame_full_queue :
    fullQueueState.daliState = dali_state_t.RECEIVE_DATA
    ∧ fullQueueState.rxDataR = 0 ∧ fullQueueState.rxDataW = 19
    ∧ (DALITimerIntHandler fullQueueState DALI_HI 0).daliState = dali_state_t.PRE_IDLE
    ∧ (DALITimerIntHandler fullQueueState DALI_HI 0).rxDataW = fullQueueState.rxDataW
    ∧ ∀ i, i < 20 → (DALITimerIntHandler fullQueueState DALI_HI 0).rxData i
        = fullQueueState.rxData i := by
  decide

theorem frameEndRecord_error (s : State)
    (h : s.DALIFlags.rxError ≠ DALIRxError_t.NO_ERROR) :
    (frameEndRecord s).rxError ≠ DALIRxError_t.NO_ERROR := by
  unfold frameEndRecord
  split_ifs <;> first | exact h | simp

theorem frameEnd_changed_error {s t : State} (h : FrameEnd s t)
    (he : s.DALIFlags.rxError ≠ DALIRxError_t.NO_ERROR) (i : Nat)
    (hi : t.rxData i ≠ s.rxData i) : (t.rxData i).rxError ≠ DALIRxError_t.NO_ERROR := by
  obtain ⟨_, _, _, h4, _⟩ := h
  rw [h4] at hi ⊢
  by_cases hf : rxFree s
  · rw [if_pos hf] at hi ⊢
    by_cases hw : i = s.rxDataW
    · subst hw
      rw [Function.update_same]
      exact frameEndRecord_error s he
    · rw [Function.update_noteq hw] at hi
      exact absurd rfl hi
  · rw [if_neg hf] at hi
    exact absurd rfl hi

theorem rxReceiveData_flags (s : State) (t : Nat) :
    ((rxReceiveData s t).DALIFlags = s.DALIFlags
      ∨ (rxReceiveData s t).DALIFlags
          = { s.DALIFlags with rxError := DALIRxError_t.BIT_TIMING_ERROR })
    ∧ (rxReceiveData s t).rxData = s.rxData := by
  unfold rxReceiveData
  dsimp only [reset_timer, set_timer_reload_val, enable_timer_int]
  split_ifs <;> first | exact ⟨Or.inl rfl, rfl⟩ | exact ⟨Or.inr rfl, rfl⟩

theorem edge_extra {s : State} (h : s.daliState = dali_state_t.RECEIVE_DATA_EXTRA_TE)
    (a b c : Nat) :
    DALIRxIntHandler s a b c
      = { s with DALIFlags :=
            { s.DALIFlags with rxError := DALIRxError_t.BIT_TIMING_ERROR } } := by
  unfold DALIRxIntHandler; rw [h]

theorem sendData_rxData (s : State) (d : DALITxData)
    (h : s.daliState ≠ dali_state_t.IDLE) : (DALISendData s d).1.rxData = s.rxData := by
  unfold DALISendData
  by_cases h1 : (s.txDataW + 1) % TX_QUEUE_SIZE ≠ s.txDataR
  · rw [if_pos h1]; dsimp only; rw [if_neg h]
  · rw [if_neg h1, if_neg h]

theorem checkCable_rx (s : State) (p : Nat) :
    (DALICheckCable s p).daliState = s.daliState
    ∧ (DALICheckCable s p).DALIFlags.rxError = s.DALIFlags.rxError
    ∧ (DALICheckCable s p).rxData = s.rxData := by
  unfold DALICheckCable
  dsimp only
  split_ifs <;> exact ⟨rfl, rfl, rfl⟩

theorem step_rxFailing (q : Nat → DALIRxData) (d : dali_state_t)
    (hd : d = dali_state_t.RECEIVE_DATA ∨ d = dali_state_t.RECEIVE_DATA_EXTRA_TE)
    (u : State) (e : Event) (he : e.isTick = false) (h : RxFailing q d u) :
    RxFailing q d (step u e) := by
  obtain ⟨h1, h2, h3⟩ := h
  cases e with
  | tick a b => simp [Event.isTick] at he
  | edge a b c =>
    change RxFailing q d (DALIRxIntHandler u a b c)
    rcases hd with hd | hd
    · subst hd
      rw [edge_receive h1]
      refine ⟨by rw [rxReceiveData_daliState]; exact h1, ?_, by
        rw [(rxReceiveData_flags u b).2]; exact h3⟩
      rcases (rxReceiveData_flags u b).1 with hf | hf <;> rw [hf]
      · exact h2
      · simp
    · subst hd
      rw [edge_extra h1]
      exact ⟨h1, by simp, h3⟩
  | send dat =>
    have hne : u.daliState ≠ dali_state_t.IDLE := by
      rcases hd with hd | hd <;> rw [h1, hd] <;> decide
    unfold step
    rcases sendData_state u dat with ⟨_, k2⟩ | ⟨k1, _, k3, _⟩
    · exact absurd k2 hne
    · exact ⟨by rw [k1]; exact h1, by rw [k3]; exact h2, by
        rw [sendData_rxData u dat hne]; exact h3⟩
  | receive =>
    change RxFailing q d (if DALIDataAvailable u = true then (DALIReceiveData u).1 else u)
    split_ifs
    · exact ⟨h1, h2, h3⟩
    · exact ⟨h1, h2, h3⟩
  | receiveTwice => exact ⟨h1, h2, h3⟩
  | configureMode m => exact ⟨h1, h2, h3⟩
  | checkCable p =>
    change RxFailing q d (DALICheckCable u p)
    obtain ⟨k1, k2, k3⟩ := checkCable_rx u p
    exact ⟨by rw [k1]; exact h1, by rw [k2]; exact h2, by rw [k3]; exact h3⟩

theorem run_rxFailing (q : Nat → DALIRxData) (d : dali_state_t)
    (hd : d = dali_state_t.RECEIVE_DATA ∨ d = dali_state_t.RECEIVE_DATA_EXTRA_TE)
    (es : List Event) (hes : ∀ e, e ∈ es → e.isTick = false) :
    ∀ u, RxFailing q d u → RxFailing q d (run u es) := by
  induction es with
  | nil => intro u h; exact h
  | cons e es ih =>
    intro u h
    have h1 := step_rxFailing q d hd u e (hes e (List.mem_cons_self _ _)) h
    exact ih (fun e' he' => hes e' (List.mem_cons_of_mem _ he')) _ h1


theorem frameEnd_next {s t : State} (h : FrameEnd s t) :
    t.daliState = dali_state_t.PRE_IDLE ∨ t.daliState = dali_state_t.WAIT_TO_SEND_BACKFRAME := by
  rw [h.1]
  unfold frameEndNext
  split_ifs
  · right; rfl
  · left; rfl

theorem finishFrame_failing (q : Nat → DALIRxData) (u : State) (es es2 : List Event)
    (hes : ∀ e, e ∈ es → e.isTick = false) (hes2 : ∀ e, e ∈ es2 → e.isTick = false)
    (h : RxFailing q dali_state_t.RECEIVE_DATA u) :
    ((finishFrame u es es2).daliState = dali_state_t.PRE_IDLE
      ∨ (finishFrame u es es2).daliState = dali_state_t.WAIT_TO_SEND_BACKFRAME)
    ∧ ∀ i, (finishFrame u es es2).rxData i ≠ q i →
        ((finishFrame u es es2).rxData i).rxError ≠ DALIRxError_t.NO_ERROR := by
  have h1 := run_rxFailing q _ (Or.inl rfl) es hes u h
  obtain ⟨k1, k2, k3⟩ := h1
  unfold finishFrame
  rw [timer_receive k1]
  by_cases hx : extraTE (run u es)
  · rw [timerReceiveData_extra _ hx]
    have hst : (set_timer_reload_val
        { run u es with daliState := dali_state_t.RECEIVE_DATA_EXTRA_TE } TE).daliState
        = dali_state_t.RECEIVE_DATA_EXTRA_TE := rfl
    rw [if_pos hst]
    have h2 : RxFailing q dali_state_t.RECEIVE_DATA_EXTRA_TE (set_timer_reload_val
        { run u es with daliState := dali_state_t.RECEIVE_DATA_EXTRA_TE } TE) :=
      ⟨rfl, k2, k3⟩
    obtain ⟨m1, m2, m3⟩ := run_rxFailing q _ (Or.inr rfl) es2 hes2 _ h2
    rw [timer_extra m1]
    have hf := classifyFrame_frameEnd _ true (Or.inr m1)
    refine ⟨frameEnd_next hf, ?_⟩
    intro i hi
    rw [← m3] at hi
    exact frameEnd_changed_error hf m2 i hi
  · rw [timerReceiveData_classify _ hx]
    have hf := classifyFrame_frameEnd (run u es) false (Or.inl k1)
    rw [if_neg (frameEnd_ne_extra hf)]
    refine ⟨frameEnd_next hf, ?_⟩
    intro i hi
    rw [← k3] at hi
    exact frameEnd_changed_error hf k2 i hi

theorem decodeTable_invalid (h : Nat) : decodeTable h RxInterval.invalid = none := by
  unfold decodeTable
  split <;> simp_all

theorem rxInterval_invalid (t : Nat) (h1 : ¬ (2366 ≤ t ∧ t ≤ 4300))
    (h2 : ¬ (5132 ≤ t ∧ t ≤ 8200)) : rxInterval t = RxInterval.invalid := by
  unfold rxInterval
  rw [if_neg h1, if_neg h2]

/-! ## C4: bit-timing rejection -/

/-- C4. In a reachable state in `RECEIVE_DATA`, an edge whose interval lies
outside [2366, 4300] and [5132, 8200] sets `rxError = BIT_TIMING_ERROR` and
leaves `halfBitNumber`, `rxPacket` and `rxPacketLen` unchanged. Whatever
follows within the frame (any edges and application calls `es`, the stop
expiry, and in `RECEIVE_DATA_EXTRA_TE` any events `es2` and the second
expiry), the reception ends, and every RX record that differs from the
records before the edge, that is the record enqueued for the frame, has
`rxError ≠ NO_ERROR`. -/
theorem bit_timing_rejection (s : State) (hr : Reachable s)
    (hs : s.daliState = dali_state_t.RECEIVE_DATA) (rxPin t t3 : Nat)
    (ht1 : ¬ (2366 ≤ t ∧ t ≤ 4300)) (ht2 : ¬ (5132 ≤ t ∧ t ≤ 8200))
    (es es2 : List Event) (hes : ∀ e, e ∈ es → e.isTick = false)
    (hes2 : ∀ e, e ∈ es2 → e.isTick = false) :
    (DALIRxIntHandler s rxPin t t3).DALIFlags.rxError = DALIRxError_t.BIT_TIMING_ERROR
    ∧ (DALIRxIntHandler s rxPin t t3).halfBitNumber = s.halfBitNumber
    ∧ (DALIRxIntHandler s rxPin t t3).rxPacket = s.rxPacket
    ∧ (DALIRxIntHandler s rxPin t t3).rxPacketLen = s.rxPacketLen
    ∧ ((finishFrame (DALIRxIntHandler s rxPin t t3) es es2).daliState
          = dali_state_t.PRE_IDLE
        ∨ (finishFrame (DALIRxIntHandler s rxPin t t3) es es2).daliState
          = dali_state_t.WAIT_TO_SEND_BACKFRAME)
    ∧ ∀ i, (finishFrame (DALIRxIntHandler s rxPin t t3) es es2).rxData i ≠ s.rxData i →
        ((finishFrame (DALIRxIntHandler s rxPin t t3) es es2).rxData i).rxError
          ≠ DALIRxError_t.NO_ERROR := by
  have hh := reachable_rxHalfInv s hr hs
  have htab := rxReceiveData_table s t hh
  rw [rxInterval_invalid t ht1 ht2, decodeTable_invalid] at htab
  dsimp only at htab
  obtain ⟨a1, a2, a3, a4⟩ := htab
  have hfail : RxFailing s.rxData dali_state_t.RECEIVE_DATA (DALIRxIntHandler s rxPin t t3) := by
    rw [edge_receive hs]
    refine ⟨by rw [rxReceiveData_daliState]; exact hs, ?_, (rxReceiveData_flags s t).2⟩
    rw [a1]; simp
  have hfin := finishFrame_failing s.rxData _ es es2 hes hes2 hfail
  rw [edge_receive hs] at hfin ⊢
  refine ⟨?_, a2, a3, a4, hfin.1, hfin.2⟩
  rw [a1]

/-- Witness for C4: after the start edge of a frame, an edge 100 ticks later
is rejected, and the record enqueued at the stop condition carries an error. -/
theorem bit_timing_rejection_witness :
    Reachable (run (DALIInit bootState) [Event.edge DALI_LO 0 0])
    ∧ (DALIRxIntHandler (run (DALIInit bootState) [Event.edge DALI_LO 0 0])
        DALI_HI 100 0).DALIFlags.rxError = DALIRxError_t.BIT_TIMING_ERROR
    ∧ ((finishFrame (DALIRxIntHandler (run (DALIInit bootState) [Event.edge DALI_LO 0 0])
        DALI_HI 100 0) [] []).rxData 0).rxError ≠ DALIRxError_t.NO_ERROR :=
  ⟨⟨_, rfl⟩,
    (bit_timing_rejection (run (DALIInit bootState) [Event.edge DALI_LO 0 0]) ⟨_, rfl⟩ rfl
      DALI_HI 100 0 (by decide) (by decide) [] [] (by simp) (by simp)).1,
    (bit_timing_rejection (run (DALIInit bootState) [Event.edge DALI_LO 0 0]) ⟨_, rfl⟩ rfl
      DALI_HI 100 0 (by decide) (by decide) [] [] (by simp) (by simp)).2.2.2.2.2 0
      (by decide)⟩

/-! ## The receive path: a whole frame -/

theorem rxReceiveData_queue (s : State) (t : Nat) :
    (rxReceiveData s t).rxDataR = s.rxDataR ∧ (rxReceiveData s t).rxDataW = s.rxDataW := by
  unfold rxReceiveData
  dsimp only [reset_timer, set_timer_reload_val, enable_timer_int]
  split_ifs <;> exact ⟨rfl, rfl⟩

theorem receiving_edge {u : State} {fl : state_flags_t} {q : Nat → DALIRxData}
    {r w h p n : Nat} (hu : Receiving u fl q r w h p n) (hh : h ≤ 4) (lvl t : Nat) :
    match decodeTable h (rxInterval t) with
    | some (h', none) => Receiving (DALIRxIntHandler u lvl t 0) fl q r w h' p n
    | some (h', some b) =>
        Receiving (DALIRxIntHandler u lvl t 0) fl q r w h' ((2 * p + b) % 2 ^ 32)
          ((n + 1) % 256)
    | none => True := by
  obtain ⟨h1, h2, h3, h4, h5, h6, h7, h8⟩ := hu
  have htab := rxReceiveData_table u t (by rw [h6]; exact hh)
  rw [h6] at htab
  rw [edge_receive h1]
  have hst := rxReceiveData_daliState u t
  have hq := (rxReceiveData_flags u t).2
  have hrw := rxReceiveData_queue u t
  cases hd : decodeTable h (rxInterval t) with
  | none => trivial
  | some v =>
    obtain ⟨h', ob⟩ := v
    rw [hd] at htab
    cases ob with
    | none =>
      dsimp only at htab ⊢
      obtain ⟨a1, a2, a3, a4⟩ := htab
      exact ⟨by rw [hst]; exact h1, by rw [a4]; exact h2, by rw [hq]; exact h3,
        by rw [hrw.1]; exact h4, by rw [hrw.2]; exact h5, a1, by rw [a2]; exact h7,
        by rw [a3]; exact h8⟩
    | some b =>
      dsimp only at htab ⊢
      obtain ⟨a1, a2, a3, a4⟩ := htab
      exact ⟨by rw [hst]; exact h1, by rw [a4]; exact h2, by rw [hq]; exact h3,
        by rw [hrw.1]; exact h4, by rw [hrw.2]; exact h5, a1, by rw [a2, h7],
        by rw [a3, h8]⟩

theorem receiving_te {u : State} {fl : state_flags_t} {q : Nat → DALIRxData}
    {r w p n : Nat} (lvl : Nat) :
    (Receiving u fl q r w 0 p n → Receiving (DALIRxIntHandler u lvl TE 0) fl q r w 3 p n)
    ∧ (Receiving u fl q r w 1 p n →
        Receiving (DALIRxIntHandler u lvl TE 0) fl q r w 4 ((2 * p + 0) % 2 ^ 32)
          ((n + 1) % 256))
    ∧ (Receiving u fl q r w 2 p n →
        Receiving (DALIRxIntHandler u lvl TE 0) fl q r w 3 ((2 * p + 1) % 2 ^ 32)
          ((n + 1) % 256))
    ∧ (Receiving u fl q r w 3 p n → Receiving (DALIRxIntHandler u lvl TE 0) fl q r w 2 p n)
    ∧ (Receiving u fl q r w 4 p n → Receiving (DALIRxIntHandler u lvl TE 0) fl q r w 1 p n) := by
  have hi : rxInterval TE = RxInterval.single := by decide
  refine ⟨?_, ?_, ?_, ?_, ?_⟩ <;> intro hu <;>
    have h := receiving_edge hu (by omega) lvl TE <;>
    rw [hi] at h <;> exact h

theorem receiving_te2 {u : State} {fl : state_flags_t} {q : Nat → DALIRxData}
    {r w p n : Nat} (lvl : Nat) :
    (Receiving u fl q r w 3 p n →
        Receiving (DALIRxIntHandler u lvl (TE + TE) 0) fl q r w 4 ((2 * p + 0) % 2 ^ 32)
          ((n + 1) % 256))
    ∧ (Receiving u fl q r w 4 p n →
        Receiving (DALIRxIntHandler u lvl (TE + TE) 0) fl q r w 3 ((2 * p + 1) % 2 ^ 32)
          ((n + 1) % 256)) := by
  have hi : rxInterval (TE + TE) = RxInterval.double := by decide
  refine ⟨?_, ?_⟩ <;> intro hu <;>
    have h := receiving_edge hu (by omega) lvl (TE + TE) <;>
    rw [hi] at h <;> exact h

theorem receiving_bit {u : State} {fl : state_flags_t} {q : Nat → DALIRxData}
    {r w p n : Nat} (b c : Bool) (rest : List Nat)
    (hu : Receiving u fl q r w (halfAfter b) p n) :
    ∃ u', Receiving u' fl q r w (halfAfter c) ((2 * p + c.toNat) % 2 ^ 32) ((n + 1) % 256)
      ∧ feedEdges u (edgesOf (levelAfter b) TE (encodeBit c ++ rest))
          = feedEdges u' (edgesOf (levelAfter c) TE rest) := by
  cases b <;> cases c
  · -- previous 0, next 0: edges after TE and after TE
    have h1 := (receiving_te DALI_HI).2.2.2.2 hu
    have h2 := (receiving_te DALI_LO).2.1 h1
    exact ⟨_, h2, by simp [edgesOf, encodeBit, levelAfter, feedEdges, DALI_HI, DALI_LO]⟩
  · -- previous 0, next 1: one edge after 2 TE
    have h1 := (receiving_te2 DALI_HI).2 hu
    exact ⟨_, h1, by simp [edgesOf, encodeBit, levelAfter, feedEdges, DALI_HI, DALI_LO]⟩
  · -- previous 1, next 0: one edge after 2 TE
    have h1 := (receiving_te2 DALI_LO).1 hu
    exact ⟨_, h1, by simp [edgesOf, encodeBit, levelAfter, feedEdges, DALI_HI, DALI_LO]⟩
  · -- previous 1, next 1: edges after TE and after TE
    have h1 := (receiving_te DALI_LO).2.2.2.1 hu
    have h2 := (receiving_te DALI_HI).2.2.1 h1
    exact ⟨_, h2, by simp [edgesOf, encodeBit, levelAfter, feedEdges, DALI_HI, DALI_LO]⟩

theorem receiving_bits {fl : state_flags_t} {q : Nat → DALIRxData} {r w : Nat}
    (rest : List Nat) :
    ∀ (bs : List Bool) (b : Bool) (u : State) (p n : Nat), n < 256 →
      Receiving u fl q r w (halfAfter b) p n →
      ∃ u', Receiving u' fl q r w (halfAfter (lastBit b bs)) (shiftIn p bs)
          ((n + bs.length) % 256)
        ∧ feedEdges u (edgesOf (levelAfter b) TE (encodeBits bs ++ rest))
            = feedEdges u' (edgesOf (levelAfter (lastBit b bs)) TE rest) := by
  intro bs
  induction bs with
  | nil =>
    intro b u p n hn hu
    refine ⟨u, ?_, rfl⟩
    have e : (n + ([] : List Bool).length) % 256 = n := by
      simp only [List.length_nil]; omega
    rw [e]
    exact hu
  | cons c bs ih =>
    intro b u p n hn hu
    obtain ⟨u1, k1, k2⟩ := receiving_bit b c (encodeBits bs ++ rest) hu
    obtain ⟨u2, m1, m2⟩ := ih c u1 _ _ (Nat.mod_lt _ (by norm_num)) k1
    refine ⟨u2, ?_, ?_⟩
    · have e : ((n + 1) % 256 + bs.length) % 256 = (n + (c :: bs).length) % 256 := by
        simp only [List.length_cons]; omega
      rw [e] at m1
      exact m1
    · simp only [encodeBits, List.append_assoc]
      rw [k2, m2]
      rfl

theorem shiftIn_bitsMSB (f : Nat) : ∀ (n p : Nat), (p + 1) * 2 ^ n ≤ 2 ^ 32 →
    shiftIn p (bitsMSB f n) = p * 2 ^ n + f % 2 ^ n := by
  intro n
  induction n with
  | zero => intro p _; simp [bitsMSB, shiftIn, Nat.mod_one]
  | succ n ih =>
    intro p hp
    have hpos : 0 < 2 ^ n := by positivity
    have hb : (f.testBit n).toNat = f / 2 ^ n % 2 := Nat.toNat_testBit f n
    have hlt : 2 * p + (f.testBit n).toNat < 2 ^ 32 := by
      have h1 : (p + 1) * 2 ≤ (p + 1) * 2 ^ (n + 1) := by
        apply Nat.mul_le_mul_left
        rw [Nat.pow_succ]
        omega
      have : f / 2 ^ n % 2 < 2 := Nat.mod_lt _ (by norm_num)
      omega
    simp only [bitsMSB, shiftIn]
    rw [Nat.mod_eq_of_lt hlt, ih]
    · rw [Nat.mod_pow_succ, hb, Nat.pow_succ]
      ring
    · rw [hb]
      have : f / 2 ^ n % 2 < 2 := Nat.mod_lt _ (by norm_num)
      calc (2 * p + f / 2 ^ n % 2 + 1) * 2 ^ n ≤ (2 * p + 2) * 2 ^ n :=
            Nat.mul_le_mul_right _ (by omega)
        _ = (p + 1) * 2 ^ (n + 1) := by rw [Nat.pow_succ]; ring
        _ ≤ 2 ^ 32 := hp

theorem shiftIn_frame (f : Nat) (hf : f < 2 ^ 24) : shiftIn 0 (bitsMSB f 24) = f := by
  rw [shiftIn_bitsMSB f 24 0 (by norm_num), Nat.mod_eq_of_lt hf]
  simp

theorem bitsMSB_length (f : Nat) : ∀ n, (bitsMSB f n).length = n := by
  intro n
  induction n with
  | zero => rfl
  | succ n ih => simp [bitsMSB, ih]

theorem stopCondition_frameEnd (v : State) (hv : v.daliState = dali_state_t.RECEIVE_DATA) :
    FrameEnd v (stopCondition v) := by
  unfold stopCondition
  dsimp only
  rw [timer_receive hv]
  by_cases he : extraTE v
  · rw [timerReceiveData_extra v he]
    have h1 : (set_timer_reload_val
        { v with daliState := dali_state_t.RECEIVE_DATA_EXTRA_TE } TE).daliState
        = dali_state_t.RECEIVE_DATA_EXTRA_TE := rfl
    rw [if_pos h1, timer_extra h1]
    exact classifyFrame_effect _ true (Or.inr h1)
  · rw [timerReceiveData_classify v he]
    have h1 := classifyFrame_frameEnd v false (Or.inl hv)
    rw [if_neg (frameEnd_ne_extra h1)]
    exact h1

theorem start_edge (sR : State) (since : Nat) (hidle : sR.daliState = dali_state_t.IDLE) :
    ∃ fl, fl.rxFromState = dali_state_t.IDLE ∧ fl.rxError = DALIRxError_t.NO_ERROR
      ∧ fl.rxSendTwicePossible = false
      ∧ Receiving (DALIRxIntHandler sR DALI_LO since 0) fl sR.rxData sR.rxDataR sR.rxDataW
          0 0 0 := by
  refine ⟨(DALIRxIntHandler sR DALI_LO since 0).DALIFlags, ?_, ?_, ?_, ?_⟩ <;>
    simp [DALIRxIntHandler, hidle, startReceive, writePin, reset_timer, set_timer_reload_val,
      enable_timer_int, DALI_LO, DALI_HI, Receiving]

theorem schedule_edges (since f : Nat) (u : State) :
    feedEdges u (edgesOf DALI_HI since (manchesterSchedule 24 f))
      = feedEdges (DALIRxIntHandler (DALIRxIntHandler u DALI_LO since 0) DALI_HI TE 0)
          (edgesOf (levelAfter true) TE
            (encodeBits (bitsMSB f 24) ++ List.replicate 6 DALI_HI)) := by
  have e : manchesterSchedule 24 f
      = DALI_LO :: DALI_HI :: (encodeBits (bitsMSB f 24) ++ List.replicate 6 DALI_HI) := by
    unfold manchesterSchedule
    simp
  rw [e]
  generalize encodeBits (bitsMSB f 24) ++ List.replicate 6 DALI_HI = rest
  simp [edgesOf, feedEdges, DALI_HI, DALI_LO, levelAfter]

theorem stop_edges (u : State) :
    feedEdges u (edgesOf (levelAfter true) TE (List.replicate 6 DALI_HI)) = u
    ∧ feedEdges u (edgesOf (levelAfter false) TE (List.replicate 6 DALI_HI))
        = DALIRxIntHandler u DALI_HI TE 0 := by
  constructor <;> simp [edgesOf, feedEdges, levelAfter, DALI_HI, DALI_LO, List.replicate]

theorem receive_schedule (sR : State) (since f : Nat) (hf : f < 2 ^ 24)
    (hidle : sR.daliState = dali_state_t.IDLE) :
    ∃ v fl, fl.rxFromState = dali_state_t.IDLE ∧ fl.rxError = DALIRxError_t.NO_ERROR
      ∧ fl.rxSendTwicePossible = false
      ∧ (∃ h, Receiving v fl sR.rxData sR.rxDataR sR.rxDataW h f 24)
      ∧ feedEdges sR (edgesOf DALI_HI since (manchesterSchedule 24 f)) = v := by
  obtain ⟨fl, f1, f2, f3, h0⟩ := start_edge sR since hidle
  have h1 := (receiving_te (u := DALIRxIntHandler sR DALI_LO since 0) DALI_HI).1 h0
  obtain ⟨u, k1, k2⟩ := receiving_bits (List.replicate 6 DALI_HI) (bitsMSB f 24) true _ 0 0
    (by norm_num) h1
  rw [shiftIn_frame f hf, bitsMSB_length] at k1
  rw [schedule_edges, k2]
  cases hl : lastBit true (bitsMSB f 24)
  · rw [hl] at k1
    have h2 := (receiving_te (u := u) DALI_HI).2.2.2.2 k1
    exact ⟨_, fl, f1, f2, f3, ⟨1, h2⟩, (stop_edges u).2⟩
  · rw [hl] at k1
    exact ⟨_, fl, f1, f2, f3, ⟨_, k1⟩, (stop_edges u).1⟩

theorem frameEndRecord_forward {v : State} {fl : state_flags_t} {q : Nat → DALIRxData}
    {r w h f : Nat} (hv : Receiving v fl q r w h f 24)
    (f1 : fl.rxFromState = dali_state_t.IDLE) (f2 : fl.rxError = DALIRxError_t.NO_ERROR)
    (f3 : fl.rxSendTwicePossible = false) : frameEndRecord v = forwardRecord f := by
  obtain ⟨_, h2, _, _, _, _, h7, h8⟩ := hv
  unfold frameEndRecord forwardRecord
  rw [h8, h2, h7, f1, f2, f3]
  simp

/-! ## C1: the encode/decode round trip -/

/-- C1, as amended. For every payload `x < 2^24` sent as a forward frame with
`deviceMode = 0`: the levels that `DALIProcessSendData` and the 56 bit-timer
interrupts write, turned into line edges and given to the receive path from
`IDLE` (one call of `DALIRxIntHandler` per edge with the exact interval, then
the stop-floor expiry and the extra-TE expiry when it is taken), append
exactly one record when the RX queue has a free slot: it is stored at the
write index, with `frame = x`, `frameLen = 24`, forward type, `rxDone = 1`
and `NO_ERROR`, every other slot is unchanged, and the write index advances by
one modulo 20. When the queue is full no record is appended and the queue is
unchanged. The read index is unchanged in both cases. -/
theorem round_trip (sT sR : State) (d : DALITxData) (since : Nat)
    (hx : d.frame < 2 ^ 24) (hty : d.frameType % 2 = 0)
    (hmode : sT.DALIFlags.deviceMode = false)
    (hidle : sR.daliState = dali_state_t.IDLE) :
    (receiveFrame sR (lineEdges sT d since)).rxData
        = (if rxFree sR then Function.update sR.rxData sR.rxDataW (forwardRecord d.frame)
            else sR.rxData)
    ∧ (receiveFrame sR (lineEdges sT d since)).rxDataW
        = (if rxFree sR then (sR.rxDataW + 1) % RX_QUEUE_SIZE else sR.rxDataW)
    ∧ (receiveFrame sR (lineEdges sT d since)).rxDataR = sR.rxDataR := by
  have hb : frameBits sT.DALIFlags.deviceMode d.frameType = 24 := by
    unfold frameBits
    rw [hmode]
    simp
    omega
  have hs := (send_schedule sT d).1
  rw [hb] at hs
  have hl : lineEdges sT d since = edgesOf DALI_HI since (manchesterSchedule 24 d.frame) := by
    unfold lineEdges
    rw [txWritten_of_log hs]
  obtain ⟨v, fl, f1, f2, f3, ⟨h, hv⟩, e⟩ := receive_schedule sR since d.frame hx hidle
  obtain ⟨_, _, g3, g4, g5⟩ := stopCondition_frameEnd v hv.1
  have hfree : rxFree v ↔ rxFree sR := by
    unfold rxFree
    rw [hv.2.2.2.1, hv.2.2.2.2.1]
  unfold receiveFrame
  rw [hl, e, g3, g4, g5, frameEndRecord_forward hv f1 f2 f3, hv.2.2.1, hv.2.2.2.1,
    hv.2.2.2.2.1]
  simp only [hfree]
  exact ⟨trivial, trivial, trivial⟩

/-- Witness for C1: the payload `0xA5C33C` sent by a driver configured with
`deviceMode = 0` and received by a driver just initialised. -/
theorem round_trip_witness :
    (receiveFrame (DALIInit bootState)
        (lineEdges (DALIConfigureMode (DALIInit bootState) 0)
          { frame := 0xA5C33C, frameType := 0, sendTwice := 0, priority := 1 } 0)).rxData 0
      = forwardRecord 0xA5C33C
    ∧ (receiveFrame (DALIInit bootState)
        (lineEdges (DALIConfigureMode (DALIInit bootState) 0)
          { frame := 0xA5C33C, frameType := 0, sendTwice := 0, priority := 1 } 0)).rxDataW = 1 := by
  have h := round_trip (DALIConfigureMode (DALIInit bootState) 0) (DALIInit bootState)
    { frame := 0xA5C33C, frameType := 0, sendTwice := 0, priority := 1 } 0
    (by decide) (by decide) rfl rfl
  have hf : rxFree (DALIInit bootState) := by decide
  rw [if_pos hf, if_pos hf] at h
  exact ⟨by rw [h.1]; rfl, h.2.1⟩

set_option maxRecDepth 100000 in
/-- Counterexample to C1 as stated: the receiver is in `IDLE` with 19 unread
records (`rxDataR = 0`, `rxDataW = 19`). The frame `0xA5C33C` is received
without error, but no record is appended: the write index and all twenty
slots are as before. -/
theorem round_trip_full_queue :
    fullQueueIdle.daliState = dali_state_t.IDLE
    ∧ fullQueueIdle.rxDataR = 0 ∧ fullQueueIdle.rxDataW = 19
    ∧ (receiveFrame fullQueueIdle
        (lineEdges (DALIConfigureMode (DALIInit bootState) 0)
          { frame := 0xA5C33C, frameType := 0, sendTwice := 0, priority := 1 } 0)).rxDataW = 19
    ∧ (receiveFrame fullQueueIdle
        (lineEdges (DALIConfigureMode (DALIInit bootState) 0)
          { frame := 0xA5C33C, frameType := 0, sendTwice := 0, priority := 1 } 0)).rxDataR = 0
    ∧ ∀ i, i < 20 → (receiveFrame fullQueueIdle
        (lineEdges (DALIConfigureMode (DALIInit bootState) 0)
          { frame := 0xA5C33C, frameType := 0, sendTwice := 0, priority := 1 } 0)).rxData i
        = fullQueueIdle.rxData i := by
  decide

/-! ## The receive path: counting the data bits -/

theorem shiftsBit_of {u : State} {fl : state_flags_t} {q : Nat → DALIRxData}
    {r w h p n h' p' n' : Nat} {lvl t : Nat}
    (hu : Receiving u fl q r w h p n)
    (hu' : Receiving (DALIRxIntHandler u lvl t 0) fl q r w h' p' n') :
    (shiftsBit u (t, lvl)).toNat = if n' = (n + 1) % 256 then 1 else 0 := by
  unfold shiftsBit
  dsimp only
  rw [hu'.2.2.2.2.2.2.2, hu.2.2.2.2.2.2.2]
  by_cases e : n' = (n + 1) % 256
  · simp [e, hu.1]
  · simp [e]

theorem counting_bit {u : State} {fl : state_flags_t} {q : Nat → DALIRxData}
    {r w p n : Nat} (b c : Bool) (rest : List Nat)
    (hu : Receiving u fl q r w (halfAfter b) p n) :
    ∃ u', Receiving u' fl q r w (halfAfter c) ((2 * p + c.toNat) % 2 ^ 32) ((n + 1) % 256)
      ∧ feedEdges u (edgesOf (levelAfter b) TE (encodeBit c ++ rest))
          = feedEdges u' (edgesOf (levelAfter c) TE rest)
      ∧ countShifts u (edgesOf (levelAfter b) TE (encodeBit c ++ rest))
          = 1 + countShifts u' (edgesOf (levelAfter c) TE rest) := by
  have hne : ¬ (n = (n + 1) % 256) := by omega
  cases b <;> cases c
  · have h1 := (receiving_te DALI_HI).2.2.2.2 hu
    have h2 := (receiving_te DALI_LO).2.1 h1
    have c1 := shiftsBit_of hu h1
    have c2 := shiftsBit_of h1 h2
    rw [if_neg hne] at c1
    rw [if_pos rfl] at c2
    refine ⟨_, h2, by simp [edgesOf, encodeBit, levelAfter, feedEdges, DALI_HI, DALI_LO], ?_⟩
    have e : edgesOf (levelAfter false) TE (encodeBit false ++ rest)
        = (TE, DALI_HI) :: (TE, DALI_LO) :: edgesOf (levelAfter false) TE rest := by
      simp [edgesOf, encodeBit, levelAfter, DALI_HI, DALI_LO]
    rw [e]
    simp only [countShifts, c1, c2]
    omega
  · have h1 := (receiving_te2 DALI_HI).2 hu
    have c1 := shiftsBit_of hu h1
    rw [if_pos rfl] at c1
    refine ⟨_, h1, by simp [edgesOf, encodeBit, levelAfter, feedEdges, DALI_HI, DALI_LO], ?_⟩
    have e : edgesOf (levelAfter false) TE (encodeBit true ++ rest)
        = (TE + TE, DALI_HI) :: edgesOf (levelAfter true) TE rest := by
      simp [edgesOf, encodeBit, levelAfter, DALI_HI, DALI_LO]
    rw [e]
    simp only [countShifts, c1]
  · have h1 := (receiving_te2 DALI_LO).1 hu
    have c1 := shiftsBit_of hu h1
    rw [if_pos rfl] at c1
    refine ⟨_, h1, by simp [edgesOf, encodeBit, levelAfter, feedEdges, DALI_HI, DALI_LO], ?_⟩
    have e : edgesOf (levelAfter true) TE (encodeBit false ++ rest)
        = (TE + TE, DALI_LO) :: edgesOf (levelAfter false) TE rest := by
      simp [edgesOf, encodeBit, levelAfter, DALI_HI, DALI_LO]
    rw [e]
    simp only [countShifts, c1]
  · have h1 := (receiving_te DALI_LO).2.2.2.1 hu
    have h2 := (receiving_te DALI_HI).2.2.1 h1
    have c1 := shiftsBit_of hu h1
    have c2 := shiftsBit_of h1 h2
    rw [if_neg hne] at c1
    rw [if_pos rfl] at c2
    refine ⟨_, h2, by simp [edgesOf, encodeBit, levelAfter, feedEdges, DALI_HI, DALI_LO], ?_⟩
    have e : edgesOf (levelAfter true) TE (encodeBit true ++ rest)
        = (TE, DALI_LO) :: (TE, DALI_HI) :: edgesOf (levelAfter true) TE rest := by
      simp [edgesOf, encodeBit, levelAfter, DALI_HI, DALI_LO]
    rw [e]
    simp only [countShifts, c1, c2]
    omega

theorem counting_bits {fl : state_flags_t} {q : Nat → DALIRxData} {r w : Nat}
    (rest : List Nat) :
    ∀ (bs : List Bool) (b : Bool) (u : State) (p n : Nat), n < 256 →
      Receiving u fl q r w (halfAfter b) p n →
      ∃ u', Receiving u' fl q r w (halfAfter (lastBit b bs)) (shiftIn p bs)
          ((n + bs.length) % 256)
        ∧ feedEdges u (edgesOf (levelAfter b) TE (encodeBits bs ++ rest))
            = feedEdges u' (edgesOf (levelAfter (lastBit b bs)) TE rest)
        ∧ countShifts u (edgesOf (levelAfter b) TE (encodeBits bs ++ rest))
            = bs.length + countShifts u' (edgesOf (levelAfter (lastBit b bs)) TE rest) := by
  intro bs
  induction bs with
  | nil =>
    intro b u p n hn hu
    refine ⟨u, ?_, rfl, ?_⟩
    · have e : (n + ([] : List Bool).length) % 256 = n := by
        simp only [List.length_nil]; omega
      rw [e]
      exact hu
    · simp [encodeBits, lastBit]
  | cons c bs ih =>
    intro b u p n hn hu
    obtain ⟨u1, k1, k2, k3⟩ := counting_bit b c (encodeBits bs ++ rest) hu
    obtain ⟨u2, m1, m2, m3⟩ := ih c u1 _ _ (Nat.mod_lt _ (by norm_num)) k1
    refine ⟨u2, ?_, ?_, ?_⟩
    · have e : ((n + 1) % 256 + bs.length) % 256 = (n + (c :: bs).length) % 256 := by
        simp only [List.length_cons]; omega
      rw [e] at m1
      exact m1
    · simp only [encodeBits, List.append_assoc]
      rw [k2, m2]
      rfl
    · simp only [encodeBits, List.append_assoc, List.length_cons]
      rw [k3, m3]
      simp only [lastBit]
      omega

theorem receive_frame (sR : State) (since : Nat) (bs : List Bool)
    (hidle : sR.daliState = dali_state_t.IDLE) :
    ∃ v fl h, fl.rxFromState = dali_state_t.IDLE ∧ fl.rxError = DALIRxError_t.NO_ERROR
      ∧ fl.rxSendTwicePossible = false
      ∧ Receiving v fl sR.rxData sR.rxDataR sR.rxDataW h (shiftIn 0 bs) (bs.length % 256)
      ∧ feedEdges sR (edgesOf DALI_HI since (frameLevels bs)) = v
      ∧ countShifts sR (edgesOf DALI_HI since (frameLevels bs)) = bs.length := by
  obtain ⟨fl, f1, f2, f3, h0⟩ := start_edge sR since hidle
  have h1 := (receiving_te (u := DALIRxIntHandler sR DALI_LO since 0) DALI_HI).1 h0
  have c0 : (shiftsBit sR (since, DALI_LO)).toNat = 0 := by
    simp [shiftsBit, hidle]
  have c1 := shiftsBit_of h0 h1
  rw [if_neg (by norm_num)] at c1
  obtain ⟨u, k1, k2, k3⟩ := counting_bits (List.replicate 6 DALI_HI) bs true _ 0 0
    (by norm_num) h1
  rw [Nat.zero_add] at k1
  have e : edgesOf DALI_HI since (frameLevels bs)
      = (since, DALI_LO) :: (TE, DALI_HI)
          :: edgesOf (levelAfter true) TE (encodeBits bs ++ List.replicate 6 DALI_HI) := by
    unfold frameLevels
    generalize encodeBits bs = l
    simp [edgesOf, DALI_HI, DALI_LO, levelAfter]
  rw [e]
  simp only [feedEdges, countShifts, c0, c1, k2, k3]
  cases hl : lastBit true bs
  · rw [hl] at k1
    have h2 := (receiving_te (u := u) DALI_HI).2.2.2.2 k1
    have c2 := shiftsBit_of k1 h2
    have hm : ¬ (bs.length % 256 = (bs.length % 256 + 1) % 256) := by omega
    rw [if_neg hm] at c2
    refine ⟨_, fl, 1, f1, f2, f3, h2, (stop_edges u).2, ?_⟩
    have e2 : edgesOf (levelAfter false) TE (List.replicate 6 DALI_HI) = [(TE, DALI_HI)] := by
      simp [edgesOf, levelAfter, DALI_HI, DALI_LO, List.replicate]
    rw [e2]
    simp only [countShifts, c2]
    omega
  · rw [hl] at k1
    refine ⟨_, fl, _, f1, f2, f3, k1, (stop_edges u).1, ?_⟩
    have e2 : edgesOf (levelAfter true) TE (List.replicate 6 DALI_HI) = [] := by
      simp [edgesOf, levelAfter, DALI_HI, DALI_LO, List.replicate]
    rw [e2]
    simp only [countShifts]
    omega

set_option maxRecDepth 100000 in
theorem shiftIn_ones : shiftIn 0 (List.replicate 280 true) = 0xFFFFFFFF := by
  decide

/-! ## C6: the length of a delivered frame -/

/-- C6 fails at this input. From the initial state the start edge, 280 data
bits of value 1 and the stop condition are received: 280 bits are shifted in,
the 8-bit `rxPacketLen` wraps to `280 - 256 = 24`, and the frame end appends
one record with `rxDone = 1`, `rxError = NO_ERROR` and `frameLen = 24`, whose
`frame` holds the last 32 of the 280 bits. -/
theorem long_frame_delivered :
    countShifts (DALIInit bootState) longFrameEdges = 280
    ∧ (receiveFrame (DALIInit bootState) longFrameEdges).rxDataW = 1
    ∧ (receiveFrame (DALIInit bootState) longFrameEdges).rxData 0
        = { frame := 0xFFFFFFFF, frameLen := 24, frameType := false, rxDone := true,
            rxError := DALIRxError_t.NO_ERROR, rxSendTwicePossible := false } := by
  obtain ⟨v, fl, h, f1, f2, f3, hv, e, c⟩ :=
    receive_frame (DALIInit bootState) 0 (List.replicate 280 true) rfl
  rw [List.length_replicate] at hv c
  rw [shiftIn_ones] at hv
  obtain ⟨_, _, _, g4, g5⟩ := stopCondition_frameEnd v hv.1
  have hfree : rxFree v := by
    unfold rxFree
    rw [hv.2.2.2.1, hv.2.2.2.2.1]
    decide
  rw [if_pos hfree] at g4 g5
  have hr := frameEndRecord_forward hv f1 f2 f3
  unfold longFrameEdges receiveFrame
  rw [e, g4, g5, hr, hv.2.2.2.2.1]
  have hw : (DALIInit bootState).rxDataW = 0 := rfl
  rw [hw]
  exact ⟨c, rfl, by rw [Function.update_same]; rfl⟩

/-! ## The TX ring buffer and its indices -/

theorem txSame_refl (s : State) : TxSame s s := ⟨rfl, rfl, rfl⟩

theorem txSame_trans {s t u : State} (h1 : TxSame s t) (h2 : TxSame t u) : TxSame s u :=
  ⟨h2.1.trans h1.1, h2.2.1.trans h1.2.1, h2.2.2.trans h1.2.2⟩

theorem txSame_move {s t : State} (h : TxSame s t) : TxMove s t :=
  ⟨Or.inl h.1, Or.inl h.2.1⟩

theorem txMove_inv {s t : State} (h : TxMove s t) (hi : TxIndexInv s) : TxIndexInv t := by
  obtain ⟨h1, h2⟩ := h
  unfold TxIndexInv TX_QUEUE_SIZE at *
  constructor
  · rcases h1 with h | h | h
    · omega
    · omega
    · split_ifs at h <;> omega
  · rcases h2 with h | h <;> omega

theorem appendToQueue_tx (s : State) : TxSame s (DALIAppendToQueue s) := by
  unfold DALIAppendToQueue
  split_ifs <;> exact ⟨rfl, rfl, rfl⟩

theorem processSend_tx (s : State) (d : DALITxData) : TxSame s (DALIProcessSendData s d) :=
  ⟨rfl, rfl, rfl⟩

theorem writePinOpt_tx (s : State) (l : Option Nat) : TxSame s (writePinOpt s l) := by
  cases l <;> exact ⟨rfl, rfl, rfl⟩

theorem sendDataDone_tx (s : State) : TxSame s (sendDataDone s) := by
  unfold sendDataDone
  split_ifs
  · exact appendToQueue_tx _
  · exact txSame_refl s

theorem sendDataAdvance_tx (s : State) : TxSame s (sendDataAdvance s) := by
  unfold sendDataAdvance
  dsimp only
  split_ifs <;> exact ⟨rfl, rfl, rfl⟩

theorem sendDataHalfBit_tx (s : State) : TxSame s (sendDataHalfBit s) := by
  unfold sendDataHalfBit
  dsimp only [set_timer_reload_val, writePin]
  split_ifs <;>
    first
    | exact ⟨rfl, rfl, rfl⟩
    | exact txSame_trans (s := s) ⟨rfl, rfl, rfl⟩ (sendDataDone_tx _)
    | exact txSame_trans (s := s) ⟨rfl, rfl, rfl⟩ (writePinOpt_tx _ _)

theorem timerSendData_tx (s : State) : TxSame s (timerSendData s) :=
  txSame_trans (sendDataHalfBit_tx s) (sendDataAdvance_tx _)

theorem appended_tx {s t : State} (h : TxSame s t) (d : dali_state_t) :
    TxSame s { DALIAppendToQueue t with daliState := d } :=
  txSame_trans h (txSame_trans (appendToQueue_tx t) ⟨rfl, rfl, rfl⟩)

theorem classifyFrame_tx (s : State) (b : Bool) : TxSame s (classifyFrame s b) := by
  unfold classifyFrame
  by_cases h8 : s.rxPacketLen = 8
  · rw [if_pos h8]
    exact appended_tx ⟨rfl, rfl, rfl⟩ _
  · rw [if_neg h8]
    by_cases h24 : s.rxPacketLen = 24
    · rw [if_pos h24]
      exact appended_tx ⟨rfl, rfl, rfl⟩ _
    · rw [if_neg h24]
      exact appended_tx ⟨rfl, rfl, rfl⟩ _

theorem timerReceiveData_tx (s : State) : TxSame s (timerReceiveData s) := by
  unfold timerReceiveData
  split_ifs
  · exact ⟨rfl, rfl, rfl⟩
  · exact classifyFrame_tx s false

theorem timerWaitForBackframe_tx (s : State) : TxSame s (timerWaitForBackframe s) := by
  unfold timerWaitForBackframe
  split_ifs <;> exact ⟨rfl, rfl, rfl⟩

theorem timerBreak_tx (s : State) (a b : Nat) : TxSame s (timerBreak s a b) := by
  unfold timerBreak
  exact appended_tx ⟨rfl, rfl, rfl⟩ _

theorem timerSecond_tx (s : State) : TxSame s (timerWaitForSecondForframe s) := by
  unfold timerWaitForSecondForframe
  exact appended_tx ⟨rfl, rfl, rfl⟩ _

theorem timerPreIdle_launch (s : State)
    (h : s.txDataR ≠ s.txDataW ∧ (s.txData s.txDataR).priority ≤ s.priorityState) :
    timerPreIdle s
      = { DALIProcessSendData s (s.txData s.txDataR) with
          txDataR := (s.txDataR + 1) % TX_QUEUE_SIZE } := by
  unfold timerPreIdle
  rw [if_pos h]
  rfl

theorem timerPreIdle_wait (s : State)
    (h : ¬ (s.txDataR ≠ s.txDataW ∧ (s.txData s.txDataR).priority ≤ s.priorityState)) :
    TxSame s (timerPreIdle s) ∧ (s.daliState = dali_state_t.PRE_IDLE →
      (timerPreIdle s).daliState ≠ dali_state_t.SEND_DATA) := by
  unfold timerPreIdle
  rw [if_neg h]
  constructor
  · split_ifs <;> exact ⟨rfl, rfl, rfl⟩
  · intro hs
    split_ifs <;> simp [set_timer_reload_val, disable_timer_int, hs]

theorem timerPreIdle_move (s : State) : TxMove s (timerPreIdle s) := by
  by_cases h : s.txDataR ≠ s.txDataW ∧ (s.txData s.txDataR).priority ≤ s.priorityState
  · rw [timerPreIdle_launch s h]
    exact ⟨Or.inr (Or.inl rfl), Or.inl rfl⟩
  · exact txSame_move (timerPreIdle_wait s h).1

theorem timerWaitToSend_move (s : State) : TxMove s (timerWaitToSendBackframe s) := by
  unfold timerWaitToSendBackframe
  split_ifs
  · exact ⟨Or.inl rfl, Or.inl rfl⟩
  · exact ⟨Or.inr (Or.inl rfl), Or.inl rfl⟩
  · exact ⟨Or.inl rfl, Or.inl rfl⟩

theorem timer_move (s : State) (a b : Nat) : TxMove s (DALITimerIntHandler s a b) := by
  unfold DALITimerIntHandler
  cases hs : s.daliState <;> dsimp only
  all_goals first
    | exact txSame_move (timerSendData_tx s)
    | exact txSame_move (timerWaitForBackframe_tx s)
    | exact txSame_move (timerBreak_tx s a b)
    | exact timerPreIdle_move s
    | exact txSame_move (timerReceiveData_tx s)
    | exact txSame_move (classifyFrame_tx s true)
    | exact timerWaitToSend_move s
    | exact txSame_move (timerSecond_tx s)
    | exact ⟨Or.inl rfl, Or.inl rfl⟩

theorem startReceive_tx (s : State) (b : Bool) : TxSame s (startReceive s b) :=
  ⟨rfl, rfl, rfl⟩

theorem signalCollision_queue (s : State) :
    (signalCollision s).txDataR = (if s.txDataR = 0 then TX_QUEUE_SIZE - 1 else s.txDataR - 1)
    ∧ (signalCollision s).txDataW = s.txDataW ∧ (signalCollision s).txData = s.txData := by
  have h := appendToQueue_tx
    (enable_timer_int (set_timer_reload_val (reset_timer
      { s with DALIFlags := { s.DALIFlags with txError := true, txDone := false },
               daliState := dali_state_t.BREAK }) TE_BREAK))
  unfold signalCollision
  dsimp only [writePin]
  exact ⟨by rw [h.1]; rfl, h.2.1, h.2.2⟩

theorem rxSendData_move (s : State) (p t2 t3 : Nat) : TxMove s (rxSendData s p t2 t3) := by
  have hc : TxMove s (signalCollision s) :=
    ⟨Or.inr (Or.inr (signalCollision_queue s).1), Or.inl (signalCollision_queue s).2.1⟩
  unfold rxSendData
  dsimp only [set_timer_count]
  split_ifs <;> first | exact hc | exact ⟨Or.inl rfl, Or.inl rfl⟩

theorem rxReceiveData_tx (s : State) (t : Nat) : TxSame s (rxReceiveData s t) := by
  unfold rxReceiveData
  dsimp only [reset_timer, set_timer_reload_val, enable_timer_int]
  split_ifs <;> exact ⟨rfl, rfl, rfl⟩

theorem edge_move (s : State) (p t2 t3 : Nat) : TxMove s (DALIRxIntHandler s p t2 t3) := by
  unfold DALIRxIntHandler
  cases hs : s.daliState <;> dsimp only
  all_goals first
    | exact rxSendData_move s p t2 t3
    | exact txSame_move (rxReceiveData_tx s t2)
    | exact ⟨Or.inl rfl, Or.inl rfl⟩
    | (split_ifs <;> exact ⟨Or.inl rfl, Or.inl rfl⟩)

theorem sendData_move (s : State) (d : DALITxData) : TxMove s (DALISendData s d).1 := by
  unfold DALISendData
  by_cases h1 : (s.txDataW + 1) % TX_QUEUE_SIZE ≠ s.txDataR <;>
    by_cases h2 : s.daliState = dali_state_t.IDLE
  · rw [if_pos h1]; dsimp only; rw [if_pos h2]
    exact ⟨Or.inr (Or.inl rfl), Or.inr rfl⟩
  · rw [if_pos h1]; dsimp only; rw [if_neg h2]
    exact ⟨Or.inl rfl, Or.inr rfl⟩
  · rw [if_neg h1, if_pos h2]
    exact ⟨Or.inr (Or.inl rfl), Or.inl rfl⟩
  · rw [if_neg h1, if_neg h2]
    exact ⟨Or.inl rfl, Or.inl rfl⟩

theorem checkCable_tx (s : State) (p : Nat) : TxSame s (DALICheckCable s p) := by
  unfold DALICheckCable
  dsimp only
  split_ifs <;> exact ⟨rfl, rfl, rfl⟩

theorem step_move (s : State) (e : Event) : TxMove s (step s e) := by
  cases e with
  | edge a b c => exact edge_move s a b c
  | tick a b => exact timer_move s a b
  | send d => exact sendData_move s d
  | receive =>
    unfold step
    split_ifs <;> exact ⟨Or.inl rfl, Or.inl rfl⟩
  | receiveTwice => exact ⟨Or.inl rfl, Or.inl rfl⟩
  | configureMode m => exact ⟨Or.inl rfl, Or.inl rfl⟩
  | checkCable p => exact txSame_move (checkCable_tx s p)

theorem reachable_txIndex (s : State) (h : Reachable s) : TxIndexInv s := by
  refine reachable_induction ?_ (fun s e hi => txMove_inv (step_move s e) hi) s h
  unfold TxIndexInv
  decide

theorem signalCollision_effect (s : State) :
    (signalCollision s).txFlags = { txDone := false, txError := true }
    ∧ (signalCollision s).daliState = dali_state_t.BREAK
    ∧ (signalCollision s).tim2Reload = TE_BREAK
    ∧ (signalCollision s).tim2Enabled = true
    ∧ (signalCollision s).tim2Count = 0
    ∧ (signalCollision s).txPin = DALI_LO
    ∧ (signalCollision s).txLog = s.txLog ++ [DALI_LO] := by
  unfold signalCollision DALIAppendToQueue
  simp [writePin, reset_timer, set_timer_reload_val, enable_timer_int, DALIClearFlags]

theorem rxSendData_collision (s : State) (rxPin t2 t3 : Nat) (hh : s.halfBitNumber ≠ 1)
    (h1 : ¬ (TE_TX_MIN ≤ t3 % 2 ^ 16 ∧ t3 % 2 ^ 16 ≤ TE_TX_MAX))
    (h2 : ¬ (TE2_TX_MIN ≤ t3 % 2 ^ 16 ∧ t3 % 2 ^ 16 ≤ TE2_TX_MAX)) :
    rxSendData s rxPin t2 t3 = signalCollision s := by
  unfold rxSendData
  rw [if_neg hh]
  dsimp only
  rw [if_neg h1, if_neg h2]

theorem edge_send {s : State} (h : s.daliState = dali_state_t.SEND_DATA) (p t2 t3 : Nat) :
    DALIRxIntHandler s p t2 t3 = rxSendData s p t2 t3 := by
  unfold DALIRxIntHandler; rw [h]

/-! ## C8: collision detection -/

/-- C8. In every reachable state in `SEND_DATA` with `halfBitNumber ≠ 1`, an
edge whose interval since the previous edge (the 16-bit value read from timer
3) lies outside both [2854, 3814] and [5787, 7546] sets `txFlags.txError = 1`
and `txFlags.txDone = 0`, enters `BREAK`, restarts the bit timer with
`TE_BREAK = 10400`, drives the TX pin to `DALI_LO`, and moves the TX read
index back by one modulo `TX_QUEUE_SIZE = 20`; the write index and the stored
frames are unchanged. -/
theorem collision_detection (s : State) (hr : Reachable s)
    (hs : s.daliState = dali_state_t.SEND_DATA) (hh : s.halfBitNumber ≠ 1)
    (rxPin t2 t3 : Nat)
    (h1 : ¬ (2854 ≤ t3 % 2 ^ 16 ∧ t3 % 2 ^ 16 ≤ 3814))
    (h2 : ¬ (5787 ≤ t3 % 2 ^ 16 ∧ t3 % 2 ^ 16 ≤ 7546)) :
    (DALIRxIntHandler s rxPin t2 t3).txFlags = { txDone := false, txError := true }
    ∧ (DALIRxIntHandler s rxPin t2 t3).daliState = dali_state_t.BREAK
    ∧ (DALIRxIntHandler s rxPin t2 t3).tim2Reload = 10400
    ∧ (DALIRxIntHandler s rxPin t2 t3).tim2Enabled = true
    ∧ (DALIRxIntHandler s rxPin t2 t3).tim2Count = 0
    ∧ (DALIRxIntHandler s rxPin t2 t3).txPin = DALI_LO
    ∧ (DALIRxIntHandler s rxPin t2 t3).txLog = s.txLog ++ [DALI_LO]
    ∧ (DALIRxIntHandler s rxPin t2 t3).txDataR
        = (s.txDataR + TX_QUEUE_SIZE - 1) % TX_QUEUE_SIZE
    ∧ (DALIRxIntHandler s rxPin t2 t3).txDataW = s.txDataW
    ∧ (DALIRxIntHandler s rxPin t2 t3).txData = s.txData := by
  rw [edge_send hs, rxSendData_collision s rxPin t2 t3 hh h1 h2]
  obtain ⟨e1, e2, e3, e4, e5, e6, e7⟩ := signalCollision_effect s
  obtain ⟨q1, q2, q3⟩ := signalCollision_queue s
  have hi := (reachable_txIndex s hr).1
  refine ⟨e1, e2, e3, e4, e5, e6, e7, ?_, q2, q3⟩
  rw [q1]
  unfold TX_QUEUE_SIZE at *
  split_ifs <;> omega

/-- Witness for C8: a frame is handed over in `IDLE` and the bit timer has
expired once (`halfBitNumber = 2`); an edge 1000 timer ticks after the previous
one puts the read index back from 1 to 0. -/
theorem collision_detection_witness :
    (DALIRxIntHandler
      (run (DALIInit bootState)
        [Event.send { frame := 0x1234, frameType := 0, sendTwice := 0, priority := 1 },
         Event.tick DALI_HI 0]) DALI_LO 1000 1000).txDataR = 0
    ∧ (DALIRxIntHandler
      (run (DALIInit bootState)
        [Event.send { frame := 0x1234, frameType := 0, sendTwice := 0, priority := 1 },
         Event.tick DALI_HI 0]) DALI_LO 1000 1000).daliState = dali_state_t.BREAK :=
  have h := collision_detection
    (run (DALIInit bootState)
      [Event.send { frame := 0x1234, frameType := 0, sendTwice := 0, priority := 1 },
       Event.tick DALI_HI 0]) ⟨_, rfl⟩ rfl (by decide) DALI_LO 1000 1000
    (by decide) (by decide)
  ⟨h.2.2.2.2.2.2.2.1, h.2.1⟩

/-! ## C7: the retry after a collision -/

set_option maxRecDepth 100000 in
/-- C7 fails at two inputs.
First input, `deviceMode = 0` and a full queue: frame 0 is in flight and
frames 1 to 19 wait in the TX queue (`txDataR = 1`, `txDataW = 0`). The
collision puts the read index back to 0, which is the write index: the queue
now reads as empty. The `BREAK` expiry and the five expiries of the priority
ladder follow without a transmission: the driver is in `IDLE` with the bit
timer off, the only level written after the collision is the release of the
line, and neither frame 0 nor any of the 19 waiting frames is sent. A frame
handed over afterwards is stored over frame 0 and is the next frame on the
line.
Second input, `deviceMode = 1` and an empty queue: the frame `0x1234` is
being sent with 16 data bits; the collision clears `deviceMode`, and the retry
after `BREAK` sends the same payload with 24 data bits, a different half-bit
pattern. -/
theorem collision_retry_fails :
    (fullTxQueueState.daliState = dali_state_t.SEND_DATA
    ∧ fullTxQueueState.halfBitNumber = 2
    ∧ fullTxQueueState.txPacket = (collisionFrame 0).frame
    ∧ fullTxQueueState.txDataR = 1 ∧ fullTxQueueState.txDataW = 0
    ∧ txWaiting fullTxQueueState = 19
    ∧ (∀ i, i < 20 → fullTxQueueState.txData i = collisionFrame i)
    ∧ collidedState.daliState = dali_state_t.BREAK
    ∧ collidedState.txDataR = 0 ∧ collidedState.txDataW = 0
    ∧ txWaiting collidedState = 0
    ∧ (∀ k, k < 5 → (timerTicks collidedState (k + 1)).daliState = dali_state_t.PRE_IDLE)
    ∧ (timerTicks collidedState 6).daliState = dali_state_t.IDLE
    ∧ (timerTicks collidedState 6).tim2Enabled = false
    ∧ txWritten collidedState (timerTicks collidedState 6) = [DALI_HI]
    ∧ txWaiting (timerTicks collidedState 6) = 0
    ∧ (step (timerTicks collidedState 6) (Event.send (collisionFrame 20))).daliState
        = dali_state_t.SEND_DATA
    ∧ (step (timerTicks collidedState 6) (Event.send (collisionFrame 20))).txPacket
        = (collisionFrame 20).frame
    ∧ (step (timerTicks collidedState 6) (Event.send (collisionFrame 20))).txData 0
        = collisionFrame 20
    ∧ txWaiting (step (timerTicks collidedState 6) (Event.send (collisionFrame 20))) = 0)
    ∧ ((DALIInit bootState).DALIFlags.deviceMode = true
    ∧ txWritten (DALIInit bootState)
        (timerTicks (run (DALIInit bootState) (modeOneCollision.take 1)) 40)
        = manchesterSchedule 16 0x1234
    ∧ (run (DALIInit bootState) (modeOneCollision.take 3)).daliState = dali_state_t.BREAK
    ∧ (run (DALIInit bootState) (modeOneCollision.take 3)).DALIFlags.deviceMode = false
    ∧ (run (DALIInit bootState) modeOneCollision).daliState = dali_state_t.PRE_IDLE
    ∧ (timerTicks (run (DALIInit bootState) modeOneCollision) 1).daliState
        = dali_state_t.SEND_DATA
    ∧ txWritten (run (DALIInit bootState) modeOneCollision)
        (timerTicks (run (DALIInit bootState) modeOneCollision) 57)
        = manchesterSchedule 24 0x1234
    ∧ manchesterSchedule 24 0x1234 ≠ manchesterSchedule 16 0x1234) := by
  decide

/-! ## C10: the priority counter at the entry of `PRE_IDLE` -/

/-- C10 fails at this input. After `ladderInterrupted` the driver has just
left `RECEIVE_DATA` for `PRE_IDLE` with `TE_TX_WAIT_FF1` armed, and
`priorityState` is 5, the value the interrupted ladder had reached, not 1. At
the next expiry, one `TE_TX_WAIT_FF1` after the end of the frame, the waiting
frame of priority 5 is launched. -/
theorem pre_idle_entry_counter :
    (run (DALIInit bootState) (ladderInterrupted.take 2)).daliState = dali_state_t.PRE_IDLE
    ∧ (run (DALIInit bootState) (ladderInterrupted.take 2)).priorityState = 1
    ∧ (run (DALIInit bootState) (ladderInterrupted.take 6)).daliState = dali_state_t.PRE_IDLE
    ∧ (run (DALIInit bootState) (ladderInterrupted.take 6)).priorityState = 5
    ∧ (run (DALIInit bootState) (ladderInterrupted.take 8)).daliState
        = dali_state_t.RECEIVE_DATA
    ∧ (run (DALIInit bootState) ladderInterrupted).daliState = dali_state_t.PRE_IDLE
    ∧ (run (DALIInit bootState) ladderInterrupted).tim2Reload = TE_TX_WAIT_FF1
    ∧ (run (DALIInit bootState) ladderInterrupted).priorityState = 5
    ∧ (DALITimerIntHandler (run (DALIInit bootState) ladderInterrupted) DALI_HI 0).daliState
        = dali_state_t.SEND_DATA
    ∧ (DALITimerIntHandler (run (DALIInit bootState) ladderInterrupted) DALI_HI 0).txPacket
        = 0x1234 := by
  decide

/-! ## The start of a transmission -/

theorem edge_not_send (s : State) (a b c : Nat) (h : s.daliState ≠ dali_state_t.SEND_DATA) :
    (DALIRxIntHandler s a b c).daliState ≠ dali_state_t.SEND_DATA := by
  unfold DALIRxIntHandler
  cases hs : s.daliState <;> dsimp only
  all_goals first
    | exact absurd hs h
    | (rw [rxReceiveData_daliState, hs]; decide)
    | (rw [hs]; decide)
    | (rw [startReceive_daliState]; decide)
    | decide
    | (split_ifs
       · simp [writePin, hs]
       · rw [startReceive_daliState]; decide)

theorem waitForBackframe_send (s : State)
    (h : (timerWaitForBackframe s).daliState = dali_state_t.SEND_DATA) :
    (timerWaitForBackframe s).txPacket = s.txPacket_temp
    ∧ TxSame s (timerWaitForBackframe s) := by
  unfold timerWaitForBackframe at h ⊢
  by_cases c : s.DALIFlags.sendTwiceFrame = true
  · rw [if_pos c]
    exact ⟨rfl, rfl, rfl, rfl⟩
  · rw [if_neg c] at h
    exact absurd h (by simp [set_timer_reload_val])

theorem waitToSend_send (s : State)
    (h : (timerWaitToSendBackframe s).daliState = dali_state_t.SEND_DATA) :
    LaunchesHead s (timerWaitToSendBackframe s)
    ∧ (timerWaitToSendBackframe s).txData = s.txData := by
  unfold timerWaitToSendBackframe at h ⊢
  by_cases c : s.DALIFlags.receiveTwiceFrame = true
  · rw [if_pos c] at h
    exact absurd h (by simp [set_timer_reload_val])
  · rw [if_neg c] at h ⊢
    by_cases c2 : s.txDataR ≠ s.txDataW ∧ (s.txData s.txDataR).frameType = 1
    · rw [if_pos c2]
      exact ⟨⟨rfl, rfl, rfl, rfl⟩, rfl⟩
    · rw [if_neg c2] at h
      exact absurd h (by simp [set_timer_reload_val])

theorem preIdle_send (s : State) (hs : s.daliState = dali_state_t.PRE_IDLE) :
    ((timerPreIdle s).daliState = dali_state_t.SEND_DATA
      ↔ s.txDataR ≠ s.txDataW ∧ (s.txData s.txDataR).priority ≤ s.priorityState)
    ∧ ((timerPreIdle s).daliState = dali_state_t.SEND_DATA →
        LaunchesHead s (timerPreIdle s) ∧ (timerPreIdle s).txData = s.txData) := by
  by_cases h : s.txDataR ≠ s.txDataW ∧ (s.txData s.txDataR).priority ≤ s.priorityState
  · rw [timerPreIdle_launch s h]
    exact ⟨⟨fun _ => h, fun _ => rfl⟩, fun _ => ⟨⟨rfl, rfl, rfl, rfl⟩, rfl⟩⟩
  · have hw := (timerPreIdle_wait s h).2 hs
    exact ⟨⟨fun hc => absurd hc hw, fun hc => absurd hc h⟩, fun hc => absurd hc hw⟩

theorem sendData_send (s : State) (d : DALITxData) (h0 : s.daliState ≠ dali_state_t.SEND_DATA)
    (h : (DALISendData s d).1.daliState = dali_state_t.SEND_DATA) :
    s.daliState = dali_state_t.IDLE ∧ LaunchesHead s (DALISendData s d).1
    ∧ ((DALISendData s d).1.txData = s.txData
        ∨ (DALISendData s d).1.txData = Function.update s.txData s.txDataW d) := by
  unfold DALISendData at h ⊢
  by_cases h1 : (s.txDataW + 1) % TX_QUEUE_SIZE ≠ s.txDataR <;>
    by_cases h2 : s.daliState = dali_state_t.IDLE
  · rw [if_pos h1] at h ⊢
    dsimp only at h ⊢
    rw [if_pos h2]
    exact ⟨h2, ⟨rfl, rfl, rfl, rfl⟩, Or.inr rfl⟩
  · rw [if_pos h1] at h
    dsimp only at h
    rw [if_neg h2] at h
    exact absurd h h0
  · rw [if_neg h1, if_pos h2]
    exact ⟨h2, ⟨rfl, rfl, rfl, rfl⟩, Or.inl rfl⟩
  · rw [if_neg h1, if_neg h2] at h
    exact absurd h h0

theorem tick_send (s : State) (a b : Nat) (h0 : s.daliState ≠ dali_state_t.SEND_DATA)
    (h1 : (DALITimerIntHandler s a b).daliState = dali_state_t.SEND_DATA) :
    ((s.daliState = dali_state_t.WAIT_FOR_BACKFRAME
        ∧ (DALITimerIntHandler s a b).txPacket = s.txPacket_temp
        ∧ TxSame s (DALITimerIntHandler s a b))
      ∨ (LaunchesHead s (DALITimerIntHandler s a b)
          ∧ (DALITimerIntHandler s a b).txData = s.txData))
    ∧ (s.daliState = dali_state_t.PRE_IDLE →
        s.txDataR ≠ s.txDataW ∧ (s.txData s.txDataR).priority ≤ s.priorityState) := by
  cases hs : s.daliState
  · rw [timer_idle hs] at h1
    simp [disable_timer_int, hs] at h1
  · exact absurd hs h0
  · rw [timer_receive hs] at h1
    rcases timerReceiveData_daliState s with h | h | h <;> rw [h] at h1 <;>
      exact absurd h1 (by decide)
  · rw [timer_extra hs] at h1
    rcases classifyFrame_daliState s true with h | h <;>
      (unfold timerReceiveDataExtraTE at h1; rw [h] at h1; exact absurd h1 (by decide))
  · rw [timer_second hs, timerSecond_daliState] at h1
    exact absurd h1 (by decide)
  · rw [timer_waitBack hs] at h1 ⊢
    exact ⟨Or.inl ⟨rfl, waitForBackframe_send s h1⟩, fun hc => absurd hc (by decide)⟩
  · rw [timer_toSend hs] at h1 ⊢
    exact ⟨Or.inr (waitToSend_send s h1), fun hc => absurd hc (by decide)⟩
  · rw [timer_after hs] at h1
    simp [disable_timer_int] at h1
  · rw [timer_break hs, timerBreak_daliState] at h1
    exact absurd h1 (by decide)
  · rw [timer_preIdle hs] at h1 ⊢
    obtain ⟨k1, k2⟩ := preIdle_send s hs
    exact ⟨Or.inr (k2 h1), fun _ => k1.1 h1⟩

/-! ## C9: the frame that an event starts, and a run against the claim -/

/-- The start of a transmission by one event. Whenever an event makes the
driver start a transmission (it enters `SEND_DATA` from another state), the
frame is the one at the read index of the TX queue, i.e. the oldest waiting
frame, and the read index advances by one; the only other start is the
repetition of a send-twice frame from `WAIT_FOR_BACKFRAME`, which leaves the
queue alone. From `PRE_IDLE` the frame at the read index is started exactly
when the queue is not empty and the priority of that frame is at most
`priorityState`; the frames behind it are not examined. -/
theorem head_first (s : State) (e : Event) :
    (s.daliState ≠ dali_state_t.SEND_DATA →
      (step s e).daliState = dali_state_t.SEND_DATA →
        ((s.daliState = dali_state_t.WAIT_FOR_BACKFRAME
            ∧ (step s e).txPacket = s.txPacket_temp ∧ TxSame s (step s e))
          ∨ (LaunchesHead s (step s e)
              ∧ ((step s e).txData = s.txData
                  ∨ ∃ d, e = Event.send d
                      ∧ (step s e).txData = Function.update s.txData s.txDataW d)))
        ∧ (s.daliState = dali_state_t.PRE_IDLE →
            s.txDataR ≠ s.txDataW ∧ (s.txData s.txDataR).priority ≤ s.priorityState))
    ∧ (s.daliState = dali_state_t.PRE_IDLE → ∀ rxPin rnd,
        ((DALITimerIntHandler s rxPin rnd).daliState = dali_state_t.SEND_DATA
          ↔ s.txDataR ≠ s.txDataW ∧ (s.txData s.txDataR).priority ≤ s.priorityState)) := by
  constructor
  · intro h0 h1
    cases e with
    | edge a b c => exact absurd h1 (edge_not_send s a b c h0)
    | tick a b =>
      obtain ⟨k1, k2⟩ := tick_send s a b h0 h1
      refine ⟨?_, k2⟩
      rcases k1 with k | k
      · exact Or.inl k
      · exact Or.inr ⟨k.1, Or.inl k.2⟩
    | send d =>
      obtain ⟨k1, k2, k3⟩ := sendData_send s d h0 h1
      refine ⟨Or.inr ⟨k2, ?_⟩, fun hc => ?_⟩
      · rcases k3 with k | k
        · exact Or.inl k
        · exact Or.inr ⟨d, rfl, k⟩
      · rw [k1] at hc
        exact absurd hc (by decide)
    | receive =>
      have : (step s Event.receive).daliState = s.daliState := by
        unfold step
        split_ifs <;> rfl
      rw [this] at h1
      exact absurd h1 h0
    | receiveTwice => exact absurd h1 h0
    | configureMode m => exact absurd h1 h0
    | checkCable p =>
      have := (checkCable_fields s p).1
      exact absurd (this ▸ h1) h0
  · intro hs rxPin rnd
    rw [timer_preIdle hs]
    exact (preIdle_send s hs).1

/-- Counterexample to C9 as stated. A frame of priority 5 and then a frame of
priority 1 are handed over during a reception. In `PRE_IDLE` both wait while
the counter goes from 1 to 5 (nothing is started at the counters 1 to 4,
although the frame of priority 1 is waiting), and at counter 5 the frame of
priority 5 is started, with the frame of priority 1 still waiting. -/
theorem priority_inversion :
    (∀ k, k < 5 → (run (DALIInit bootState) (inversionEvents.take (4 + k))).daliState
        = dali_state_t.PRE_IDLE
      ∧ (run (DALIInit bootState) (inversionEvents.take (4 + k))).priorityState = k + 1)
    ∧ (run (DALIInit bootState) inversionEvents).txDataR = 0
    ∧ (run (DALIInit bootState) inversionEvents).txDataW = 2
    ∧ ((run (DALIInit bootState) inversionEvents).txData 0).priority = 5
    ∧ ((run (DALIInit bootState) inversionEvents).txData 1).priority = 1
    ∧ (DALITimerIntHandler (run (DALIInit bootState) inversionEvents) DALI_HI 0).daliState
        = dali_state_t.SEND_DATA
    ∧ (DALITimerIntHandler (run (DALIInit bootState) inversionEvents) DALI_HI 0).txPacket
        = 0xAAAA
    ∧ (DALITimerIntHandler (run (DALIInit bootState) inversionEvents) DALI_HI 0).txDataR = 1
    ∧ (DALITimerIntHandler (run (DALIInit bootState) inversionEvents) DALI_HI 0).txDataW = 2
    ∧ ((DALITimerIntHandler (run (DALIInit bootState) inversionEvents) DALI_HI 0).txData
        1).priority = 1 := by
  decide

theorem timerPreIdle_step (s : State) (c : Nat) (hc : s.priorityState = c)
    (h1 : 1 ≤ c) (h4 : c ≤ 4) (hq : ¬ headReady s) :
    timerPreIdle s
      = { s with tim2Reload := waitFF (c + 1) - waitFF c, priorityState := c + 1 } := by
  unfold timerPreIdle
  unfold headReady at hq
  rw [if_neg hq]
  obtain rfl | rfl | rfl | rfl : c = 1 ∨ c = 2 ∨ c = 3 ∨ c = 4 := by omega
  all_goals simp [hc, set_timer_reload_val, waitFF, TE_FF2_MINUS_FF1, TE_FF3_MINUS_FF2,
    TE_FF4_MINUS_FF3, TE_FF5_MINUS_FF4, TE_TX_WAIT_FF1, TE_TX_WAIT_FF2, TE_TX_WAIT_FF3,
    TE_TX_WAIT_FF4, TE_TX_WAIT_FF5]

theorem timerPreIdle_end (s : State) (hc : s.priorityState = 5) (hq : ¬ headReady s) :
    timerPreIdle s
      = { s with tim2Enabled := false, daliState := dali_state_t.IDLE, priorityState := 1 } := by
  unfold timerPreIdle
  unfold headReady at hq
  rw [if_neg hq]
  simp [hc, disable_timer_int]

theorem waitFF_mono (c : Nat) (h1 : 1 ≤ c) (h4 : c ≤ 4) : waitFF c ≤ waitFF (c + 1) := by
  obtain rfl | rfl | rfl | rfl : c = 1 ∨ c = 2 ∨ c = 3 ∨ c = 4 := by omega
  all_goals decide

theorem waitFF_bounds (k : Nat) (h1 : 1 ≤ k) (h5 : k ≤ 5) :
    waitFFMin k ≤ waitFF k ∧ waitFF k ≤ waitFFMax k := by
  obtain rfl | rfl | rfl | rfl | rfl : k = 1 ∨ k = 2 ∨ k = 3 ∨ k = 4 ∨ k = 5 := by omega
  all_goals decide

theorem ladder_waits : ∀ (n c : Nat) (s : State),
    s.daliState = dali_state_t.PRE_IDLE → s.priorityState = c → 1 ≤ c → c + n ≤ 5 →
    (s.txDataR = s.txDataW ∨ c + n ≤ (s.txData s.txDataR).priority) →
    (timerTicks s n).daliState = dali_state_t.PRE_IDLE
    ∧ (timerTicks s n).priorityState = c + n
    ∧ armedTotal s n + waitFF c = s.tim2Reload + waitFF (c + n)
    ∧ TxSame s (timerTicks s n) := by
  intro n
  induction n with
  | zero =>
    intro c s hs hc _ _ _
    exact ⟨hs, hc, rfl, txSame_refl s⟩
  | succ n ih =>
    intro c s hs hc h1 h5 hq
    have hnr : ¬ headReady s := by
      unfold headReady
      rw [hc]
      rcases hq with h | h
      · exact fun hh => hh.1 h
      · exact fun hh => by omega
    have hstep := timerPreIdle_step s c hc h1 (by omega) hnr
    have ht : DALITimerIntHandler s DALI_HI 0
        = { s with tim2Reload := waitFF (c + 1) - waitFF c, priorityState := c + 1 } := by
      rw [timer_preIdle hs, hstep]
    obtain ⟨a1, a2, a3, a4⟩ := ih (c + 1)
      { s with tim2Reload := waitFF (c + 1) - waitFF c, priorityState := c + 1 }
      hs rfl (by omega) (by omega)
      (by rcases hq with h | h
          · exact Or.inl h
          · exact Or.inr (by show c + 1 + n ≤ (s.txData s.txDataR).priority; omega))
    have hm := waitFF_mono c h1 (by omega)
    have e1 : c + 1 + n = c + (n + 1) := by omega
    simp only [timerTicks, armedTotal]
    rw [ht]
    rw [e1] at a2 a3
    refine ⟨a1, a2, ?_, a4⟩
    have a3' : armedTotal
        { s with tim2Reload := waitFF (c + 1) - waitFF c, priorityState := c + 1 } n
          + waitFF (c + 1) = (waitFF (c + 1) - waitFF c) + waitFF (c + (n + 1)) := a3
    omega

/-! ## C11: the priority ladder of `PRE_IDLE` -/

/-- C11. On a bit-timer expiry in `PRE_IDLE` with counter `c = priorityState`
in 1..5: if the TX queue is not empty and its head has priority at most `c`,
the head is taken from the queue and sent (`DALIProcessSendData`, state
`SEND_DATA`, read index advanced); otherwise for `c < 5` the counter becomes
`c + 1`, the gap `TE_TX_WAIT_FF(c+1) - TE_TX_WAIT_FFc` is armed and nothing
else changes (the state stays `PRE_IDLE`), and for `c = 5` the timer is
disabled, the state becomes `IDLE` and the counter is 1 again. So every
transition from `PRE_IDLE` to `SEND_DATA` launches a frame whose priority is at
most the counter. Starting from counter 1 with `TE_TX_WAIT_FF1` armed, when the
counter reaches `k` (nothing was launched before, as the queue is empty or its
head has priority at least `k`) the sum of the times armed so far is
`TE_TX_WAIT_FFk`, which lies between `TE_TX_WAIT_FFk_MIN` and
`TE_TX_WAIT_FFk_MAX`. -/
theorem pre_idle_ladder (s : State) (rxPin rnd : Nat)
    (hs : s.daliState = dali_state_t.PRE_IDLE)
    (h1 : 1 ≤ s.priorityState) (h5 : s.priorityState ≤ 5) :
    (headReady s →
      DALITimerIntHandler s rxPin rnd
          = { DALIProcessSendData s (s.txData s.txDataR) with
              txDataR := (s.txDataR + 1) % TX_QUEUE_SIZE }
      ∧ (DALITimerIntHandler s rxPin rnd).daliState = dali_state_t.SEND_DATA)
    ∧ (¬ headReady s → s.priorityState < 5 →
        DALITimerIntHandler s rxPin rnd
          = { s with tim2Reload := waitFF (s.priorityState + 1) - waitFF s.priorityState,
                     priorityState := s.priorityState + 1 })
    ∧ (¬ headReady s → s.priorityState = 5 →
        DALITimerIntHandler s rxPin rnd
          = { s with tim2Enabled := false, daliState := dali_state_t.IDLE,
                     priorityState := 1 })
    ∧ ((DALITimerIntHandler s rxPin rnd).daliState = dali_state_t.SEND_DATA → headReady s)
    ∧ (s.priorityState = 1 → s.tim2Reload = TE_TX_WAIT_FF1 →
        ∀ k, 1 ≤ k → k ≤ 5 →
          (s.txDataR = s.txDataW ∨ k ≤ (s.txData s.txDataR).priority) →
          (timerTicks s (k - 1)).daliState = dali_state_t.PRE_IDLE
          ∧ (timerTicks s (k - 1)).priorityState = k
          ∧ armedTotal s (k - 1) = waitFF k
          ∧ waitFFMin k ≤ waitFF k ∧ waitFF k ≤ waitFFMax k) := by
  rw [timer_preIdle hs]
  refine ⟨?_, ?_, ?_, ?_, ?_⟩
  · intro h
    rw [timerPreIdle_launch s h]
    exact ⟨rfl, rfl⟩
  · intro h hc
    exact timerPreIdle_step s _ rfl h1 (by omega) h
  · intro h hc
    exact timerPreIdle_end s hc h
  · intro h
    exact (preIdle_send s hs).1.1 h
  · intro hc hr k k1 k5 hq
    obtain ⟨a1, a2, a3, _⟩ := ladder_waits (k - 1) 1 s hs hc (by omega) (by omega)
      (by rcases hq with h | h
          · exact Or.inl h
          · exact Or.inr (by omega))
    have e : 1 + (k - 1) = k := by omega
    rw [e] at a2 a3
    have hw : waitFF 1 = TE_TX_WAIT_FF1 := rfl
    rw [hr, hw] at a3
    exact ⟨a1, a2, by omega, waitFF_bounds k k1 k5⟩

/-- Witness for C11: after a reception without a data bit the driver is in
`PRE_IDLE` with counter 1, `TE_TX_WAIT_FF1` armed and an empty TX queue; when
the counter reaches 5 the times armed add up to `TE_TX_WAIT_FF5 = 141000`. -/
theorem pre_idle_ladder_witness :
    (timerTicks (run (DALIInit bootState) [Event.edge DALI_LO 0 0, Event.tick DALI_HI 0])
      4).priorityState = 5
    ∧ armedTotal (run (DALIInit bootState) [Event.edge DALI_LO 0 0, Event.tick DALI_HI 0]) 4
      = 141000 :=
  have h := (pre_idle_ladder
    (run (DALIInit bootState) [Event.edge DALI_LO 0 0, Event.tick DALI_HI 0]) DALI_HI 0
    rfl (by decide) (by decide)).2.2.2.2 rfl rfl 5 (by decide) (by decide) (Or.inl rfl)
  ⟨h.2.1, h.2.2.1⟩

/-! ## Ring buffers as lists -/

theorem ringList_push {α : Type} (q : Nat → α) (r w : Nat) (d : α)
    (hr : r < 20) (hw : w < 20) (hn : (w + 20 - r) % 20 < 19) :
    ringList (Function.update q w d) r ((w + 1) % 20) = ringList q r w ++ [d] := by
  unfold ringList
  have e : ((w + 1) % 20 + 20 - r) % 20 = (w + 20 - r) % 20 + 1 := by omega
  rw [e, List.range_succ, List.map_append]
  congr 1
  · apply List.map_congr_left
    intro k hk
    have hk' : k < (w + 20 - r) % 20 := List.mem_range.1 hk
    have : (r + k) % 20 ≠ w := by omega
    rw [Function.update_noteq this]
  · have : (r + (w + 20 - r) % 20) % 20 = w := by omega
    simp only [List.map_cons, List.map_nil]
    rw [this, Function.update_same]

theorem ringList_pop {α : Type} (q : Nat → α) (r w : Nat)
    (hr : r < 20) (hw : w < 20) (hne : r ≠ w) :
    ringList q r w = q r :: ringList q ((r + 1) % 20) w := by
  unfold ringList
  have e : (w + 20 - r) % 20 = (w + 20 - (r + 1) % 20) % 20 + 1 := by omega
  rw [e, List.range_succ_eq_map, List.map_cons, List.map_map]
  congr 1
  · have : (r + 0) % 20 = r := by omega
    rw [this]
  · apply List.map_congr_left
    intro k _
    have : (r + (k + 1)) % 20 = ((r + 1) % 20 + k) % 20 := by omega
    simp [this]

theorem ringList_empty {α : Type} (q : Nat → α) (r : Nat) : ringList q r r = [] := by
  unfold ringList
  have : (r + 20 - r) % 20 = 0 := by omega
  rw [this]
  rfl

theorem ringList_length {α : Type} (q : Nat → α) (r w : Nat) :
    (ringList q r w).length = (w + 20 - r) % 20 := by
  unfold ringList
  simp

theorem txQueue_eq (s : State) : txQueue s = ringList s.txData s.txDataR s.txDataW := rfl

theorem txWaiting_full (s : State) (hi : TxIndexInv s) :
    ((s.txDataW + 1) % TX_QUEUE_SIZE ≠ s.txDataR ↔ txWaiting s < 19)
    ∧ (s.txDataR ≠ s.txDataW ↔ 0 < txWaiting s) := by
  unfold TxIndexInv TX_QUEUE_SIZE at hi
  unfold txWaiting TX_QUEUE_SIZE
  omega

theorem sendData_busy (s : State) (d : DALITxData) (hn : s.daliState ≠ dali_state_t.IDLE) :
    ((s.txDataW + 1) % TX_QUEUE_SIZE ≠ s.txDataR →
      DALISendData s d
        = ({ s with txData := Function.update s.txData s.txDataW d,
                    txDataW := (s.txDataW + 1) % TX_QUEUE_SIZE }, 0))
    ∧ (¬ (s.txDataW + 1) % TX_QUEUE_SIZE ≠ s.txDataR → DALISendData s d = (s, 1)) := by
  unfold DALISendData
  constructor
  · intro h
    rw [if_pos h]
    dsimp only
    rw [if_neg hn]
  · intro h
    rw [if_neg h, if_neg hn]

theorem sendData_idle (s : State) (d : DALITxData) (hn : s.daliState = dali_state_t.IDLE) :
    ((s.txDataW + 1) % TX_QUEUE_SIZE ≠ s.txDataR →
      DALISendData s d
        = ({ DALIProcessSendData
              { s with txData := Function.update s.txData s.txDataW d,
                       txDataW := (s.txDataW + 1) % TX_QUEUE_SIZE }
              (Function.update s.txData s.txDataW d s.txDataR) with
             txDataR := (s.txDataR + 1) % TX_QUEUE_SIZE }, 0))
    ∧ (¬ (s.txDataW + 1) % TX_QUEUE_SIZE ≠ s.txDataR →
      DALISendData s d
        = ({ DALIProcessSendData s (s.txData s.txDataR) with
             txDataR := (s.txDataR + 1) % TX_QUEUE_SIZE }, 1)) := by
  unfold DALISendData
  constructor
  · intro h
    rw [if_pos h]
    dsimp only
    rw [if_pos hn]
    rfl
  · intro h
    rw [if_neg h, if_pos hn]
    rfl

theorem txQueue_store (s : State) (d : DALITxData) (hi : TxIndexInv s)
    (hn : txWaiting s < 19) :
    txQueue { s with txData := Function.update s.txData s.txDataW d,
                     txDataW := (s.txDataW + 1) % TX_QUEUE_SIZE }
      = txQueue s ++ [d] := by
  rw [txQueue_eq, txQueue_eq]
  exact ringList_push s.txData s.txDataR s.txDataW d hi.1 hi.2 hn

theorem txQueue_take (s t : State) (hi : TxIndexInv s) (hne : s.txDataR ≠ s.txDataW)
    (h1 : t.txDataR = (s.txDataR + 1) % TX_QUEUE_SIZE) (h2 : t.txDataW = s.txDataW)
    (h3 : t.txData = s.txData) :
    txQueue s = s.txData s.txDataR :: txQueue t := by
  rw [txQueue_eq, txQueue_eq, h1, h2, h3]
  exact ringList_pop s.txData s.txDataR s.txDataW hi.1 hi.2 hne

theorem sendAll_busy : ∀ (ds : List DALITxData) (s : State),
    s.daliState ≠ dali_state_t.IDLE → TxIndexInv s → txWaiting s + ds.length ≤ 19 →
    (sendAll s ds).2 = List.replicate ds.length 0
    ∧ txQueue (sendAll s ds).1 = txQueue s ++ ds
    ∧ (sendAll s ds).1.daliState = s.daliState := by
  intro ds
  induction ds with
  | nil =>
    intro s _ _ _
    simp [sendAll]
  | cons d ds ih =>
    intro s hn hi hl
    have hlen : (d :: ds).length = ds.length + 1 := rfl
    have hw : txWaiting s < 19 := by omega
    have hfree := (txWaiting_full s hi).1.2 hw
    have he := (sendData_busy s d hn).1 hfree
    have hq := txQueue_store s d hi hw
    have hi' : TxIndexInv (DALISendData s d).1 := txMove_inv (sendData_move s d) hi
    have hw' : txWaiting (DALISendData s d).1 = txWaiting s + 1 := by
      have h1 : txWaiting (DALISendData s d).1 = (txQueue (DALISendData s d).1).length := by
        rw [txQueue_eq, ringList_length]; rfl
      have h2 : txWaiting s = (txQueue s).length := by
        rw [txQueue_eq, ringList_length]; rfl
      rw [h1, he, hq, List.length_append, ← h2]
      rfl
    obtain ⟨a1, a2, a3⟩ := ih (DALISendData s d).1 (by rw [he]; exact hn) hi' (by omega)
    simp only [sendAll]
    refine ⟨?_, ?_, ?_⟩
    · rw [a1, he, hlen, List.replicate_succ]
    · rw [a2, he, hq, List.append_assoc]
      rfl
    · rw [a3, he]

theorem waitToSend_launch (s : State)
    (h : (timerWaitToSendBackframe s).daliState = dali_state_t.SEND_DATA) :
    s.txDataR ≠ s.txDataW
    ∧ timerWaitToSendBackframe s
        = { DALIProcessSendData s (s.txData s.txDataR) with
            txDataR := (s.txDataR + 1) % TX_QUEUE_SIZE } := by
  unfold timerWaitToSendBackframe at h ⊢
  by_cases c : s.DALIFlags.receiveTwiceFrame = true
  · rw [if_pos c] at h
    exact absurd h (by simp [set_timer_reload_val])
  · rw [if_neg c] at h ⊢
    by_cases c2 : s.txDataR ≠ s.txDataW ∧ (s.txData s.txDataR).frameType = 1
    · rw [if_pos c2]
      exact ⟨c2.1, rfl⟩
    · rw [if_neg c2] at h
      exact absurd h (by simp [set_timer_reload_val])

theorem tick_launch (s : State) (a b : Nat) (h0 : s.daliState ≠ dali_state_t.SEND_DATA)
    (hw : s.daliState ≠ dali_state_t.WAIT_FOR_BACKFRAME)
    (h1 : (DALITimerIntHandler s a b).daliState = dali_state_t.SEND_DATA) :
    s.txDataR ≠ s.txDataW
    ∧ DALITimerIntHandler s a b
        = { DALIProcessSendData s (s.txData s.txDataR) with
            txDataR := (s.txDataR + 1) % TX_QUEUE_SIZE } := by
  cases hs : s.daliState
  · rw [timer_idle hs] at h1
    simp [disable_timer_int, hs] at h1
  · exact absurd hs h0
  · rw [timer_receive hs] at h1
    rcases timerReceiveData_daliState s with h | h | h <;> rw [h] at h1 <;>
      exact absurd h1 (by decide)
  · rw [timer_extra hs] at h1
    rcases classifyFrame_daliState s true with h | h <;>
      (unfold timerReceiveDataExtraTE at h1; rw [h] at h1; exact absurd h1 (by decide))
  · rw [timer_second hs, timerSecond_daliState] at h1
    exact absurd h1 (by decide)
  · exact absurd hs hw
  · rw [timer_toSend hs] at h1 ⊢
    exact waitToSend_launch s h1
  · rw [timer_after hs] at h1
    simp [disable_timer_int] at h1
  · rw [timer_break hs, timerBreak_daliState] at h1
    exact absurd h1 (by decide)
  · rw [timer_preIdle hs] at h1 ⊢
    have hr := (preIdle_send s hs).1.1 h1
    exact ⟨hr.1, timerPreIdle_launch s hr⟩

/-! ## C12: the bounds of the TX ring buffer -/

/-- C12. Let the two indices of the TX ring buffer be below 20, as they are in
every reachable state. While the driver is not in `IDLE`, `DALISendData` stores the frame at
the write index and returns 0 when fewer than 19 frames are waiting (the
frame is then the last of the queue), and returns 1 and leaves the whole state
as it is when 19 frames are waiting. From any queue, as many calls in a row as
there are free places succeed: from an empty queue up to 19, so at least 16.
Frames leave the queue in the order of their arrival: when a bit-timer expiry
starts the transmission of a queued frame, and when `DALISendData` in `IDLE`
does, the frame sent is the first of the queue (to which the new frame was
appended, if there was room) and the remaining frames keep their order. -/
theorem tx_ring_bounds (s : State) (hi : TxIndexInv s) :
    (s.daliState ≠ dali_state_t.IDLE → ∀ d,
      (txWaiting s < 19 →
        (DALISendData s d).2 = 0
        ∧ (DALISendData s d).1
            = { s with txData := Function.update s.txData s.txDataW d,
                       txDataW := (s.txDataW + 1) % TX_QUEUE_SIZE }
        ∧ txQueue (DALISendData s d).1 = txQueue s ++ [d])
      ∧ (txWaiting s = 19 → (DALISendData s d).2 = 1 ∧ (DALISendData s d).1 = s))
    ∧ (s.daliState ≠ dali_state_t.IDLE → ∀ ds : List DALITxData,
        txWaiting s + ds.length ≤ 19 →
        (sendAll s ds).2 = List.replicate ds.length 0
        ∧ txQueue (sendAll s ds).1 = txQueue s ++ ds)
    ∧ (∀ rxPin rnd, s.daliState ≠ dali_state_t.SEND_DATA →
        s.daliState ≠ dali_state_t.WAIT_FOR_BACKFRAME →
        (DALITimerIntHandler s rxPin rnd).daliState = dali_state_t.SEND_DATA →
        ∃ f rest, txQueue s = f :: rest
          ∧ DALITimerIntHandler s rxPin rnd
              = { DALIProcessSendData s f with txDataR := (s.txDataR + 1) % TX_QUEUE_SIZE }
          ∧ txQueue (DALITimerIntHandler s rxPin rnd) = rest)
    ∧ (s.daliState = dali_state_t.IDLE → ∀ d,
        ∃ f rest,
          (if txWaiting s < 19 then txQueue s ++ [d] else txQueue s) = f :: rest
          ∧ (DALISendData s d).1.daliState = dali_state_t.SEND_DATA
          ∧ (DALISendData s d).1.txPacket = (DALIProcessSendData s f).txPacket
          ∧ txQueue (DALISendData s d).1 = rest) := by
  refine ⟨?_, ?_, ?_, ?_⟩
  · intro hn d
    constructor
    · intro hw
      have he := (sendData_busy s d hn).1 ((txWaiting_full s hi).1.2 hw)
      rw [he]
      exact ⟨rfl, rfl, txQueue_store s d hi hw⟩
    · intro hw
      have hfull : ¬ (s.txDataW + 1) % TX_QUEUE_SIZE ≠ s.txDataR := by
        intro hc
        have := (txWaiting_full s hi).1.1 hc
        omega
      rw [(sendData_busy s d hn).2 hfull]
      exact ⟨rfl, rfl⟩
  · intro hn ds hl
    obtain ⟨a1, a2, _⟩ := sendAll_busy ds s hn hi hl
    exact ⟨a1, a2⟩
  · intro rxPin rnd h0 hw h1
    obtain ⟨hne, he⟩ := tick_launch s rxPin rnd h0 hw h1
    refine ⟨s.txData s.txDataR, txQueue (DALITimerIntHandler s rxPin rnd), ?_, he, rfl⟩
    apply txQueue_take s _ hi hne <;> rw [he] <;> rfl
  · intro hs d
    by_cases hw : txWaiting s < 19
    · have he := (sendData_idle s d hs).1 ((txWaiting_full s hi).1.2 hw)
      rw [if_pos hw]
      have hi' : TxIndexInv (DALIProcessSendData
          { s with txData := Function.update s.txData s.txDataW d,
                   txDataW := (s.txDataW + 1) % TX_QUEUE_SIZE } d) := by
        unfold TxIndexInv TX_QUEUE_SIZE at *
        exact ⟨hi.1, Nat.mod_lt _ (by norm_num)⟩
      have hne : s.txDataR ≠ (s.txDataW + 1) % TX_QUEUE_SIZE :=
        fun hc => (txWaiting_full s hi).1.2 hw hc.symm
      have hq := txQueue_take
        { s with txData := Function.update s.txData s.txDataW d,
                 txDataW := (s.txDataW + 1) % TX_QUEUE_SIZE }
        (DALISendData s d).1 hi' hne
        (by rw [he])
        (by rw [he]; rfl)
        (by rw [he]; rfl)
      rw [txQueue_store s d hi hw] at hq
      refine ⟨_, _, hq, ?_, ?_, rfl⟩
      · rw [he]; rfl
      · rw [he]; rfl
    · have hfull : ¬ (s.txDataW + 1) % TX_QUEUE_SIZE ≠ s.txDataR :=
        fun hc => hw ((txWaiting_full s hi).1.1 hc)
      have he := (sendData_idle s d hs).2 hfull
      rw [if_neg hw]
      have hne : s.txDataR ≠ s.txDataW := by
        apply (txWaiting_full s hi).2.2
        omega
      have hq := txQueue_take s (DALISendData s d).1 hi hne
        (by rw [he])
        (by rw [he]; rfl)
        (by rw [he]; rfl)
      refine ⟨_, _, hq, ?_, ?_, rfl⟩
      · rw [he]; rfl
      · rw [he]

/-- Witness for C12: during a reception that has just started the TX queue is
empty; a frame handed over is stored at index 0 and `DALISendData` returns 0. -/
theorem tx_ring_bounds_witness :
    (DALISendData (run (DALIInit bootState) [Event.edge DALI_LO 0 0])
        { frame := 0x1234, frameType := 0, sendTwice := 0, priority := 1 }).2 = 0
    ∧ txQueue (DALISendData (run (DALIInit bootState) [Event.edge DALI_LO 0 0])
        { frame := 0x1234, frameType := 0, sendTwice := 0, priority := 1 }).1
      = [{ frame := 0x1234, frameType := 0, sendTwice := 0, priority := 1 }] :=
  have h := ((tx_ring_bounds (run (DALIInit bootState) [Event.edge DALI_LO 0 0])
    (reachable_txIndex _ ⟨_, rfl⟩)).1 (by decide)
    { frame := 0x1234, frameType := 0, sendTwice := 0, priority := 1 }).1 (by decide)
  ⟨h.1, h.2.2⟩

/-! ## The RX ring buffer and its indices -/

theorem rxSame_refl (s : State) : RxSame s s := ⟨rfl, rfl, rfl⟩

theorem rxSame_append {s t : State} (h : RxSame s t) : RxAppend s t :=
  ⟨h.1, Or.inl ⟨h.2.1, h.2.2⟩⟩

theorem rxAppend_of_same {s t u : State} (h1 : RxSame s t) (h2 : RxAppend t u) :
    RxAppend s u := by
  obtain ⟨a1, a2, a3⟩ := h1
  obtain ⟨b1, b2⟩ := h2
  refine ⟨b1.trans a1, ?_⟩
  rcases b2 with ⟨c1, c2⟩ | ⟨c1, c2, r, c3⟩
  · exact Or.inl ⟨c1.trans a2, c2.trans a3⟩
  · right
    unfold rxFree at c1 ⊢
    rw [a1, a2] at c1
    rw [a2] at c2
    rw [a3, a2] at c3
    exact ⟨c1, c2, r, c3⟩

theorem rxAppend_then_same {s t u : State} (h1 : RxAppend s t) (h2 : RxSame t u) :
    RxAppend s u := by
  obtain ⟨a1, a2, a3⟩ := h2
  obtain ⟨b1, b2⟩ := h1
  refine ⟨a1.trans b1, ?_⟩
  rcases b2 with ⟨c1, c2⟩ | ⟨c1, c2, r, c3⟩
  · exact Or.inl ⟨a2.trans c1, a3.trans c2⟩
  · exact Or.inr ⟨c1, a2.trans c2, r, a3.trans c3⟩

theorem appendToQueue_rx (s : State) : RxAppend s (DALIAppendToQueue s) := by
  unfold DALIAppendToQueue
  split_ifs with h1 h2 h3
  · exact ⟨rfl, Or.inl ⟨rfl, rfl⟩⟩
  · exact ⟨rfl, Or.inr ⟨h3, rfl, _, rfl⟩⟩
  · exact ⟨rfl, Or.inl ⟨rfl, rfl⟩⟩
  · exact ⟨rfl, Or.inl ⟨rfl, rfl⟩⟩

theorem appended_rx {s t : State} (h : RxSame s t) (d : dali_state_t) :
    RxAppend s { DALIAppendToQueue t with daliState := d } :=
  rxAppend_then_same (rxAppend_of_same h (appendToQueue_rx t)) ⟨rfl, rfl, rfl⟩

theorem processSend_rx (s : State) (d : DALITxData) : RxSame s (DALIProcessSendData s d) :=
  ⟨rfl, rfl, rfl⟩

theorem writePinOpt_rx (s : State) (l : Option Nat) : RxSame s (writePinOpt s l) := by
  cases l <;> exact ⟨rfl, rfl, rfl⟩

theorem sendDataDone_rx (s : State) : RxAppend s (sendDataDone s) := by
  unfold sendDataDone
  split_ifs
  · exact rxAppend_of_same (s := s) ⟨rfl, rfl, rfl⟩ (appendToQueue_rx _)
  · exact rxSame_append (rxSame_refl s)

theorem sendDataAdvance_rx (s : State) : RxSame s (sendDataAdvance s) := by
  unfold sendDataAdvance
  dsimp only
  split_ifs <;> exact ⟨rfl, rfl, rfl⟩

theorem sendDataHalfBit_rx (s : State) : RxAppend s (sendDataHalfBit s) := by
  unfold sendDataHalfBit
  dsimp only [set_timer_reload_val, writePin]
  split_ifs <;>
    first
    | exact ⟨rfl, Or.inl ⟨rfl, rfl⟩⟩
    | exact rxAppend_of_same (s := s) ⟨rfl, rfl, rfl⟩ (sendDataDone_rx _)
    | exact rxSame_append (s := s) ⟨(writePinOpt_rx _ _).1, (writePinOpt_rx _ _).2.1,
        (writePinOpt_rx _ _).2.2⟩

theorem timerSendData_rx (s : State) : RxAppend s (timerSendData s) :=
  rxAppend_then_same (sendDataHalfBit_rx s) (sendDataAdvance_rx _)

theorem classifyFrame_rx (s : State) (b : Bool) : RxAppend s (classifyFrame s b) := by
  unfold classifyFrame
  by_cases h8 : s.rxPacketLen = 8
  · rw [if_pos h8]
    exact appended_rx ⟨rfl, rfl, rfl⟩ _
  · rw [if_neg h8]
    by_cases h24 : s.rxPacketLen = 24
    · rw [if_pos h24]
      exact appended_rx ⟨rfl, rfl, rfl⟩ _
    · rw [if_neg h24]
      exact appended_rx ⟨rfl, rfl, rfl⟩ _

theorem timerReceiveData_rx (s : State) : RxAppend s (timerReceiveData s) := by
  unfold timerReceiveData
  split_ifs
  · exact ⟨rfl, Or.inl ⟨rfl, rfl⟩⟩
  · exact classifyFrame_rx s false

theorem timerWaitForBackframe_rx (s : State) : RxSame s (timerWaitForBackframe s) := by
  unfold timerWaitForBackframe
  split_ifs <;> exact ⟨rfl, rfl, rfl⟩

theorem timerBreak_rx (s : State) (a b : Nat) : RxAppend s (timerBreak s a b) := by
  unfold timerBreak
  exact appended_rx ⟨rfl, rfl, rfl⟩ _

theorem timerSecond_rx (s : State) : RxAppend s (timerWaitForSecondForframe s) := by
  unfold timerWaitForSecondForframe
  exact appended_rx ⟨rfl, rfl, rfl⟩ _

theorem timerPreIdle_rx (s : State) : RxSame s (timerPreIdle s) := by
  unfold timerPreIdle
  split_ifs <;> exact ⟨rfl, rfl, rfl⟩

theorem timerWaitToSend_rx (s : State) : RxSame s (timerWaitToSendBackframe s) := by
  unfold timerWaitToSendBackframe
  split_ifs <;> exact ⟨rfl, rfl, rfl⟩

theorem timer_rx (s : State) (a b : Nat) : RxAppend s (DALITimerIntHandler s a b) := by
  unfold DALITimerIntHandler
  cases hs : s.daliState <;> dsimp only
  all_goals first
    | exact timerSendData_rx s
    | exact rxSame_append (timerWaitForBackframe_rx s)
    | exact timerBreak_rx s a b
    | exact rxSame_append (timerPreIdle_rx s)
    | exact timerReceiveData_rx s
    | exact classifyFrame_rx s true
    | exact rxSame_append (timerWaitToSend_rx s)
    | exact timerSecond_rx s
    | exact ⟨rfl, Or.inl ⟨rfl, rfl⟩⟩

theorem signalCollision_rx (s : State) : RxAppend s (signalCollision s) := by
  have h := appendToQueue_rx
    (enable_timer_int (set_timer_reload_val (reset_timer
      { s with DALIFlags := { s.DALIFlags with txError := true, txDone := false },
               daliState := dali_state_t.BREAK }) TE_BREAK))
  unfold signalCollision
  dsimp only [writePin]
  exact rxAppend_then_same (s := s) h ⟨rfl, rfl, rfl⟩

theorem rxSendData_rx (s : State) (p t2 t3 : Nat) : RxAppend s (rxSendData s p t2 t3) := by
  unfold rxSendData
  dsimp only [set_timer_count]
  split_ifs <;> exact signalCollision_rx s

theorem edge_rx (s : State) (p t2 t3 : Nat) : RxAppend s (DALIRxIntHandler s p t2 t3) := by
  unfold DALIRxIntHandler
  cases hs : s.daliState <;> dsimp only
  all_goals first
    | exact rxSendData_rx s p t2 t3
    | exact rxSame_append ⟨(rxReceiveData_queue s t2).1, (rxReceiveData_queue s t2).2,
        (rxReceiveData_flags s t2).2⟩
    | exact ⟨rfl, Or.inl ⟨rfl, rfl⟩⟩
    | (split_ifs <;> exact ⟨rfl, Or.inl ⟨rfl, rfl⟩⟩)

theorem sendData_rx (s : State) (d : DALITxData) : RxSame s (DALISendData s d).1 := by
  by_cases h1 : (s.txDataW + 1) % TX_QUEUE_SIZE ≠ s.txDataR <;>
    by_cases h2 : s.daliState = dali_state_t.IDLE
  · rw [(sendData_idle s d h2).1 h1]; exact ⟨rfl, rfl, rfl⟩
  · rw [(sendData_busy s d h2).1 h1]; exact ⟨rfl, rfl, rfl⟩
  · rw [(sendData_idle s d h2).2 h1]; exact ⟨rfl, rfl, rfl⟩
  · rw [(sendData_busy s d h2).2 h1]; exact ⟨rfl, rfl, rfl⟩

theorem checkCable_rxSame (s : State) (p : Nat) : RxSame s (DALICheckCable s p) := by
  unfold DALICheckCable
  dsimp only
  split_ifs <;> exact ⟨rfl, rfl, rfl⟩

theorem step_rx (s : State) (e : Event) :
    RxAppend s (step s e) ∨ (e = Event.receive ∧ RxTake s (step s e)) := by
  cases e with
  | edge a b c => exact Or.inl (edge_rx s a b c)
  | tick a b => exact Or.inl (timer_rx s a b)
  | send d => exact Or.inl (rxSame_append (sendData_rx s d))
  | receive =>
    by_cases h : s.rxDataR ≠ s.rxDataW
    · right
      refine ⟨rfl, h, ?_⟩
      have : DALIDataAvailable s = true := by simp [DALIDataAvailable, h]
      simp only [step, this, if_true]
      exact ⟨rfl, rfl, rfl⟩
    · left
      have : DALIDataAvailable s = false := by simpa [DALIDataAvailable] using h
      simp only [step, this]
      exact ⟨rfl, Or.inl ⟨rfl, rfl⟩⟩
  | receiveTwice => exact Or.inl ⟨rfl, Or.inl ⟨rfl, rfl⟩⟩
  | configureMode m => exact Or.inl ⟨rfl, Or.inl ⟨rfl, rfl⟩⟩
  | checkCable p => exact Or.inl (rxSame_append (checkCable_rxSame s p))

theorem rxAppend_inv {s t : State} (h : RxAppend s t) (hi : RxIndexInv s) : RxIndexInv t := by
  obtain ⟨h1, h2⟩ := h
  unfold RxIndexInv RX_QUEUE_SIZE at *
  rcases h2 with ⟨a, _⟩ | ⟨_, a, _⟩ <;> omega

theorem rxTake_inv {s t : State} (h : RxTake s t) (hi : RxIndexInv s) : RxIndexInv t := by
  obtain ⟨_, h1, h2, _⟩ := h
  unfold RxIndexInv RX_QUEUE_SIZE at *
  omega

theorem step_rxIndex (s : State) (e : Event) (hi : RxIndexInv s) : RxIndexInv (step s e) := by
  rcases step_rx s e with h | ⟨_, h⟩
  · exact rxAppend_inv h hi
  · exact rxTake_inv h hi

theorem reachable_rxIndex (s : State) (h : Reachable s) : RxIndexInv s := by
  refine reachable_induction ?_ step_rxIndex s h
  unfold RxIndexInv
  decide

theorem rxFree_iff (s : State) (hi : RxIndexInv s) : rxFree s ↔ rxWaiting s < 19 := by
  unfold RxIndexInv RX_QUEUE_SIZE at hi
  unfold rxFree rxWaiting RX_QUEUE_SIZE
  omega

/-- An unread record is in the same slot with the same contents after one
event, counted from the new read index. -/
theorem step_unread (s : State) (e : Event) (hi : RxIndexInv s) (k : Nat)
    (hk : k < rxWaiting s) :
    (step s e).rxData ((s.rxDataR + k) % RX_QUEUE_SIZE)
      = s.rxData ((s.rxDataR + k) % RX_QUEUE_SIZE)
    ∧ (e ≠ Event.receive →
        (step s e).rxDataR = s.rxDataR ∧ rxWaiting s ≤ rxWaiting (step s e))
    ∧ (e = Event.receive →
        (step s e).rxDataR = (s.rxDataR + 1) % RX_QUEUE_SIZE
        ∧ rxWaiting (step s e) + 1 = rxWaiting s) := by
  have hi' := hi
  unfold RxIndexInv RX_QUEUE_SIZE at hi
  rcases step_rx s e with h | ⟨he, h⟩
  · obtain ⟨h1, h2⟩ := h
    have hne : e = Event.receive →
        (step s e).rxDataR = (s.rxDataR + 1) % RX_QUEUE_SIZE
        ∧ rxWaiting (step s e) + 1 = rxWaiting s := by
      intro he
      subst he
      -- a call without data available changes nothing
      have hav : DALIDataAvailable s = true := by
        unfold DALIDataAvailable
        unfold rxWaiting RX_QUEUE_SIZE at hk
        have : s.rxDataR ≠ s.rxDataW := by omega
        simp [this]
      have hst : step s Event.receive = (DALIReceiveData s).1 := by
        simp only [step, hav, if_true]
      rw [hst]
      unfold rxWaiting RX_QUEUE_SIZE at hk ⊢
      refine ⟨rfl, ?_⟩
      show (s.rxDataW + 20 - (s.rxDataR + 1) % 20) % 20 + 1 = (s.rxDataW + 20 - s.rxDataR) % 20
      omega
    rcases h2 with ⟨a, b⟩ | ⟨fr, a, r, b⟩
    · refine ⟨by rw [b], fun _ => ⟨h1, ?_⟩, hne⟩
      unfold rxWaiting
      rw [a, h1]
    · refine ⟨?_, fun _ => ⟨h1, ?_⟩, hne⟩
      · rw [b]
        have : (s.rxDataR + k) % RX_QUEUE_SIZE ≠ s.rxDataW := by
          unfold rxWaiting RX_QUEUE_SIZE at hk
          unfold RX_QUEUE_SIZE
          omega
        rw [Function.update_noteq this]
      · have hw := (rxFree_iff s hi').1 fr
        unfold rxWaiting RX_QUEUE_SIZE at hw ⊢
        rw [a, h1]
        unfold RX_QUEUE_SIZE
        omega
  · obtain ⟨h0, h1, h2, h3⟩ := h
    refine ⟨by rw [h3], fun hc => absurd he hc, fun _ => ⟨h1, ?_⟩⟩
    unfold rxWaiting RX_QUEUE_SIZE at hk ⊢
    rw [h1, h2]
    unfold RX_QUEUE_SIZE
    omega

theorem countReceives_cons (e : Event) (es : List Event) :
    (e = Event.receive → countReceives (e :: es) = countReceives es + 1)
    ∧ (e ≠ Event.receive → countReceives (e :: es) = countReceives es) := by
  cases e <;> simp [countReceives]

theorem run_cons (s : State) (e : Event) (es : List Event) :
    run s (e :: es) = run (step s e) es := rfl

theorem run_unread : ∀ (es : List Event) (s : State), RxIndexInv s →
    ∀ k, countReceives es ≤ k → k < rxWaiting s →
      (run s es).rxData ((s.rxDataR + k) % RX_QUEUE_SIZE)
        = s.rxData ((s.rxDataR + k) % RX_QUEUE_SIZE) := by
  intro es
  induction es with
  | nil => intro s _ k _ _; rfl
  | cons e es ih =>
    intro s hi k hc hk
    obtain ⟨a1, a2, a3⟩ := step_unread s e hi k hk
    have hi' := step_rxIndex s e hi
    rw [run_cons]
    by_cases he : e = Event.receive
    · obtain ⟨b1, b2⟩ := a3 he
      rw [(countReceives_cons e es).1 he] at hc
      have hslot : (s.rxDataR + k) % RX_QUEUE_SIZE
          = ((step s e).rxDataR + (k - 1)) % RX_QUEUE_SIZE := by
        rw [b1]
        unfold RX_QUEUE_SIZE
        omega
      rw [hslot, ih (step s e) hi' (k - 1) (by omega) (by omega), ← hslot]
      exact a1
    · obtain ⟨b1, b2⟩ := a2 he
      rw [(countReceives_cons e es).2 he] at hc
      have hslot : (s.rxDataR + k) % RX_QUEUE_SIZE
          = ((step s e).rxDataR + k) % RX_QUEUE_SIZE := by rw [b1]
      rw [hslot, ih (step s e) hi' k hc (by omega), ← hslot]
      exact a1

/-! ## C14: records in the RX queue are not modified -/

/-- C14. Let the two indices of the RX ring buffer be below 20, as they are in
every reachable state. `DALIAppendToQueue` changes the ring buffer only in the
slot at the write index and only when the buffer is not full. A record that is
in the buffer and has not been read is never modified: after any sequence of
events that contains at most `k` calls of `DALIReceiveData`, the record that
was `k` places behind the read index is in the same slot with the same
contents. When 19 records are unread, `DALIAppendToQueue` changes neither the
stored records nor the two indices. -/
theorem rx_queue_immutable (s : State) (hi : RxIndexInv s) :
    (∀ i, (DALIAppendToQueue s).rxData i ≠ s.rxData i → i = s.rxDataW ∧ rxWaiting s < 19)
    ∧ (∀ (es : List Event) (k : Nat), countReceives es ≤ k → k < rxWaiting s →
        (run s es).rxData ((s.rxDataR + k) % RX_QUEUE_SIZE)
          = s.rxData ((s.rxDataR + k) % RX_QUEUE_SIZE))
    ∧ (rxWaiting s = 19 →
        (DALIAppendToQueue s).rxData = s.rxData
        ∧ (DALIAppendToQueue s).rxDataR = s.rxDataR
        ∧ (DALIAppendToQueue s).rxDataW = s.rxDataW) := by
  obtain ⟨h1, h2⟩ := appendToQueue_rx s
  refine ⟨?_, fun es k hc hk => run_unread es s hi k hc hk, ?_⟩
  · intro i hne
    rcases h2 with ⟨_, b⟩ | ⟨fr, _, r, b⟩
    · rw [b] at hne
      exact absurd rfl hne
    · rw [b] at hne
      by_cases hw : i = s.rxDataW
      · exact ⟨hw, (rxFree_iff s hi).1 fr⟩
      · rw [Function.update_noteq hw] at hne
        exact absurd rfl hne
  · intro hfull
    rcases h2 with ⟨a, b⟩ | ⟨fr, _, _, _⟩
    · exact ⟨b, h1, a⟩
    · have := (rxFree_iff s hi).1 fr
      omega

set_option maxRecDepth 100000 in
/-- Witness for C14: after one reception the RX queue holds one unread record
in slot 0; a second reception leaves that record as it is. -/
theorem rx_queue_immutable_witness :
    (run (run (DALIInit bootState) [Event.edge DALI_LO 0 0, Event.tick DALI_HI 0])
        [Event.edge DALI_LO 0 0, Event.tick DALI_HI 0]).rxData 0
      = (run (DALIInit bootState) [Event.edge DALI_LO 0 0, Event.tick DALI_HI 0]).rxData 0 :=
  (rx_queue_immutable (run (DALIInit bootState) [Event.edge DALI_LO 0 0, Event.tick DALI_HI 0])
    (reachable_rxIndex _ ⟨_, rfl⟩)).2.1
    [Event.edge DALI_LO 0 0, Event.tick DALI_HI 0] 0 (by decide) (by decide)

/-! ## C13: the order of delivery of received frames -/

set_option maxRecDepth 100000 in
/-- C13 fails at this input. Twenty frames are received and each is read
before the next arrives, so the RX queue never holds more than one record. The
first call of `DALIReceiveData` reads `rxData[0]`, the first record. Before
the twentieth call the read index is 19 and the twentieth record is in
`rxData[19]`; the call sets the read index to 0 and then reads `rxData[0 - 1]`,
an element outside the array, for which the model returns `none`. -/
theorem receive_wrap_reads_outside :
    (DALIReceiveData (run (DALIInit bootState) (twentyReceptions.take 2))).2
        = some ((run (DALIInit bootState) (twentyReceptions.take 2)).rxData 0)
    ∧ (run (DALIInit bootState) twentyReceptions).rxDataR = 19
    ∧ (run (DALIInit bootState) twentyReceptions).rxDataW = 0
    ∧ DALIDataAvailable (run (DALIInit bootState) twentyReceptions) = true
    ∧ ((run (DALIInit bootState) twentyReceptions).rxData 19).rxDone = true
    ∧ (DALIReceiveData (run (DALIInit bootState) twentyReceptions)).1.rxDataR = 0
    ∧ (DALIReceiveData (run (DALIInit bootState) twentyReceptions)).2 = none := by
  decide

/-! ## C15: the transmit completion signal -/

/-- In `SEND_DATA` the bit-timer interrupt never changes `txFlags`: at
half-bit 56 the state is no longer `SEND_DATA` when `DALIAppendToQueue` runs. -/
theorem appendToQueue_txFlags (s : State) (h1 : s.daliState ≠ dali_state_t.SEND_DATA)
    (h2 : s.daliState ≠ dali_state_t.BREAK) : (DALIAppendToQueue s).txFlags = s.txFlags := by
  unfold DALIAppendToQueue
  have h : ¬ (s.daliState = dali_state_t.SEND_DATA ∨ s.daliState = dali_state_t.BREAK) :=
    fun hc => hc.elim h1 h2
  rw [if_neg h]
  split_ifs <;> rfl

theorem sendDataDone_txFlags (s : State) (h1 : s.daliState ≠ dali_state_t.SEND_DATA)
    (h2 : s.daliState ≠ dali_state_t.BREAK) : (sendDataDone s).txFlags = s.txFlags := by
  unfold sendDataDone
  split_ifs
  · exact appendToQueue_txFlags _ h1 h2
  · rfl

theorem timerSendData_txFlags (s : State) : (timerSendData s).txFlags = s.txFlags := by
  have ha : (timerSendData s).txFlags = (sendDataHalfBit s).txFlags := by
    unfold timerSendData sendDataAdvance
    dsimp only
    split_ifs <;> rfl
  rw [ha]
  unfold sendDataHalfBit
  dsimp only [set_timer_reload_val, writePin]
  split_ifs <;>
    first
    | rfl
    | exact sendDataDone_txFlags _ (by intro h; cases h) (by intro h; cases h)
    | (cases h : firstHalfLevel s.txPacket <;> rfl)
    | (cases h : secondHalfLevel s.txPacket <;> rfl)

set_option maxRecDepth 100000 in
/-- C15 fails at this input. After the collision and the `BREAK` expiry the
application-visible flags are `txDone = 0`, `txError = 0`. The frame is sent
again and completes: 56 bit-timer interrupts later the driver has left
`SEND_DATA` for `WAIT_FOR_BACKFRAME`, and the flags are still `txDone = 0`,
`txError = 0`. -/
theorem completion_not_signalled :
    (run (DALIInit bootState) (retryEvents.take 5)).txFlags
        = { txDone := false, txError := false }
    ∧ (run (DALIInit bootState) retryEvents).daliState = dali_state_t.SEND_DATA
    ∧ (run (DALIInit bootState) retryEvents).halfBitNumber = 1
    ∧ (∀ j, j < 56 → (timerTicks (run (DALIInit bootState) retryEvents) j).daliState
        = dali_state_t.SEND_DATA)
    ∧ (timerTicks (run (DALIInit bootState) retryEvents) 55).halfBitNumber = 56
    ∧ (timerTicks (run (DALIInit bootState) retryEvents) 56).daliState
        = dali_state_t.WAIT_FOR_BACKFRAME
    ∧ txWritten (run (DALIInit bootState) (retryEvents.take 5))
        (timerTicks (run (DALIInit bootState) retryEvents) 56) = manchesterSchedule 24 0x1234
    ∧ (timerTicks (run (DALIInit bootState) retryEvents) 56).txFlags
        = { txDone := false, txError := false } := by
  decide

/-! ## The memory banks: write protection -/

/-- For every bank other than 189 the lock is honoured: with a lock byte other
than `0x55`, a write to any offset but the lock byte is refused and changes
nothing. -/
theorem write_locked_other_banks (m : MemState) (bank offset data : Nat) (hb : bank ≠ 189)
    (ho : offset ≠ lockByte_addr) (hl : m.lock_byte bank ≠ 0x55) :
    dali_memory_write m bank offset data = (m, some 1) := by
  unfold dali_memory_write
  rw [if_neg (fun h => ho h.2), if_neg hb, if_pos (Or.inr (Or.inl hl))]

set_option maxRecDepth 100000 in
/-- C18: after `dali_memory_init` the lock byte of bank 189 is `0xFF`, not
`0x55`; a write of any data byte to offset 10 (dark calibration) is nevertheless
accepted with result 0 and sets `darkCalibrate`, as is a write to offset 11
(`fullScaleCalibrate`); a write of 0 to the factory-reset byte returns 2, the
request to persist; and a write to offset 5 ends without a `return` statement
instead of returning 1. -/
theorem locked_bank_189_write :
    initialMem.lock_byte 189 = 0xFF ∧ initialMem.darkCalibrate = 0 ∧
    initialMem.fullScaleCalibrate = 0 ∧
    (∀ data, (dali_memory_write initialMem 189 calibrateDark data).2 = some 0 ∧
      (dali_memory_write initialMem 189 calibrateDark data).1.darkCalibrate = 1) ∧
    (∀ data, (dali_memory_write initialMem 189 calibrateFullScale data).2 = some 0 ∧
      (dali_memory_write initialMem 189 calibrateFullScale data).1.fullScaleCalibrate = 1) ∧
    (dali_memory_write initialMem 189 factoryReset_addr 0).2 = some 2 ∧
    (dali_memory_write initialMem 189 calibrationScale_addr 0x42).2 = none := by
  refine ⟨by decide, by decide, by decide, fun data => ⟨rfl, rfl⟩, fun data => ⟨rfl, rfl⟩,
    by decide, by decide⟩

/-- In every state, a write to bank 189 at an offset other than 2, 4, 10 and
11 reaches the end of `dali_memory_write` without a `return` statement. -/
theorem write_bank_189_no_return (m : MemState) (offset data : Nat)
    (h1 : offset ≠ lockByte_addr) (h2 : offset ≠ factoryReset_addr)
    (h3 : offset ≠ calibrateDark) (h4 : offset ≠ calibrateFullScale) :
    dali_memory_write m 189 offset data = (m, none) := by
  unfold dali_memory_write
  rw [if_neg (fun h => h1 h.2), if_pos rfl, if_neg h2, if_neg h3, if_neg h4]

set_option maxRecDepth 100000 in
/-- C19: bank 189 with lock byte `0x55` and parameter lock 0, offset 5 (within
the implemented range, which ends at `0x16`), data `0x42`: `dali_memory_write`
executes no `return` statement, so the code fixes none of the results 0, 1
and 2. For WRITE MEMORY LOCATION in that situation the caller's variable
`error` holds whatever the return register held: if that is 1 no back-frame is
queued and nothing is committed, if it is 2 the back-frame `0x42` is queued and
`memory_write` is called. -/
theorem write_result_missing :
    unlockedMem.lock_byte 189 = 0x55 ∧ parameterLock unlockedMem = 0 ∧
    calibrationScale_addr ≤ read8 unlockedMem.flash (unlockedMem.memory_bank_addr 189) ∧
    (dali_memory_write unlockedMem 189 calibrationScale_addr 0x42).2 = none ∧
    (dali_memory_write unlockedMem 189 calibrationScale_addr 0x42).2 ≠ some 2 ∧
    (appRun (initialApp parameterUnlockedFlash) parameterWriteEvents).mem.lock_byte 189 = 0x55 ∧
    parameterLock (appRun (initialApp parameterUnlockedFlash) parameterWriteEvents).mem = 0 ∧
    (appRun (initialApp parameterUnlockedFlash) parameterWriteEvents).writeEnableState = ENABLED ∧
    (appRun (initialApp parameterUnlockedFlash) parameterWriteEvents).DTR1 = 189 ∧
    (appRun (initialApp parameterUnlockedFlash) parameterWriteEvents).DTR0 = 5 ∧
    (appRun (initialApp parameterUnlockedFlash) parameterWriteEvents).link.rxData 6
      = forwardRecord 0xC12042 ∧
    txQueue (appRun (initialApp parameterUnlockedFlash) parameterWriteEvents).link = [] ∧
    txQueue (appRun (initialApp parameterUnlockedFlash)
      (parameterWriteEvents ++ [AppEvent.process { env0 with writeResult := 1 }])).link = [] ∧
    (appRun (initialApp parameterUnlockedFlash)
      (parameterWriteEvents ++ [AppEvent.process { env0 with writeResult := 1 }])).mem.memoryWrites
      = [] ∧
    txQueue (appRun (initialApp parameterUnlockedFlash)
      (parameterWriteEvents ++ [AppEvent.process { env0 with writeResult := 2 }])).link
      = [{ frame := 0x42, frameType := 1, sendTwice := 0, priority := 1 }] ∧
    (appRun (initialApp parameterUnlockedFlash)
      (parameterWriteEvents ++ [AppEvent.process { env0 with writeResult := 2 }])).mem.memoryWrites
      = [(189, 5, 0x42)] := by
  decide

/-! ## The memory banks: bank 0 -/

theorem memInv_boot (flash : Nat → Nat) : MemInv (bootMem flash) :=
  ⟨show (0 : Nat) ≠ 0x55 by decide, fun w hw => by cases hw⟩

theorem memInv_flash (m : MemState) (f : Nat → Nat) (h : MemInv m) :
    MemInv { m with flash := f } :=
  h

theorem memInv_init (m : MemState) (h : MemInv m) : MemInv (dali_memory_init m) := by
  unfold dali_memory_init
  have h0 : MemInv { m with
      memory_bank_addr := fun b => if b = 0 then MEMORY_BANK_0_ADDR
                                   else if b = 189 then MEMORY_BANK_189_ADDR
                                   else m.memory_bank_addr b,
      lock_byte := fun b => if b = 189 then 0xFF else m.lock_byte b } := by
    refine ⟨?_, h.2⟩
    show (if (0 : Nat) = 189 then 0xFF else m.lock_byte 0) ≠ 0x55
    rw [if_neg (by decide)]
    exact h.1
  dsimp only
  split_ifs
  · exact h0
  · exact h0

theorem memInv_erase (m : MemState) (page : Nat) (h : MemInv m) : MemInv (erase_page m page).1 :=
  h

theorem memInv_reset (m : MemState) (bank : Nat) (h : MemInv m) :
    MemInv (dali_memory_reset m bank) := by
  unfold dali_memory_reset
  split_ifs
  · exact h
  · refine ⟨?_, h.2⟩
    show (if (0 : Nat) = 189 then 0 else m.lock_byte 0) ≠ 0x55
    rw [if_neg (by decide)]
    exact h.1
  · exact h

theorem memInv_write (m : MemState) (bank offset data : Nat) (h : MemInv m) :
    MemInv (dali_memory_write m bank offset data).1 := by
  unfold dali_memory_write
  dsimp only
  split_ifs with h1
  · refine ⟨?_, h.2⟩
    show (if 0 = bank then data else m.lock_byte 0) ≠ 0x55
    rw [if_neg (fun hb => h1.1 hb.symm)]
    exact h.1
  all_goals exact h

theorem memInv_memory_write (m : MemState) (bank offset data : Nat) (junk : Nat → Nat)
    (hb : bank ≠ 0) (h : MemInv m) : MemInv (memory_write m bank offset data junk) := by
  have h0 : MemInv { m with memoryWrites := (bank, offset, data) :: m.memoryWrites } := by
    refine ⟨h.1, fun w hw => ?_⟩
    rcases List.mem_cons.1 hw with rfl | hw
    · exact hb
    · exact h.2 w hw
  unfold memory_write
  dsimp only
  split_ifs
  · exact memInv_reset _ _ h0
  · exact h0
  · exact h0

/-- With the lock byte of bank 0 different from `0x55`, every write to bank 0
is refused and changes nothing. -/
theorem write_bank_0 (m : MemState) (offset data : Nat) (h : m.lock_byte 0 ≠ 0x55) :
    dali_memory_write m 0 offset data = (m, some 1) := by
  unfold dali_memory_write
  rw [if_neg (fun hc => hc.1 rfl), if_neg (by decide), if_pos (Or.inr (Or.inl h))]

/-! ## C16: the send-twice commands -/

/-- A command written with the shared send-twice text has no effect of its own
on a copy that differs from the previous frame or whose record has
`rxSendTwicePossible = 0`: the first asks the link layer for the second copy,
the second only sets `isSecondFrame`. -/
theorem sendTwiceCommand_gated (a : App) (msg : DALIRxData) (frame : Nat) (effect : App → App)
    (h : frame ≠ a.previousFrame ∨ msg.rxSendTwicePossible = false) :
    sendTwiceCommand a msg frame effect = appReceiveTwice a
    ∨ sendTwiceCommand a msg frame effect = { a with isSecondFrame := 1 } := by
  unfold sendTwiceCommand
  by_cases h1 : frame ≠ a.previousFrame
  · rw [if_pos h1]
    exact Or.inl rfl
  · rw [if_neg h1]
    have h2 : msg.rxSendTwicePossible = false := h.resolve_left h1
    rw [if_neg (by rw [h2]; decide)]
    exact Or.inr rfl

set_option maxRecDepth 100000 in
/-- C16: the broadcast command IDENTIFY DEVICE arrives twice, the second copy
after the reply slot of the first has expired, so that both records have
`rxSendTwicePossible = 0`. When the application has processed both, the
identification is running (`id_time = 10000`, LED pin low), although it was
not before the second record was processed. RESET POWER CYCLE SEEN, received
in the same way, leaves `powerCycleSeen` as it was. -/
theorem identify_without_send_twice :
    (appRun (initialApp blankFlash) ((twoCopies identifyFrame).dropLast.dropLast)).link.rxData 0
      = forwardRecord identifyFrame
    ∧ (appRun (initialApp blankFlash) ((twoCopies identifyFrame).dropLast.dropLast)).link.rxData 1
      = forwardRecord identifyFrame
    ∧ (forwardRecord identifyFrame).rxSendTwicePossible = false
    ∧ (appRun (initialApp blankFlash) (twoCopies identifyFrame).dropLast).id_time = 0
    ∧ (appRun (initialApp blankFlash) (twoCopies identifyFrame).dropLast).ledPin = 1
    ∧ (appRun (initialApp blankFlash) (twoCopies identifyFrame)).id_time = 10000
    ∧ (appRun (initialApp blankFlash) (twoCopies identifyFrame)).ledPin = 0
    ∧ (appRun (initialApp blankFlash) (twoCopies resetPowerCycleSeenFrame).dropLast).powerCycleSeen
      = TRUE
    ∧ (appRun (initialApp blankFlash) (twoCopies resetPowerCycleSeenFrame)).powerCycleSeen
      = TRUE := by
  decide

/-! ## C17: device-group addressing -/

set_option maxRecDepth 100000 in
/-- C17: a device that is a member of device group 1 only (`deviceGroups = 2`,
bit 0 clear) receives QUERY DEVICE STATUS addressed to device group 0 (frame
`0x81FE30`). The frame is not ignored: the device queues its status as a
back-frame, and `deviceStatus`, `previousFrame` and the read index change. -/
theorem group_frame_not_ignored :
    (appRun (initialApp blankFlash) groupEvents).deviceGroups = 2
    ∧ (appRun (initialApp blankFlash) groupEvents).deviceGroups.testBit 0 = false
    ∧ (appRun (initialApp blankFlash) groupEvents).link.rxData 3 = forwardRecord 0x81FE30
    ∧ (appRun (initialApp blankFlash) groupEvents).link.rxDataR = 3
    ∧ (address_byte 0x81FE30 >>> 1) &&& 0x1F = 0
    ∧ txQueue (appRun (initialApp blankFlash) groupEvents).link = []
    ∧ (appRun (initialApp blankFlash) groupEvents).deviceStatus = 0
    ∧ txQueue (appRun (initialApp blankFlash) (groupEvents ++ [AppEvent.process env0])).link
      = [{ frame := 0x24, frameType := 1, sendTwice := 0, priority := 1 }]
    ∧ (appRun (initialApp blankFlash) (groupEvents ++ [AppEvent.process env0])).deviceStatus = 0x24
    ∧ (appRun (initialApp blankFlash) (groupEvents ++ [AppEvent.process env0])).previousFrame
      = 0x81FE30 := by
  decide

/-! ## The application keeps bank 0 locked -/

theorem save_memInv (a : App) (h : MemInv a.mem) : MemInv (DALI_Save_Variable a).mem :=
  h

theorem sendBackFrame_memInv (a : App) (v : Nat) (h : MemInv a.mem) :
    MemInv (sendBackFrame a v).mem :=
  h

theorem sendTwiceCommand_memInv (a : App) (msg : DALIRxData) (frame : Nat) (effect : App → App)
    (he : ∀ b : App, MemInv b.mem → MemInv (effect b).mem) (h : MemInv a.mem) :
    MemInv (sendTwiceCommand a msg frame effect).mem := by
  unfold sendTwiceCommand
  split_ifs
  · exact h
  · exact he a h
  · exact h

theorem resetVariables_memInv (a : App) (h : MemInv a.mem) :
    MemInv (DALI_Reset_Variables a).mem := by
  unfold DALI_Reset_Variables
  dsimp only
  split_ifs
  · exact h
  · exact h

theorem checkResetState_mem (a : App) : (DALI_Check_ResetState a).mem = a.mem := by
  unfold DALI_Check_ResetState
  split_ifs <;> rfl

theorem repeatSend_mem (a : App) (data : DALITxData) (n : Nat) :
    (repeatSend a data n).mem = a.mem := by
  induction n generalizing a with
  | zero => rfl
  | succ n ih => exact ih _

theorem sendTestframe_mem (a : App) (op : Nat) : (sendTestframe a op).mem = a.mem := by
  unfold sendTestframe
  dsimp only
  split_ifs
  all_goals first
    | rfl
    | exact repeatSend_mem _ _ _

theorem randomise_memInv (a : App) (env : Env) (h : MemInv a.mem) :
    MemInv (randomise a env).mem := by
  unfold randomise
  dsimp only
  split_ifs
  · exact h
  · exact h

/-- The increment of `DTR0` that ends the three write commands. -/
theorem incrementDTR0_mem (a : App) :
    (if a.DTR0 < 0xFF ∧ a.DTR1 = 189 then { a with DTR0 := a.DTR0 + 1 } else a).mem = a.mem := by
  split_ifs <;> rfl

/-- `WRITE_MEMORY_LOCATION` and `DIRECT_WRITE_MEMORY` call `memory_write` only
for a bank other than 0: for bank 0 `dali_memory_write` returns 1. -/
theorem writeMemoryReply_memInv (a : App) (env : Env) (data : Nat) (h : MemInv a.mem) :
    MemInv (writeMemoryReply a env data).mem := by
  unfold writeMemoryReply
  by_cases hb : a.DTR1 = 0
  · rw [hb, write_bank_0 a.mem a.DTR0 data h.1]
    dsimp only [Option.getD]
    rw [if_neg (by decide)]
    split_ifs
    all_goals exact h
  · have hw := memInv_write a.mem a.DTR1 a.DTR0 data h
    dsimp only
    split_ifs
    all_goals first
      | exact hw
      | exact memInv_memory_write _ _ _ _ _ hb hw

theorem writeMemoryNoReply_memInv (a : App) (env : Env) (data : Nat) (h : MemInv a.mem) :
    MemInv (writeMemoryNoReply a env data).mem := by
  unfold writeMemoryNoReply
  by_cases hb : a.DTR1 = 0
  · rw [hb, write_bank_0 a.mem a.DTR0 data h.1]
    dsimp only [Option.getD]
    rw [if_neg (by decide)]
    split_ifs
    all_goals exact h
  · have hw := memInv_write a.mem a.DTR1 a.DTR0 data h
    dsimp only
    split_ifs
    all_goals first
      | exact hw
      | exact memInv_memory_write _ _ _ _ _ hb hw

/-- A conditional keeps the invariant if both branches do. -/
theorem ite_memInv {c : Prop} [Decidable c] {x y : App} (hx : MemInv x.mem)
    (hy : MemInv y.mem) : MemInv (if c then x else y).mem := by
  split_ifs
  · exact hx
  · exact hy

theorem specialCommand_memInv (a : App) (env : Env) (msg : DALIRxData) (frame : Nat)
    (h : MemInv a.mem) : MemInv (specialCommand a env msg frame).mem := by
  unfold specialCommand
  repeat' first
    | with_reducible apply ite_memInv
    | with_reducible exact h
    | exact sendBackFrame_memInv _ _ h
    | exact save_memInv _ h
    | exact writeMemoryReply_memInv _ _ _ h
    | exact writeMemoryNoReply_memInv _ _ _ h
    | (rw [sendTestframe_mem]; exact h)
    | (refine sendTwiceCommand_memInv _ _ _ _ ?_ h
       intro b hb
       refine ite_memInv ?_ hb
       first
         | exact hb
         | exact randomise_memInv _ _ hb)

theorem setShortAddress_memInv (a : App) (h : MemInv a.mem) : MemInv (setShortAddress a).mem := by
  unfold setShortAddress
  repeat' first
    | with_reducible apply ite_memInv
    | with_reducible exact h
    | exact save_memInv _ h

theorem enableApplicationController_memInv (a : App) (h : MemInv a.mem) : MemInv (enableApplicationController a).mem := by
  unfold enableApplicationController
  repeat' first
    | with_reducible apply ite_memInv
    | with_reducible exact h
    | exact save_memInv _ h

theorem disableApplicationController_memInv (a : App) (h : MemInv a.mem) : MemInv (disableApplicationController a).mem := by
  unfold disableApplicationController
  repeat' first
    | with_reducible apply ite_memInv
    | with_reducible exact h
    | exact save_memInv _ h

theorem setEventPriority_memInv (a : App) (h : MemInv a.mem) : MemInv (setEventPriority a).mem := by
  unfold setEventPriority
  dsimp only
  repeat' first
    | with_reducible apply ite_memInv
    | with_reducible exact h
    | exact save_memInv _ h

theorem setInstanceGroup0_memInv (a : App) (h : MemInv a.mem) : MemInv (setInstanceGroup0 a).mem := by
  unfold setInstanceGroup0
  dsimp only
  repeat' first
    | with_reducible apply ite_memInv
    | with_reducible exact h
    | exact save_memInv _ h

theorem setInstanceGroup1_memInv (a : App) (h : MemInv a.mem) : MemInv (setInstanceGroup1 a).mem := by
  unfold setInstanceGroup1
  dsimp only
  repeat' first
    | with_reducible apply ite_memInv
    | with_reducible exact h
    | exact save_memInv _ h

theorem setInstanceGroup2_memInv (a : App) (h : MemInv a.mem) : MemInv (setInstanceGroup2 a).mem := by
  unfold setInstanceGroup2
  dsimp only
  repeat' first
    | with_reducible apply ite_memInv
    | with_reducible exact h
    | exact save_memInv _ h

theorem setEventScheme_memInv (a : App) (h : MemInv a.mem) : MemInv (setEventScheme a).mem := by
  unfold setEventScheme
  dsimp only
  repeat' first
    | with_reducible apply ite_memInv
    | with_reducible exact h
    | exact save_memInv _ h

theorem setEventFilter_memInv (a : App) (h : MemInv a.mem) : MemInv (setEventFilter a).mem := by
  unfold setEventFilter
  dsimp only
  repeat' first
    | with_reducible apply ite_memInv
    | with_reducible exact h
    | exact save_memInv _ h

theorem setReportTimer_memInv (a : App) (h : MemInv a.mem) : MemInv (setReportTimer a).mem := by
  unfold setReportTimer
  dsimp only
  repeat' first
    | with_reducible apply ite_memInv
    | with_reducible exact h

theorem setHysteresis_memInv (a : App) (h : MemInv a.mem) : MemInv (setHysteresis a).mem := by
  unfold setHysteresis
  dsimp only
  repeat' first
    | with_reducible apply ite_memInv
    | with_reducible exact h

theorem setDeadtimeTimer_memInv (a : App) (h : MemInv a.mem) : MemInv (setDeadtimeTimer a).mem := by
  unfold setDeadtimeTimer
  dsimp only
  repeat' first
    | with_reducible apply ite_memInv
    | with_reducible exact h

theorem setHysteresisMin_memInv (a : App) (h : MemInv a.mem) : MemInv (setHysteresisMin a).mem := by
  unfold setHysteresisMin
  dsimp only
  repeat' first
    | with_reducible apply ite_memInv
    | with_reducible exact h

theorem queryDeviceStatus_memInv (a : App) (h : MemInv a.mem) : MemInv (queryDeviceStatus a).mem := by
  unfold queryDeviceStatus
  dsimp only
  exact sendBackFrame_memInv _ _ h

theorem queryDeviceCapabilities_memInv (a : App) (h : MemInv a.mem) : MemInv (queryDeviceCapabilities a).mem := by
  unfold queryDeviceCapabilities
  dsimp only
  exact sendBackFrame_memInv _ _ h

theorem queryInputValue_memInv (a : App) (h : MemInv a.mem) : MemInv (queryInputValue a).mem := by
  unfold queryInputValue
  dsimp only
  exact sendBackFrame_memInv _ _ h

theorem queryInputValueLatch_memInv (a : App) (h : MemInv a.mem) : MemInv (queryInputValueLatch a).mem := by
  unfold queryInputValueLatch
  dsimp only
  repeat' first
    | with_reducible apply ite_memInv
    | with_reducible exact h
    | exact sendBackFrame_memInv _ _ h

theorem setDeviceGroups_memInv (a : App) (groups : Nat) (h : MemInv a.mem) :
    MemInv (setDeviceGroups a groups).mem := by
  unfold setDeviceGroups
  dsimp only
  exact ite_memInv h h

theorem identifyDevice_memInv (a : App) (frame : Nat) (h : MemInv a.mem) :
    MemInv (identifyDevice a frame).mem :=
  ite_memInv h h

theorem setOperatingMode_memInv (a : App) (frame : Nat) (h : MemInv a.mem) :
    MemInv (setOperatingMode a frame).mem :=
  ite_memInv h h

theorem readMemoryLocation_memInv (a : App) (h : MemInv a.mem) :
    MemInv (readMemoryLocation a).mem := by
  unfold readMemoryLocation
  split
  · exact ite_memInv h h
  · exact ite_memInv h h

theorem queryVersionNumber_memInv (a : App) (h : MemInv a.mem) :
    MemInv (queryVersionNumber a).mem := by
  unfold queryVersionNumber
  split
  · exact h
  · exact h

/-- A conditional pair keeps the invariant in its first component if both
branches do. -/
theorem ite_fst_memInv {c : Prop} [Decidable c] {x y : App × Nat} (hx : MemInv x.1.mem)
    (hy : MemInv y.1.mem) : MemInv (if c then x else y).1.mem := by
  split_ifs
  · exact hx
  · exact hy

theorem deviceCommand_memInv (a : App) (msg : DALIRxData) (frame : Nat) (h : MemInv a.mem) :
    MemInv (deviceCommand a msg frame).1.mem := by
  unfold deviceCommand
  repeat' first
    | with_reducible apply ite_fst_memInv
    | with_reducible apply ite_memInv
    | with_reducible exact h
    | exact sendBackFrame_memInv _ _ h
    | exact identifyDevice_memInv _ _ h
    | exact setOperatingMode_memInv _ _ h
    | exact memInv_reset _ _ h
    | exact queryDeviceStatus_memInv _ h
    | exact queryDeviceCapabilities_memInv _ h
    | exact queryVersionNumber_memInv _ h
    | exact readMemoryLocation_memInv _ h
    | (rw [checkResetState_mem]; exact h)
    | (refine sendBackFrame_memInv _ _ ?_; rw [checkResetState_mem]; exact h)
    | (refine sendTwiceCommand_memInv _ _ _ _ ?_ h
       intro b hb
       first
         | with_reducible exact hb
         | exact save_memInv _ hb
         | exact resetVariables_memInv _ hb
         | exact setShortAddress_memInv _ hb
         | exact enableApplicationController_memInv _ hb
         | exact disableApplicationController_memInv _ hb
         | exact setDeviceGroups_memInv _ _ hb
         | exact setEventPriority_memInv _ hb)

theorem instanceCommand_memInv (a : App) (msg : DALIRxData) (frame : Nat) (h : MemInv a.mem) :
    MemInv (instanceCommand a msg frame).mem := by
  unfold instanceCommand
  repeat' first
    | with_reducible apply ite_memInv
    | with_reducible exact h
    | exact sendBackFrame_memInv _ _ h
    | exact queryInputValue_memInv _ h
    | exact queryInputValueLatch_memInv _ h
    | (refine sendTwiceCommand_memInv _ _ _ _ ?_ h
       intro b hb
       first
         | exact save_memInv _ hb
         | exact setInstanceGroup0_memInv _ hb
         | exact setInstanceGroup1_memInv _ hb
         | exact setInstanceGroup2_memInv _ hb
         | exact setEventPriority_memInv _ hb
         | exact setEventScheme_memInv _ hb
         | exact setEventFilter_memInv _ hb
         | exact setReportTimer_memInv _ hb
         | exact setHysteresis_memInv _ hb
         | exact setDeadtimeTimer_memInv _ hb
         | exact setHysteresisMin_memInv _ hb)

theorem rememberFrame_memInv (a : App) (frame : Nat) (h : MemInv a.mem) :
    MemInv (rememberFrame a frame).mem :=
  h

theorem addressedCommand_memInv (a : App) (msg : DALIRxData) (frame : Nat) (h : MemInv a.mem) :
    MemInv (addressedCommand a msg frame).mem := by
  unfold addressedCommand
  dsimp only
  repeat' first
    | with_reducible apply ite_memInv
    | with_reducible apply rememberFrame_memInv
    | with_reducible exact h
    | exact deviceCommand_memInv _ _ _ h
    | exact instanceCommand_memInv _ _ _ h

theorem commandFrame_memInv (a : App) (env : Env) (msg : DALIRxData) (frame : Nat)
    (h : MemInv a.mem) : MemInv (commandFrame a env msg frame).mem := by
  unfold commandFrame
  dsimp only
  repeat' first
    | with_reducible apply ite_memInv
    | with_reducible apply rememberFrame_memInv
    | with_reducible exact h
    | exact addressedCommand_memInv _ _ _ h
    | exact specialCommand_memInv _ _ _ _ h
    | exact writeMemoryReply_memInv _ _ _ h

/-- `DALI_ProcessRxData` keeps the lock byte of bank 0 and calls `memory_write`
for no bank 0. -/
theorem processRxData_memInv (a : App) (env : Env) (h : MemInv a.mem) :
    MemInv (DALI_ProcessRxData a env).mem := by
  unfold DALI_ProcessRxData
  dsimp only
  repeat' first
    | with_reducible apply ite_memInv
    | with_reducible apply rememberFrame_memInv
    | with_reducible exact h
    | exact commandFrame_memInv _ _ _ _ h

theorem appInit_memInv (a : App) (h : MemInv a.mem) : MemInv (DALI_AppInit a).mem := by
  have h1 : MemInv (dali_memory_init a.mem) := memInv_init _ h
  unfold DALI_AppInit
  dsimp only
  exact ite_memInv h1 h1

theorem initialApp_memInv (flash : Nat → Nat) : MemInv (initialApp flash).mem :=
  appInit_memInv _ (memInv_boot flash)

theorem reportEvent_mem (a : App) (frame : Nat) : (reportEvent a frame).mem = a.mem := by
  unfold reportEvent
  dsimp only
  split_ifs <;> rfl

theorem sendEvent_memInv (a : App) (junk : Nat) (h : MemInv a.mem) :
    MemInv (DALI_SendEvent a junk).mem := by
  unfold DALI_SendEvent
  repeat' first
    | with_reducible apply ite_memInv
    | with_reducible exact h
    | (rw [reportEvent_mem]; exact h)

theorem appStep_memInv (a : App) (e : AppEvent) (h : MemInv a.mem) :
    MemInv (appStep a e).mem := by
  cases e with
  | process env => exact processRxData_memInv a env h
  | link e => exact h
  | powerCycle => exact ite_memInv h h
  | adc sensor_val junk => exact sendEvent_memInv _ _ h
  | adcFail => exact h
  | timeBase q i r d pt pf idt led => exact h

theorem appRun_memInv (es : List AppEvent) (a : App) (h : MemInv a.mem) :
    MemInv (appRun a es).mem := by
  induction es generalizing a with
  | nil => exact h
  | cons e es ih => exact ih _ (appStep_memInv a e h)

theorem reachable_memInv (a : App) (h : AppReachable a) : MemInv a.mem := by
  obtain ⟨flash, es, rfl⟩ := h
  exact appRun_memInv es _ (initialApp_memInv flash)

/-! ## C20: memory bank 0 is read-only -/

/-- C20: in every reachable state of the application the lock byte of bank 0
is not `0x55`, `dali_memory_write` refuses every write to bank 0 (result 1,
state unchanged) for every offset and data byte, and no call of
`memory_write` made so far, by whichever command, named bank 0. -/
theorem bank_0_read_only (a : App) (h : AppReachable a) :
    a.mem.lock_byte 0 ≠ 0x55
    ∧ (∀ offset data : Nat, dali_memory_write a.mem 0 offset data = (a.mem, some 1))
    ∧ (∀ w ∈ a.mem.memoryWrites, w.1 ≠ 0) :=
  ⟨(reachable_memInv a h).1, fun offset data => write_bank_0 a.mem offset data (reachable_memInv a h).1,
    (reachable_memInv a h).2⟩

set_option maxRecDepth 100000 in
/-- After writing has been enabled, a write to bank 0 attempted and a write to
the factory-reset byte of bank 189 made, `memory_write` has been called once,
for bank 189, and bank 0 still refuses every write. -/
theorem bank_0_read_only_witness :
    AppReachable (appRun (initialApp blankFlash) writeEvents)
    ∧ (appRun (initialApp blankFlash) writeEvents).writeEnableState = ENABLED
    ∧ (appRun (initialApp blankFlash) writeEvents).mem.memoryWrites = [(189, 4, 0)]
    ∧ ((appRun (initialApp blankFlash) writeEvents).mem.lock_byte 0 ≠ 0x55
      ∧ (∀ offset data : Nat,
          dali_memory_write (appRun (initialApp blankFlash) writeEvents).mem 0 offset data
            = ((appRun (initialApp blankFlash) writeEvents).mem, some 1))
      ∧ (∀ w ∈ (appRun (initialApp blankFlash) writeEvents).mem.memoryWrites, w.1 ≠ 0)) :=
  ⟨⟨blankFlash, writeEvents, rfl⟩, by decide, by decide,
    bank_0_read_only _ ⟨blankFlash, writeEvents, rfl⟩⟩

/-! ## Device-group addressing in general -/

/-- The test `(deviceGroups && (1 << group)) == 0` does not depend on the
group: it holds exactly when `deviceGroups` is 0. -/
theorem group_test (deviceGroups group : Nat) :
    logicalAnd deviceGroups (1 <<< group) = 0 ↔ deviceGroups = 0 := by
  have h : 1 <<< group ≠ 0 := by
    rw [Nat.one_shiftLeft]
    exact Nat.pos_iff_ne_zero.1 (Nat.two_pow_pos group)
  unfold logicalAnd
  constructor
  · intro hc
    by_contra hd
    rw [if_pos ⟨hd, h⟩] at hc
    exact absurd hc (by decide)
  · intro hd
    rw [if_neg (fun hc => hc.1 hd)]

/-- A command frame with device-group addressing is ignored by a device that
is a member of no group, and processed by every other device, whatever the
group in the address byte. -/
theorem commandFrame_group (a : App) (env : Env) (msg : DALIRxData) (frame : Nat)
    (h1 : 0x80 ≤ address_byte frame) (h2 : address_byte frame < 0xC0) :
    commandFrame a env msg frame
      = if a.deviceGroups = 0 then a else addressedCommand a msg frame := by
  unfold commandFrame
  dsimp only
  rw [if_neg (by omega), if_pos h2]
  by_cases hd : a.deviceGroups = 0
  · rw [if_pos ((group_test _ _).2 hd), if_pos hd]
  · rw [if_neg (fun hc => hd ((group_test _ _).1 hc)), if_neg hd]

/-! ## C21: when a read of a memory bank fails -/

/-- C21 (amended): `dali_memory_read` reports failure exactly when the bank is
not implemented, or the offset is greater than the last implemented offset in
byte 0 of the bank, or the offset is 1. The lock byte at offset `0x02` is
readable: for a bank other than 0 whose last offset is at least 2 the read
succeeds and gives `lock_byte[bank]`. -/
theorem memory_read_failure (m : MemState) (bank offset : Nat) :
    (dali_memory_read m bank offset = none
      ↔ m.memory_bank_addr bank = 0 ∨ offset > read8 m.flash (m.memory_bank_addr bank)
        ∨ offset = 1)
    ∧ (bank ≠ 0 → m.memory_bank_addr bank ≠ 0
        → lockByte_addr ≤ read8 m.flash (m.memory_bank_addr bank)
        → dali_memory_read m bank lockByte_addr = some (m.lock_byte bank)) := by
  constructor
  · unfold dali_memory_read
    dsimp only
    by_cases h1 : m.memory_bank_addr bank = 0
    · rw [if_pos h1]
      exact ⟨fun _ => Or.inl h1, fun _ => rfl⟩
    · rw [if_neg h1]
      by_cases h2 : offset > read8 m.flash (m.memory_bank_addr bank) ∨ offset = 1
      · rw [if_pos h2]
        exact ⟨fun _ => Or.inr h2, fun _ => rfl⟩
      · rw [if_neg h2]
        constructor
        · intro h
          split_ifs at h
        · intro h
          rcases h with h | h
          · exact absurd h h1
          · exact absurd h h2
  · intro hb ha hl
    unfold dali_memory_read
    dsimp only
    rw [if_neg ha, if_neg, if_pos ⟨hb, rfl⟩]
    intro hc
    rcases hc with hc | hc
    · exact absurd hl (Nat.not_le.2 hc)
    · exact absurd hc (by decide)

set_option maxRecDepth 100000 in
/-- Bank 189 after initialisation: the read of offset 1 fails, the read of the
lock byte gives `0xFF`. -/
theorem memory_read_failure_witness :
    (dali_memory_read initialMem 189 1 = none
      ↔ initialMem.memory_bank_addr 189 = 0
        ∨ 1 > read8 initialMem.flash (initialMem.memory_bank_addr 189) ∨ 1 = 1)
    ∧ dali_memory_read initialMem 189 lockByte_addr = some (initialMem.lock_byte 189)
    ∧ initialMem.lock_byte 189 = 0xFF :=
  ⟨(memory_read_failure initialMem 189 1).1,
    (memory_read_failure initialMem 189 lockByte_addr).2 (by decide) (by decide) (by decide),
    by decide⟩

set_option maxRecDepth 100000 in
/-- The read of the lock-byte offset `0x02` succeeds: in bank 189 it gives the
lock byte, in bank 0 the number of the last bank (`0xBD`). -/
theorem lock_byte_offset_readable :
    initialMem.memory_bank_addr 189 ≠ 0
    ∧ lockByte_addr ≤ read8 initialMem.flash (initialMem.memory_bank_addr 189)
    ∧ dali_memory_read initialMem 189 lockByte_addr = some 0xFF
    ∧ dali_memory_read initialMem 0 lockByte_addr = some 0xBD := by
  decide

/-! ## C23: the reset of bank 189 -/

/-- With bank 189 locked `dali_memory_reset` changes nothing. -/
theorem reset_locked (m : MemState) (bank : Nat) (h : m.lock_byte 189 ≠ 0x55) :
    dali_memory_reset m bank = m := by
  unfold dali_memory_reset
  split_ifs <;> rfl

set_option maxRecDepth 100000 in
/-- C23: bank 189 is initialised on a blank flash and unlocked, then
`dali_memory_reset(189)` is called. The initialisation had put the full-scale
range 1000 at offsets `0x15` and `0x16`; after the reset these two bytes are
`0xFF` (the range reads 65535) and the value 1000 stands at offsets 10 and 11,
which the initialisation leaves blank. Calibration scale and offset have their
defaults, bank 0 is unchanged, and the lock byte is 0 afterwards. -/
theorem reset_misplaces_full_scale_range :
    writableMem.lock_byte 189 = 0x55
    ∧ fullScaleRange initialMem = 1000
    ∧ bank189Byte initialMem 0x15 = 0xE8 ∧ bank189Byte initialMem 0x16 = 0x03
    ∧ bank189Byte initialMem 10 = 0xFF ∧ bank189Byte initialMem 11 = 0xFF
    ∧ bank189Byte (dali_memory_reset writableMem 189) 0x15 = 0xFF
    ∧ bank189Byte (dali_memory_reset writableMem 189) 0x16 = 0xFF
    ∧ fullScaleRange (dali_memory_reset writableMem 189) = 0xFFFF
    ∧ bank189Byte (dali_memory_reset writableMem 189) 10 = 0xE8
    ∧ bank189Byte (dali_memory_reset writableMem 189) 11 = 0x03
    ∧ calibrationScale (dali_memory_reset writableMem 189) = 255
    ∧ calibrationOffset (dali_memory_reset writableMem 189) = 0
    ∧ (∀ i ∈ List.range 0x17, i = 10 ∨ i = 11 ∨ i = 0x15 ∨ i = 0x16
        ∨ bank189Byte (dali_memory_reset writableMem 189) i = bank189Byte initialMem i)
    ∧ (∀ i ∈ List.range 0x1C,
        bank0Byte (dali_memory_reset writableMem 189) i = bank0Byte initialMem i)
    ∧ (dali_memory_reset writableMem 189).lock_byte 189 = 0 := by
  decide

/-! ## C22: what `memory_write` keeps of the bank -/

set_option maxRecDepth 100000 in
/-- C22: bank 189 is initialised on a blank flash (last implemented offset
`0x16`, full-scale range 1000 at offsets `0x15` and `0x16`); then
`memory_write(189, 5, 0x42)` is called, the local array holding zeros before
(the same is evaluated for an array of `0xFFFFFFFF`). Offset 5 reads `0x42`
and offsets 0 to 19 keep their values, but the bytes at offsets `0x15` and
`0x16` are `0xFF` afterwards: only `0x16 / 4 = 5` words are copied before the
page is erased, and the full-scale range reads 65535. -/
theorem memory_write_loses_last_bytes :
    bank189Byte initialMem 0 = 0x16
    ∧ fullScaleRange initialMem = 1000
    ∧ bank189Byte initialMem 0x15 = 0xE8 ∧ bank189Byte initialMem 0x16 = 0x03
    ∧ bank189Byte (memory_write initialMem 189 5 0x42 (fun _ => 0)) 5 = 0x42
    ∧ bank189Byte (memory_write initialMem 189 5 0x42 (fun _ => 0)) 0x15 = 0xFF
    ∧ bank189Byte (memory_write initialMem 189 5 0x42 (fun _ => 0)) 0x16 = 0xFF
    ∧ fullScaleRange (memory_write initialMem 189 5 0x42 (fun _ => 0)) = 0xFFFF
    ∧ (∀ i ∈ List.range 20, i = 5
        ∨ bank189Byte (memory_write initialMem 189 5 0x42 (fun _ => 0)) i
          = bank189Byte initialMem i)
    ∧ (∀ i ∈ List.range 0x17,
        bank189Byte (memory_write initialMem 189 5 0x42 (fun _ => 0xFFFFFFFF)) i
          = bank189Byte (memory_write initialMem 189 5 0x42 (fun _ => 0)) i) := by
  decide

/-! ## C28: the frame width selected by `DALIConfigureMode` -/

set_option maxRecDepth 100000 in
/-- C28: after `DALIConfigureMode(1)`, documented in `dali.h` as the input
device mode, a forward frame handed over in `IDLE` is sent with 16 data bits
(the low 16 bits of the payload): the driver leaves `SEND_DATA` after 40
bit-timer interrupts, having written the schedule of a 16-bit frame. After
`DALIConfigureMode(0)`, documented as the application controller mode, the
frame is sent with 24 data bits in 56 interrupts. -/
theorem mode_one_sends_16_bits :
    modeOneState.DALIFlags.deviceMode = true
    ∧ (∀ j, j < 40 → (timerTicks (DALISendData modeOneState wideFrame).1 j).daliState
        = dali_state_t.SEND_DATA)
    ∧ (timerTicks (DALISendData modeOneState wideFrame).1 40).daliState
        = dali_state_t.WAIT_FOR_BACKFRAME
    ∧ txWritten modeOneState (timerTicks (DALISendData modeOneState wideFrame).1 40)
        = manchesterSchedule 16 0x3456
    ∧ (manchesterSchedule 16 0x3456).length = 2 * 16 + 8
    ∧ modeZeroState.DALIFlags.deviceMode = false
    ∧ (∀ j, j < 56 → (timerTicks (DALISendData modeZeroState wideFrame).1 j).daliState
        = dali_state_t.SEND_DATA)
    ∧ (timerTicks (DALISendData modeZeroState wideFrame).1 56).daliState
        = dali_state_t.WAIT_FOR_BACKFRAME
    ∧ txWritten modeZeroState (timerTicks (DALISendData modeZeroState wideFrame).1 56)
        = manchesterSchedule 24 0x123456 := by
  decide

/-! ## The cable monitor -/

theorem cableSame_trans {s t u : State} (h1 : CableSame s t) (h2 : CableSame t u) :
    CableSame s u :=
  ⟨h2.1.trans h1.1, h2.2.trans h1.2⟩

theorem appendToQueue_cable (s : State) :
    CableSame s (DALIAppendToQueue s) := by
  unfold DALIAppendToQueue
  split_ifs <;> exact ⟨rfl, rfl⟩

theorem writePinOpt_cable (s : State) (l : Option Nat) :
    CableSame s (writePinOpt s l) := by
  cases l <;> exact ⟨rfl, rfl⟩

theorem sendDataDone_cable (s : State) :
    CableSame s (sendDataDone s) := by
  unfold sendDataDone
  split_ifs
  · exact appendToQueue_cable _
  · exact ⟨rfl, rfl⟩

theorem sendDataAdvance_cable (s : State) :
    CableSame s (sendDataAdvance s) := by
  unfold sendDataAdvance
  dsimp only
  split_ifs <;> exact ⟨rfl, rfl⟩

theorem sendDataHalfBit_cable (s : State) :
    CableSame s (sendDataHalfBit s) := by
  unfold sendDataHalfBit
  dsimp only [set_timer_reload_val, writePin]
  split_ifs <;>
    first
    | exact ⟨rfl, rfl⟩
    | exact cableSame_trans (s := s) ⟨rfl, rfl⟩ (sendDataDone_cable _)
    | exact cableSame_trans (s := s) ⟨rfl, rfl⟩ (writePinOpt_cable _ _)

theorem timerSendData_cable (s : State) :
    CableSame s (timerSendData s) :=
  cableSame_trans (sendDataHalfBit_cable s) (sendDataAdvance_cable _)

theorem appended_cable {s t : State} (h : CableSame s t) (d : dali_state_t) :
    CableSame s { DALIAppendToQueue t with daliState := d } :=
  cableSame_trans h (cableSame_trans (appendToQueue_cable t) ⟨rfl, rfl⟩)

theorem classifyFrame_cable (s : State) (b : Bool) :
    CableSame s (classifyFrame s b) := by
  unfold classifyFrame
  by_cases h8 : s.rxPacketLen = 8
  · rw [if_pos h8]
    exact appended_cable ⟨rfl, rfl⟩ _
  · rw [if_neg h8]
    by_cases h24 : s.rxPacketLen = 24
    · rw [if_pos h24]
      exact appended_cable ⟨rfl, rfl⟩ _
    · rw [if_neg h24]
      exact appended_cable ⟨rfl, rfl⟩ _

theorem timerReceiveData_cable (s : State) :
    CableSame s (timerReceiveData s) := by
  unfold timerReceiveData
  split_ifs
  · exact ⟨rfl, rfl⟩
  · exact classifyFrame_cable s false

theorem timerWaitForBackframe_cable (s : State) :
    CableSame s (timerWaitForBackframe s) := by
  unfold timerWaitForBackframe
  split_ifs <;> exact ⟨rfl, rfl⟩

theorem timerBreak_cable (s : State) (a b : Nat) :
    CableSame s (timerBreak s a b) := by
  unfold timerBreak
  exact appended_cable ⟨rfl, rfl⟩ _

theorem timerSecond_cable (s : State) :
    CableSame s (timerWaitForSecondForframe s) := by
  unfold timerWaitForSecondForframe
  exact appended_cable ⟨rfl, rfl⟩ _

theorem timerPreIdle_cable (s : State) :
    CableSame s (timerPreIdle s) := by
  unfold timerPreIdle
  split_ifs <;> exact ⟨rfl, rfl⟩

theorem timerWaitToSend_cable (s : State) :
    CableSame s (timerWaitToSendBackframe s) := by
  unfold timerWaitToSendBackframe
  split_ifs <;> exact ⟨rfl, rfl⟩

theorem timer_cable (s : State) (a b : Nat) :
    CableSame s (DALITimerIntHandler s a b) := by
  unfold DALITimerIntHandler
  cases hs : s.daliState <;> dsimp only
  all_goals first
    | exact timerSendData_cable s
    | exact timerWaitForBackframe_cable s
    | exact timerBreak_cable s a b
    | exact timerPreIdle_cable s
    | exact timerReceiveData_cable s
    | exact classifyFrame_cable s true
    | exact timerWaitToSend_cable s
    | exact timerSecond_cable s
    | exact ⟨rfl, rfl⟩

theorem signalCollision_cable (s : State) :
    CableSame s (signalCollision s) := by
  unfold signalCollision
  dsimp only [writePin]
  exact cableSame_trans (s := s) ⟨rfl, rfl⟩ (appendToQueue_cable _)

theorem rxSendData_cable (s : State) (p t2 t3 : Nat) :
    CableSame s (rxSendData s p t2 t3) := by
  unfold rxSendData
  dsimp only [set_timer_count]
  split_ifs <;> exact signalCollision_cable s

theorem rxReceiveData_cable (s : State) (t : Nat) :
    CableSame s (rxReceiveData s t) := by
  unfold rxReceiveData
  dsimp only [reset_timer, set_timer_reload_val, enable_timer_int]
  split_ifs <;> exact ⟨rfl, rfl⟩

theorem edge_cable (s : State) (p t2 t3 : Nat) :
    CableSame s (DALIRxIntHandler s p t2 t3) := by
  unfold DALIRxIntHandler
  cases hs : s.daliState <;> dsimp only
  all_goals first
    | exact rxSendData_cable s p t2 t3
    | exact rxReceiveData_cable s t2
    | exact ⟨rfl, rfl⟩
    | (split_ifs <;> exact ⟨rfl, rfl⟩)

theorem sendData_cable (s : State) (d : DALITxData) :
    CableSame s (DALISendData s d).1 := by
  unfold DALISendData
  by_cases h1 : (s.txDataW + 1) % TX_QUEUE_SIZE ≠ s.txDataR <;>
    by_cases h2 : s.daliState = dali_state_t.IDLE
  · rw [if_pos h1]; dsimp only; rw [if_pos h2]
    exact ⟨rfl, rfl⟩
  · rw [if_pos h1]; dsimp only; rw [if_neg h2]
    exact ⟨rfl, rfl⟩
  · rw [if_neg h1, if_pos h2]
    exact ⟨rfl, rfl⟩
  · rw [if_neg h1, if_neg h2]
    exact ⟨rfl, rfl⟩

/-- Every event other than a cable sample leaves the sample counter and the
flag `cableConnected` alone. -/
theorem step_cable (s : State) (e : Event) (h : ∀ p, e ≠ Event.checkCable p) :
    CableSame s (step s e) := by
  cases e with
  | edge a b c => exact edge_cable s a b c
  | tick a b => exact timer_cable s a b
  | send d => exact sendData_cable s d
  | receive =>
    unfold step
    split_ifs <;> exact ⟨rfl, rfl⟩
  | receiveTwice => exact ⟨rfl, rfl⟩
  | configureMode m => exact ⟨rfl, rfl⟩
  | checkCable p => exact absurd rfl (h p)

theorem checkCable_low (s : State) :
    (DALICheckCable s DALI_LO).cableDisconnectCounter = s.cableDisconnectCounter - 1
    ∧ CableInv (DALICheckCable s DALI_LO) := by
  unfold DALICheckCable CableInv
  dsimp only
  rw [if_pos rfl]
  split_ifs <;> dsimp only <;> constructor <;> first | omega | simp [*]

theorem checkCable_high (s : State) (p : Nat) (hp : p ≠ DALI_LO) :
    (DALICheckCable s p).cableDisconnectCounter = 20
    ∧ CableInv (DALICheckCable s p) := by
  unfold DALICheckCable CableInv
  dsimp only
  rw [if_neg hp]
  exact ⟨rfl, rfl⟩

theorem cableSame_inv {s t : State} (h : CableSame s t) (hi : CableInv s) : CableInv t := by
  unfold CableInv at *
  rw [h.1, h.2]
  exact hi

theorem run_low_samples (es : List Event) :
    ∀ s : State, CableInv s → onlyLowSamples es →
      (run s es).cableDisconnectCounter = s.cableDisconnectCounter - countSamples es
      ∧ CableInv (run s es) := by
  induction es with
  | nil => intro s hi _; exact ⟨rfl, hi⟩
  | cons e es ih =>
    intro s hi h
    have hes : onlyLowSamples es := fun x hx => h x (List.mem_cons_of_mem _ hx)
    have he : lowOrNoSample e = true := h e (List.mem_cons_self _ _)
    rw [run_cons]
    by_cases hc : ∃ p, e = Event.checkCable p
    · obtain ⟨p, rfl⟩ := hc
      have hp : p = DALI_LO := of_decide_eq_true he
      subst hp
      obtain ⟨h1, h2⟩ := ih (DALICheckCable s DALI_LO) (checkCable_low s).2 hes
      refine ⟨h1.trans ?_, h2⟩
      show (DALICheckCable s DALI_LO).cableDisconnectCounter - countSamples es
        = s.cableDisconnectCounter - (countSamples es + 1)
      rw [(checkCable_low s).1]
      omega
    · have hne : ∀ p, e ≠ Event.checkCable p := fun p hp => hc ⟨p, hp⟩
      have hsame := step_cable s e hne
      have hcount : countSamples (e :: es) = countSamples es := by
        cases e <;> first | rfl | exact absurd rfl (hne _)
      obtain ⟨h1, h2⟩ := ih _ (cableSame_inv hsame hi) hes
      refine ⟨?_, h2⟩
      rw [h1, hsame.1, hcount]

/-! ## C30: the cable monitor -/

/-- C30: after a sample of the RX pin that is not low, followed by events among
which every cable sample is low, the flag `cableConnected` is set exactly when
fewer than 20 low samples have been taken since: connected right after the high
sample and after `n < 20` low samples, disconnected after `n ≥ 20`, whatever
edge, timer, send and receive events come in between. `DALICheckCable` changes
nothing but its sample counter and the flag `cableConnected`: `daliState`, every
other flag and every other variable are as before. -/
theorem cable_monitor (s : State) (p : Nat) (es : List Event)
    (hp : p ≠ DALI_LO) (hes : onlyLowSamples es) :
    (run (DALICheckCable s p) es).DALIFlags.cableConnected = decide (countSamples es < 20)
    ∧ ∀ q, DALICheckCable s q
        = { s with
            cableDisconnectCounter := (DALICheckCable s q).cableDisconnectCounter,
            DALIFlags := { s.DALIFlags with
              cableConnected := (DALICheckCable s q).DALIFlags.cableConnected } } := by
  constructor
  · obtain ⟨h1, h2⟩ := run_low_samples es _ (checkCable_high s p hp).2 hes
    unfold CableInv at h2
    rw [h2, h1, (checkCable_high s p hp).1]
    by_cases h : countSamples es < 20
    · rw [decide_eq_true h]
      exact decide_eq_true (by omega)
    · rw [decide_eq_false h]
      exact decide_eq_false (by omega)
  · intro q
    unfold DALICheckCable
    dsimp only
    split_ifs <;> rfl

/-- C30 at a concrete run: after a high sample, 19 low samples with a timer
interrupt before each leave the cable connected. -/
theorem cable_monitor_witness :
    (run (DALICheckCable (DALIInit bootState) DALI_HI)
        (List.replicate 19 [Event.tick DALI_HI 0, Event.checkCable DALI_LO]).flatten
      ).DALIFlags.cableConnected = decide (19 < 20) :=
  (cable_monitor (DALIInit bootState) DALI_HI
    (List.replicate 19 [Event.tick DALI_HI 0, Event.checkCable DALI_LO]).flatten
    (by decide) (by unfold onlyLowSamples; decide)).1

/-! ## The TX pin outside a transmission -/

theorem released_write (s : State) : Released (writePin s DALI_HI) := by
  unfold Released writePin
  exact ⟨rfl, by simp⟩

theorem released_same {s t : State} (h : PinSame s t) (hr : Released s) : Released t := by
  unfold Released at *
  rw [h.1, h.2]
  exact hr

theorem pinSame_trans {s t u : State} (h1 : PinSame s t) (h2 : PinSame t u) : PinSame s u :=
  ⟨h2.1.trans h1.1, h2.2.trans h1.2⟩

theorem pinInv_released {t : State} (h : Released t)
    (hn : t.daliState ≠ dali_state_t.SEND_DATA) : PinInv t :=
  ⟨fun _ _ => h, fun hs => absurd hs hn⟩

theorem pinInv_start {t : State} (hs : t.daliState = dali_state_t.SEND_DATA)
    (hb : t.halfBitNumber = 1) : PinInv t :=
  ⟨fun h _ => absurd hs h, fun _ => ⟨by omega, fun h _ => by omega⟩⟩

theorem pinInv_break {t : State} (hs : t.daliState = dali_state_t.BREAK) : PinInv t :=
  ⟨fun _ h => absurd hs h, fun h => by rw [hs] at h; exact absurd h (by decide)⟩

theorem pinInv_idle {s : State} (h : PinInv s) (h1 : s.daliState ≠ dali_state_t.SEND_DATA)
    (h2 : s.daliState ≠ dali_state_t.BREAK) : Released s :=
  h.1 h1 h2

theorem pinInv_fields {s t : State} (hd : t.daliState = s.daliState)
    (hb : t.halfBitNumber = s.halfBitNumber) (hp : PinSame s t) (h : PinInv s) : PinInv t := by
  unfold PinInv at *
  rw [hd, hb]
  exact ⟨fun h1 h2 => released_same hp (h.1 h1 h2),
    fun hs => ⟨(h.2 hs).1, fun h1 h2 => released_same hp ((h.2 hs).2 h1 h2)⟩⟩

theorem appendToQueue_pin (s : State) : PinSame s (DALIAppendToQueue s) := by
  unfold DALIAppendToQueue
  split_ifs <;> exact ⟨rfl, rfl⟩

theorem sendDataDone_pin (s : State) : PinSame s (sendDataDone s) := by
  unfold sendDataDone
  split_ifs
  · exact pinSame_trans (s := s) ⟨rfl, rfl⟩ (appendToQueue_pin _)
  · exact ⟨rfl, rfl⟩

theorem appendToQueue_halfBitNumber (s : State) :
    (DALIAppendToQueue s).halfBitNumber = s.halfBitNumber := by
  unfold DALIAppendToQueue
  split_ifs <;> rfl

theorem sendDataDone_halfBitNumber (s : State) :
    (sendDataDone s).halfBitNumber = s.halfBitNumber := by
  unfold sendDataDone
  split_ifs
  · exact appendToQueue_halfBitNumber _
  · rfl

theorem writePinOpt_halfBitNumber (s : State) (l : Option Nat) :
    (writePinOpt s l).halfBitNumber = s.halfBitNumber := by
  cases l <;> rfl

theorem sendDataHalfBit_halfBitNumber (s : State) :
    (sendDataHalfBit s).halfBitNumber = s.halfBitNumber := by
  unfold sendDataHalfBit
  dsimp only [set_timer_reload_val, writePin]
  split_ifs <;>
    first
    | rfl
    | exact sendDataDone_halfBitNumber _
    | exact writePinOpt_halfBitNumber _ _

theorem sendDataHalfBit_stays (s : State) (h : s.halfBitNumber ≠ 56) :
    (sendDataHalfBit s).daliState = s.daliState := by
  unfold sendDataHalfBit
  dsimp only [set_timer_reload_val, writePin]
  split_ifs <;>
    first
    | rfl
    | exact absurd (by assumption) h
    | exact writePinOpt_daliState _ _

theorem sendDataHalfBit_last (s : State) (h : s.halfBitNumber = 56) :
    PinSame s (sendDataHalfBit s)
    ∧ (sendDataHalfBit s).daliState ≠ dali_state_t.SEND_DATA
    ∧ (sendDataHalfBit s).daliState ≠ dali_state_t.BREAK := by
  unfold sendDataHalfBit
  dsimp only [set_timer_reload_val, writePin]
  rw [if_neg (by omega), if_neg (by omega), if_neg (by omega), if_neg (by omega), if_pos h]
  split_ifs
  · refine ⟨pinSame_trans (s := s) ⟨rfl, rfl⟩ (sendDataDone_pin _), ?_, ?_⟩ <;>
      rw [sendDataDone_daliState] <;> exact fun hc => dali_state_t.noConfusion hc
  · refine ⟨pinSame_trans (s := s) ⟨rfl, rfl⟩ (sendDataDone_pin _), ?_, ?_⟩ <;>
      rw [sendDataDone_daliState] <;> exact fun hc => dali_state_t.noConfusion hc

theorem sendDataHalfBit_stop (s : State) (h1 : 50 ≤ s.halfBitNumber)
    (h2 : s.halfBitNumber ≤ 55) : Released (sendDataHalfBit s) := by
  unfold sendDataHalfBit
  dsimp only [set_timer_reload_val]
  rw [if_neg (by omega), if_neg (by omega)]
  by_cases h : s.halfBitNumber = 50
  · rw [if_pos h]
    exact released_write _
  · rw [if_neg h, if_pos (by omega)]
    exact released_write _

theorem sendDataAdvance_pin (s : State) : PinSame s (sendDataAdvance s) := by
  unfold sendDataAdvance
  dsimp only
  split_ifs <;> exact ⟨rfl, rfl⟩

theorem sendDataAdvance_halfBitNumber (s : State) :
    (sendDataAdvance s).halfBitNumber = 50
    ∨ (sendDataAdvance s).halfBitNumber = (s.halfBitNumber + 1) % 256 := by
  unfold sendDataAdvance
  dsimp only
  split_ifs
  · left; rfl
  · left; rfl
  · right; rfl

theorem timerSendData_pinInv (s : State) (hs : s.daliState = dali_state_t.SEND_DATA)
    (h : PinInv s) : PinInv (timerSendData s) := by
  unfold timerSendData
  obtain ⟨hlt, hrel⟩ := h.2 hs
  by_cases h56 : s.halfBitNumber = 56
  · obtain ⟨hp, hn, _⟩ := sendDataHalfBit_last s h56
    refine pinInv_released (released_same (pinSame_trans hp (sendDataAdvance_pin _))
      (hrel (by omega) (by omega))) ?_
    rw [sendDataAdvance_daliState]
    exact hn
  · have hst : (sendDataAdvance (sendDataHalfBit s)).daliState = dali_state_t.SEND_DATA := by
      rw [sendDataAdvance_daliState, sendDataHalfBit_stays s h56, hs]
    have hb := sendDataAdvance_halfBitNumber (sendDataHalfBit s)
    rw [sendDataHalfBit_halfBitNumber] at hb
    refine ⟨fun hne _ => absurd hst hne, fun _ => ⟨?_, fun hlo hhi => ?_⟩⟩
    · rcases hb with hb | hb <;> omega
    · refine released_same (sendDataAdvance_pin _) (sendDataHalfBit_stop s ?_ ?_)
      · rcases hb with hb | hb <;> omega
      · rcases hb with hb | hb <;> omega

theorem appended_pin {s t : State} (h : PinSame s t) (d : dali_state_t) :
    PinSame s { DALIAppendToQueue t with daliState := d } :=
  pinSame_trans h (pinSame_trans (appendToQueue_pin t) ⟨rfl, rfl⟩)

theorem classifyFrame_pin (s : State) (b : Bool) : PinSame s (classifyFrame s b) := by
  unfold classifyFrame
  by_cases h8 : s.rxPacketLen = 8
  · rw [if_pos h8]
    exact appended_pin ⟨rfl, rfl⟩ _
  · rw [if_neg h8]
    by_cases h24 : s.rxPacketLen = 24
    · rw [if_pos h24]
      exact appended_pin ⟨rfl, rfl⟩ _
    · rw [if_neg h24]
      exact appended_pin ⟨rfl, rfl⟩ _

theorem classifyFrame_pinInv (s : State) (b : Bool) (h : Released s) :
    PinInv (classifyFrame s b) := by
  refine pinInv_released (released_same (classifyFrame_pin s b) h) ?_
  rcases classifyFrame_daliState s b with hd | hd <;> rw [hd] <;> decide

theorem timerReceiveData_pinInv (s : State) (h : Released s) :
    PinInv (timerReceiveData s) := by
  unfold timerReceiveData
  split_ifs
  · exact pinInv_released (released_same ⟨rfl, rfl⟩ h) (fun hc => dali_state_t.noConfusion hc)
  · exact classifyFrame_pinInv s false h

theorem timerSecond_pinInv (s : State) (h : Released s) :
    PinInv (timerWaitForSecondForframe s) := by
  unfold timerWaitForSecondForframe
  exact pinInv_released (released_same (appended_pin ⟨rfl, rfl⟩ _) h)
    (fun hc => dali_state_t.noConfusion hc)

theorem timerBreak_pinInv (s : State) (a b : Nat) : PinInv (timerBreak s a b) := by
  unfold timerBreak
  dsimp only
  refine pinInv_released (released_same (s := writePin s DALI_HI) ⟨?_, ?_⟩ (released_write s))
    (fun hc => dali_state_t.noConfusion hc)
  · exact (appendToQueue_pin _).1
  · exact (appendToQueue_pin _).2

theorem processSend_pinInv (s : State) (d : DALITxData) (r : Nat) :
    PinInv { DALIProcessSendData s d with txDataR := r } :=
  pinInv_start rfl rfl

theorem timerWaitForBackframe_pinInv (s : State) (h : Released s) :
    PinInv (timerWaitForBackframe s) := by
  unfold timerWaitForBackframe
  split_ifs
  · exact pinInv_start rfl rfl
  · exact pinInv_released (released_same ⟨rfl, rfl⟩ h) (fun hc => dali_state_t.noConfusion hc)

theorem timerPreIdle_pinInv (s : State) (hs : s.daliState = dali_state_t.PRE_IDLE)
    (h : Released s) : PinInv (timerPreIdle s) := by
  have hn : s.daliState ≠ dali_state_t.SEND_DATA := by rw [hs]; decide
  unfold timerPreIdle
  split_ifs
  · exact processSend_pinInv _ _ _
  all_goals first
    | exact pinInv_released (released_same ⟨rfl, rfl⟩ h) hn
    | exact pinInv_released (released_same ⟨rfl, rfl⟩ h) (fun hc => dali_state_t.noConfusion hc)

theorem timerWaitToSend_pinInv (s : State) (h : Released s) :
    PinInv (timerWaitToSendBackframe s) := by
  unfold timerWaitToSendBackframe
  split_ifs
  · exact pinInv_released (released_same ⟨rfl, rfl⟩ h) (fun hc => dali_state_t.noConfusion hc)
  · exact processSend_pinInv _ _ _
  · exact pinInv_released (released_same ⟨rfl, rfl⟩ h) (fun hc => dali_state_t.noConfusion hc)

theorem timer_pinInv (s : State) (a b : Nat) (h : PinInv s) :
    PinInv (DALITimerIntHandler s a b) := by
  unfold DALITimerIntHandler
  cases hs : s.daliState <;> dsimp only
  case SEND_DATA => exact timerSendData_pinInv s hs h
  case BREAK => exact timerBreak_pinInv s a b
  all_goals
    have hn : s.daliState ≠ dali_state_t.SEND_DATA := by rw [hs]; decide
    have hr : Released s := h.1 hn (by rw [hs]; decide)
    first
    | exact timerWaitForBackframe_pinInv s hr
    | exact timerPreIdle_pinInv s hs hr
    | exact timerWaitToSend_pinInv s hr
    | exact timerReceiveData_pinInv s hr
    | exact classifyFrame_pinInv s true hr
    | exact timerSecond_pinInv s hr
    | exact pinInv_released (released_same ⟨rfl, rfl⟩ hr) (fun hc => dali_state_t.noConfusion hc)
    | exact pinInv_released (released_same ⟨rfl, rfl⟩ hr) hn

theorem signalCollision_pinInv (s : State) : PinInv (signalCollision s) :=
  pinInv_break (signalCollision_daliState s)

theorem rxSendData_pinInv (s : State) (p t2 t3 : Nat) (h : PinInv s) :
    PinInv (rxSendData s p t2 t3) := by
  unfold rxSendData
  dsimp only [set_timer_count]
  split_ifs <;>
    first
    | with_reducible exact h
    | with_reducible exact signalCollision_pinInv s
    | exact pinInv_fields (s := s) rfl rfl ⟨rfl, rfl⟩ h

theorem rxReceiveData_pin (s : State) (t : Nat) : PinSame s (rxReceiveData s t) := by
  unfold rxReceiveData
  dsimp only [reset_timer, set_timer_reload_val, enable_timer_int]
  split_ifs <;> exact ⟨rfl, rfl⟩

theorem startReceive_pinInv (s : State) (b : Bool) (h : Released s) :
    PinInv (startReceive s b) :=
  pinInv_released (released_same ⟨rfl, rfl⟩ h) (fun hc => dali_state_t.noConfusion hc)

theorem edge_listen_pinInv (s : State) (p : Nat) (hn : s.daliState ≠ dali_state_t.SEND_DATA) :
    PinInv (if p = DALI_HI then writePin s DALI_HI
      else startReceive (writePin s DALI_HI) false) := by
  split_ifs
  · exact pinInv_released (released_write s) hn
  · exact startReceive_pinInv _ _ (released_write s)

theorem edge_pinInv (s : State) (p t2 t3 : Nat) (h : PinInv s) :
    PinInv (DALIRxIntHandler s p t2 t3) := by
  unfold DALIRxIntHandler
  cases hs : s.daliState <;> dsimp only
  case SEND_DATA => exact rxSendData_pinInv s p t2 t3 h
  case BREAK => exact pinInv_break hs
  all_goals
    have hn : s.daliState ≠ dali_state_t.SEND_DATA := by rw [hs]; decide
    have hr : Released s := h.1 hn (by rw [hs]; decide)
    first
    | exact edge_listen_pinInv s p hn
    | exact startReceive_pinInv s _ hr
    | exact pinInv_released (released_same (rxReceiveData_pin s t2) hr)
        (by rw [rxReceiveData_daliState]; exact hn)
    | exact pinInv_released (released_same ⟨rfl, rfl⟩ hr) (fun hc => dali_state_t.noConfusion hc)

theorem sendData_pinInv (s : State) (d : DALITxData) (h : PinInv s) :
    PinInv (DALISendData s d).1 := by
  unfold DALISendData
  by_cases h1 : (s.txDataW + 1) % TX_QUEUE_SIZE ≠ s.txDataR <;>
    by_cases h2 : s.daliState = dali_state_t.IDLE
  · rw [if_pos h1]; dsimp only; rw [if_pos h2]
    exact pinInv_start rfl rfl
  · rw [if_pos h1]; dsimp only; rw [if_neg h2]
    exact pinInv_fields (s := s) rfl rfl ⟨rfl, rfl⟩ h
  · rw [if_neg h1, if_pos h2]
    exact pinInv_start rfl rfl
  · rw [if_neg h1, if_neg h2]
    exact h

theorem checkCable_pinInv (s : State) (p : Nat) (h : PinInv s) :
    PinInv (DALICheckCable s p) := by
  unfold DALICheckCable
  dsimp only
  split_ifs <;> exact pinInv_fields (s := s) rfl rfl ⟨rfl, rfl⟩ h

theorem step_pinInv (s : State) (e : Event) (h : PinInv s) : PinInv (step s e) := by
  cases e with
  | edge a b c => exact edge_pinInv s a b c h
  | tick a b => exact timer_pinInv s a b h
  | send d => exact sendData_pinInv s d h
  | receive =>
    unfold step
    split_ifs
    · exact pinInv_fields (s := s) rfl rfl ⟨rfl, rfl⟩ h
    · exact h
  | receiveTwice => exact pinInv_fields (s := s) rfl rfl ⟨rfl, rfl⟩ h
  | configureMode m => exact pinInv_fields (s := s) rfl rfl ⟨rfl, rfl⟩ h
  | checkCable p => exact checkCable_pinInv s p h

/-! ## C29: the line is released outside a transmission -/

/-- C29: in every state reached from `DALIInit` by any sequence of events
(edge and timer interrupts, `DALISendData` and the other calls of `dali.h`) in
which `daliState` is neither `SEND_DATA` nor `BREAK`, the last level written to
the TX pin is `DALI_HI`. -/
theorem line_released_outside_transmission (s : State) (hr : Reachable s)
    (h1 : s.daliState ≠ dali_state_t.SEND_DATA) (h2 : s.daliState ≠ dali_state_t.BREAK) :
    s.txPin = DALI_HI ∧ s.txLog.getLast? = some DALI_HI :=
  (reachable_induction (P := PinInv)
    (pinInv_released (released_write _) (fun hc => dali_state_t.noConfusion hc))
    (fun s e hi => step_pinInv s e hi) s hr).1 h1 h2

set_option maxRecDepth 100000 in
/-- C29 at a concrete run: after `DALIInit`, a `DALISendData` call and the 40
timer interrupts of the transmission, the driver waits for a backward frame
and the last level written is `DALI_HI`. -/
theorem line_released_witness :
    (run (DALIInit bootState)
        (Event.send wideFrame :: List.replicate 40 (Event.tick DALI_HI 0))).daliState
      = dali_state_t.WAIT_FOR_BACKFRAME
    ∧ (run (DALIInit bootState)
        (Event.send wideFrame :: List.replicate 40 (Event.tick DALI_HI 0))).txPin = DALI_HI
    ∧ (run (DALIInit bootState)
        (Event.send wideFrame :: List.replicate 40 (Event.tick DALI_HI 0))).txLog.getLast?
      = some DALI_HI :=
  ⟨by decide,
   line_released_outside_transmission
    (run (DALIInit bootState) (Event.send wideFrame :: List.replicate 40 (Event.tick DALI_HI 0)))
    ⟨_, rfl⟩ (by decide) (by decide)⟩

/-! ## C26: the report timer -/

set_option maxRecDepth 100000 in
/-- C26: after SET REPORT TIMER with `DTR0 = 100`, the event emitted by
`DALI_SendEvent` leaves `report_time = 34464`, which is `100 * 1000` reduced
modulo `2^16`, not `100000`; `dead_time` is `30 * 50 = 1500`. -/
theorem report_time_truncated :
    (appRun (initialApp blankFlash) reportTimerEvents).tReport = 100
    ∧ (appRun (initialApp blankFlash) reportTimerEvents).tDeadtime = 30
    ∧ (appRun (initialApp blankFlash) reportTimerEvents.dropLast).report_time = 0
    ∧ txQueue (appRun (initialApp blankFlash) reportTimerEvents.dropLast).link = []
    ∧ txQueue (appRun (initialApp blankFlash) reportTimerEvents).link
        = [{ frame := eventFrame (appRun (initialApp blankFlash) reportTimerEvents) 0,
             frameType := 0, sendTwice := 0, priority := 4 }]
    ∧ (appRun (initialApp blankFlash) reportTimerEvents).report_time = 34464
    ∧ (appRun (initialApp blankFlash) reportTimerEvents).report_time ≠ 100 * 1000
    ∧ (appRun (initialApp blankFlash) reportTimerEvents).dead_time = 30 * 50 := by
  decide

/-! ## C27: the power-cycle notification -/

set_option maxRecDepth 100000 in
/-- C27: a device with short address 32 and no group sends the power-cycle
notification `0xFEE040`: bit 6 is set and the low six bits are 0, not 32. The
frame is sent once, as a forward frame of priority 3. For the short addresses
0..31 the low six bits are the address, for 32..63 they are the address
minus 32; with `deviceGroups ≠ 0` bit 12 is set and bits 7..11 hold the lowest
group. -/
theorem power_cycle_address_truncated :
    (initialApp (addressedFlash 32)).shortAddress = 32
    ∧ (initialApp (addressedFlash 32)).deviceGroups = 0
    ∧ (initialApp (addressedFlash 32)).powerCycleNotification = ENABLED
    ∧ txQueue (initialApp (addressedFlash 32)).link = []
    ∧ (appRun (initialApp (addressedFlash 32)) powerCycleEvents).link.txData 0
        = { frame := 0xFEE040, frameType := 0, sendTwice := 0, priority := 3 }
    ∧ (appRun (initialApp (addressedFlash 32)) powerCycleEvents).link.txDataW = 1
    ∧ (appRun (initialApp (addressedFlash 32)) powerCycleEvents).link.daliState
        = dali_state_t.SEND_DATA
    ∧ (appRun (initialApp (addressedFlash 32)) powerCycleEvents).link.txPacket = 0xFEE040
    ∧ 0xFEE040 &&& 0x3F = 0
    ∧ (∀ s ∈ List.range 32,
        powerCycleFrame { initialApp blankFlash with shortAddress := s } &&& 0x7F = 0x40 ||| s)
    ∧ (∀ s ∈ List.range 32,
        powerCycleFrame { initialApp blankFlash with shortAddress := s + 32 } &&& 0x7F
          = 0x40 ||| s)
    ∧ powerCycleFrame { initialApp blankFlash with shortAddress := 0xFF } &&& 0x7F = 0
    ∧ (∀ g ∈ List.range 32,
        powerCycleFrame { initialApp blankFlash with deviceGroups := 2 ^ g ||| 2 ^ 31 } &&& 0x1F80
          = 0x1000 ||| (g <<< 7))
    ∧ powerCycleFrame { initialApp blankFlash with deviceGroups := 0 } &&& 0x1F80 = 0 := by
  decide

theorem sendEvent_enabled (a : App) (junk : Nat) (h : eventsEnabled a) :
    DALI_SendEvent a junk = reportEvent a (schemeZeroFrame a a.inputValue) := by
  obtain ⟨h1, h2, h3, h4, h5, h6, h7⟩ := h
  unfold DALI_SendEvent
  rw [if_pos ⟨h1, h2, h3, h4, h5, h6⟩, if_neg (by rw [h7]; omega)]
  unfold eventFrame schemeZeroFrame
  rw [if_pos h7]

theorem reportEvent_falling (a : App) (f : Nat) (h1 : ¬ a.inputValue > a.hysteresisBandHigh)
    (h2 : a.inputValue < a.hysteresisBandLow) :
    reportEvent a f
      = { appSendData a { frame := f, frameType := 0, sendTwice := 0, priority := 4 } with
          hysteresisBand :=
            if a.hysteresisMin > a.hysteresis * a.inputValue / 100 then a.hysteresisMin
            else a.hysteresis * a.inputValue / 100,
          hysteresisBandLow := a.inputValue,
          hysteresisBandHigh := (a.inputValue
            + (if a.hysteresisMin > a.hysteresis * a.inputValue / 100 then a.hysteresisMin
               else a.hysteresis * a.inputValue / 100)) % 4294967296,
          report_time := a.tReport * 1000 % 65536, dead_time := a.tDeadtime * 50 % 65536 } := by
  unfold reportEvent
  rw [if_pos (Or.inr h2)]
  dsimp only [appSendData]
  rw [if_neg h1]

theorem reportEvent_rising (a : App) (f : Nat) (h1 : a.inputValue > a.hysteresisBandHigh) :
    reportEvent a f
      = { appSendData a { frame := f, frameType := 0, sendTwice := 0, priority := 4 } with
          hysteresisBand :=
            if a.hysteresisMin > a.hysteresis * a.inputValue / 100 then a.hysteresisMin
            else a.hysteresis * a.inputValue / 100,
          hysteresisBandHigh := a.inputValue,
          hysteresisBandLow :=
            if a.inputValue > (if a.hysteresisMin > a.hysteresis * a.inputValue / 100
                then a.hysteresisMin else a.hysteresis * a.inputValue / 100)
            then a.inputValue - (if a.hysteresisMin > a.hysteresis * a.inputValue / 100
                then a.hysteresisMin else a.hysteresis * a.inputValue / 100)
            else 0,
          report_time := a.tReport * 1000 % 65536, dead_time := a.tDeadtime * 50 % 65536 } := by
  unfold reportEvent
  rw [if_pos (Or.inl h1)]
  dsimp only [appSendData]
  rw [if_pos h1]

theorem reportEvent_inside (a : App) (f : Nat) (h1 : ¬ a.inputValue > a.hysteresisBandHigh)
    (h2 : ¬ a.inputValue < a.hysteresisBandLow) (h3 : a.report_time ≠ 0) :
    reportEvent a f = a := by
  unfold reportEvent
  rw [if_neg (by rintro (h | h); exact h1 h; exact h2 h), if_neg (fun h => h3 h.1)]

theorem eventsEnabled_later {a b : App} (v r : Nat) (h : eventsEnabled a)
    (h1 : b.applicationActive = a.applicationActive) (h2 : b.quiescentMode = a.quiescentMode)
    (h4 : b.eventFilter = a.eventFilter) (h5 : b.instanceActive = a.instanceActive)
    (h6 : b.instanceError = a.instanceError) (h7 : b.eventScheme = a.eventScheme) :
    eventsEnabled (laterInput b v r) := by
  unfold eventsEnabled laterInput at *
  dsimp only
  rw [h1, h2, h4, h5, h6, h7]
  exact ⟨h.1, h.2.1, rfl, h.2.2.2⟩

/-! ## C25: the hysteresis band -/

/-- C25 (amended): with `hysteresis = 5`, `hysteresisMin = 10`, event scheme 0
and events enabled, an event sent at `inputValue = 500` because the value left
the band makes `hysteresisBand = 25`. When the value had fallen below the band,
the band becomes 500..525: a later `DALI_SendEvent` with `inputValue = 520`
(dead time expired, report timer `r ≠ 0` running) changes nothing and sends
nothing, and one with `inputValue = 550` hands the scheme-0 frame for 550 to
`DALISendData` and rearms `report_time`, to `tReport * 1000` for `tReport` up
to 65. When the value had risen above the band, the band becomes 475..500 and
a later `DALI_SendEvent` with `inputValue = 520` sends the scheme-0 frame for
520 and rearms `report_time` in the same way. -/
theorem hysteresis_event (a : App) (junk r : Nat) (he : eventsEnabled a)
    (hh : a.hysteresis = 5) (hm : a.hysteresisMin = 10) (hv : a.inputValue = 500)
    (hr : r ≠ 0) :
    (500 ≤ a.hysteresisBandHigh → 500 < a.hysteresisBandLow →
      (DALI_SendEvent a junk).link = (DALISendData a.link (eventData (schemeZeroFrame a 500))).1
      ∧ (DALI_SendEvent a junk).hysteresisBand = 25
      ∧ (DALI_SendEvent a junk).hysteresisBandLow = 500
      ∧ (DALI_SendEvent a junk).hysteresisBandHigh = 525
      ∧ DALI_SendEvent (laterInput (DALI_SendEvent a junk) 520 r) junk
          = laterInput (DALI_SendEvent a junk) 520 r
      ∧ (DALI_SendEvent (laterInput (DALI_SendEvent a junk) 550 r) junk).link
          = (DALISendData (DALI_SendEvent a junk).link (eventData (schemeZeroFrame a 550))).1
      ∧ (a.tReport ≤ 65 →
          (DALI_SendEvent (laterInput (DALI_SendEvent a junk) 550 r) junk).report_time
            = a.tReport * 1000))
    ∧ (a.hysteresisBandHigh < 500 →
      (DALI_SendEvent a junk).link = (DALISendData a.link (eventData (schemeZeroFrame a 500))).1
      ∧ (DALI_SendEvent a junk).hysteresisBand = 25
      ∧ (DALI_SendEvent a junk).hysteresisBandLow = 475
      ∧ (DALI_SendEvent a junk).hysteresisBandHigh = 500
      ∧ (DALI_SendEvent (laterInput (DALI_SendEvent a junk) 520 r) junk).link
          = (DALISendData (DALI_SendEvent a junk).link (eventData (schemeZeroFrame a 520))).1
      ∧ (a.tReport ≤ 65 →
          (DALI_SendEvent (laterInput (DALI_SendEvent a junk) 520 r) junk).report_time
            = a.tReport * 1000)) := by
  have hband : (if a.hysteresisMin > a.hysteresis * a.inputValue / 100 then a.hysteresisMin
      else a.hysteresis * a.inputValue / 100) = 25 := by
    rw [hh, hm, hv]; rfl
  constructor
  · intro hhi hlo
    have hb := reportEvent_falling a (schemeZeroFrame a a.inputValue)
      (by rw [hv]; omega) (by rw [hv]; exact hlo)
    rw [hband, hv] at hb
    rw [sendEvent_enabled a junk he, hv, hb]
    have hl (v : Nat) : eventsEnabled (laterInput
        { appSendData a { frame := schemeZeroFrame a 500, frameType := 0, sendTwice := 0,
                          priority := 4 } with
          hysteresisBand := 25, hysteresisBandLow := 500,
          hysteresisBandHigh := (500 + 25) % 4294967296,
          report_time := a.tReport * 1000 % 65536, dead_time := a.tDeadtime * 50 % 65536 }
        v r) :=
      eventsEnabled_later v r he rfl rfl rfl rfl rfl rfl
    refine ⟨rfl, rfl, rfl, rfl, ?_, ?_, ?_⟩
    · rw [sendEvent_enabled _ junk (hl 520)]
      exact reportEvent_inside _ _ (show ¬ (520 : Nat) > (500 + 25) % 4294967296 by decide)
        (show ¬ (520 : Nat) < 500 by decide) hr
    · rw [sendEvent_enabled _ junk (hl 550),
        reportEvent_rising _ _ (show (550 : Nat) > (500 + 25) % 4294967296 by decide)]
      rfl
    · intro ht
      rw [sendEvent_enabled _ junk (hl 550),
        reportEvent_rising _ _ (show (550 : Nat) > (500 + 25) % 4294967296 by decide)]
      exact Nat.mod_eq_of_lt (show a.tReport * 1000 < 65536 by omega)
  · intro hhi
    have hb := reportEvent_rising a (schemeZeroFrame a a.inputValue) (by rw [hv]; exact hhi)
    rw [hband, hv] at hb
    rw [sendEvent_enabled a junk he, hv, hb]
    have hl (v : Nat) : eventsEnabled (laterInput
        { appSendData a { frame := schemeZeroFrame a 500, frameType := 0, sendTwice := 0,
                          priority := 4 } with
          hysteresisBand := 25, hysteresisBandHigh := 500,
          hysteresisBandLow := if 500 > 25 then 500 - 25 else 0,
          report_time := a.tReport * 1000 % 65536, dead_time := a.tDeadtime * 50 % 65536 }
        v r) :=
      eventsEnabled_later v r he rfl rfl rfl rfl rfl rfl
    refine ⟨rfl, rfl, rfl, rfl, ?_, ?_⟩
    · rw [sendEvent_enabled _ junk (hl 520),
        reportEvent_rising _ _ (show (520 : Nat) > 500 by decide)]
      rfl
    · intro ht
      rw [sendEvent_enabled _ junk (hl 520),
        reportEvent_rising _ _ (show (520 : Nat) > 500 by decide)]
      exact Nat.mod_eq_of_lt (show a.tReport * 1000 < 65536 by omega)

set_option maxRecDepth 100000 in
/-- C25 at concrete inputs: a device initialised on a blank flash with input
value 500, once with the band above the value and once with the band at 0. -/
theorem hysteresis_event_witness :
    DALI_SendEvent (laterInput (DALI_SendEvent fallingInput 0) 520 30000) 0
        = laterInput (DALI_SendEvent fallingInput 0) 520 30000
    ∧ (DALI_SendEvent (laterInput (DALI_SendEvent risingInput 0) 520 30000) 0).report_time
        = risingInput.tReport * 1000 :=
  ⟨((hysteresis_event fallingInput 0 30000 (by decide) (by decide) (by decide) (by decide)
      (by decide)).1 (by decide) (by decide)).2.2.2.2.1,
   ((hysteresis_event risingInput 0 30000 (by decide) (by decide) (by decide) (by decide)
      (by decide)).2 (by decide)).2.2.2.2.2 (by decide)⟩

set_option maxRecDepth 100000 in
/-- C25 as stated fails: on a device initialised on a blank flash (hysteresis 5,
hysteresisMin 10, band at 0) the event at `inputValue = 500` is sent for a
rising value and puts the band at 475..500, 25 wide; with the dead time
expired and the report timer still running, `DALI_SendEvent` with
`inputValue = 520` queues an event. -/
theorem rising_event_band_below :
    eventsEnabled risingInput
    ∧ risingInput.hysteresis = 5 ∧ risingInput.hysteresisMin = 10
    ∧ risingInput.inputValue = 500
    ∧ risingInput.hysteresisBandHigh = 0
    ∧ (DALI_SendEvent risingInput 0).hysteresisBand = 25
    ∧ (DALI_SendEvent risingInput 0).hysteresisBandLow = 475
    ∧ (DALI_SendEvent risingInput 0).hysteresisBandHigh = 500
    ∧ (DALI_SendEvent risingInput 0).report_time = 30000
    ∧ (DALI_SendEvent risingInput 0).dead_time = 1500
    ∧ txQueue (laterInput (DALI_SendEvent risingInput 0) 520 30000).link = []
    ∧ txQueue (DALI_SendEvent (laterInput (DALI_SendEvent risingInput 0) 520 30000) 0).link
        = [eventData (schemeZeroFrame risingInput 520)] := by
  decide

/-! ## C24: QUERY INPUT VALUE -/

/-- C31 (amended): on the bit-timer expiry in `BREAK` the driver writes
`DALI_HI` to the TX pin and enters `PRE_IDLE`. If the RX pin then reads
`DALI_LO` it arms `TE_TX_WAIT_FF1`; otherwise it arms the recovery time
`TE_RECOVERY - 1400 + rnd % 2800` for the value `rnd` of `rand()`, which lies
within `TE_RECOVERY ± 1400`, and keeps it in `TE_random`. -/
theorem break_expiry (s : State) (rxPin rnd : Nat) (hs : s.daliState = dali_state_t.BREAK) :
    (DALITimerIntHandler s rxPin rnd).txPin = DALI_HI
    ∧ (DALITimerIntHandler s rxPin rnd).txLog = s.txLog ++ [DALI_HI]
    ∧ (DALITimerIntHandler s rxPin rnd).daliState = dali_state_t.PRE_IDLE
    ∧ (rxPin = DALI_LO → (DALITimerIntHandler s rxPin rnd).tim2Reload = TE_TX_WAIT_FF1)
    ∧ (rxPin ≠ DALI_LO →
        (DALITimerIntHandler s rxPin rnd).tim2Reload = TE_RECOVERY - 1400 + rnd % 2800
        ∧ (DALITimerIntHandler s rxPin rnd).TE_random = TE_RECOVERY - 1400 + rnd % 2800
        ∧ TE_RECOVERY - 1400 ≤ (DALITimerIntHandler s rxPin rnd).tim2Reload
        ∧ (DALITimerIntHandler s rxPin rnd).tim2Reload ≤ TE_RECOVERY + 1400) := by
  have hq (u : State) :
      (DALIAppendToQueue u).txPin = u.txPin ∧ (DALIAppendToQueue u).txLog = u.txLog
      ∧ (DALIAppendToQueue u).tim2Reload = u.tim2Reload
      ∧ (DALIAppendToQueue u).TE_random = u.TE_random := by
    unfold DALIAppendToQueue
    split_ifs <;> exact ⟨rfl, rfl, rfl, rfl⟩
  rw [timer_break hs]
  unfold timerBreak
  dsimp only
  refine ⟨(hq _).1.trans rfl, (hq _).2.1.trans rfl, rfl, ?_, ?_⟩
  · intro hp
    refine ((hq _).2.2.1).trans ?_
    dsimp only [set_timer_reload_val]
    rw [if_pos hp]
  · intro hp
    have h1 : (if rxPin = DALI_LO then TE_TX_WAIT_FF1
        else if rxPin = DALI_LO then (writePin s DALI_HI).TE_random
          else TE_RECOVERY_MINUS_1400 + rnd % 2800) = TE_RECOVERY - 1400 + rnd % 2800 := by
      rw [if_neg hp, if_neg hp]
      rfl
    have h2 : (if rxPin = DALI_LO then (writePin s DALI_HI).TE_random
          else TE_RECOVERY_MINUS_1400 + rnd % 2800) = TE_RECOVERY - 1400 + rnd % 2800 := by
      rw [if_neg hp]
      rfl
    have h3 : TE_RECOVERY - 1400 ≤ TE_RECOVERY - 1400 + rnd % 2800
        ∧ TE_RECOVERY - 1400 + rnd % 2800 ≤ TE_RECOVERY + 1400 := by
      unfold TE_RECOVERY
      omega
    refine ⟨((hq _).2.2.1).trans h1, ((hq _).2.2.2).trans h2, ?_, ?_⟩
    · exact le_of_le_of_eq h3.1 (((hq _).2.2.1).trans h1).symm
    · exact le_of_eq_of_le (((hq _).2.2.1).trans h1) h3.2

set_option maxRecDepth 100000 in
/-- C31 at a concrete state: a collision during the start bit has put the
driver into `BREAK`; the expiry with the RX pin low arms `TE_TX_WAIT_FF1`. -/
theorem break_expiry_witness :
    breakState.daliState = dali_state_t.BREAK
    ∧ (DALITimerIntHandler breakState DALI_LO 5000).tim2Reload = TE_TX_WAIT_FF1 :=
  ⟨by decide, (break_expiry breakState DALI_LO 5000 (by decide)).2.2.2.1 rfl⟩

set_option maxRecDepth 100000 in
/-- C31 as stated fails: after the break time the RX pin reads `DALI_HI` (the
line is released), and the driver arms the recovery time, here
`33000 + 5000 % 2800 = 35200`, not `TE_TX_WAIT_FF1`; with the RX pin reading
`DALI_LO` it arms `TE_TX_WAIT_FF1 = 92200`. -/
theorem break_expiry_line_high :
    breakState.daliState = dali_state_t.BREAK
    ∧ breakState.txPin = DALI_LO
    ∧ (DALITimerIntHandler breakState DALI_HI 5000).daliState = dali_state_t.PRE_IDLE
    ∧ (DALITimerIntHandler breakState DALI_HI 5000).txPin = DALI_HI
    ∧ (DALITimerIntHandler breakState DALI_HI 5000).tim2Reload = 35200
    ∧ (DALITimerIntHandler breakState DALI_HI 5000).tim2Reload ≠ TE_TX_WAIT_FF1
    ∧ (DALITimerIntHandler breakState DALI_LO 5000).tim2Reload = TE_TX_WAIT_FF1 := by
  decide

/-! ## C32: the decision at the reply slot -/

/-- C32 (amended): on the bit-timer expiry in `WAIT_TO_SEND_BACKFRAME` the
request of `DALIReceiveTwice` is examined first: if `receiveTwiceFrame` is set,
the rest of the send-twice window (`TE_RX_SEND_TWICE_FF - TE_TX_WAIT_BF`) is
armed, the state becomes `WAIT_FOR_SECOND_FORFRAME`, the flag is cleared and
the TX queue is left alone, whatever its head is. Otherwise, if the TX queue is
not empty and its head is marked backward (`frameType = 1`), the head is taken
from the queue and its transmission starts (`SEND_DATA`). Otherwise the state
becomes `PRE_IDLE` with `TE_TX_WAIT_FF1 - TE_TX_WAIT_BF` armed. -/
theorem reply_slot_decision (s : State) (rxPin rnd : Nat)
    (hs : s.daliState = dali_state_t.WAIT_TO_SEND_BACKFRAME) :
    (s.DALIFlags.receiveTwiceFrame = true →
      DALITimerIntHandler s rxPin rnd
        = { s with tim2Reload := TE_SEND_TWICE_MINUS_BF,
                   daliState := dali_state_t.WAIT_FOR_SECOND_FORFRAME,
                   DALIFlags := { s.DALIFlags with receiveTwiceFrame := false } })
    ∧ (s.DALIFlags.receiveTwiceFrame = false → s.txDataR ≠ s.txDataW →
        (s.txData s.txDataR).frameType = 1 →
        DALITimerIntHandler s rxPin rnd
          = { DALIProcessSendData s (s.txData s.txDataR) with
              txDataR := (s.txDataR + 1) % TX_QUEUE_SIZE }
        ∧ (DALITimerIntHandler s rxPin rnd).daliState = dali_state_t.SEND_DATA)
    ∧ (s.DALIFlags.receiveTwiceFrame = false →
        ¬ (s.txDataR ≠ s.txDataW ∧ (s.txData s.txDataR).frameType = 1) →
        DALITimerIntHandler s rxPin rnd
          = { s with tim2Reload := TE_FF1_MINUS_BF, daliState := dali_state_t.PRE_IDLE })
    ∧ TE_SEND_TWICE_MINUS_BF = TE_RX_SEND_TWICE_FF - TE_TX_WAIT_BF
    ∧ TE_FF1_MINUS_BF = TE_TX_WAIT_FF1 - TE_TX_WAIT_BF := by
  rw [timer_toSend hs]
  unfold timerWaitToSendBackframe
  refine ⟨?_, ?_, ?_, timer_differences.2.2.2.2.2.1, timer_differences.2.2.2.2.2.2.1⟩
  · intro h
    rw [if_pos h]
    rfl
  · intro h h1 h2
    rw [if_neg (by rw [h]; decide), if_pos ⟨h1, h2⟩]
    exact ⟨rfl, rfl⟩
  · intro h h1
    rw [if_neg (by rw [h]; decide), if_neg h1]
    rfl

set_option maxRecDepth 100000 in
/-- C32 at a concrete state: a forward frame has been received and a backward
frame queued during the reception; at the reply slot the backward frame is
sent. -/
theorem reply_slot_decision_witness :
    (run (DALIInit bootState) replyAndTwiceEvents.dropLast).daliState
        = dali_state_t.WAIT_TO_SEND_BACKFRAME
    ∧ (DALITimerIntHandler (run (DALIInit bootState) replyAndTwiceEvents.dropLast)
        DALI_HI 0).daliState = dali_state_t.SEND_DATA :=
  ⟨by decide,
   ((reply_slot_decision (run (DALIInit bootState) replyAndTwiceEvents.dropLast) DALI_HI 0
      (by decide)).2.1 (by decide) (by decide) (by decide)).2⟩

set_option maxRecDepth 100000 in
/-- C32 as stated fails: the driver is in `WAIT_TO_SEND_BACKFRAME`, the head
of the TX queue is a backward frame and the application has called
`DALIReceiveTwice`. The expiry does not send the backward frame: the state
becomes `WAIT_FOR_SECOND_FORFRAME` and the frame is still the head of the
queue. -/
theorem reply_waits_for_second_frame :
    (run (DALIInit bootState) replyAndTwiceEvents).daliState
        = dali_state_t.WAIT_TO_SEND_BACKFRAME
    ∧ (run (DALIInit bootState) replyAndTwiceEvents).DALIFlags.receiveTwiceFrame = true
    ∧ txQueue (run (DALIInit bootState) replyAndTwiceEvents) = [replyFrame]
    ∧ replyFrame.frameType = 1
    ∧ (DALITimerIntHandler (run (DALIInit bootState) replyAndTwiceEvents) DALI_HI 0).daliState
        = dali_state_t.WAIT_FOR_SECOND_FORFRAME
    ∧ (DALITimerIntHandler (run (DALIInit bootState) replyAndTwiceEvents) DALI_HI 0).tim2Reload
        = 760000
    ∧ txQueue (DALITimerIntHandler (run (DALIInit bootState) replyAndTwiceEvents) DALI_HI 0)
        = [replyFrame] := by
  decide

/-! ## C34: what `DALIClearFlags` keeps -/

set_option maxRecDepth 100000 in
/-- C34: `DALIClearFlags` keeps `cableConnected` but clears `deviceMode`, and so
does every `DALIAppendToQueue`. After `DALIConfigureMode(1)` the reception of
one frame leaves `deviceMode = 0`, and a forward frame handed over afterwards
is sent with 24 data bits instead of 16. -/
theorem clear_flags_resets_device_mode :
    (∀ s : State, (DALIClearFlags s).DALIFlags.cableConnected = s.DALIFlags.cableConnected
      ∧ (DALIClearFlags s).DALIFlags.deviceMode = false
      ∧ (DALIAppendToQueue s).DALIFlags.cableConnected = s.DALIFlags.cableConnected
      ∧ (DALIAppendToQueue s).DALIFlags.deviceMode = false)
    ∧ modeOneState.DALIFlags.deviceMode = true
    ∧ (run modeOneState [Event.edge DALI_LO 0 0]).DALIFlags.deviceMode = true
    ∧ (run modeOneState [Event.edge DALI_LO 0 0, Event.tick DALI_HI 0]).DALIFlags.deviceMode
        = false
    ∧ afterReception.daliState = dali_state_t.IDLE
    ∧ afterReception.DALIFlags.deviceMode = false
    ∧ (timerTicks (DALISendData afterReception wideFrame).1 40).daliState
        = dali_state_t.SEND_DATA
    ∧ (timerTicks (DALISendData afterReception wideFrame).1 56).daliState
        = dali_state_t.WAIT_FOR_BACKFRAME
    ∧ txWritten afterReception (timerTicks (DALISendData afterReception wideFrame).1 56)
        = manchesterSchedule 24 0x123456 := by
  refine ⟨fun s => ⟨rfl, rfl, ?_, ?_⟩, ?_⟩
  · unfold DALIAppendToQueue
    split_ifs <;> rfl
  · unfold DALIAppendToQueue
    split_ifs <;> rfl
  · decide

/-! ## C35: the alignment of the input value -/

set_option maxRecDepth 100000 in
/-- C35: an ADC result of 2040 on a device initialised on a blank flash gives
the 10-bit value 500, and `DALI_Set_inputValue` stores `inputValue = 0xD1F4`:
the low ten bits are the value and the top six bits are its low six bits. The
MSB-aligned value would be `(500 << 6) | (500 >> 4) = 0x7D1F`. The field of
the event frame, `(inputValue >> 6) & 0x3FF`, is 839 and not 500. For every
10-bit value `v = 64 h + l` the stored value is `1024 l + v` and the field of
the event frame is `16 l + h`. -/
theorem input_value_not_msb_aligned :
    (DALI_Set_inputValue (initialApp blankFlash) 2040).inputValue_10b = 500
    ∧ (DALI_Set_inputValue (initialApp blankFlash) 2040).inputValue = 0xD1F4
    ∧ (500 <<< 6) ||| (500 >>> 4) = 0x7D1F
    ∧ eventValue (DALI_Set_inputValue (initialApp blankFlash) 2040) = 839
    ∧ (appRun (initialApp blankFlash) [AppEvent.adc 2040 0]).inputValue = 0xD1F4
    ∧ (appRun (initialApp blankFlash) [AppEvent.adc 2040 0]).link.txPacket &&& 0x3FF = 839
    ∧ (appRun (initialApp blankFlash) [AppEvent.adc 2040 0]).link.daliState
        = dali_state_t.SEND_DATA
    ∧ (∀ h ∈ List.range 16, ∀ l ∈ List.range 64,
        alignInput (64 * h + l) = 1024 * l + (64 * h + l)
        ∧ (alignInput (64 * h + l) >>> 6) &&& 0x3FF = 16 * l + h) := by
  decide

/-! ## C36: the group number of event scheme 3 -/

set_option maxRecDepth 100000 in
/-- C36: a device that is a member of device group 0 only and uses event
scheme 3 sends an event whose group field (bits 17..21) is 1, not 0; the
power-cycle notification of the same device carries the group number 0. For
every group `g` in 0..31 as the lowest group the loop of `DALI_SendEvent` ends
with `g + 1` and that of `DALI_Send_PowerCycleEvent` with `g`; for `g = 31`
the field of the event frame is 0. -/
theorem scheme_3_group_off_by_one :
    (appRun (initialApp blankFlash) schemeThreeEvents).deviceGroups = 1
    ∧ (appRun (initialApp blankFlash) schemeThreeEvents).eventScheme = 3
    ∧ txQueue (appRun (initialApp blankFlash) schemeThreeEvents.dropLast).link = []
    ∧ eventFrame (appRun (initialApp blankFlash) schemeThreeEvents) 0 = 0x821347
    ∧ txQueue (appRun (initialApp blankFlash) schemeThreeEvents).link
        = [{ frame := 0x821347, frameType := 0, sendTwice := 0, priority := 4 }]
    ∧ groupField 0x821347 = 1
    ∧ (powerCycleFrame (appRun (initialApp blankFlash) schemeThreeEvents) >>> 7) &&& 0x1F = 0
    ∧ (∀ g ∈ List.range 32,
        lowestGroup 32 (2 ^ g ||| 2 ^ 31) 1 = g + 1 ∧ lowestGroup 32 (2 ^ g ||| 2 ^ 31) 0 = g)
    ∧ (∀ g ∈ List.range 32,
        groupField (eventFrame { initialApp blankFlash with
            eventScheme := 3, deviceGroups := 2 ^ g ||| 2 ^ 31 } 0) = (g + 1) % 32) := by
  decide

/-! ## C39: instance-group addressing -/

set_option maxRecDepth 100000 in
/-- C39: instance group 5 is stored in `instanceGroup2` (SET INSTANCE GROUP 2
with `DTR0 = 5`); `instanceGroup1` is unset. QUERY INSTANCE TYPE addressed
to instance group 5 (instance byte `0x85`) is not taken as an instance
command: no reply is queued, and the same holds when group 5 is stored in
`instanceGroup1`. The query is answered when group 5 is stored in
`instanceGroup0`. -/
theorem instance_group_2_not_matched :
    (appRun (initialApp blankFlash) (instanceGroupEvents SET_INSTANCE_GROUP_2)).instanceGroup2 = 5
    ∧ (appRun (initialApp blankFlash) (instanceGroupEvents SET_INSTANCE_GROUP_2)).instanceGroup1
        = 0xFF
    ∧ (appRun (initialApp blankFlash) (instanceGroupEvents SET_INSTANCE_GROUP_2)).instanceGroup0
        = 0xFF
    ∧ (receivedRecord (appRun (initialApp blankFlash) (instanceGroupEvents SET_INSTANCE_GROUP_2))
        env0).frame = 0xFF8580
    ∧ (receivedRecord (appRun (initialApp blankFlash) (instanceGroupEvents SET_INSTANCE_GROUP_2))
        env0).rxError = DALIRxError_t.NO_ERROR
    ∧ instance_byte 0xFF8580 = 0x80 + 5
    ∧ ¬ instanceMatch (appRun (initialApp blankFlash) (instanceGroupEvents SET_INSTANCE_GROUP_2))
        (0x80 + 5)
    ∧ txQueue (appRun (initialApp blankFlash)
        (instanceGroupEvents SET_INSTANCE_GROUP_2 ++ [AppEvent.process env0])).link = []
    ∧ (appRun (initialApp blankFlash)
        (instanceGroupEvents SET_INSTANCE_GROUP_2 ++ [AppEvent.process env0])).previousFrame
        = 0xFF8580
    ∧ (appRun (initialApp blankFlash)
        (instanceGroupEvents SET_INSTANCE_GROUP_1)).instanceGroup1 = 5
    ∧ txQueue (appRun (initialApp blankFlash)
        (instanceGroupEvents SET_INSTANCE_GROUP_1 ++ [AppEvent.process env0])).link = []
    ∧ (appRun (initialApp blankFlash)
        (instanceGroupEvents SET_PRIMARY_INSTANCE_GROUP)).instanceGroup0 = 5
    ∧ txQueue (appRun (initialApp blankFlash)
        (instanceGroupEvents SET_PRIMARY_INSTANCE_GROUP ++ [AppEvent.process env0])).link
        = [{ frame := (initialApp blankFlash).instanceType, frameType := 1, sendTwice := 0,
             priority := 1 }] := by
  decide

/-! ## C40: the priority of event frames -/

set_option maxRecDepth 100000 in
/-- C40: after SET EVENT PRIORITY with `DTR0 = 2` the variable `eventPriority`
is 2, and the event that `DALI_SendEvent` queues next has TX priority 4. -/
theorem event_priority_not_used :
    (initialApp blankFlash).eventPriority = 4
    ∧ (appRun (initialApp blankFlash) eventPriorityEvents).eventPriority = 2
    ∧ txQueue (appRun (initialApp blankFlash) eventPriorityEvents.dropLast).link = []
    ∧ eventFrame (appRun (initialApp blankFlash) eventPriorityEvents) 0 = 0x888747
    ∧ txQueue (appRun (initialApp blankFlash) eventPriorityEvents).link
        = [{ frame := 0x888747, frameType := 0, sendTwice := 0, priority := 4 }] := by
  decide

/-! ## The phase correction of the transmitter -/

theorem overlapSame_trans {s t u : State} (h1 : OverlapSame s t) (h2 : OverlapSame t u) :
    OverlapSame s u :=
  h2.trans h1

theorem overlapSame_inv {s t : State} (h : OverlapSame s t) (hi : OverlapInv s) : OverlapInv t := by
  unfold OverlapInv at *
  rw [h]
  exact hi

theorem appendToQueue_overlap (s : State) :
    OverlapSame s (DALIAppendToQueue s) := by
  unfold DALIAppendToQueue
  split_ifs <;> exact rfl

theorem writePinOpt_overlap (s : State) (l : Option Nat) :
    OverlapSame s (writePinOpt s l) := by
  cases l <;> exact rfl

theorem sendDataDone_overlap (s : State) :
    OverlapSame s (sendDataDone s) := by
  unfold sendDataDone
  split_ifs
  · exact appendToQueue_overlap _
  · exact rfl

theorem sendDataAdvance_overlap (s : State) :
    OverlapSame s (sendDataAdvance s) := by
  unfold sendDataAdvance
  dsimp only
  split_ifs <;> exact rfl

theorem sendDataHalfBit_overlap (s : State) : (sendDataHalfBit s).overlapTime = 0 := by
  unfold sendDataHalfBit
  dsimp only [set_timer_reload_val, writePin]
  split_ifs <;>
    first
    | rfl
    | exact (sendDataDone_overlap _).trans rfl
    | exact (writePinOpt_overlap _ _).trans rfl

theorem timerSendData_overlap (s : State) : (timerSendData s).overlapTime = 0 :=
  (sendDataAdvance_overlap _).trans (sendDataHalfBit_overlap s)

theorem appended_overlap {s t : State} (h : OverlapSame s t) (d : dali_state_t) :
    OverlapSame s { DALIAppendToQueue t with daliState := d } :=
  overlapSame_trans h (overlapSame_trans (appendToQueue_overlap t) rfl)

theorem classifyFrame_overlap (s : State) (b : Bool) :
    OverlapSame s (classifyFrame s b) := by
  unfold classifyFrame
  by_cases h8 : s.rxPacketLen = 8
  · rw [if_pos h8]
    exact appended_overlap rfl _
  · rw [if_neg h8]
    by_cases h24 : s.rxPacketLen = 24
    · rw [if_pos h24]
      exact appended_overlap rfl _
    · rw [if_neg h24]
      exact appended_overlap rfl _

theorem timerReceiveData_overlap (s : State) :
    OverlapSame s (timerReceiveData s) := by
  unfold timerReceiveData
  split_ifs
  · exact rfl
  · exact classifyFrame_overlap s false

theorem timerWaitForBackframe_overlap (s : State) :
    OverlapSame s (timerWaitForBackframe s) := by
  unfold timerWaitForBackframe
  split_ifs <;> exact rfl

theorem timerBreak_overlap (s : State) (a b : Nat) :
    OverlapSame s (timerBreak s a b) := by
  unfold timerBreak
  exact appended_overlap rfl _

theorem timerSecond_overlap (s : State) :
    OverlapSame s (timerWaitForSecondForframe s) := by
  unfold timerWaitForSecondForframe
  exact appended_overlap rfl _

theorem timerPreIdle_overlap (s : State) :
    OverlapSame s (timerPreIdle s) := by
  unfold timerPreIdle
  split_ifs <;> exact rfl

theorem timerWaitToSend_overlap (s : State) :
    OverlapSame s (timerWaitToSendBackframe s) := by
  unfold timerWaitToSendBackframe
  split_ifs <;> exact rfl

theorem timer_overlapInv (s : State) (a b : Nat) (h : OverlapInv s) :
    OverlapInv (DALITimerIntHandler s a b) := by
  unfold DALITimerIntHandler
  cases hs : s.daliState <;> dsimp only
  case SEND_DATA => exact Or.inl (timerSendData_overlap s)
  all_goals first
    | exact overlapSame_inv (timerWaitForBackframe_overlap s) h
    | exact overlapSame_inv (timerBreak_overlap s a b) h
    | exact overlapSame_inv (timerPreIdle_overlap s) h
    | exact overlapSame_inv (timerReceiveData_overlap s) h
    | exact overlapSame_inv (classifyFrame_overlap s true) h
    | exact overlapSame_inv (timerWaitToSend_overlap s) h
    | exact overlapSame_inv (timerSecond_overlap s) h
    | exact overlapSame_inv (s := s) rfl h

theorem signalCollision_overlap (s : State) :
    OverlapSame s (signalCollision s) := by
  unfold signalCollision
  dsimp only [writePin]
  exact overlapSame_trans (s := s) rfl (appendToQueue_overlap _)

theorem rxSendData_overlapInv (s : State) (p t2 t3 : Nat) (h : OverlapInv s) :
    OverlapInv (rxSendData s p t2 t3) := by
  unfold rxSendData
  dsimp only [set_timer_count]
  split_ifs
  all_goals first
    | with_reducible exact h
    | exact overlapSame_inv (signalCollision_overlap s) h
    | exact overlapSame_inv (s := s) rfl h
    | (right
       show 480 ≤ 2 * TE - t3 % 2 ^ 16 ∧ 2 * TE - t3 % 2 ^ 16 ≤ 879
       unfold TE TE2_TX_MIN TE2_TX_MAX TE_TX_MIN at *
       omega)

theorem rxReceiveData_overlap (s : State) (t : Nat) :
    OverlapSame s (rxReceiveData s t) := by
  unfold rxReceiveData
  dsimp only [reset_timer, set_timer_reload_val, enable_timer_int]
  split_ifs <;> exact rfl

theorem edge_overlapInv (s : State) (p t2 t3 : Nat) (h : OverlapInv s) :
    OverlapInv (DALIRxIntHandler s p t2 t3) := by
  unfold DALIRxIntHandler
  cases hs : s.daliState <;> dsimp only
  case SEND_DATA => exact rxSendData_overlapInv s p t2 t3 h
  all_goals first
    | exact overlapSame_inv (rxReceiveData_overlap s t2) h
    | exact overlapSame_inv (s := s) rfl h
    | (split_ifs <;> exact overlapSame_inv (s := s) rfl h)

theorem sendData_overlap (s : State) (d : DALITxData) :
    OverlapSame s (DALISendData s d).1 := by
  unfold DALISendData
  by_cases h1 : (s.txDataW + 1) % TX_QUEUE_SIZE ≠ s.txDataR <;>
    by_cases h2 : s.daliState = dali_state_t.IDLE
  · rw [if_pos h1]; dsimp only; rw [if_pos h2]
    exact rfl
  · rw [if_pos h1]; dsimp only; rw [if_neg h2]
    exact rfl
  · rw [if_neg h1, if_pos h2]
    exact rfl
  · rw [if_neg h1, if_neg h2]
    exact rfl

theorem step_overlapInv (s : State) (e : Event) (h : OverlapInv s) : OverlapInv (step s e) := by
  cases e with
  | edge a b c => exact edge_overlapInv s a b c h
  | tick a b => exact timer_overlapInv s a b h
  | send d => exact overlapSame_inv (sendData_overlap s d) h
  | receive =>
    unfold step
    split_ifs
    · exact overlapSame_inv (s := s) rfl h
    · exact h
  | receiveTwice => exact overlapSame_inv (s := s) rfl h
  | configureMode m => exact overlapSame_inv (s := s) rfl h
  | checkCable p =>
    refine overlapSame_inv (s := s) ?_ h
    show (DALICheckCable s p).overlapTime = s.overlapTime
    unfold DALICheckCable
    dsimp only
    split_ifs <;> rfl

theorem sendDataAdvance_reload (s : State) :
    (sendDataAdvance s).tim2Reload = s.tim2Reload := by
  unfold sendDataAdvance
  dsimp only
  split_ifs <;> rfl

theorem writePinOpt_reload (s : State) (l : Option Nat) :
    (writePinOpt s l).tim2Reload = s.tim2Reload := by
  cases l <;> rfl

theorem sendDataHalfBit_reload (s : State) (h : s.halfBitNumber ≠ 56) :
    (sendDataHalfBit s).tim2Reload
      = if s.halfBitNumber = 1 then TE else (TE + 2 ^ 32 - s.overlapTime) % 2 ^ 32 := by
  unfold sendDataHalfBit
  dsimp only [set_timer_reload_val, writePin]
  split_ifs <;>
    first
    | rfl
    | exact absurd (by assumption) h
    | exact (writePinOpt_reload _ _).trans rfl

/-! ## C38: the phase correction never underflows -/

/-- C38: in every reachable state `overlapTime` is 0 or `2 TE - t` for a
measured interval `t` with `5787 ≤ t < 6187`. The value `TE - overlapTime`
computed at a bit-timer interrupt in `SEND_DATA` does not underflow and lies
in 2454..3333; it is the time armed by that interrupt (for every half-bit but
the last one, number 56, which arms a settling time), and the interrupt
leaves `overlapTime = 0`. -/
theorem phase_correction_bounded (s : State) (hr : Reachable s) (rxPin rnd : Nat) :
    (s.overlapTime = 0 ∨ ∃ t, 5787 ≤ t ∧ t < 6187 ∧ s.overlapTime = 2 * TE - t)
    ∧ (TE + 2 ^ 32 - s.overlapTime) % 2 ^ 32 = TE - s.overlapTime
    ∧ 2454 ≤ TE - s.overlapTime ∧ TE - s.overlapTime ≤ 3333
    ∧ (s.daliState = dali_state_t.SEND_DATA →
        (DALITimerIntHandler s rxPin rnd).overlapTime = 0
        ∧ (s.halfBitNumber ≠ 56 →
            2454 ≤ (DALITimerIntHandler s rxPin rnd).tim2Reload
            ∧ (DALITimerIntHandler s rxPin rnd).tim2Reload ≤ 3333)) := by
  have hi : OverlapInv s :=
    reachable_induction (P := OverlapInv) (Or.inl rfl) (fun s e h => step_overlapInv s e h) s hr
  unfold OverlapInv at hi
  have h1 : (TE + 2 ^ 32 - s.overlapTime) % 2 ^ 32 = TE - s.overlapTime := by
    unfold TE
    omega
  have h2 : 2454 ≤ TE - s.overlapTime ∧ TE - s.overlapTime ≤ 3333 := by
    unfold TE
    omega
  refine ⟨?_, h1, h2.1, h2.2, fun hs => ?_⟩
  · rcases hi with h | h
    · exact Or.inl h
    · refine Or.inr ⟨2 * TE - s.overlapTime, ?_, ?_, ?_⟩ <;> unfold TE <;> omega
  · have ht : DALITimerIntHandler s rxPin rnd = timerSendData s := by
      unfold DALITimerIntHandler
      rw [hs]
    rw [ht]
    refine ⟨timerSendData_overlap s, fun h56 => ?_⟩
    unfold timerSendData
    rw [sendDataAdvance_reload, sendDataHalfBit_reload s h56]
    split_ifs
    · unfold TE
      omega
    · rw [h1]
      exact h2

set_option maxRecDepth 100000 in
/-- C38 at a concrete run: during the first data bit an edge to low arrives
6000 ticks after the previous edge; the correction is `6666 - 6000 = 666`
and the next half-bit is armed with `3333 - 666 = 2667`. -/
theorem phase_correction_witness :
    (run (DALIInit bootState) overlapEvents).overlapTime = 666
    ∧ (run (DALIInit bootState) overlapEvents).daliState = dali_state_t.SEND_DATA
    ∧ (DALITimerIntHandler (run (DALIInit bootState) overlapEvents) DALI_HI 0).tim2Reload = 2667
    ∧ TE - (run (DALIInit bootState) overlapEvents).overlapTime ≤ 3333 :=
  ⟨by decide, by decide, by decide,
   (phase_correction_bounded (run (DALIInit bootState) overlapEvents) ⟨_, rfl⟩ DALI_HI 0).2.2.2.1⟩

/-! ## The flag `rxSendTwicePossible` during a reception -/

theorem checkCable_twice (s : State) (p : Nat) :
    (DALICheckCable s p).daliState = s.daliState
    ∧ (DALICheckCable s p).DALIFlags.rxSendTwicePossible = s.DALIFlags.rxSendTwicePossible
    ∧ (DALICheckCable s p).rxData = s.rxData := by
  unfold DALICheckCable
  dsimp only
  split_ifs <;> exact ⟨rfl, rfl, rfl⟩

theorem step_rxTwice (q : Nat → DALIRxData) (d : dali_state_t) (b : Bool)
    (hd : d = dali_state_t.RECEIVE_DATA ∨ d = dali_state_t.RECEIVE_DATA_EXTRA_TE)
    (u : State) (e : Event) (he : e.isTick = false) (h : RxTwice q d b u) :
    RxTwice q d b (step u e) := by
  obtain ⟨h1, h2, h3⟩ := h
  cases e with
  | tick a b => simp [Event.isTick] at he
  | edge a b c =>
    change RxTwice q d _ (DALIRxIntHandler u a b c)
    rcases hd with hd | hd
    · subst hd
      rw [edge_receive h1]
      refine ⟨by rw [rxReceiveData_daliState]; exact h1, ?_, by
        rw [(rxReceiveData_flags u b).2]; exact h3⟩
      rcases (rxReceiveData_flags u b).1 with hf | hf <;> rw [hf]
      · exact h2
      · exact h2
    · subst hd
      rw [edge_extra h1]
      exact ⟨h1, h2, h3⟩
  | send dat =>
    have hne : u.daliState ≠ dali_state_t.IDLE := by
      rcases hd with hd | hd <;> rw [h1, hd] <;> decide
    unfold step
    rcases sendData_state u dat with ⟨_, k2⟩ | ⟨k1, _, k3, _⟩
    · exact absurd k2 hne
    · exact ⟨by rw [k1]; exact h1, by rw [k3]; exact h2, by
        rw [sendData_rxData u dat hne]; exact h3⟩
  | receive =>
    change RxTwice q d _ (if DALIDataAvailable u = true then (DALIReceiveData u).1 else u)
    split_ifs
    · exact ⟨h1, h2, h3⟩
    · exact ⟨h1, h2, h3⟩
  | receiveTwice => exact ⟨h1, h2, h3⟩
  | configureMode m => exact ⟨h1, h2, h3⟩
  | checkCable p =>
    change RxTwice q d _ (DALICheckCable u p)
    obtain ⟨k1, k2, k3⟩ := checkCable_twice u p
    exact ⟨by rw [k1]; exact h1, by rw [k2]; exact h2, by rw [k3]; exact h3⟩

theorem run_rxTwice (q : Nat → DALIRxData) (d : dali_state_t) (b : Bool)
    (hd : d = dali_state_t.RECEIVE_DATA ∨ d = dali_state_t.RECEIVE_DATA_EXTRA_TE)
    (es : List Event) (hes : ∀ e, e ∈ es → e.isTick = false) :
    ∀ u, RxTwice q d b u → RxTwice q d b (run u es) := by
  induction es with
  | nil => intro u h; exact h
  | cons e es ih =>
    intro u h
    have h1 := step_rxTwice q d b hd u e (hes e (List.mem_cons_self _ _)) h
    exact ih (fun e' he' => hes e' (List.mem_cons_of_mem _ he')) _ h1

theorem frameEndRecord_twice (s : State) :
    (frameEndRecord s).rxSendTwicePossible = s.DALIFlags.rxSendTwicePossible := by
  unfold frameEndRecord
  split_ifs <;> rfl

theorem frameEnd_changed_twice {s t : State} (h : FrameEnd s t) (i : Nat)
    (hi : t.rxData i ≠ s.rxData i) :
    (t.rxData i).rxSendTwicePossible = s.DALIFlags.rxSendTwicePossible := by
  obtain ⟨_, _, _, h4, _⟩ := h
  rw [h4] at hi ⊢
  by_cases hf : rxFree s
  · rw [if_pos hf] at hi ⊢
    by_cases hw : i = s.rxDataW
    · subst hw
      rw [Function.update_same]
      exact frameEndRecord_twice s
    · rw [Function.update_noteq hw] at hi
      exact absurd rfl hi
  · rw [if_neg hf] at hi
    exact absurd rfl hi

theorem finishFrame_twice (q : Nat → DALIRxData) (b : Bool) (u : State) (es es2 : List Event)
    (hes : ∀ e, e ∈ es → e.isTick = false) (hes2 : ∀ e, e ∈ es2 → e.isTick = false)
    (h : RxTwice q dali_state_t.RECEIVE_DATA b u) :
    ((finishFrame u es es2).daliState = dali_state_t.PRE_IDLE
      ∨ (finishFrame u es es2).daliState = dali_state_t.WAIT_TO_SEND_BACKFRAME)
    ∧ ∀ i, (finishFrame u es es2).rxData i ≠ q i →
        ((finishFrame u es es2).rxData i).rxSendTwicePossible = b := by
  have h1 := run_rxTwice q _ b (Or.inl rfl) es hes u h
  obtain ⟨k1, k2, k3⟩ := h1
  unfold finishFrame
  rw [timer_receive k1]
  by_cases hx : extraTE (run u es)
  · rw [timerReceiveData_extra _ hx]
    have hst : (set_timer_reload_val
        { run u es with daliState := dali_state_t.RECEIVE_DATA_EXTRA_TE } TE).daliState
        = dali_state_t.RECEIVE_DATA_EXTRA_TE := rfl
    rw [if_pos hst]
    have h2 : RxTwice q dali_state_t.RECEIVE_DATA_EXTRA_TE b (set_timer_reload_val
        { run u es with daliState := dali_state_t.RECEIVE_DATA_EXTRA_TE } TE) :=
      ⟨rfl, k2, k3⟩
    obtain ⟨m1, m2, m3⟩ := run_rxTwice q _ b (Or.inr rfl) es2 hes2 _ h2
    rw [timer_extra m1]
    have hf := classifyFrame_frameEnd _ true (Or.inr m1)
    refine ⟨frameEnd_next hf, ?_⟩
    intro i hi
    rw [← m3] at hi
    exact (frameEnd_changed_twice hf i hi).trans m2
  · rw [timerReceiveData_classify _ hx]
    have hf := classifyFrame_frameEnd (run u es) false (Or.inl k1)
    rw [if_neg (frameEnd_ne_extra hf)]
    refine ⟨frameEnd_next hf, ?_⟩
    intro i hi
    rw [← k3] at hi
    exact (frameEnd_changed_twice hf i hi).trans k2

theorem startReceive_twice (s : State) (b : Bool) :
    RxTwice s.rxData dali_state_t.RECEIVE_DATA b (startReceive s b) :=
  ⟨rfl, rfl, rfl⟩

theorem timerSecond_effect (s : State)
    (hs : s.daliState = dali_state_t.WAIT_FOR_SECOND_FORFRAME) :
    (timerWaitForSecondForframe s).daliState = dali_state_t.PRE_IDLE
    ∧ (timerWaitForSecondForframe s).tim2Reload = TE_SEND_TWICE_MINUS_BF
    ∧ (timerWaitForSecondForframe s).rxDataR = s.rxDataR
    ∧ (timerWaitForSecondForframe s).rxData
        = (if rxFree s then Function.update s.rxData s.rxDataW (timeoutRecord s) else s.rxData)
    ∧ (timerWaitForSecondForframe s).rxDataW
        = (if rxFree s then (s.rxDataW + 1) % RX_QUEUE_SIZE else s.rxDataW) := by
  unfold rxFree timeoutRecord
  by_cases hf : (s.rxDataW + 1) % RX_QUEUE_SIZE ≠ s.rxDataR <;>
    simp [timerWaitForSecondForframe, DALIAppendToQueue, DALIClearFlags, set_timer_reload_val,
      rxRecord, hs, hf]

theorem edge_listen_start (s : State) (rxPin t2 t3 : Nat)
    (hs : s.daliState = dali_state_t.IDLE ∨ s.daliState = dali_state_t.PRE_IDLE
      ∨ s.daliState = dali_state_t.WAIT_FOR_BACKFRAME)
    (hr : (DALIRxIntHandler s rxPin t2 t3).daliState = dali_state_t.RECEIVE_DATA) :
    RxTwice s.rxData dali_state_t.RECEIVE_DATA false (DALIRxIntHandler s rxPin t2 t3) := by
  unfold DALIRxIntHandler at hr ⊢
  rcases hs with hs | hs | hs <;> rw [hs] at hr ⊢ <;> dsimp only at hr ⊢
  · split_ifs at hr ⊢ with hp
    · rw [show (writePin s DALI_HI).daliState = s.daliState from rfl, hs] at hr
      exact absurd hr (by decide)
    · exact ⟨rfl, rfl, rfl⟩
  · split_ifs at hr ⊢ with hp
    · rw [show (writePin s DALI_HI).daliState = s.daliState from rfl, hs] at hr
      exact absurd hr (by decide)
    · exact ⟨rfl, rfl, rfl⟩
  · exact ⟨rfl, rfl, rfl⟩

theorem edge_reply_start (s : State) (rxPin t2 t3 : Nat)
    (hs : s.daliState = dali_state_t.WAIT_FOR_SECOND_FORFRAME
      ∨ s.daliState = dali_state_t.WAIT_TO_SEND_BACKFRAME) :
    DALIRxIntHandler s rxPin t2 t3 = startReceive s true := by
  unfold DALIRxIntHandler
  rcases hs with hs | hs <;> rw [hs]

/-! ## C33: the window for the second copy of a frame -/

/-- C33 (amended): an edge in `WAIT_FOR_SECOND_FORFRAME` or in
`WAIT_TO_SEND_BACKFRAME` starts `RECEIVE_DATA` with a cleared frame and
`rxSendTwicePossible = 1`; whatever edges and application calls `es`, `es2`
follow within the frame, the reception ends, and the record that the end of
the frame adds to the RX records has `rxSendTwicePossible = 1`. For a frame
whose first edge arrives in `IDLE`, `PRE_IDLE` or `WAIT_FOR_BACKFRAME` that
record has `rxSendTwicePossible = 0`. A timeout in `WAIT_FOR_SECOND_FORFRAME`
moves to `PRE_IDLE`; when the RX queue has a free slot it stores one record
with `frame = 0`, `rxDone = 1` and `rxError = FRAME_TIMING_ERROR` at the write
index, and when the queue is full it stores nothing. -/
theorem second_frame_window (s : State) (rxPin t2 t3 rnd : Nat) (es es2 : List Event)
    (hes : ∀ e, e ∈ es → e.isTick = false) (hes2 : ∀ e, e ∈ es2 → e.isTick = false) :
    ((s.daliState = dali_state_t.WAIT_FOR_SECOND_FORFRAME
        ∨ s.daliState = dali_state_t.WAIT_TO_SEND_BACKFRAME) →
      (DALIRxIntHandler s rxPin t2 t3).daliState = dali_state_t.RECEIVE_DATA
      ∧ (DALIRxIntHandler s rxPin t2 t3).rxPacket = 0
      ∧ (DALIRxIntHandler s rxPin t2 t3).rxPacketLen = 0
      ∧ (DALIRxIntHandler s rxPin t2 t3).DALIFlags.rxSendTwicePossible = true
      ∧ ((finishFrame (DALIRxIntHandler s rxPin t2 t3) es es2).daliState
            = dali_state_t.PRE_IDLE
          ∨ (finishFrame (DALIRxIntHandler s rxPin t2 t3) es es2).daliState
            = dali_state_t.WAIT_TO_SEND_BACKFRAME)
      ∧ ∀ i, (finishFrame (DALIRxIntHandler s rxPin t2 t3) es es2).rxData i ≠ s.rxData i →
          ((finishFrame (DALIRxIntHandler s rxPin t2 t3) es es2).rxData i).rxSendTwicePossible
            = true)
    ∧ ((s.daliState = dali_state_t.IDLE ∨ s.daliState = dali_state_t.PRE_IDLE
          ∨ s.daliState = dali_state_t.WAIT_FOR_BACKFRAME) →
        (DALIRxIntHandler s rxPin t2 t3).daliState = dali_state_t.RECEIVE_DATA →
        ∀ i, (finishFrame (DALIRxIntHandler s rxPin t2 t3) es es2).rxData i ≠ s.rxData i →
          ((finishFrame (DALIRxIntHandler s rxPin t2 t3) es es2).rxData i).rxSendTwicePossible
            = false)
    ∧ (s.daliState = dali_state_t.WAIT_FOR_SECOND_FORFRAME →
        (DALITimerIntHandler s rxPin rnd).daliState = dali_state_t.PRE_IDLE
        ∧ (DALITimerIntHandler s rxPin rnd).rxDataR = s.rxDataR
        ∧ (rxFree s →
            (DALITimerIntHandler s rxPin rnd).rxData
              = Function.update s.rxData s.rxDataW (timeoutRecord s)
            ∧ (DALITimerIntHandler s rxPin rnd).rxDataW = (s.rxDataW + 1) % RX_QUEUE_SIZE)
        ∧ (¬ rxFree s →
            (DALITimerIntHandler s rxPin rnd).rxData = s.rxData
            ∧ (DALITimerIntHandler s rxPin rnd).rxDataW = s.rxDataW))
    ∧ (timeoutRecord s).frame = 0 ∧ (timeoutRecord s).rxDone = true
    ∧ (timeoutRecord s).rxError = DALIRxError_t.FRAME_TIMING_ERROR := by
  refine ⟨fun hs => ?_, fun hs hr => ?_, fun hs => ?_, rfl, rfl, rfl⟩
  · rw [edge_reply_start s rxPin t2 t3 hs]
    have hf := finishFrame_twice s.rxData true _ es es2 hes hes2 (startReceive_twice s true)
    exact ⟨rfl, rfl, rfl, rfl, hf.1, hf.2⟩
  · exact (finishFrame_twice s.rxData false _ es es2 hes hes2
      (edge_listen_start s rxPin t2 t3 hs hr)).2
  · rw [timer_second hs]
    obtain ⟨k1, _, k3, k4, k5⟩ := timerSecond_effect s hs
    refine ⟨k1, k3, fun hf => ?_, fun hf => ?_⟩
    · rw [k4, k5, if_pos hf, if_pos hf]
      exact ⟨rfl, rfl⟩
    · rw [k4, k5, if_neg hf, if_neg hf]
      exact ⟨rfl, rfl⟩

set_option maxRecDepth 100000 in
/-- C33 at a concrete run: the frame `0xFFFE00` has been received and its
second copy arrives in `WAIT_TO_SEND_BACKFRAME`; the record of the second copy
has `rxSendTwicePossible = 1`, that of the first copy 0. -/
theorem second_frame_window_witness :
    afterFirstCopy.daliState = dali_state_t.WAIT_TO_SEND_BACKFRAME
    ∧ (afterFirstCopy.rxData 0).frame = 0xFFFE00
    ∧ (afterFirstCopy.rxData 0).rxSendTwicePossible = false
    ∧ ((finishFrame (DALIRxIntHandler afterFirstCopy DALI_LO 0 0)
        (frameEdges 0xFFFE00).tail []).rxData 1).frame = 0xFFFE00
    ∧ ((finishFrame (DALIRxIntHandler afterFirstCopy DALI_LO 0 0)
        (frameEdges 0xFFFE00).tail []).rxData 1).rxSendTwicePossible = true :=
  ⟨by decide, by decide, by decide, by decide,
   ((second_frame_window afterFirstCopy DALI_LO 0 0 0 (frameEdges 0xFFFE00).tail []
      (by decide) (by decide)).1 (Or.inr (by decide))).2.2.2.2.2 1 (by decide)⟩

set_option maxRecDepth 100000 in
/-- C33 as stated fails: the RX queue holds 19 unread records, the oldest of
them the frame `0xFFFE00`, while the next frame is being received. The
application reads the oldest record, the frame on the bus ends and its record
fills the queue again, the application asks for the second copy, and the
driver waits in `WAIT_FOR_SECOND_FORFRAME`. The timeout moves to `PRE_IDLE`
and enqueues nothing: the write index and all twenty slots are as before. -/
theorem second_frame_timeout_full_queue :
    (run (DALIInit bootState) fullQueueInReception).daliState = dali_state_t.RECEIVE_DATA
    ∧ (run (DALIInit bootState) fullQueueInReception).rxDataR = 0
    ∧ (run (DALIInit bootState) fullQueueInReception).rxDataW = 19
    ∧ ((run (DALIInit bootState) fullQueueInReception).rxData 0).frame = 0xFFFE00
    ∧ (run (DALIInit bootState) fullQueueSecondFrame).daliState
        = dali_state_t.WAIT_FOR_SECOND_FORFRAME
    ∧ (run (DALIInit bootState) fullQueueSecondFrame).rxDataR = 1
    ∧ (run (DALIInit bootState) fullQueueSecondFrame).rxDataW = 0
    ∧ ((run (DALIInit bootState) fullQueueSecondFrame).rxData 19).frame = 0xFFFE00
    ∧ (DALITimerIntHandler (run (DALIInit bootState) fullQueueSecondFrame) DALI_HI 0).daliState
        = dali_state_t.PRE_IDLE
    ∧ (DALITimerIntHandler (run (DALIInit bootState) fullQueueSecondFrame) DALI_HI 0).rxDataW
        = 0
    ∧ ∀ i, i < 20 →
        (DALITimerIntHandler (run (DALIInit bootState) fullQueueSecondFrame) DALI_HI 0).rxData i
          = (run (DALIInit bootState) fullQueueSecondFrame).rxData i := by
  decide

/-! ## C37: where a backward frame starts -/

/-- C37 (amended): the reply slot is the only place that looks at the type of
a frame: on the expiry in `WAIT_TO_SEND_BACKFRAME` a transmission starts
exactly when no second copy is awaited, the TX queue is not empty and its head
is marked backward. Elsewhere a backward frame is started like any other
frame: on an expiry in `PRE_IDLE` the head of the queue is started when its
priority is at most `priorityState`, and `DALISendData` in `IDLE` with an empty
queue starts the frame it is given. `DALIProcessSendData` enters `SEND_DATA`
and sends a frame with an odd `frameType` as a backward frame. -/
theorem backward_frame_launch (s : State) (d : DALITxData) (rxPin rnd : Nat) :
    (s.daliState = dali_state_t.WAIT_TO_SEND_BACKFRAME →
      ((DALITimerIntHandler s rxPin rnd).daliState = dali_state_t.SEND_DATA
        ↔ s.DALIFlags.receiveTwiceFrame = false ∧ s.txDataR ≠ s.txDataW
          ∧ (s.txData s.txDataR).frameType = 1))
    ∧ (s.daliState = dali_state_t.PRE_IDLE → s.txDataR ≠ s.txDataW →
        (s.txData s.txDataR).priority ≤ s.priorityState →
        DALITimerIntHandler s rxPin rnd
          = { DALIProcessSendData s (s.txData s.txDataR) with
              txDataR := (s.txDataR + 1) % TX_QUEUE_SIZE })
    ∧ (s.daliState = dali_state_t.IDLE → s.txDataR = s.txDataW → s.txDataW < TX_QUEUE_SIZE →
        (DALISendData s d).1
          = { DALIProcessSendData
                { s with txData := Function.update s.txData s.txDataW d,
                         txDataW := (s.txDataW + 1) % TX_QUEUE_SIZE } d with
              txDataR := (s.txDataR + 1) % TX_QUEUE_SIZE })
    ∧ (DALIProcessSendData s d).daliState = dali_state_t.SEND_DATA
    ∧ (DALIProcessSendData s d).DALIFlags.txFrameType = decide (d.frameType % 2 = 1)
    ∧ (d.frameType % 2 = 1 → (DALIProcessSendData s d).txPacket = (d.frame <<< 16) % 2 ^ 32) := by
  refine ⟨fun hs => ?_, fun hs h1 h2 => ?_, fun hs h1 h2 => ?_, rfl, rfl, fun h => ?_⟩
  · rw [timer_toSend hs]
    unfold timerWaitToSendBackframe
    by_cases c : s.DALIFlags.receiveTwiceFrame = true
    · rw [if_pos c]
      constructor
      · intro h
        exact absurd h (fun hc => dali_state_t.noConfusion hc)
      · intro h
        rw [c] at h
        exact absurd h.1 (by decide)
    · rw [if_neg c]
      by_cases c2 : s.txDataR ≠ s.txDataW ∧ (s.txData s.txDataR).frameType = 1
      · rw [if_pos c2]
        exact ⟨fun _ => ⟨by simpa using c, c2⟩, fun _ => rfl⟩
      · rw [if_neg c2]
        constructor
        · intro h
          exact absurd h (fun hc => dali_state_t.noConfusion hc)
        · intro h
          exact absurd h.2 c2
  · rw [timer_preIdle hs]
    exact timerPreIdle_launch s ⟨h1, h2⟩
  · have hfree : (s.txDataW + 1) % TX_QUEUE_SIZE ≠ s.txDataR := by
      rw [h1]
      unfold TX_QUEUE_SIZE at *
      omega
    rw [(sendData_idle s d hs).1 hfree, h1, Function.update_same]
  · unfold DALIProcessSendData
    dsimp only
    rw [if_pos (decide_eq_true h)]
    rfl

set_option maxRecDepth 100000 in
/-- C37 at a concrete state: after `DALIInit` the driver is in `IDLE` with an
empty TX queue, and `DALISendData` with a backward frame starts it. -/
theorem backward_frame_launch_witness :
    (DALISendData (DALIInit bootState) replyFrame).1.daliState = dali_state_t.SEND_DATA
    ∧ (DALISendData (DALIInit bootState) replyFrame).1.DALIFlags.txFrameType = true :=
  ⟨congrArg State.daliState
      ((backward_frame_launch (DALIInit bootState) replyFrame 0 0).2.2.1
        (by decide) (by decide) (by decide)),
   congrArg (fun t => t.DALIFlags.txFrameType)
      ((backward_frame_launch (DALIInit bootState) replyFrame 0 0).2.2.1
        (by decide) (by decide) (by decide))⟩

set_option maxRecDepth 100000 in
/-- C37 as stated fails. A backward frame given to `DALISendData` in `IDLE` is
sent at once: the 24 bit-timer interrupts that follow write the schedule of the
8-bit frame. And a reply that the application queues after the reply slot has
expired is started by the next expiry in `PRE_IDLE`. -/
theorem backward_frame_outside_reply_slot :
    (DALIInit bootState).daliState = dali_state_t.IDLE
    ∧ (DALISendData (DALIInit bootState) replyFrame).1.daliState = dali_state_t.SEND_DATA
    ∧ (DALISendData (DALIInit bootState) replyFrame).1.DALIFlags.txFrameType = true
    ∧ txWritten (DALIInit bootState)
        (timerTicks (DALISendData (DALIInit bootState) replyFrame).1 24)
        = manchesterSchedule 8 0x5A
    ∧ (appRun (initialApp blankFlash) lateReplyEvents).link.daliState = dali_state_t.PRE_IDLE
    ∧ txQueue (appRun (initialApp blankFlash) lateReplyEvents).link
        = [{ frame := 4, frameType := 1, sendTwice := 0, priority := 1 }]
    ∧ (DALITimerIntHandler (appRun (initialApp blankFlash) lateReplyEvents).link
        DALI_HI 0).daliState = dali_state_t.SEND_DATA
    ∧ (DALITimerIntHandler (appRun (initialApp blankFlash) lateReplyEvents).link
        DALI_HI 0).DALIFlags.txFrameType = true
    ∧ (DALITimerIntHandler (appRun (initialApp blankFlash) lateReplyEvents).link
        DALI_HI 0).txPacket = 0x040000 := by
  decide

/-! ## The loop that finds the lowest device group -/

/-- The loop of `DALI_SendEvent` and `DALI_Send_PowerCycleEvent` on a group
mask `dg ≠ 0` below `2 ^ fuel`: it ends after `g` iterations, where `g` is the
index of the lowest set bit of `dg`, with the count raised by `g`. -/
theorem lowestGroup_index (fuel : Nat) :
    ∀ dg c : Nat, dg ≠ 0 → dg < 2 ^ fuel → c + fuel ≤ 256 →
      ∃ g, g < fuel ∧ dg % 2 ^ (g + 1) = 2 ^ g ∧ lowestGroup fuel dg c = c + g := by
  induction fuel with
  | zero =>
    intro dg c h0 hlt _
    exact absurd (by simpa using hlt) h0
  | succ fuel ih =>
    intro dg c h0 hlt hc
    by_cases he : dg % 2 = 0
    · have hdiv : dg >>> 1 = dg / 2 := by
        rw [Nat.shiftRight_eq_div_pow]
      have h1 : dg / 2 ≠ 0 := by omega
      have h2 : dg / 2 < 2 ^ fuel := by
        rw [pow_succ] at hlt
        omega
      have hf : 1 ≤ fuel := by
        rcases Nat.eq_zero_or_pos fuel with hz | hz
        · subst hz
          simp at h2
          omega
        · exact hz
      have hc1 : (c + 1) % 256 = c + 1 := by omega
      obtain ⟨g, hg, hm, hr⟩ := ih (dg / 2) (c + 1) h1 h2 (by omega)
      refine ⟨g + 1, by omega, ?_, ?_⟩
      · have hd : dg = 2 * (dg / 2) := by omega
        rw [hd, pow_succ 2 (g + 1), Nat.mul_comm (2 ^ (g + 1)) 2, Nat.mul_mod_mul_left, hm,
          pow_succ, Nat.mul_comm]
      · show (if dg % 2 = 0 then lowestGroup fuel (dg >>> 1) ((c + 1) % 256) else c) = c + (g + 1)
        rw [if_pos he, hdiv, hc1, hr]
        omega
    · refine ⟨0, by omega, by simpa using (by omega : dg % 2 = 1), ?_⟩
      show (if dg % 2 = 0 then lowestGroup fuel (dg >>> 1) ((c + 1) % 256) else c) = c + 0
      rw [if_neg he]
      rfl

/-- For every group mask `dg ≠ 0` of 32 bits, with `g` the index of its lowest
set bit: the loop of `DALI_SendEvent` (count from 1) gives `g + 1`, that of
`DALI_Send_PowerCycleEvent` (count from 0) gives `g`, and more iterations
than 32 being allowed changes nothing. -/
theorem lowestGroup_both (dg : Nat) (h0 : dg ≠ 0) (hlt : dg < 2 ^ 32) :
    ∃ g, g < 32 ∧ dg % 2 ^ (g + 1) = 2 ^ g
      ∧ lowestGroup 32 dg 1 = g + 1 ∧ lowestGroup 32 dg 0 = g
      ∧ ∀ fuel, 32 ≤ fuel → fuel ≤ 255 → lowestGroup fuel dg 1 = g + 1 := by
  obtain ⟨g, hg, hm, hr⟩ := lowestGroup_index 32 dg 1 h0 hlt (by omega)
  obtain ⟨g0, hg0, hm0, hr0⟩ := lowestGroup_index 32 dg 0 h0 hlt (by omega)
  have huniq : ∀ a b : Nat, dg % 2 ^ (a + 1) = 2 ^ a → dg % 2 ^ (b + 1) = 2 ^ b → a ≤ b := by
    intro a b ha hb
    by_contra hlt2
    have hab : b + 1 ≤ a := by omega
    have hdvd : 2 ^ (b + 1) ∣ 2 ^ a := pow_dvd_pow 2 hab
    have h1 : dg % 2 ^ (b + 1) = (dg % 2 ^ (a + 1)) % 2 ^ (b + 1) :=
      (Nat.mod_mod_of_dvd dg (pow_dvd_pow 2 (by omega))).symm
    rw [ha, hb, Nat.mod_eq_zero_of_dvd hdvd] at h1
    exact absurd h1 (by positivity)
  have he : g0 = g := le_antisymm (huniq g0 g hm0 hm) (huniq g g0 hm hm0)
  refine ⟨g, hg, hm, by rw [hr]; omega, by rw [hr0, he]; omega, fun fuel hf1 hf2 => ?_⟩
  obtain ⟨g1, _, hm1, hr1⟩ := lowestGroup_index fuel dg 1 h0
    (lt_of_lt_of_le hlt (Nat.pow_le_pow_right (by omega) hf1)) (by omega)
  have he1 : g1 = g := le_antisymm (huniq g1 g hm1 hm) (huniq g g1 hm hm1)
  rw [hr1, he1]
  omega

/-! ## The range of the event priority -/

theorem priorityInv_four {a : App} (h : a.eventPriority = 4) : PriorityInv a := by
  unfold PriorityInv
  rw [h]
  exact ⟨by decide, by decide⟩

theorem priorityInv_of_eq {a b : App} (he : b.eventPriority = a.eventPriority)
    (h : PriorityInv a) : PriorityInv b := by
  unfold PriorityInv
  rw [he]
  exact h

theorem save_priorityInv (a : App) (h : PriorityInv a) :
    PriorityInv (DALI_Save_Variable a) := by
  refine priorityInv_of_eq ?_ h
  unfold DALI_Save_Variable
  rfl

theorem sendBackFrame_priorityInv (a : App) (v : Nat) (h : PriorityInv a) :
    PriorityInv (sendBackFrame a v) := by
  refine priorityInv_of_eq ?_ h
  unfold sendBackFrame
  rfl

theorem sendTwiceCommand_priorityInv (a : App) (msg : DALIRxData) (frame : Nat)
    (effect : App → App)
    (he : ∀ b : App, PriorityInv b → PriorityInv (effect b)) (h : PriorityInv a) :
    PriorityInv (sendTwiceCommand a msg frame effect) := by
  unfold sendTwiceCommand
  split_ifs
  · exact h
  · exact he a h
  · exact h

theorem resetVariables_priorityInv (a : App) : PriorityInv (DALI_Reset_Variables a) := by
  unfold DALI_Reset_Variables
  dsimp only
  split_ifs
  · exact priorityInv_four rfl
  · exact priorityInv_four rfl

theorem checkResetState_priority (a : App) :
    (DALI_Check_ResetState a).eventPriority = a.eventPriority := by
  unfold DALI_Check_ResetState
  split_ifs <;> rfl

theorem repeatSend_priority (a : App) (data : DALITxData) (n : Nat) :
    (repeatSend a data n).eventPriority = a.eventPriority := by
  induction n generalizing a with
  | zero => rfl
  | succ n ih => exact ih _

theorem sendTestframe_priority (a : App) (op : Nat) :
    (sendTestframe a op).eventPriority = a.eventPriority := by
  unfold sendTestframe
  dsimp only
  split_ifs
  all_goals first
    | rfl
    | exact repeatSend_priority _ _ _

theorem randomise_priorityInv (a : App) (env : Env) (h : PriorityInv a) :
    PriorityInv (randomise a env) := by
  refine priorityInv_of_eq ?_ h
  unfold randomise
  dsimp only
  split_ifs <;> rfl

theorem writeMemoryReply_priorityInv (a : App) (env : Env) (data : Nat) (h : PriorityInv a) :
    PriorityInv (writeMemoryReply a env data) := by
  refine priorityInv_of_eq ?_ h
  unfold writeMemoryReply
  dsimp only
  split_ifs <;> rfl

theorem writeMemoryNoReply_priorityInv (a : App) (env : Env) (data : Nat) (h : PriorityInv a) :
    PriorityInv (writeMemoryNoReply a env data) := by
  refine priorityInv_of_eq ?_ h
  unfold writeMemoryNoReply
  dsimp only
  split_ifs <;> rfl

theorem ite_priorityInv {c : Prop} [Decidable c] {x y : App} (hx : PriorityInv x)
    (hy : PriorityInv y) : PriorityInv (if c then x else y) := by
  split_ifs
  · exact hx
  · exact hy

theorem specialCommand_priorityInv (a : App) (env : Env) (msg : DALIRxData) (frame : Nat)
    (h : PriorityInv a) : PriorityInv (specialCommand a env msg frame) := by
  unfold specialCommand
  repeat' first
    | with_reducible apply ite_priorityInv
    | with_reducible exact h
    | with_reducible exact sendBackFrame_priorityInv _ _ h
    | with_reducible exact save_priorityInv _ h
    | with_reducible exact writeMemoryReply_priorityInv _ _ _ h
    | with_reducible exact writeMemoryNoReply_priorityInv _ _ _ h
    | exact priorityInv_of_eq (sendTestframe_priority _ _) h
    | (refine sendTwiceCommand_priorityInv _ _ _ _ ?_ h
       intro b hb
       refine ite_priorityInv ?_ hb
       first
         | exact hb
         | with_reducible exact randomise_priorityInv _ _ hb)

theorem setShortAddress_priorityInv (a : App) (h : PriorityInv a) :
    PriorityInv (setShortAddress a) := by
  refine priorityInv_of_eq ?_ h
  unfold setShortAddress
  split_ifs <;> rfl

theorem enableApplicationController_priorityInv (a : App) (h : PriorityInv a) :
    PriorityInv (enableApplicationController a) := by
  refine priorityInv_of_eq ?_ h
  unfold enableApplicationController
  split_ifs <;> rfl

theorem disableApplicationController_priorityInv (a : App) (h : PriorityInv a) :
    PriorityInv (disableApplicationController a) := by
  refine priorityInv_of_eq ?_ h
  unfold disableApplicationController
  split_ifs <;> rfl

theorem setEventPriority_priorityInv (a : App) (h : PriorityInv a) :
    PriorityInv (setEventPriority a) := by
  unfold setEventPriority
  dsimp only
  split_ifs with h1 h2
  · exact ⟨h1.1, Nat.le_of_lt_succ h1.2⟩
  · exact ⟨h1.1, Nat.le_of_lt_succ h1.2⟩
  · exact h

theorem setInstanceGroup0_priorityInv (a : App) (h : PriorityInv a) :
    PriorityInv (setInstanceGroup0 a) := by
  refine priorityInv_of_eq ?_ h
  unfold setInstanceGroup0
  dsimp only
  split_ifs <;> rfl

theorem setInstanceGroup1_priorityInv (a : App) (h : PriorityInv a) :
    PriorityInv (setInstanceGroup1 a) := by
  refine priorityInv_of_eq ?_ h
  unfold setInstanceGroup1
  dsimp only
  split_ifs <;> rfl

theorem setInstanceGroup2_priorityInv (a : App) (h : PriorityInv a) :
    PriorityInv (setInstanceGroup2 a) := by
  refine priorityInv_of_eq ?_ h
  unfold setInstanceGroup2
  dsimp only
  split_ifs <;> rfl

theorem setEventScheme_priorityInv (a : App) (h : PriorityInv a) :
    PriorityInv (setEventScheme a) := by
  refine priorityInv_of_eq ?_ h
  unfold setEventScheme
  dsimp only
  split_ifs <;> rfl

theorem setEventFilter_priorityInv (a : App) (h : PriorityInv a) :
    PriorityInv (setEventFilter a) := by
  refine priorityInv_of_eq ?_ h
  unfold setEventFilter
  dsimp only
  split_ifs <;> rfl

theorem setReportTimer_priorityInv (a : App) (h : PriorityInv a) :
    PriorityInv (setReportTimer a) := by
  refine priorityInv_of_eq ?_ h
  unfold setReportTimer
  dsimp only
  split_ifs <;> rfl

theorem setHysteresis_priorityInv (a : App) (h : PriorityInv a) :
    PriorityInv (setHysteresis a) := by
  refine priorityInv_of_eq ?_ h
  unfold setHysteresis
  dsimp only
  split_ifs <;> rfl

theorem setDeadtimeTimer_priorityInv (a : App) (h : PriorityInv a) :
    PriorityInv (setDeadtimeTimer a) := by
  refine priorityInv_of_eq ?_ h
  unfold setDeadtimeTimer
  dsimp only
  split_ifs <;> rfl

theorem setHysteresisMin_priorityInv (a : App) (h : PriorityInv a) :
    PriorityInv (setHysteresisMin a) := by
  refine priorityInv_of_eq ?_ h
  unfold setHysteresisMin
  dsimp only
  split_ifs <;> rfl

theorem queryDeviceStatus_priorityInv (a : App) (h : PriorityInv a) :
    PriorityInv (queryDeviceStatus a) := by
  refine priorityInv_of_eq ?_ h
  unfold queryDeviceStatus
  rfl

theorem queryDeviceCapabilities_priorityInv (a : App) (h : PriorityInv a) :
    PriorityInv (queryDeviceCapabilities a) := by
  refine priorityInv_of_eq ?_ h
  unfold queryDeviceCapabilities
  rfl

theorem queryInputValue_priorityInv (a : App) (h : PriorityInv a) :
    PriorityInv (queryInputValue a) := by
  refine priorityInv_of_eq ?_ h
  unfold queryInputValue
  rfl

theorem queryInputValueLatch_priorityInv (a : App) (h : PriorityInv a) :
    PriorityInv (queryInputValueLatch a) := by
  refine priorityInv_of_eq ?_ h
  unfold queryInputValueLatch
  dsimp only
  split_ifs <;> rfl

theorem setDeviceGroups_priorityInv (a : App) (groups : Nat) (h : PriorityInv a) :
    PriorityInv (setDeviceGroups a groups) := by
  refine priorityInv_of_eq ?_ h
  unfold setDeviceGroups
  dsimp only
  split_ifs <;> rfl

theorem identifyDevice_priorityInv (a : App) (frame : Nat) (h : PriorityInv a) :
    PriorityInv (identifyDevice a frame) := by
  refine priorityInv_of_eq ?_ h
  unfold identifyDevice
  split_ifs <;> rfl

theorem setOperatingMode_priorityInv (a : App) (frame : Nat) (h : PriorityInv a) :
    PriorityInv (setOperatingMode a frame) := by
  refine priorityInv_of_eq ?_ h
  unfold setOperatingMode
  split_ifs <;> rfl

theorem readMemoryLocation_priorityInv (a : App) (h : PriorityInv a) :
    PriorityInv (readMemoryLocation a) := by
  refine priorityInv_of_eq ?_ h
  unfold readMemoryLocation
  split
  · dsimp only
    split_ifs <;> rfl
  · split_ifs <;> rfl

theorem queryVersionNumber_priorityInv (a : App) (h : PriorityInv a) :
    PriorityInv (queryVersionNumber a) := by
  refine priorityInv_of_eq ?_ h
  unfold queryVersionNumber
  split <;> rfl

theorem ite_fst_priorityInv {c : Prop} [Decidable c] {x y : App × Nat} (hx : PriorityInv x.1)
    (hy : PriorityInv y.1) : PriorityInv (if c then x else y).1 := by
  split_ifs
  · exact hx
  · exact hy

theorem deviceCommand_priorityInv (a : App) (msg : DALIRxData) (frame : Nat) (h : PriorityInv a) :
    PriorityInv (deviceCommand a msg frame).1 := by
  unfold deviceCommand
  repeat' first
    | with_reducible apply ite_fst_priorityInv
    | with_reducible apply ite_priorityInv
    | with_reducible exact h
    | with_reducible exact sendBackFrame_priorityInv _ _ h
    | with_reducible exact identifyDevice_priorityInv _ _ h
    | with_reducible exact setOperatingMode_priorityInv _ _ h
    | with_reducible exact queryDeviceStatus_priorityInv _ h
    | with_reducible exact queryDeviceCapabilities_priorityInv _ h
    | with_reducible exact queryVersionNumber_priorityInv _ h
    | with_reducible exact readMemoryLocation_priorityInv _ h
    | exact priorityInv_of_eq (checkResetState_priority _) h
    | exact sendBackFrame_priorityInv _ _ (priorityInv_of_eq (checkResetState_priority _) h)
    | (refine sendTwiceCommand_priorityInv _ _ _ _ ?_ h
       intro b hb
       first
         | with_reducible exact hb
         | with_reducible exact save_priorityInv _ hb
         | with_reducible exact resetVariables_priorityInv _
         | with_reducible exact setShortAddress_priorityInv _ hb
         | with_reducible exact enableApplicationController_priorityInv _ hb
         | with_reducible exact disableApplicationController_priorityInv _ hb
         | with_reducible exact setDeviceGroups_priorityInv _ _ hb
         | with_reducible exact setEventPriority_priorityInv _ hb)

theorem instanceCommand_priorityInv (a : App) (msg : DALIRxData) (frame : Nat) (h : PriorityInv a) :
    PriorityInv (instanceCommand a msg frame) := by
  unfold instanceCommand
  repeat' first
    | with_reducible apply ite_priorityInv
    | with_reducible exact h
    | with_reducible exact sendBackFrame_priorityInv _ _ h
    | with_reducible exact queryInputValue_priorityInv _ h
    | with_reducible exact queryInputValueLatch_priorityInv _ h
    | (refine sendTwiceCommand_priorityInv _ _ _ _ ?_ h
       intro b hb
       first
         | with_reducible exact save_priorityInv _ hb
         | with_reducible exact setInstanceGroup0_priorityInv _ hb
         | with_reducible exact setInstanceGroup1_priorityInv _ hb
         | with_reducible exact setInstanceGroup2_priorityInv _ hb
         | with_reducible exact setEventPriority_priorityInv _ hb
         | with_reducible exact setEventScheme_priorityInv _ hb
         | with_reducible exact setEventFilter_priorityInv _ hb
         | with_reducible exact setReportTimer_priorityInv _ hb
         | with_reducible exact setHysteresis_priorityInv _ hb
         | with_reducible exact setDeadtimeTimer_priorityInv _ hb
         | with_reducible exact setHysteresisMin_priorityInv _ hb)

theorem rememberFrame_priorityInv (a : App) (frame : Nat) (h : PriorityInv a) :
    PriorityInv (rememberFrame a frame) := by
  refine priorityInv_of_eq ?_ h
  unfold rememberFrame
  rfl

theorem addressedCommand_priorityInv (a : App) (msg : DALIRxData) (frame : Nat)
    (h : PriorityInv a) :
    PriorityInv (addressedCommand a msg frame) := by
  unfold addressedCommand
  dsimp only
  repeat' first
    | with_reducible apply ite_priorityInv
    | with_reducible apply rememberFrame_priorityInv
    | with_reducible exact h
    | with_reducible exact deviceCommand_priorityInv _ _ _ h
    | with_reducible exact instanceCommand_priorityInv _ _ _ h

theorem commandFrame_priorityInv (a : App) (env : Env) (msg : DALIRxData) (frame : Nat)
    (h : PriorityInv a) : PriorityInv (commandFrame a env msg frame) := by
  unfold commandFrame
  dsimp only
  repeat' first
    | with_reducible apply ite_priorityInv
    | with_reducible apply rememberFrame_priorityInv
    | with_reducible exact h
    | with_reducible exact addressedCommand_priorityInv _ _ _ h
    | with_reducible exact specialCommand_priorityInv _ _ _ _ h
    | with_reducible exact writeMemoryReply_priorityInv _ _ _ h

theorem processRxData_priorityInv (a : App) (env : Env) (h : PriorityInv a) :
    PriorityInv (DALI_ProcessRxData a env) := by
  unfold DALI_ProcessRxData
  dsimp only
  repeat' first
    | with_reducible apply ite_priorityInv
    | with_reducible apply rememberFrame_priorityInv
    | with_reducible exact h
    | with_reducible exact commandFrame_priorityInv _ _ _ _ h

theorem write16_below (f : Nat → Nat) (a v x : Nat) (h : x < a) : write16 f a v x = f x := by
  unfold write16
  rw [if_neg (by omega), if_neg (by omega)]

/-- `dali_memory_init` writes to the two memory banks only. -/
theorem memory_init_flash_below (m : MemState) (x : Nat) (h : x < MEMORY_BANK_0_ADDR) :
    (dali_memory_init m).flash x = m.flash x := by
  have h2 : x < MEMORY_BANK_189_ADDR := Nat.lt_trans h (by decide)
  have k0 : ∀ (f : Nat → Nat) (v : Nat), write16 f MEMORY_BANK_0_ADDR v x = f x :=
    fun f v => write16_below f _ v x h
  have k1 : ∀ (f : Nat → Nat) (k v : Nat), write16 f (MEMORY_BANK_0_ADDR + k) v x = f x :=
    fun f k v => write16_below f _ v x (Nat.lt_add_right k h)
  have k2 : ∀ (f : Nat → Nat) (v : Nat), write16 f MEMORY_BANK_189_ADDR v x = f x :=
    fun f v => write16_below f _ v x h2
  have k3 : ∀ (f : Nat → Nat) (k v : Nat), write16 f (MEMORY_BANK_189_ADDR + k) v x = f x :=
    fun f k v => write16_below f _ v x (Nat.lt_add_right k h2)
  unfold dali_memory_init
  dsimp only
  split_ifs
  · simp only [k0, k1, k2, k3]
  · rfl

theorem read16_defaultIfBlank_other (f : Nat → Nat) (addr v y : Nat)
    (h : y + 1 < addr ∨ addr + 1 < y) :
    read16 (defaultIfBlank f addr v) y = read16 f y := by
  have h1 : ¬ (y = addr ∨ y = addr + 1) := by omega
  have h2 : ¬ (y + 1 = addr ∨ y + 1 = addr + 1) := by omega
  unfold read16 read8 defaultIfBlank
  rw [if_neg h1, if_neg h2]

theorem read16_defaultIfBlank32_other (f : Nat → Nat) (addr lo hi y : Nat)
    (h : y + 1 < addr ∨ addr + 4 ≤ y) :
    read16 (defaultIfBlank32 f addr lo hi) y = read16 f y := by
  have h1 : ¬ (addr ≤ y ∧ y < addr + 4) := by omega
  have h2 : ¬ (addr ≤ y + 1 ∧ y + 1 < addr + 4) := by omega
  unfold read16 read8 defaultIfBlank32
  rw [if_neg h1, if_neg h2]

theorem defaultIfBlank_at (f : Nat → Nat) (addr v x : Nat) (hx : x = addr ∨ x = addr + 1) :
    defaultIfBlank f addr v x
      = if read16 f addr = BLANK_16 then write16 f addr v x else f x := by
  unfold defaultIfBlank
  rw [if_pos hx]

theorem read16_defaultIfBlank_same (f : Nat → Nat) (addr v : Nat) (hv : v < 65536) :
    read16 (defaultIfBlank f addr v) addr
      = if read16 f addr = BLANK_16 then v else read16 f addr := by
  have h1 : read16 (defaultIfBlank f addr v) addr
      = defaultIfBlank f addr v addr % 256 + 256 * (defaultIfBlank f addr v (addr + 1) % 256) :=
    rfl
  rw [h1, defaultIfBlank_at _ _ _ _ (Or.inl rfl), defaultIfBlank_at _ _ _ _ (Or.inr rfl)]
  split_ifs
  · unfold write16
    rw [if_pos rfl, if_neg (Nat.succ_ne_self addr), if_pos rfl]
    omega
  · rfl

/-- The event priority that `DALI_AppInit` loads: the stored half-word, or 4
if it is blank. -/
theorem initNVM_priority (f : Nat → Nat) :
    read16 (initNVM f) (MEMORY_NVM_VAR_ADDR + 16)
      = if read16 f (MEMORY_NVM_VAR_ADDR + 16) = BLANK_16 then 4
        else read16 f (MEMORY_NVM_VAR_ADDR + 16) := by
  unfold initNVM
  dsimp only
  iterate 18 rw [read16_defaultIfBlank_other _ _ _ _ (by decide)]
  rw [read16_defaultIfBlank_same _ _ _ (by decide)]
  iterate 4 rw [read16_defaultIfBlank_other _ _ _ _ (by decide)]
  iterate 2 rw [read16_defaultIfBlank32_other _ _ _ _ _ (by decide)]

theorem appInit_priority (a : App) :
    (DALI_AppInit a).eventPriority
      = read16 (initNVM (dali_memory_init a.mem).flash) (MEMORY_NVM_VAR_ADDR + 16) := by
  unfold DALI_AppInit
  dsimp only
  split_ifs <;> rfl

theorem initialApp_priority (flash : Nat → Nat) :
    (initialApp flash).eventPriority
      = if read16 flash (MEMORY_NVM_VAR_ADDR + 16) = BLANK_16 then 4
        else read16 flash (MEMORY_NVM_VAR_ADDR + 16) := by
  have h : read16 (dali_memory_init (bootMem flash)).flash (MEMORY_NVM_VAR_ADDR + 16)
      = read16 flash (MEMORY_NVM_VAR_ADDR + 16) := by
    unfold read16 read8
    rw [memory_init_flash_below _ _ (by decide), memory_init_flash_below _ _ (by decide)]
    rfl
  have h2 : (initialApp flash).eventPriority = (DALI_AppInit (bootApp flash)).eventPriority := rfl
  rw [h2, appInit_priority, initNVM_priority]
  exact congrArg (fun v => if v = BLANK_16 then 4 else v) h

theorem initialApp_priorityInv (flash : Nat → Nat) (hf : StoredPriority flash) :
    PriorityInv (initialApp flash) := by
  unfold PriorityInv
  rw [initialApp_priority]
  unfold StoredPriority at hf
  split_ifs with hb
  · exact ⟨by decide, by decide⟩
  · rcases hf with hf | hf
    · exact absurd hf hb
    · exact hf

theorem reportEvent_priority (a : App) (frame : Nat) :
    (reportEvent a frame).eventPriority = a.eventPriority := by
  unfold reportEvent
  dsimp only
  split_ifs <;> rfl

theorem sendEvent_priorityInv (a : App) (junk : Nat) (h : PriorityInv a) :
    PriorityInv (DALI_SendEvent a junk) := by
  unfold DALI_SendEvent
  repeat' first
    | with_reducible apply ite_priorityInv
    | with_reducible exact h
    | exact priorityInv_of_eq (reportEvent_priority _ _) h

theorem appStep_priorityInv (a : App) (e : AppEvent) (h : PriorityInv a) :
    PriorityInv (appStep a e) := by
  cases e with
  | process env => exact processRxData_priorityInv a env h
  | link e => exact h
  | powerCycle => exact ite_priorityInv h h
  | adc sensor_val junk => exact sendEvent_priorityInv _ _ h
  | adcFail => exact h
  | timeBase q i r d pt pf idt led => exact h

theorem appRun_priorityInv (es : List AppEvent) (a : App) (h : PriorityInv a) :
    PriorityInv (appRun a es) := by
  induction es generalizing a with
  | nil => exact h
  | cons e es ih => exact ih _ (appStep_priorityInv a e h)

/-- On a flash whose half-word `eventPriority_NVM` is blank or holds a value
from 2 to 5 the event priority lies in 2..5 after the initialisation of `main`
and after every sequence of events: `DALI_AppInit` loads the stored value or
the default 4, `SET_EVENT_PRIORITY` stores `DTR0` only if it lies in 2..5, and
`DALI_Reset_Variables` stores 4. -/
theorem eventPriority_range (flash : Nat → Nat) (hf : StoredPriority flash)
    (es : List AppEvent) :
    2 ≤ (appRun (initialApp flash) es).eventPriority
    ∧ (appRun (initialApp flash) es).eventPriority ≤ 5 :=
  appRun_priorityInv es _ (initialApp_priorityInv flash hf)

/-! ## The TX queue over a run -/

theorem txQueue_same {s t : State} (h : TxSame s t) : txQueue t = txQueue s := by
  unfold txQueue txWaiting
  rw [h.1, h.2.1, h.2.2]

/-- An edge interrupt leaves the TX queue alone or, in `SEND_DATA`, puts the
read index back by one. -/
theorem edge_queue (s : State) (p t2 t3 : Nat) :
    TxSame s (DALIRxIntHandler s p t2 t3)
    ∨ (DALIRxIntHandler s p t2 t3).txDataR = backIndex s.txDataR := by
  have hc : (signalCollision s).txDataR = backIndex s.txDataR :=
    (signalCollision_queue s).1
  unfold DALIRxIntHandler
  cases hs : s.daliState <;> dsimp only
  all_goals first
    | exact Or.inl (rxReceiveData_tx s t2)
    | exact Or.inl ⟨rfl, rfl, rfl⟩
    | (split_ifs <;> exact Or.inl ⟨rfl, rfl, rfl⟩)
    | (unfold rxSendData
       dsimp only [set_timer_count]
       split_ifs <;> first | exact Or.inr hc | exact Or.inl ⟨rfl, rfl, rfl⟩)

theorem timerWaitToSend_queue (s : State) :
    TxSame s (timerWaitToSendBackframe s)
    ∨ (timerWaitToSendBackframe s).daliState = dali_state_t.SEND_DATA := by
  unfold timerWaitToSendBackframe
  split_ifs
  · exact Or.inl ⟨rfl, rfl, rfl⟩
  · exact Or.inr rfl
  · exact Or.inl ⟨rfl, rfl, rfl⟩

/-- A bit-timer interrupt leaves the TX queue alone or starts a transmission
from `PRE_IDLE` or `WAIT_TO_SEND_BACKFRAME`. -/
theorem tick_queue (s : State) (a b : Nat) :
    TxSame s (DALITimerIntHandler s a b)
    ∨ (s.daliState ≠ dali_state_t.SEND_DATA ∧ s.daliState ≠ dali_state_t.WAIT_FOR_BACKFRAME
        ∧ (DALITimerIntHandler s a b).daliState = dali_state_t.SEND_DATA) := by
  cases hs : s.daliState
  · rw [timer_idle hs]
    exact Or.inl ⟨rfl, rfl, rfl⟩
  · rw [timer_send hs]
    exact Or.inl (timerSendData_tx s)
  · rw [timer_receive hs]
    exact Or.inl (timerReceiveData_tx s)
  · rw [timer_extra hs]
    unfold timerReceiveDataExtraTE
    exact Or.inl (classifyFrame_tx s true)
  · rw [timer_second hs]
    exact Or.inl (timerSecond_tx s)
  · rw [timer_waitBack hs]
    exact Or.inl (timerWaitForBackframe_tx s)
  · rw [timer_toSend hs]
    rcases timerWaitToSend_queue s with h | h
    · exact Or.inl h
    · exact Or.inr ⟨by decide, by decide, h⟩
  · rw [timer_after hs]
    exact Or.inl ⟨rfl, rfl, rfl⟩
  · rw [timer_break hs]
    exact Or.inl (timerBreak_tx s a b)
  · rw [timer_preIdle hs]
    by_cases h : s.txDataR ≠ s.txDataW ∧ (s.txData s.txDataR).priority ≤ s.priorityState
    · refine Or.inr ⟨by decide, by decide, ?_⟩
      rw [timerPreIdle_launch s h]
      rfl
    · exact Or.inl (timerPreIdle_wait s h).1

theorem startedBy_nil (s : State) (e : Event)
    (h : ¬ (s.daliState ≠ dali_state_t.SEND_DATA
      ∧ s.daliState ≠ dali_state_t.WAIT_FOR_BACKFRAME
      ∧ (step s e).daliState = dali_state_t.SEND_DATA)) :
    startedBy s e = [] := by
  unfold startedBy
  rw [if_neg h]

theorem startedBy_head (s : State) (e : Event)
    (h : s.daliState ≠ dali_state_t.SEND_DATA ∧ s.daliState ≠ dali_state_t.WAIT_FOR_BACKFRAME
      ∧ (step s e).daliState = dali_state_t.SEND_DATA) :
    startedBy s e = [(step s e).txData s.txDataR] := by
  unfold startedBy
  rw [if_pos h]

/-- An event that does not change the state of the driver machine and leaves
the TX ring buffer alone neither stores nor starts a frame. -/
theorem idle_step_queue (s : State) (e : Event) (h : TxSame s (step s e))
    (hd : (step s e).daliState = s.daliState) (ha : acceptedBy s e = []) :
    txQueue s ++ acceptedBy s e = startedBy s e ++ txQueue (step s e) := by
  rw [ha, txQueue_same h, startedBy_nil s e (fun hc => hc.1 (hd ▸ hc.2.2)), List.append_nil,
    List.nil_append]

/-- One event and the TX queue: unless the event puts the read index back, the
frames waiting before it, followed by the frame it stores, are the frame it
starts followed by the frames waiting after it. -/
theorem step_queue (s : State) (e : Event) (hi : TxIndexInv s)
    (hb : (step s e).txDataR ≠ backIndex s.txDataR) :
    txQueue s ++ acceptedBy s e = startedBy s e ++ txQueue (step s e) := by
  cases e with
  | edge p t2 t3 =>
    rcases edge_queue s p t2 t3 with h | h
    · have hn : startedBy s (Event.edge p t2 t3) = [] :=
        startedBy_nil _ _ (fun hc => edge_not_send s p t2 t3 hc.1 hc.2.2)
      rw [hn]
      show txQueue s ++ [] = [] ++ txQueue (DALIRxIntHandler s p t2 t3)
      rw [txQueue_same h, List.append_nil, List.nil_append]
    · exact absurd h hb
  | tick a b =>
    show txQueue s ++ [] = startedBy s (Event.tick a b) ++ txQueue (DALITimerIntHandler s a b)
    rw [List.append_nil]
    by_cases hc : s.daliState ≠ dali_state_t.SEND_DATA
        ∧ s.daliState ≠ dali_state_t.WAIT_FOR_BACKFRAME
        ∧ (DALITimerIntHandler s a b).daliState = dali_state_t.SEND_DATA
    · obtain ⟨hne, he⟩ := tick_launch s a b hc.1 hc.2.1 hc.2.2
      rw [startedBy_head s (Event.tick a b) hc]
      have hq := txQueue_take s (DALITimerIntHandler s a b) hi hne
        (by rw [he]) (by rw [he]; rfl) (by rw [he]; rfl)
      rw [hq]
      have hd : (step s (Event.tick a b)).txData = s.txData := by
        show (DALITimerIntHandler s a b).txData = s.txData
        rw [he]
        rfl
      rw [hd]
      rfl
    · rcases tick_queue s a b with h | h
      · rw [startedBy_nil s (Event.tick a b) hc, txQueue_same h, List.nil_append]
      · exact absurd h hc
  | send d =>
    show txQueue s ++ (if (DALISendData s d).2 = 0 then [d] else [])
      = startedBy s (Event.send d) ++ txQueue (DALISendData s d).1
    by_cases hs : s.daliState = dali_state_t.IDLE
    · by_cases hw : txWaiting s < 19
      · have he := (sendData_idle s d hs).1 ((txWaiting_full s hi).1.2 hw)
        have hc : s.daliState ≠ dali_state_t.SEND_DATA
            ∧ s.daliState ≠ dali_state_t.WAIT_FOR_BACKFRAME
            ∧ (step s (Event.send d)).daliState = dali_state_t.SEND_DATA := by
          refine ⟨by rw [hs]; decide, by rw [hs]; decide, ?_⟩
          show (DALISendData s d).1.daliState = dali_state_t.SEND_DATA
          rw [he]
          rfl
        have hi' : TxIndexInv (DALIProcessSendData
            { s with txData := Function.update s.txData s.txDataW d,
                     txDataW := (s.txDataW + 1) % TX_QUEUE_SIZE } d) := by
          unfold TxIndexInv TX_QUEUE_SIZE at *
          exact ⟨hi.1, Nat.mod_lt _ (by norm_num)⟩
        have hne : s.txDataR ≠ (s.txDataW + 1) % TX_QUEUE_SIZE :=
          fun hc => (txWaiting_full s hi).1.2 hw hc.symm
        have hq := txQueue_take
          { s with txData := Function.update s.txData s.txDataW d,
                   txDataW := (s.txDataW + 1) % TX_QUEUE_SIZE }
          (DALISendData s d).1 hi' hne
          (by rw [he])
          (by rw [he]; rfl)
          (by rw [he]; rfl)
        rw [txQueue_store s d hi hw] at hq
        rw [startedBy_head s (Event.send d) hc]
        have h2 : (DALISendData s d).2 = 0 := by rw [he]
        rw [if_pos h2, hq]
        have hd : (step s (Event.send d)).txData = Function.update s.txData s.txDataW d := by
          show (DALISendData s d).1.txData = _
          rw [he]
          rfl
        rw [hd]
        rfl
      · have hfull : ¬ (s.txDataW + 1) % TX_QUEUE_SIZE ≠ s.txDataR :=
          fun hc => hw ((txWaiting_full s hi).1.1 hc)
        have he := (sendData_idle s d hs).2 hfull
        have hc : s.daliState ≠ dali_state_t.SEND_DATA
            ∧ s.daliState ≠ dali_state_t.WAIT_FOR_BACKFRAME
            ∧ (step s (Event.send d)).daliState = dali_state_t.SEND_DATA := by
          refine ⟨by rw [hs]; decide, by rw [hs]; decide, ?_⟩
          show (DALISendData s d).1.daliState = dali_state_t.SEND_DATA
          rw [he]
          rfl
        have hne : s.txDataR ≠ s.txDataW := by
          apply (txWaiting_full s hi).2.2
          have := (txWaiting_full s hi).1
          unfold txWaiting TX_QUEUE_SIZE at *
          unfold TxIndexInv TX_QUEUE_SIZE at hi
          omega
        have hq := txQueue_take s (DALISendData s d).1 hi hne
          (by rw [he])
          (by rw [he]; rfl)
          (by rw [he]; rfl)
        rw [startedBy_head s (Event.send d) hc]
        have h2 : ¬ (DALISendData s d).2 = 0 := by rw [he]; exact Nat.one_ne_zero
        rw [if_neg h2, List.append_nil, hq]
        have hd : (step s (Event.send d)).txData = s.txData := by
          show (DALISendData s d).1.txData = _
          rw [he]
          rfl
        rw [hd]
        rfl
    · by_cases hw : txWaiting s < 19
      · have he := (sendData_busy s d hs).1 ((txWaiting_full s hi).1.2 hw)
        have hn : startedBy s (Event.send d) = [] := by
          apply startedBy_nil
          intro hc
          have : (step s (Event.send d)).daliState = s.daliState := by
            show (DALISendData s d).1.daliState = s.daliState
            rw [he]
          exact hc.1 (this ▸ hc.2.2)
        have h2 : (DALISendData s d).2 = 0 := by rw [he]
        rw [hn, if_pos h2, List.nil_append, he]
        exact (txQueue_store s d hi hw).symm
      · have hfull : ¬ (s.txDataW + 1) % TX_QUEUE_SIZE ≠ s.txDataR :=
          fun hc => hw ((txWaiting_full s hi).1.1 hc)
        have he := (sendData_busy s d hs).2 hfull
        have hn : startedBy s (Event.send d) = [] := by
          apply startedBy_nil
          intro hc
          have : (step s (Event.send d)).daliState = s.daliState := by
            show (DALISendData s d).1.daliState = s.daliState
            rw [he]
          exact hc.1 (this ▸ hc.2.2)
        have h2 : ¬ (DALISendData s d).2 = 0 := by rw [he]; exact Nat.one_ne_zero
        rw [hn, if_neg h2, List.nil_append, List.append_nil, he]
  | receive =>
    apply idle_step_queue s Event.receive _ _ rfl
    · show TxSame s (if DALIDataAvailable s = true then (DALIReceiveData s).1 else s)
      split_ifs <;> exact ⟨rfl, rfl, rfl⟩
    · show (if DALIDataAvailable s = true then (DALIReceiveData s).1 else s).daliState
        = s.daliState
      split_ifs <;> rfl
  | receiveTwice => exact idle_step_queue _ _ ⟨rfl, rfl, rfl⟩ rfl rfl
  | configureMode m => exact idle_step_queue _ _ ⟨rfl, rfl, rfl⟩ rfl rfl
  | checkCable p =>
    exact idle_step_queue _ _ (checkCable_tx s p) (checkCable_fields s p).1 rfl

/-- The TX queue over a run in which the read index is never put back: the
frames waiting at the beginning, followed by the frames stored during the run,
are the frames started during the run followed by the frames still waiting. -/
theorem run_queue : ∀ (es : List Event) (s : State), TxIndexInv s → noPutBack s es = true →
    txQueue s ++ accepted s es = started s es ++ txQueue (run s es) := by
  intro es
  induction es with
  | nil =>
    intro s _ _
    simp [accepted, started, run]
  | cons e es ih =>
    intro s hi hb
    have hb' : (step s e).txDataR ≠ backIndex s.txDataR ∧ noPutBack (step s e) es = true := by
      simpa [noPutBack] using hb
    have h1 := step_queue s e hi hb'.1
    have h2 := ih (step s e) (txMove_inv (step_move s e) hi) hb'.2
    have hr : run s (e :: es) = run (step s e) es := rfl
    rw [hr]
    show txQueue s ++ (acceptedBy s e ++ accepted (step s e) es)
      = (startedBy s e ++ started (step s e) es) ++ txQueue (run (step s e) es)
    rw [← List.append_assoc, h1, List.append_assoc, h2, List.append_assoc]

theorem txQueue_nil (s : State) (h : s.txDataR = s.txDataW) : txQueue s = [] := by
  rw [txQueue_eq, h]
  exact ringList_empty _ _

theorem txQueue_head (s : State) (hi : TxIndexInv s) (h : s.txDataR ≠ s.txDataW) :
    txQueue s = s.txData s.txDataR :: ringList s.txData ((s.txDataR + 1) % 20) s.txDataW := by
  rw [txQueue_eq]
  exact ringList_pop s.txData s.txDataR s.txDataW hi.1 hi.2 h

theorem headReady_iff (s : State) (hi : TxIndexInv s) :
    (s.txDataR ≠ s.txDataW ∧ (s.txData s.txDataR).priority ≤ s.priorityState)
      ↔ ∃ f rest, txQueue s = f :: rest ∧ f.priority ≤ s.priorityState := by
  constructor
  · intro h
    exact ⟨_, _, txQueue_head s hi h.1, h.2⟩
  · rintro ⟨f, rest, hq, hp⟩
    by_cases h : s.txDataR = s.txDataW
    · rw [txQueue_nil s h] at hq
      exact absurd hq (by simp)
    · rw [txQueue_head s hi h] at hq
      have hf : s.txData s.txDataR = f := (List.cons.inj hq).1
      exact ⟨h, hf ▸ hp⟩

theorem launch_not_back (s t : State) (hi : TxIndexInv s)
    (h : t.txDataR = (s.txDataR + 1) % TX_QUEUE_SIZE) : t.txDataR ≠ backIndex s.txDataR := by
  unfold TxIndexInv TX_QUEUE_SIZE at hi
  unfold backIndex TX_QUEUE_SIZE
  rw [h]
  unfold TX_QUEUE_SIZE
  split_ifs <;> omega

/-! ## C9: the order of transmission over a run -/

/-- C9 (amended): the TX queue is served in the order of enqueueing, whatever
the priorities of the frames. Let the two indices of the TX ring buffer be
below 20, as they are in every reachable state.
When an event makes the driver start a transmission (it enters `SEND_DATA`
from another state), then either the driver was in `WAIT_FOR_BACKFRAME` and
repeats a send-twice frame, leaving the queue alone, or the frame put into the
packet register is the first frame of the queue (to which the frame of the
call was appended, if the event is a call of `DALISendData` that stores it),
and the other frames stay in the queue in their order.
On a bit-timer expiry in `PRE_IDLE` the first frame of the queue is started
exactly when the queue is not empty and the priority of its first frame is at
most `priorityState`; the frames behind it are not examined.
Over every run in which no collision puts the read index back, the frames
waiting at the beginning followed by the frames that `DALISendData` stored
during the run are, in this order, the frames started during the run followed
by the frames still waiting; so the `k`-th frame started is the `k`-th frame in
the order of enqueueing. In particular, of two waiting frames `a` and `b` with
`a` nearer the head, whatever their priorities, `a` is started before `b`:
when the run has started `b`, as its start number `j`, it has started `a` as
its start number `i < j`. -/
theorem queue_order (s : State) (hi : TxIndexInv s) :
    (∀ e, s.daliState ≠ dali_state_t.SEND_DATA →
      (step s e).daliState = dali_state_t.SEND_DATA →
        (s.daliState = dali_state_t.WAIT_FOR_BACKFRAME
          ∧ (step s e).txPacket = s.txPacket_temp ∧ TxSame s (step s e))
        ∨ ∃ f rest, txQueue s ++ acceptedBy s e = f :: rest
            ∧ startedBy s e = [f]
            ∧ (step s e).txPacket = (DALIProcessSendData s f).txPacket
            ∧ (step s e).DALIFlags.txFrameType = decide (f.frameType % 2 = 1)
            ∧ txQueue (step s e) = rest)
    ∧ (s.daliState = dali_state_t.PRE_IDLE → ∀ rxPin rnd,
        ((DALITimerIntHandler s rxPin rnd).daliState = dali_state_t.SEND_DATA
          ↔ ∃ f rest, txQueue s = f :: rest ∧ f.priority ≤ s.priorityState))
    ∧ (∀ es, noPutBack s es = true →
        txQueue s ++ accepted s es = started s es ++ txQueue (run s es))
    ∧ (∀ es, noPutBack s es = true → ∀ k, k < (started s es).length →
        (started s es)[k]? = (txQueue s ++ accepted s es)[k]?)
    ∧ (∀ es, noPutBack s es = true → ∀ (i j : Nat) (a b : DALITxData), i < j →
        (txQueue s)[i]? = some a → (txQueue s)[j]? = some b → j < (started s es).length →
        (started s es)[i]? = some a ∧ (started s es)[j]? = some b) := by
  refine ⟨fun e h0 h1 => ?_, fun hs rxPin rnd => ?_, fun es hb => run_queue es s hi hb,
    fun es hb k hk => ?_, fun es hb i j a b hij ha hb2 hj => ?_⟩
  · obtain ⟨k1, _⟩ := (head_first s e).1 h0 h1
    rcases k1 with k | ⟨k, _⟩
    · exact Or.inl k
    · by_cases hw : s.daliState = dali_state_t.WAIT_FOR_BACKFRAME
      · left
        cases e with
        | edge a b c => exact absurd h1 (edge_not_send s a b c h0)
        | tick a b =>
          have h2 : (timerWaitForBackframe s).daliState = dali_state_t.SEND_DATA := by
            rw [← timer_waitBack hw a b]
            exact h1
          have h3 := waitForBackframe_send s h2
          rw [← timer_waitBack hw a b] at h3
          exact ⟨hw, h3⟩
        | send d =>
          have := (sendData_send s d h0 h1).1
          rw [hw] at this
          exact absurd this (by decide)
        | receive =>
          have : (step s Event.receive).daliState = s.daliState := by
            unfold step
            split_ifs <;> rfl
          rw [this] at h1
          exact absurd h1 h0
        | receiveTwice => exact absurd h1 h0
        | configureMode m => exact absurd h1 h0
        | checkCable p =>
          have := (checkCable_fields s p).1
          exact absurd (this ▸ h1) h0
      · right
        have hq := step_queue s e hi (launch_not_back s _ hi k.1)
        have hh := startedBy_head s e ⟨h0, hw, h1⟩
        rw [hh] at hq
        exact ⟨_, _, hq, hh, k.2.1, k.2.2.1, rfl⟩
  · rw [← headReady_iff s hi, timer_preIdle hs]
    exact (preIdle_send s hs).1
  · have h := run_queue es s hi hb
    rw [h, List.getElem?_append_left hk]
  · have h := run_queue es s hi hb
    have hi2 : i < (txQueue s).length := (List.getElem?_eq_some.1 ha).1
    have hj2 : j < (txQueue s).length := (List.getElem?_eq_some.1 hb2).1
    have e1 : (started s es)[i]? = (txQueue s ++ accepted s es)[i]? := by
      rw [h, List.getElem?_append_left (Nat.lt_trans hij hj)]
    have e2 : (started s es)[j]? = (txQueue s ++ accepted s es)[j]? := by
      rw [h, List.getElem?_append_left hj]
    rw [e1, e2, List.getElem?_append_left hi2, List.getElem?_append_left hj2]
    exact ⟨ha, hb2⟩

set_option maxRecDepth 100000 in
/-- C9 at a concrete run: a frame of priority 5 and behind it a frame of
priority 1 wait in `PRE_IDLE` with the counter at 5. The expiry of the bit
timer starts the frame of priority 5, the head of the queue; the next 58
expiries send it, pass `WAIT_FOR_BACKFRAME` and `PRE_IDLE` and start the frame
of priority 1: the frames are started in the order of the queue. -/
theorem queue_order_witness :
    inversionState.daliState = dali_state_t.PRE_IDLE
    ∧ inversionState.priorityState = 5
    ∧ (txQueue inversionState).map (fun d => d.priority) = [5, 1]
    ∧ (DALITimerIntHandler inversionState DALI_HI 0).daliState = dali_state_t.SEND_DATA
    ∧ accepted inversionState (List.replicate 59 (Event.tick DALI_HI 0)) = []
    ∧ started inversionState (List.replicate 59 (Event.tick DALI_HI 0))
        = txQueue inversionState
    ∧ txQueue inversionState ++ accepted inversionState (List.replicate 59 (Event.tick DALI_HI 0))
        = started inversionState (List.replicate 59 (Event.tick DALI_HI 0))
          ++ txQueue (run inversionState (List.replicate 59 (Event.tick DALI_HI 0))) :=
  ⟨by decide, by decide, by decide,
   ((queue_order inversionState (by unfold TxIndexInv; decide)).2.1 (by decide) DALI_HI 0).2
     ⟨{ frame := 0xAAAA, frameType := 0, sendTwice := 0, priority := 5 },
      [{ frame := 0xBBBB, frameType := 0, sendTwice := 0, priority := 1 }],
      by decide, by decide⟩,
   by decide, by decide,
   (queue_order inversionState (by unfold TxIndexInv; decide)).2.2.1
     (List.replicate 59 (Event.tick DALI_HI 0)) (by decide)⟩

end DALI
